import Mathlib

/-! # XDP SYN proxy (synproxy-xdp.c): shallow embedding

Conventions of the embedding.

* The packet is the list of bytes between `ctx->data` and `ctx->data_end`;
  a pointer into the packet is its offset from `data`, and `data_end` is the
  length of the list.  Every bounds check of the source is kept as a
  comparison of offsets.
* Scalars are natural numbers; every truncation of the C code is written as
  an explicit remainder.  Multi-byte loads and stores are the native ones of
  the little-endian BPF target (the `__LITTLE_ENDIAN__` branch of the source),
  so `bpf_htons` and `bpf_htonl` are byte swaps.
* Bit-fields follow the little-endian layout of the uapi headers: in a byte
  shared by two 4-bit fields the first declared field is the low nibble.
* Kernel helpers are fields of `Env` (the oracles) or small models of the
  helper's documented behaviour (`bpf_csum_diff`, `bpf_xdp_adjust_tail`).
-/

namespace Synproxy

/-! ## Bytes, loads and stores -/

/-- One byte of packet memory. -/
abbrev u8 := Fin 256

/-- Truncation of a number to a byte. -/
def u8.ofNat (v : Nat) : u8 := ⟨v % 256, Nat.mod_lt v (by decide)⟩

/-- Load of one byte at offset `p`. -/
def ld8 (m : List u8) (p : Nat) : Nat := (m.getD p 0).val

/-- Native (little-endian) 16-bit load at offset `p`. -/
def ld16 (m : List u8) (p : Nat) : Nat := ld8 m p + 256 * ld8 m (p + 1)

/-- Native (little-endian) 32-bit load at offset `p`. -/
def ld32 (m : List u8) (p : Nat) : Nat :=
  ld8 m p + 256 * ld8 m (p + 1) + 65536 * ld8 m (p + 2) + 16777216 * ld8 m (p + 3)

/-- Store of one byte (the value truncated to 8 bits) at offset `p`. -/
def st8 (m : List u8) (p v : Nat) : List u8 := m.set p (u8.ofNat v)

/-- Native (little-endian) 16-bit store at offset `p`. -/
def st16 (m : List u8) (p v : Nat) : List u8 := st8 (st8 m p v) (p + 1) (v / 256)

/-- Native (little-endian) 32-bit store at offset `p`. -/
def st32 (m : List u8) (p v : Nat) : List u8 :=
  st8 (st8 (st8 (st8 m p v) (p + 1) (v / 256)) (p + 2) (v / 65536)) (p + 3) (v / 16777216)

/-- The `n` bytes starting at offset `p` (what a helper sees through a
pointer and a length). -/
def bytes (m : List u8) (p n : Nat) : List u8 := (m.drop p).take n

/-- Copy of `n` bytes to offset `dst` of `m`, read at offset `src` of the
memory `old` as it was before the copy: `__builtin_memcpy`, and
`__builtin_memmove` when `old` is `m` itself. -/
def memcpy (m : List u8) (dst : Nat) (old : List u8) (src : Nat) : Nat → List u8
  | 0 => m
  | n + 1 => st8 (memcpy m dst old src n) (dst + n) (ld8 old (src + n))

/-- Byte swap of a 16-bit value: `bpf_htons` on the little-endian target. -/
def bpf_htons (x : Nat) : Nat := (x % 256) * 256 + x / 256 % 256

/-- Byte swap of a 16-bit value: `bpf_ntohs` on the little-endian target. -/
def bpf_ntohs (x : Nat) : Nat := (x % 256) * 256 + x / 256 % 256

/-- Byte swap of a 32-bit value: `bpf_htonl` on the little-endian target. -/
def bpf_htonl (x : Nat) : Nat :=
  (x % 256) * 16777216 + (x / 256 % 256) * 65536 + (x / 65536 % 256) * 256 + x / 16777216 % 256

/-- Byte swap of a 32-bit value: `bpf_ntohl` on the little-endian target. -/
def bpf_ntohl (x : Nat) : Nat :=
  (x % 256) * 16777216 + (x / 256 % 256) * 65536 + (x / 65536 % 256) * 256 + x / 16777216 % 256

/-- Byte swap of a 32-bit value: `cpu_to_be32` on the little-endian target. -/
def cpu_to_be32 (x : Nat) : Nat := bpf_htonl x

/-! ## Constants of the source and of the uapi headers it includes -/

def DEFAULT_MSS4 : Nat := 1460
def DEFAULT_MSS6 : Nat := 1440
def DEFAULT_WSCALE : Nat := 7
def DEFAULT_TTL : Nat := 64
def MAX_ALLOWED_PORTS : Nat := 65535

def IP_DF : Nat := 0x4000
def IP_MF : Nat := 0x2000
def IP_OFFSET : Nat := 0x1fff

def NEXTHDR_TCP : Nat := 6
def TCPOPT_NOP : Nat := 1
def TCPOPT_EOL : Nat := 0
def TCPOPT_MSS : Nat := 2
def TCPOPT_WINDOW : Nat := 3
def TCPOPT_SACK_PERM : Nat := 4
def TCPOPT_TIMESTAMP : Nat := 8

def TCPOLEN_MSS : Nat := 4
def TCPOLEN_WINDOW : Nat := 3
def TCPOLEN_SACK_PERM : Nat := 2
def TCPOLEN_TIMESTAMP : Nat := 10

def TCP_MAX_WSCALE : Nat := 14

def TS_OPT_WSCALE_MASK : Nat := 0xf
def TS_OPT_SACK : Nat := 1 <<< 4
def TS_OPT_ECN : Nat := 1 <<< 5
def TSBITS : Nat := 6
def TSMASK : Nat := (1 <<< TSBITS) - 1

def TCP_TS_HZ : Nat := 1000
def NSEC_PER_SEC : Nat := 1000000000

def IPV4_MAXLEN : Nat := 60
def TCP_MAXLEN : Nat := 60

/-- Length of an Ethernet address (if_ether.h). -/
def ETH_ALEN : Nat := 6
/-- EtherType of IPv4 (if_ether.h). -/
def ETH_P_IP : Nat := 0x0800
/-- EtherType of IPv6 (if_ether.h). -/
def ETH_P_IPV6 : Nat := 0x86DD
/-- IP protocol number of TCP (in.h). -/
def IPPROTO_TCP : Nat := 6
/-- Error number "no such entry" (errno.h). -/
def ENOENT : Int := 2
/-- Error number "invalid argument" (errno.h). -/
def EINVAL : Int := 22
/-- Index of the "confirmed" bit of the conntrack status word
(nf_conntrack_common.h: `IPS_CONFIRMED_BIT = 3`, `IPS_CONFIRMED = 1 << 3`). -/
def IPS_CONFIRMED_BIT : Nat := 3
/-- Mask of the "confirmed" bit of the conntrack status word
(nf_conntrack_common.h: `IPS_CONFIRMED = (1 << IPS_CONFIRMED_BIT)`). -/
def IPS_CONFIRMED : Nat := 1 <<< IPS_CONFIRMED_BIT

/-- Size of `struct ethhdr`. -/
def sizeof_ethhdr : Nat := 14
/-- Size of `struct iphdr`. -/
def sizeof_iphdr : Nat := 20
/-- Size of `struct ipv6hdr`. -/
def sizeof_ipv6hdr : Nat := 40
/-- Size of `struct tcphdr`. -/
def sizeof_tcphdr : Nat := 20

/-- The verdicts of an XDP program (`enum xdp_action` of bpf.h, in the
order of their numeric values 0 to 4). -/
inductive xdp_action where
  | XDP_ABORTED
  | XDP_DROP
  | XDP_PASS
  | XDP_TX
  | XDP_REDIRECT
deriving DecidableEq, Repr

open xdp_action

/-- The flag masks of tcp.h, as values of the native 32-bit word at offset 12
of the TCP header (`tcp_flag_word`). -/
def TCP_FLAG_SYN : Nat := bpf_htonl 0x00020000
def TCP_FLAG_ACK : Nat := bpf_htonl 0x00100000
def TCP_FLAG_ECE : Nat := bpf_htonl 0x00400000

/-! ## Fields of the protocol headers (layout of the uapi headers) -/

/-- Field `h_dest` of `struct ethhdr` at `eth`: offset 0, 6 bytes;
`h_source`: offset 6, 6 bytes; `h_proto`: offset 12. -/
def ethhdr_h_proto (m : List u8) (eth : Nat) : Nat := ld16 m (eth + 12)

/-- Bit-field `ihl` of `struct iphdr` (low nibble of byte 0). -/
def iphdr_ihl (m : List u8) (ip : Nat) : Nat := ld8 m ip % 16
/-- Bit-field `version` of `struct iphdr` (high nibble of byte 0). -/
def iphdr_version (m : List u8) (ip : Nat) : Nat := ld8 m ip / 16
/-- Field `frag_off` of `struct iphdr` (offset 6). -/
def iphdr_frag_off (m : List u8) (ip : Nat) : Nat := ld16 m (ip + 6)
/-- Field `protocol` of `struct iphdr` (offset 9). -/
def iphdr_protocol (m : List u8) (ip : Nat) : Nat := ld8 m (ip + 9)
/-- Field `saddr` of `struct iphdr` (offset 12). -/
def iphdr_saddr (m : List u8) (ip : Nat) : Nat := ld32 m (ip + 12)
/-- Field `daddr` of `struct iphdr` (offset 16). -/
def iphdr_daddr (m : List u8) (ip : Nat) : Nat := ld32 m (ip + 16)

/-- Bit-field `version` of `struct ipv6hdr` (high nibble of byte 0). -/
def ipv6hdr_version (m : List u8) (ip : Nat) : Nat := ld8 m ip / 16
/-- Field `nexthdr` of `struct ipv6hdr` (offset 6). -/
def ipv6hdr_nexthdr (m : List u8) (ip : Nat) : Nat := ld8 m (ip + 6)

/-- Field `source` of `struct tcphdr` (offset 0). -/
def tcphdr_source (m : List u8) (tcp : Nat) : Nat := ld16 m tcp
/-- Field `dest` of `struct tcphdr` (offset 2). -/
def tcphdr_dest (m : List u8) (tcp : Nat) : Nat := ld16 m (tcp + 2)
/-- Field `seq` of `struct tcphdr` (offset 4). -/
def tcphdr_seq (m : List u8) (tcp : Nat) : Nat := ld32 m (tcp + 4)
/-- Field `ack_seq` of `struct tcphdr` (offset 8). -/
def tcphdr_ack_seq (m : List u8) (tcp : Nat) : Nat := ld32 m (tcp + 8)
/-- Bit-field `doff` of `struct tcphdr` (high nibble of byte 12). -/
def tcphdr_doff (m : List u8) (tcp : Nat) : Nat := ld8 m (tcp + 12) / 16
/-- Bit-field `syn` of `struct tcphdr` (bit 1 of byte 13). -/
def tcphdr_syn (m : List u8) (tcp : Nat) : Nat := ld8 m (tcp + 13) / 2 % 2
/-- Bit-field `ack` of `struct tcphdr` (bit 4 of byte 13). -/
def tcphdr_ack (m : List u8) (tcp : Nat) : Nat := ld8 m (tcp + 13) / 16 % 2
/-- Bit-field `ece` of `struct tcphdr` (bit 6 of byte 13). -/
def tcphdr_ece (m : List u8) (tcp : Nat) : Nat := ld8 m (tcp + 13) / 64 % 2
/-- Bit-field `cwr` of `struct tcphdr` (bit 7 of byte 13). -/
def tcphdr_cwr (m : List u8) (tcp : Nat) : Nat := ld8 m (tcp + 13) / 128 % 2
/-- Field `window` of `struct tcphdr` (offset 14). -/
def tcphdr_window (m : List u8) (tcp : Nat) : Nat := ld16 m (tcp + 14)
/-- Field `check` of `struct tcphdr` (offset 16). -/
def tcphdr_check (m : List u8) (tcp : Nat) : Nat := ld16 m (tcp + 16)

/-! ## Port allow-list (lines 264-286) -/

/-- The loop of `check_port_allowed`: `n` iterations are left and `i` is the
current key.  A failed lookup and the terminator 0 end the scan before the
comparison with the port. -/
def check_port_allowed_loop (allowed_ports : List Nat) (port : Nat) : Nat → Nat → Bool
  | 0, _ => false
  | n + 1, i =>
    match allowed_ports[i]? with
    | none => false
    | some value =>
      if value = 0 then false
      else if value = port then true
      else check_port_allowed_loop allowed_ports port n (i + 1)

/-- Function `check_port_allowed`: scan of the `allowed_ports` map from key 0,
at most `MAX_ALLOWED_PORTS` entries. -/
def check_port_allowed (allowed_ports : List Nat) (port : Nat) : Bool :=
  check_port_allowed_loop allowed_ports port MAX_ALLOWED_PORTS 0

/-! ## Frame dissection (lines 288-348) -/

/-- The record `struct header_pointers`: pointers are offsets from `data`,
`none` is the NULL pointer. -/
structure header_pointers where
  eth : Nat
  ipv4 : Option Nat
  ipv6 : Option Nat
  tcp : Nat
  tcp_len : Nat
deriving DecidableEq, Repr

/-- The end of `tcp_dissect` (lines 341-347), common to both address
families: the fixed TCP header must fit and the data offset must be at
least 5 words. -/
def tcp_dissect_tcp (pkt : List u8) (hdr : header_pointers) : xdp_action × header_pointers :=
  let data_end := pkt.length
  if hdr.tcp + sizeof_tcphdr > data_end then (XDP_DROP, hdr)
  else
    let hdr := { hdr with tcp_len := tcphdr_doff pkt hdr.tcp * 4 }
    if hdr.tcp_len < sizeof_tcphdr then (XDP_DROP, hdr)
    else (XDP_TX, hdr)

/-- Function `tcp_dissect`: the verdict and the header view.  The view
starts with `eth = data` and no other field set; `XDP_TX` is the value that
lets the caller continue. -/
def tcp_dissect (pkt : List u8) : xdp_action × header_pointers :=
  let data_end := pkt.length
  let hdr : header_pointers := ⟨0, none, none, 0, 0⟩
  if hdr.eth + sizeof_ethhdr > data_end then (XDP_DROP, hdr)
  else if bpf_ntohs (ethhdr_h_proto pkt hdr.eth) = ETH_P_IP then
    let ipv4 := hdr.eth + sizeof_ethhdr
    let hdr := { hdr with ipv6 := none, ipv4 := some ipv4 }
    if ipv4 + sizeof_iphdr > data_end then (XDP_DROP, hdr)
    else if iphdr_ihl pkt ipv4 * 4 < sizeof_iphdr then (XDP_DROP, hdr)
    else if iphdr_version pkt ipv4 ≠ 4 then (XDP_DROP, hdr)
    else if iphdr_protocol pkt ipv4 ≠ IPPROTO_TCP then (XDP_PASS, hdr)
    else tcp_dissect_tcp pkt { hdr with tcp := ipv4 + iphdr_ihl pkt ipv4 * 4 }
  else if bpf_ntohs (ethhdr_h_proto pkt hdr.eth) = ETH_P_IPV6 then
    let ipv6 := hdr.eth + sizeof_ethhdr
    let hdr := { hdr with ipv4 := none, ipv6 := some ipv6 }
    if ipv6 + sizeof_ipv6hdr > data_end then (XDP_DROP, hdr)
    else if ipv6hdr_version pkt ipv6 ≠ 6 then (XDP_DROP, hdr)
    else if ipv6hdr_nexthdr pkt ipv6 ≠ NEXTHDR_TCP then (XDP_PASS, hdr)
    else tcp_dissect_tcp pkt { hdr with tcp := ipv6 + sizeof_ipv6hdr }
  else (XDP_PASS, hdr)

/-! ## Checksums (lines 79-130) -/

/-- Function `csum_fold`: the argument is a `__u32`; the two folding steps
cannot overflow 32 bits, and the result is the low 16 bits of the
complement. -/
def csum_fold (csum : Nat) : Nat :=
  let csum := csum % 4294967296
  let csum := (csum &&& 0xffff) + (csum >>> 16)
  let csum := (csum &&& 0xffff) + (csum >>> 16)
  (0xffffffff - csum) % 65536

/-- Function `csum_tcpudp_magic`, little-endian branch: `s` is 64 bits wide,
`(proto + len) << 8` is computed in 32 bits. -/
def csum_tcpudp_magic (saddr daddr len proto csum : Nat) : Nat :=
  let s := csum % 4294967296
  let s := s + saddr % 4294967296
  let s := s + daddr % 4294967296
  let s := s + ((proto % 256 + len % 4294967296) <<< 8) % 4294967296
  let s := (s &&& 0xffffffff) + (s >>> 32)
  let s := (s &&& 0xffffffff) + (s >>> 32)
  csum_fold (s % 4294967296)

/-- Function `csum_ipv6_magic`: `saddr` and `daddr` point to the two 16-byte
addresses in the packet, read as four native 32-bit words each. -/
def csum_ipv6_magic (m : List u8) (saddr daddr len proto csum : Nat) : Nat :=
  let sum := csum % 4294967296
  let sum := sum + ld32 m saddr + ld32 m (saddr + 4) + ld32 m (saddr + 8) + ld32 m (saddr + 12)
  let sum := sum + ld32 m daddr + ld32 m (daddr + 4) + ld32 m (daddr + 8) + ld32 m (daddr + 12)
  let sum := sum + bpf_htonl (len % 4294967296)
  let sum := sum + bpf_htonl (proto % 256)
  let sum := (sum &&& 0xffffffff) + (sum >>> 32)
  let sum := (sum &&& 0xffffffff) + (sum >>> 32)
  csum_fold (sum % 4294967296)

/-- Ones-complement addition of two 32-bit sums (addition with end-around
carry). -/
def csum_add32 (a b : Nat) : Nat := (a + b) % 4294967296 + (a + b) / 4294967296

/-- Ones-complement sum of the `n` native 32-bit words starting at `p`. -/
def csum_words (m : List u8) (p : Nat) : Nat → Nat
  | 0 => 0
  | n + 1 => csum_add32 (ld32 m p) (csum_words m (p + 4) n)

/-- Kernel helper `bpf_csum_diff(0, 0, buf, size, 0)`: `-EINVAL` when the
size is not a multiple of 4 or exceeds the helper's 512-byte scratch
buffer, otherwise the 32-bit ones-complement sum of the words of the
buffer. -/
def bpf_csum_diff (m : List u8) (buf size : Nat) : Int :=
  if size % 4 ≠ 0 ∨ size > 512 then -EINVAL
  else (csum_words m buf (size / 4) : Nat)

/-! ## Oracles and program state -/

/-- The record `struct bpf_sock_tuple`: the fields are copied from the packet
as they lie in memory (network byte order). -/
inductive bpf_sock_tuple where
  | ipv4 (saddr daddr sport dport : Nat)
  | ipv6 (saddr daddr : List u8) (sport dport : Nat)
deriving DecidableEq, Repr

/-- Result of `bpf_ct_lookup_tcp`: a conntrack entry with its status word, or
NULL together with the error code left in the flags argument. -/
inductive ct_lookup where
  | entry (status : Nat)
  | null (value : Int)
deriving DecidableEq, Repr

/-- The kernel helpers whose answers the program cannot compute. -/
structure Env where
  /-- Helper `bpf_ktime_get_ns`: the clock, in nanoseconds. -/
  bpf_ktime_get_ns : Nat
  /-- Helper `bpf_ct_lookup_tcp`: the connection-state lookup. -/
  bpf_ct_lookup_tcp : bpf_sock_tuple → ct_lookup
  /-- Helper `bpf_tcp_raw_gen_syncookie_ipv4`, given the bytes of the IP header
  and of the TCP header: a negative error or the cookie in the low 32 bits. -/
  bpf_tcp_raw_gen_syncookie_ipv4 : List u8 → List u8 → Int
  /-- Helper `bpf_tcp_raw_check_syncookie_ipv4`, given the bytes of the IP
  header and of the TCP header: 0 when the cookie is valid. -/
  bpf_tcp_raw_check_syncookie_ipv4 : List u8 → List u8 → Int
  /-- Return value of `bpf_xdp_adjust_tail` for a packet of the given length
  and the given delta: 0 when the resize is done. -/
  adjust_tail_ret : Nat → Int → Int
  /-- Content of a byte that a growing resize makes addressable, by offset. -/
  tail_fill : Nat → u8

/-- A call of a kernel helper with an effect or an answer from outside the
program, as recorded in the state. -/
inductive helper_call where
  | bpf_ct_lookup_tcp
  | bpf_tcp_raw_gen_syncookie_ipv4
  | bpf_tcp_raw_check_syncookie_ipv4
  | bpf_xdp_adjust_tail (delta : Int)
deriving DecidableEq, Repr

/-- What one run of the program can change or read: the packet of `ctx`,
the two maps, and the helper calls made so far. -/
structure xdp_state where
  /-- The bytes from `ctx->data` to `ctx->data_end`. -/
  pkt : List u8
  /-- The array map `values`: key 0 is the option word, key 1 the SYN-ACK
  counter. -/
  values : List Nat
  /-- The array map `allowed_ports`. -/
  allowed_ports : List Nat
  /-- The helper calls made so far, oldest first. -/
  calls : List helper_call
deriving DecidableEq, Repr

/-- The packet with its end moved to length `len`: the bytes below `len`
stay, the bytes a longer packet gains are those of `tail_fill`. -/
def resize_tail (env : Env) (pkt : List u8) (len : Nat) : List u8 :=
  pkt.take len ++ (List.range (len - pkt.length)).map (fun k => env.tail_fill (pkt.length + k))

/-- Kernel helper `bpf_xdp_adjust_tail(ctx, delta)`: when the kernel accepts
the request the packet ends `delta` bytes later (earlier for a negative
delta); the bytes that stay keep their content. -/
def bpf_xdp_adjust_tail (env : Env) (st : xdp_state) (delta : Int) : Int × xdp_state :=
  let ret := env.adjust_tail_ret st.pkt.length delta
  let st := { st with calls := st.calls ++ [helper_call.bpf_xdp_adjust_tail delta] }
  if ret ≠ 0 then (ret, st)
  else (0, { st with pkt := resize_tail env st.pkt ((st.pkt.length : Int) + delta).toNat })

/-! ## Clock and option scanner (lines 132-230) -/

/-- Function `tcp_clock_ns`. -/
def tcp_clock_ns (env : Env) : Nat := env.bpf_ktime_get_ns % 18446744073709551616

/-- Function `tcp_ns_to_ts`: the division is 64 bits wide, the result is
truncated to `__u32`. -/
def tcp_ns_to_ts (ns : Nat) : Nat := ns / (NSEC_PER_SEC / TCP_TS_HZ) % 4294967296

/-- Function `tcp_time_stamp_raw`. -/
def tcp_time_stamp_raw (env : Env) : Nat := tcp_ns_to_ts (tcp_clock_ns env)

/-- The locals of `cookie_init_timestamp_raw` that the option loop updates,
with the word written through `tsecr`. -/
structure ts_scan where
  wscale : Nat
  option_timestamp : Bool
  option_sack : Bool
  tsecr : Nat
deriving DecidableEq, Repr

/-- The loop of `cookie_init_timestamp_raw` (lines 164-216) with `n`
iterations left: `none` is `return false` (a read would pass `data_end`),
`some s` is the state at the exit of the loop. -/
def cookie_scan (m : List u8) (end_ data_end : Nat) : Nat → Nat → ts_scan → Option ts_scan
  | 0, _, s => some s
  | n + 1, ptr, s =>
    if ptr ≥ end_ then some s
    else if ptr + 1 > data_end then none
    else
      let opcode := ld8 m ptr
      if opcode = TCPOPT_EOL then some s
      else if opcode = TCPOPT_NOP then cookie_scan m end_ data_end n (ptr + 1) s
      else if ptr + 1 ≥ end_ then some s
      else if ptr + 2 > data_end then none
      else
        let opsize := ld8 m (ptr + 1)
        if opsize < 2 then some s
        else if ptr + opsize > end_ then some s
        else if opcode = TCPOPT_WINDOW then
          if opsize = TCPOLEN_WINDOW then
            if ptr + TCPOLEN_WINDOW > data_end then none
            else cookie_scan m end_ data_end n (ptr + opsize)
              { s with wscale := min (ld8 m (ptr + 2)) TCP_MAX_WSCALE }
          else cookie_scan m end_ data_end n (ptr + opsize) s
        else if opcode = TCPOPT_TIMESTAMP then
          if opsize = TCPOLEN_TIMESTAMP then
            if ptr + TCPOLEN_TIMESTAMP > data_end then none
            else cookie_scan m end_ data_end n (ptr + opsize)
              { s with option_timestamp := true, tsecr := ld32 m (ptr + 2) }
          else cookie_scan m end_ data_end n (ptr + opsize) s
        else if opcode = TCPOPT_SACK_PERM then
          if opsize = TCPOLEN_SACK_PERM then
            cookie_scan m end_ data_end n (ptr + opsize) { s with option_sack := true }
          else cookie_scan m end_ data_end n (ptr + opsize) s
        else cookie_scan m end_ data_end n (ptr + opsize) s

/-- Function `cookie_init_timestamp_raw`: `none` when the C function returns
false, `some (tsval, tsecr)` with the two words it has written when it
returns true.  (When it returns false the caller leaves `tsopt` NULL and
never reads the buffer.) -/
def cookie_init_timestamp_raw (env : Env) (m : List u8) (tcp_header tcp_len data_end : Nat) :
    Option (Nat × Nat) :=
  let ptr := tcp_header + sizeof_tcphdr
  let end_ := tcp_header + tcp_len
  match cookie_scan m end_ data_end 10 ptr ⟨TS_OPT_WSCALE_MASK, false, false, 0⟩ with
  | none => none
  | some s =>
    if !s.option_timestamp then none
    else
      let cookie := tcp_time_stamp_raw env &&& (0xffffffff - TSMASK)
      let cookie := cookie ||| (s.wscale &&& TS_OPT_WSCALE_MASK)
      let cookie := if s.option_sack then cookie ||| TS_OPT_SACK else cookie
      let cookie :=
        if tcphdr_ece m tcp_header ≠ 0 ∧ tcphdr_cwr m tcp_header ≠ 0 then cookie ||| TS_OPT_ECN
        else cookie
      some (cpu_to_be32 cookie, s.tsecr)

/-! ## Configuration and counter (lines 232-262) -/

/-- Function `values_get_tcpipopts`: the triple `(mss, wscale, ttl)`. -/
def values_get_tcpipopts (values : List Nat) (ipv6 : Bool) : Nat × Nat × Nat :=
  match values[0]? with
  | some value =>
    if value ≠ 0 then
      (if ipv6 then (value >>> 32) &&& 0xffff else value &&& 0xffff,
       (value >>> 16) &&& 0xf,
       (value >>> 24) &&& 0xff)
    else (if ipv6 then DEFAULT_MSS6 else DEFAULT_MSS4, DEFAULT_WSCALE, DEFAULT_TTL)
  | none => (if ipv6 then DEFAULT_MSS6 else DEFAULT_MSS4, DEFAULT_WSCALE, DEFAULT_TTL)

/-- Function `values_inc_synacks`: the atomic add is on the `__u32` at the
start of the 64-bit slot of key 1, the low half on the little-endian
target. -/
def values_inc_synacks (values : List Nat) : List Nat :=
  match values[1]? with
  | some value =>
    values.set 1 (value / 4294967296 * 4294967296 + (value % 4294967296 + 1) % 4294967296)
  | none => values

/-! ## SYN-ACK synthesis (lines 70-77 and 350-446) -/

/-- Function `swap_eth_addr`: `tmp` is the content of `a` before the copy. -/
def swap_eth_addr (m : List u8) (a b : Nat) : List u8 :=
  memcpy (memcpy m a m b ETH_ALEN) b m a ETH_ALEN

/-- Assignment to the bit-field `doff` of `struct tcphdr`: the high nibble of
byte 12 takes the low 4 bits of the value. -/
def tcphdr_set_doff (m : List u8) (tcp v : Nat) : List u8 :=
  st8 m (tcp + 12) (ld8 m (tcp + 12) % 16 + 16 * (v % 16))

/-- Assignment to the bit-field `ihl` of `struct iphdr`: the low nibble of
byte 0 takes the low 4 bits of the value. -/
def iphdr_set_ihl (m : List u8) (ip v : Nat) : List u8 :=
  st8 m ip (ld8 m ip / 16 * 16 + v % 16)

/-- Function `tcp_mkoptions`: the packet after the option words are written
at `buf`, and the number of 32-bit words written.  `tsopt` is `none` for the
NULL pointer, else the pair `(tsopt[0], tsopt[1])`. -/
def tcp_mkoptions (m : List u8) (buf : Nat) (tsopt : Option (Nat × Nat)) (mss wscale : Nat) :
    List u8 × Nat :=
  let start := buf
  let m := st32 m buf
    (bpf_htonl ((TCPOPT_MSS <<< 24) ||| (TCPOLEN_MSS <<< 16) ||| (mss % 65536)))
  let buf := buf + 4
  match tsopt with
  | none => (m, (buf - start) / 4)
  | some tsopt =>
    let m :=
      if tsopt.1 &&& bpf_htonl (1 <<< 4) ≠ 0 then
        st32 m buf (bpf_htonl ((TCPOPT_SACK_PERM <<< 24) ||| (TCPOLEN_SACK_PERM <<< 16) |||
          (TCPOPT_TIMESTAMP <<< 8) ||| TCPOLEN_TIMESTAMP))
      else
        st32 m buf (bpf_htonl ((TCPOPT_NOP <<< 24) ||| (TCPOPT_NOP <<< 16) |||
          (TCPOPT_TIMESTAMP <<< 8) ||| TCPOLEN_TIMESTAMP))
    let buf := buf + 4
    let m := st32 m buf tsopt.1
    let buf := buf + 4
    let m := st32 m buf tsopt.2
    let buf := buf + 4
    if tsopt.1 &&& bpf_htonl 0xf ≠ bpf_htonl 0xf then
      let m := st32 m buf (bpf_htonl ((TCPOPT_NOP <<< 24) ||| (TCPOPT_WINDOW <<< 16) |||
        (TCPOLEN_WINDOW <<< 8) ||| (wscale % 256)))
      let buf := buf + 4
      (m, (buf - start) / 4)
    else (m, (buf - start) / 4)

/-- Function `tcp_gen_synack`: `tcp_flag_word` is the native 32-bit word at
offset 12 of the TCP header. -/
def tcp_gen_synack (m : List u8) (tcp_header cookie : Nat) (tsopt : Option (Nat × Nat))
    (mss wscale : Nat) : List u8 :=
  let m := st32 m (tcp_header + 12) (TCP_FLAG_SYN ||| TCP_FLAG_ACK)
  let m :=
    match tsopt with
    | some tsopt =>
      if tsopt.1 &&& bpf_htonl (1 <<< 5) ≠ 0 then
        st32 m (tcp_header + 12) (ld32 m (tcp_header + 12) ||| TCP_FLAG_ECE)
      else m
    | none => m
  let m := tcphdr_set_doff m tcp_header 5
  let source := tcphdr_source m tcp_header
  let dest := tcphdr_dest m tcp_header
  let m := st16 m tcp_header dest
  let m := st16 m (tcp_header + 2) source
  let m := st32 m (tcp_header + 8) (bpf_htonl ((bpf_ntohl (tcphdr_seq m tcp_header) + 1) % 4294967296))
  let m := st32 m (tcp_header + 4) (bpf_htonl (cookie % 4294967296))
  let m := st16 m (tcp_header + 14) 0
  let m := st16 m (tcp_header + 18) 0
  let m := st16 m (tcp_header + 16) 0
  let tcp_options := tcp_header + sizeof_tcphdr
  let r := tcp_mkoptions m tcp_options tsopt mss wscale
  tcphdr_set_doff r.1 tcp_header (tcphdr_doff r.1 tcp_header + r.2)

/-- Function `tcpv4_gen_synack`: `ipv4` is `hdr->ipv4`, which the caller has
tested; the result is the packet and the header view with its new
`tcp_len`. -/
def tcpv4_gen_synack (values : List Nat) (m : List u8) (hdr : header_pointers) (ipv4 cookie : Nat)
    (tsopt : Option (Nat × Nat)) : List u8 × header_pointers :=
  let opts := values_get_tcpipopts values false
  let mss := opts.1
  let wscale := opts.2.1
  let ttl := opts.2.2
  let m := swap_eth_addr m (hdr.eth + 6) hdr.eth
  let saddr := iphdr_saddr m ipv4
  let daddr := iphdr_daddr m ipv4
  let m := st32 m (ipv4 + 12) daddr
  let m := st32 m (ipv4 + 16) saddr
  let m := st16 m (ipv4 + 10) 0
  let m := st8 m (ipv4 + 1) 0
  let m := st16 m (ipv4 + 4) 0
  let m := st8 m (ipv4 + 8) ttl
  let m := tcp_gen_synack m hdr.tcp cookie tsopt mss wscale
  let hdr := { hdr with tcp_len := tcphdr_doff m hdr.tcp * 4 }
  let m := st16 m (ipv4 + 2) (bpf_htons (sizeof_iphdr + hdr.tcp_len))
  (m, hdr)

/-- Function `tcpv6_gen_synack`: `ipv6` is `hdr->ipv6`, which the caller has
tested. -/
def tcpv6_gen_synack (values : List Nat) (m : List u8) (hdr : header_pointers) (ipv6 cookie : Nat)
    (tsopt : Option (Nat × Nat)) : List u8 × header_pointers :=
  let opts := values_get_tcpipopts values true
  let mss := opts.1
  let wscale := opts.2.1
  let ttl := opts.2.2
  let m := swap_eth_addr m (hdr.eth + 6) hdr.eth
  let m := memcpy (memcpy m (ipv6 + 8) m (ipv6 + 24) 16) (ipv6 + 24) m (ipv6 + 8) 16
  let m := st32 m ipv6 (bpf_htonl 0x60000000)
  let m := st8 m (ipv6 + 7) ttl
  let m := tcp_gen_synack m hdr.tcp cookie tsopt mss wscale
  let hdr := { hdr with tcp_len := tcphdr_doff m hdr.tcp * 4 }
  let m := st16 m (ipv6 + 4) (bpf_htons hdr.tcp_len)
  (m, hdr)

/-! ## SYN and ACK handlers (lines 448-597) -/

/-- The end of `syncookie_handle_syn` (lines 573-581): the packet is cut to
its new size and the SYN-ACK is counted.  `data_end` is the bound the
handler was called with; the subtraction is done in 32 bits and the
difference is passed as an `int`. -/
def syncookie_handle_syn_resize (env : Env) (hdr : header_pointers) (st : xdp_state)
    (ip_len data data_end : Nat) : xdp_action × xdp_state :=
  let old_pkt_size := (data_end - data) % 4294967296
  let new_pkt_size := (sizeof_ethhdr + ip_len + tcphdr_doff st.pkt hdr.tcp * 4) % 4294967296
  let diff := (new_pkt_size + 4294967296 - old_pkt_size) % 4294967296
  let delta : Int := if diff < 2147483648 then (diff : Int) else (diff : Int) - 4294967296
  let r := bpf_xdp_adjust_tail env st delta
  if r.1 ≠ 0 then (XDP_ABORTED, r.2)
  else (XDP_TX, { r.2 with values := values_inc_synacks r.2.values })

/-- Lines 546-571 of `syncookie_handle_syn`: the checksums of the SYN-ACK
are computed from scratch, then the handler ends with the resize. -/
def syncookie_handle_syn_csum (env : Env) (hdr : header_pointers) (st : xdp_state)
    (ip_len data data_end : Nat) : xdp_action × xdp_state :=
  let m := st16 st.pkt (hdr.tcp + 16) 0
  let value := bpf_csum_diff m hdr.tcp hdr.tcp_len
  if value < 0 then (XDP_ABORTED, { st with pkt := m })
  else
    match hdr.ipv4 with
    | some ipv4 =>
      let m := st16 m (hdr.tcp + 16)
        (csum_tcpudp_magic (iphdr_saddr m ipv4) (iphdr_daddr m ipv4) hdr.tcp_len IPPROTO_TCP
          value.toNat)
      let m := st16 m (ipv4 + 10) 0
      let value := bpf_csum_diff m ipv4 sizeof_iphdr
      if value < 0 then (XDP_ABORTED, { st with pkt := m })
      else
        let m := st16 m (ipv4 + 10) (csum_fold value.toNat)
        syncookie_handle_syn_resize env hdr { st with pkt := m } ip_len data data_end
    | none =>
      match hdr.ipv6 with
      | some ipv6 =>
        let m := st16 m (hdr.tcp + 16)
          (csum_ipv6_magic m (ipv6 + 8) (ipv6 + 24) hdr.tcp_len IPPROTO_TCP value.toNat)
        syncookie_handle_syn_resize env hdr { st with pkt := m } ip_len data data_end
      | none => (XDP_ABORTED, { st with pkt := m })

/-- Lines 507-544 of `syncookie_handle_syn`, reached once the checksums of
the SYN are accepted: port policy, cookie, option scan, room check and
rewrite of the headers; then the handler goes on with the checksums. -/
def syncookie_handle_syn_issue (env : Env) (hdr : header_pointers) (st : xdp_state)
    (ip_header ip_len data data_end : Nat) : xdp_action × xdp_state :=
  if !check_port_allowed st.allowed_ports (bpf_ntohs (tcphdr_dest st.pkt hdr.tcp)) then
    (XDP_DROP, st)
  else
    let value := env.bpf_tcp_raw_gen_syncookie_ipv4 (bytes st.pkt ip_header ip_len)
      (bytes st.pkt hdr.tcp hdr.tcp_len)
    let st := { st with calls := st.calls ++ [helper_call.bpf_tcp_raw_gen_syncookie_ipv4] }
    if value < 0 then (XDP_ABORTED, st)
    else
      let cookie := value.toNat % 4294967296
      let tsopt := cookie_init_timestamp_raw env st.pkt hdr.tcp hdr.tcp_len data_end
      if data + sizeof_ethhdr + ip_len + TCP_MAXLEN > data_end then (XDP_ABORTED, st)
      else
        match hdr.ipv4 with
        | some ipv4 =>
          let moved :=
            if iphdr_ihl st.pkt ipv4 * 4 > sizeof_iphdr then
              let new_tcp_header := data + sizeof_ethhdr + sizeof_iphdr
              let m := memcpy st.pkt new_tcp_header st.pkt hdr.tcp sizeof_tcphdr
              (iphdr_set_ihl m ipv4 (sizeof_iphdr / 4), { hdr with tcp := new_tcp_header })
            else (st.pkt, hdr)
          let r := tcpv4_gen_synack st.values moved.1 moved.2 ipv4 cookie tsopt
          syncookie_handle_syn_csum env r.2 { st with pkt := r.1 } ip_len data data_end
        | none =>
          match hdr.ipv6 with
          | some ipv6 =>
            let r := tcpv6_gen_synack st.values st.pkt hdr ipv6 cookie tsopt
            syncookie_handle_syn_csum env r.2 { st with pkt := r.1 } ip_len data data_end
          | none => (XDP_ABORTED, st)

/-- Function `syncookie_handle_syn`; `data` is offset 0 and `data_end` the
length of the packet the handler is called with.  Lines 475-505 are here,
the rest in the three definitions above. -/
def syncookie_handle_syn (env : Env) (hdr : header_pointers) (st : xdp_state) :
    xdp_action × xdp_state :=
  let data := 0
  let data_end := st.pkt.length
  match hdr.ipv4 with
  | some ipv4 =>
    let value := bpf_csum_diff st.pkt ipv4 (iphdr_ihl st.pkt ipv4 * 4)
    if value < 0 then (XDP_ABORTED, st)
    else if csum_fold value.toNat ≠ 0 then (XDP_DROP, st)
    else
      let value := bpf_csum_diff st.pkt hdr.tcp hdr.tcp_len
      if value < 0 then (XDP_ABORTED, st)
      else if csum_tcpudp_magic (iphdr_saddr st.pkt ipv4) (iphdr_daddr st.pkt ipv4) hdr.tcp_len
          IPPROTO_TCP value.toNat ≠ 0 then (XDP_DROP, st)
      else syncookie_handle_syn_issue env hdr st ipv4 sizeof_iphdr data data_end
  | none =>
    match hdr.ipv6 with
    | some ipv6 =>
      let value := bpf_csum_diff st.pkt hdr.tcp hdr.tcp_len
      if value < 0 then (XDP_ABORTED, st)
      else if csum_ipv6_magic st.pkt (ipv6 + 8) (ipv6 + 24) hdr.tcp_len IPPROTO_TCP
          value.toNat ≠ 0 then (XDP_DROP, st)
      else syncookie_handle_syn_issue env hdr st ipv6 sizeof_ipv6hdr data data_end
    | none => (XDP_ABORTED, st)

/-- Function `syncookie_handle_ack`. -/
def syncookie_handle_ack (env : Env) (hdr : header_pointers) (st : xdp_state) :
    xdp_action × xdp_state :=
  match hdr.ipv4 with
  | some ipv4 =>
    let err := env.bpf_tcp_raw_check_syncookie_ipv4 (bytes st.pkt ipv4 sizeof_iphdr)
      (bytes st.pkt hdr.tcp hdr.tcp_len)
    let st := { st with calls := st.calls ++ [helper_call.bpf_tcp_raw_check_syncookie_ipv4] }
    if err ≠ 0 then (XDP_DROP, st)
    else (XDP_PASS, st)
  | none => (XDP_ABORTED, st)

/-! ## The XDP program (lines 599-689) -/

/-- Lines 614-635 of `syncookie_xdp`: the fragment check of IPv4 and the flow
tuple, or the verdict that ends the program. -/
def syncookie_xdp_tuple (pkt : List u8) (hdr : header_pointers) : xdp_action ⊕ bpf_sock_tuple :=
  match hdr.ipv4 with
  | some ipv4 =>
    if iphdr_frag_off pkt ipv4 &&& bpf_htons (IP_DF ||| IP_MF ||| IP_OFFSET) ≠ bpf_htons IP_DF then
      Sum.inl XDP_DROP
    else
      Sum.inr (bpf_sock_tuple.ipv4 (iphdr_saddr pkt ipv4) (iphdr_daddr pkt ipv4)
        (tcphdr_source pkt hdr.tcp) (tcphdr_dest pkt hdr.tcp))
  | none =>
    match hdr.ipv6 with
    | some ipv6 =>
      Sum.inr (bpf_sock_tuple.ipv6 (bytes pkt (ipv6 + 8) 16) (bytes pkt (ipv6 + 24) 16)
        (tcphdr_source pkt hdr.tcp) (tcphdr_dest pkt hdr.tcp))
    | none => Sum.inl XDP_ABORTED

/-- Lines 659-685 of `syncookie_xdp`: after the resize the pointers are taken
again from `data` and checked against the new `data_end`, and `tcp_len` is
read again. -/
def syncookie_xdp_pointers (pkt : List u8) (hdr : header_pointers) :
    xdp_action ⊕ header_pointers :=
  let data_end := pkt.length
  let data := 0
  let located : xdp_action ⊕ header_pointers :=
    match hdr.ipv4 with
    | some _ =>
      let hdr := { hdr with eth := data }
      let ipv4 := hdr.eth + sizeof_ethhdr
      let hdr := { hdr with ipv4 := some ipv4 }
      if ipv4 + IPV4_MAXLEN > data_end then Sum.inl XDP_ABORTED
      else Sum.inr { hdr with tcp := ipv4 + iphdr_ihl pkt ipv4 * 4 }
    | none =>
      match hdr.ipv6 with
      | some _ =>
        let hdr := { hdr with eth := data }
        let ipv6 := hdr.eth + sizeof_ethhdr
        let hdr := { hdr with ipv6 := some ipv6 }
        Sum.inr { hdr with tcp := ipv6 + sizeof_ipv6hdr }
      | none => Sum.inl XDP_ABORTED
  match located with
  | Sum.inl verdict => Sum.inl verdict
  | Sum.inr hdr =>
    if hdr.tcp + TCP_MAXLEN > data_end then Sum.inl XDP_ABORTED
    else
      let hdr := { hdr with tcp_len := tcphdr_doff pkt hdr.tcp * 4 }
      if hdr.tcp_len < sizeof_tcphdr then Sum.inl XDP_ABORTED
      else Sum.inr hdr

/-- Lines 649-688 of `syncookie_xdp`, reached when the lookup has neither
passed the packet nor failed: flag check, growth of the tail to
`TCP_MAXLEN`, new pointers, and the SYN or ACK handler. -/
def syncookie_xdp_cookie (env : Env) (hdr : header_pointers) (st : xdp_state) :
    xdp_action × xdp_state :=
  if tcphdr_syn st.pkt hdr.tcp ^^^ tcphdr_ack st.pkt hdr.tcp ≠ 1 then (XDP_DROP, st)
  else
    let r := bpf_xdp_adjust_tail env st ((TCP_MAXLEN : Int) - (hdr.tcp_len : Int))
    if r.1 ≠ 0 then (XDP_ABORTED, r.2)
    else
      let st := r.2
      match syncookie_xdp_pointers st.pkt hdr with
      | Sum.inl verdict => (verdict, st)
      | Sum.inr hdr =>
        if tcphdr_syn st.pkt hdr.tcp ≠ 0 then syncookie_handle_syn env hdr st
        else syncookie_handle_ack env hdr st

/-- The program `syncookie_xdp`: the verdict and the state it leaves. -/
def syncookie_xdp (env : Env) (st : xdp_state) : xdp_action × xdp_state :=
  let r := tcp_dissect st.pkt
  let ret := r.1
  let hdr := r.2
  if ret ≠ XDP_TX then (ret, st)
  else
    match syncookie_xdp_tuple st.pkt hdr with
    | Sum.inl verdict => (verdict, st)
    | Sum.inr tup =>
      let ct := env.bpf_ct_lookup_tcp tup
      let st := { st with calls := st.calls ++ [helper_call.bpf_ct_lookup_tcp] }
      match ct with
      | ct_lookup.entry status =>
        if status &&& IPS_CONFIRMED_BIT ≠ 0 then (XDP_PASS, st)
        else syncookie_xdp_cookie env hdr st
      | ct_lookup.null value =>
        if value ≠ -ENOENT then (XDP_ABORTED, st)
        else syncookie_xdp_cookie env hdr st


/-! ## The dissector's decision table, from the words of the specification -/

/-- The decision table of the dissector as the specification words it, on
the bytes of the buffer: an early verdict, or the offset of the TCP header
and the TCP header length.  It is compared with `tcp_dissect` below. -/
def dissect_table (pkt : List u8) : xdp_action ⊕ (Nat × Nat) :=
  let byte := fun (i : Nat) => ld8 pkt i
  let ethertype := 256 * byte 12 + byte 13
  let tcp_part := fun (tcp : Nat) =>
    if pkt.length < tcp + 20 then Sum.inl XDP_DROP
    else if byte (tcp + 12) / 16 * 4 < 20 then Sum.inl XDP_DROP
    else Sum.inr (tcp, byte (tcp + 12) / 16 * 4)
  if pkt.length < 14 then Sum.inl XDP_DROP
  else if ethertype ≠ 0x0800 ∧ ethertype ≠ 0x86DD then Sum.inl XDP_PASS
  else if ethertype = 0x0800 then
    if pkt.length < 14 + 20 then Sum.inl XDP_DROP
    else if byte 14 % 16 * 4 < 20 then Sum.inl XDP_DROP
    else if byte 14 / 16 ≠ 4 then Sum.inl XDP_DROP
    else if byte 23 ≠ 6 then Sum.inl XDP_PASS
    else tcp_part (14 + byte 14 % 16 * 4)
  else
    if pkt.length < 14 + 40 then Sum.inl XDP_DROP
    else if byte 14 / 16 ≠ 6 then Sum.inl XDP_DROP
    else if byte 20 ≠ 6 then Sum.inl XDP_PASS
    else tcp_part (14 + 40)

/-! ## The option scanner, from the words of the specification -/

/-- One option entry that the scanner looks at: its kind, its size (1 for a
NOP) and the offset of its kind byte. -/
structure tcp_option where
  kind : Nat
  size : Nat
  pos : Nat
deriving DecidableEq, Repr

/-- The option entries that are scanned, as the specification words it: at
most `n` entries from offset `ptr`, a NOP counting as an entry of one byte;
the scan stops at EOL, at the declared end `end_`, and at an option whose
size byte is missing, is below 2, or leads past the declared end. -/
def option_entries (m : List u8) (end_ : Nat) : Nat → Nat → List tcp_option
  | 0, _ => []
  | n + 1, ptr =>
    if ptr ≥ end_ then []
    else if ld8 m ptr = 0 then []
    else if ld8 m ptr = 1 then ⟨1, 1, ptr⟩ :: option_entries m end_ n (ptr + 1)
    else if ptr + 1 ≥ end_ then []
    else if ld8 m (ptr + 1) < 2 then []
    else if ptr + ld8 m (ptr + 1) > end_ then []
    else ⟨ld8 m ptr, ld8 m (ptr + 1), ptr⟩ :: option_entries m end_ n (ptr + ld8 m (ptr + 1))

/-- A Timestamp option of length 10. -/
def timestamp_option (e : tcp_option) : Bool := decide (e.kind = 8 ∧ e.size = 10)

/-- A Window-Scale option of length 3. -/
def window_option (e : tcp_option) : Bool := decide (e.kind = 3 ∧ e.size = 3)

/-- A SACK-permitted option of length 2. -/
def sack_perm_option (e : tcp_option) : Bool := decide (e.kind = 4 ∧ e.size = 2)

/-- The last entry of a list that satisfies `p`. -/
def last_option (p : tcp_option → Bool) (l : List tcp_option) : Option tcp_option :=
  l.reverse.find? p

/-- The result of the option scanner as the specification words it: nothing
when none of the first ten entries is a Timestamp option of length 10; else
`tsecr` is the value field of the last such option (the four bytes as they
lie in the packet) and `tsval` is the big-endian word of the clock in
milliseconds with its low six bits replaced by the window scale (the value
of the last Window-Scale option of length 3, at most 14, or 15 when there is
none), 0x10 when a SACK-permitted option of length 2 was seen, and 0x20 when
the header has ECE and CWR both set.  The three fields do not overlap, so
the OR of the words is written as a sum. -/
def timestamp_word_spec (env : Env) (m : List u8) (tcp_header tcp_len : Nat) :
    Option (Nat × Nat) :=
  let entries := option_entries m (tcp_header + tcp_len) 10 (tcp_header + 20)
  match last_option timestamp_option entries with
  | none => none
  | some ts =>
    let clock_ms := env.bpf_ktime_get_ns % 18446744073709551616 / 1000000 % 4294967296
    let ws :=
      match last_option window_option entries with
      | some w => min (ld8 m (w.pos + 2)) 14
      | none => 15
    let sack := if entries.any sack_perm_option then 16 else 0
    let ecn := if tcphdr_ece m tcp_header = 1 ∧ tcphdr_cwr m tcp_header = 1 then 32 else 0
    some (bpf_htonl (clock_ms / 64 * 64 + ws + sack + ecn), ld32 m (ts.pos + 2))

/-! ## The dissector and the option scanner with checked loads

The same two functions once more, with every load of a packet byte going
through `ld8_chk`, which has no answer for an offset that is not below
`data_end`.  The outer `Option` of a result is `none` when such a load was
attempted. -/

/-- Load of the byte at offset `p` of a buffer that ends at `data_end`:
`none` when `p` is not below `data_end` (or not in the list). -/
def ld8_chk (m : List u8) (data_end p : Nat) : Option Nat :=
  if p < data_end then (m[p]?).map Fin.val else none

/-- Checked native 16-bit load. -/
def ld16_chk (m : List u8) (data_end p : Nat) : Option Nat := do
  let b0 ← ld8_chk m data_end p
  let b1 ← ld8_chk m data_end (p + 1)
  pure (b0 + 256 * b1)

/-- Checked native 32-bit load. -/
def ld32_chk (m : List u8) (data_end p : Nat) : Option Nat := do
  let b0 ← ld8_chk m data_end p
  let b1 ← ld8_chk m data_end (p + 1)
  let b2 ← ld8_chk m data_end (p + 2)
  let b3 ← ld8_chk m data_end (p + 3)
  pure (b0 + 256 * b1 + 65536 * b2 + 16777216 * b3)

/-- The end of `tcp_dissect` (lines 341-347) with checked loads. -/
def tcp_dissect_tcp_chk (pkt : List u8) (hdr : header_pointers) :
    Option (xdp_action × header_pointers) :=
  let data_end := pkt.length
  if hdr.tcp + sizeof_tcphdr > data_end then some (XDP_DROP, hdr)
  else do
    let b12 ← ld8_chk pkt data_end (hdr.tcp + 12)
    let hdr := { hdr with tcp_len := b12 / 16 * 4 }
    if hdr.tcp_len < sizeof_tcphdr then pure (XDP_DROP, hdr)
    else pure (XDP_TX, hdr)

/-- Function `tcp_dissect` with checked loads. -/
def tcp_dissect_chk (pkt : List u8) : Option (xdp_action × header_pointers) :=
  let data_end := pkt.length
  let hdr : header_pointers := ⟨0, none, none, 0, 0⟩
  if hdr.eth + sizeof_ethhdr > data_end then some (XDP_DROP, hdr)
  else do
    let h_proto ← ld16_chk pkt data_end (hdr.eth + 12)
    if bpf_ntohs h_proto = ETH_P_IP then
      let ipv4 := hdr.eth + sizeof_ethhdr
      let hdr := { hdr with ipv6 := none, ipv4 := some ipv4 }
      if ipv4 + sizeof_iphdr > data_end then pure (XDP_DROP, hdr)
      else do
        let ihl ← (ld8_chk pkt data_end ipv4).map (fun b => b % 16)
        if ihl * 4 < sizeof_iphdr then pure (XDP_DROP, hdr)
        else do
          let version ← (ld8_chk pkt data_end ipv4).map (fun b => b / 16)
          if version ≠ 4 then pure (XDP_DROP, hdr)
          else do
            let protocol ← ld8_chk pkt data_end (ipv4 + 9)
            if protocol ≠ IPPROTO_TCP then pure (XDP_PASS, hdr)
            else do
              let ihl ← (ld8_chk pkt data_end ipv4).map (fun b => b % 16)
              tcp_dissect_tcp_chk pkt { hdr with tcp := ipv4 + ihl * 4 }
    else if bpf_ntohs h_proto = ETH_P_IPV6 then
      let ipv6 := hdr.eth + sizeof_ethhdr
      let hdr := { hdr with ipv4 := none, ipv6 := some ipv6 }
      if ipv6 + sizeof_ipv6hdr > data_end then pure (XDP_DROP, hdr)
      else do
        let version ← (ld8_chk pkt data_end ipv6).map (fun b => b / 16)
        if version ≠ 6 then pure (XDP_DROP, hdr)
        else do
          let nexthdr ← ld8_chk pkt data_end (ipv6 + 6)
          if nexthdr ≠ NEXTHDR_TCP then pure (XDP_PASS, hdr)
          else tcp_dissect_tcp_chk pkt { hdr with tcp := ipv6 + sizeof_ipv6hdr }
    else pure (XDP_PASS, hdr)

/-- The loop of `cookie_init_timestamp_raw` with checked loads: the inner
`Option` is the one of `cookie_scan` (`none` is `return false`). -/
def cookie_scan_chk (m : List u8) (end_ data_end : Nat) :
    Nat → Nat → ts_scan → Option (Option ts_scan)
  | 0, _, s => some (some s)
  | n + 1, ptr, s =>
    if ptr ≥ end_ then some (some s)
    else if ptr + 1 > data_end then some none
    else do
      let opcode ← ld8_chk m data_end ptr
      if opcode = TCPOPT_EOL then pure (some s)
      else if opcode = TCPOPT_NOP then cookie_scan_chk m end_ data_end n (ptr + 1) s
      else if ptr + 1 ≥ end_ then pure (some s)
      else if ptr + 2 > data_end then pure none
      else do
        let opsize ← ld8_chk m data_end (ptr + 1)
        if opsize < 2 then pure (some s)
        else if ptr + opsize > end_ then pure (some s)
        else if opcode = TCPOPT_WINDOW then
          if opsize = TCPOLEN_WINDOW then
            if ptr + TCPOLEN_WINDOW > data_end then pure none
            else do
              let v ← ld8_chk m data_end (ptr + 2)
              cookie_scan_chk m end_ data_end n (ptr + opsize)
                { s with wscale := min v TCP_MAX_WSCALE }
          else cookie_scan_chk m end_ data_end n (ptr + opsize) s
        else if opcode = TCPOPT_TIMESTAMP then
          if opsize = TCPOLEN_TIMESTAMP then
            if ptr + TCPOLEN_TIMESTAMP > data_end then pure none
            else do
              let v ← ld32_chk m data_end (ptr + 2)
              cookie_scan_chk m end_ data_end n (ptr + opsize)
                { s with option_timestamp := true, tsecr := v }
          else cookie_scan_chk m end_ data_end n (ptr + opsize) s
        else if opcode = TCPOPT_SACK_PERM then
          if opsize = TCPOLEN_SACK_PERM then
            cookie_scan_chk m end_ data_end n (ptr + opsize) { s with option_sack := true }
          else cookie_scan_chk m end_ data_end n (ptr + opsize) s
        else cookie_scan_chk m end_ data_end n (ptr + opsize) s

/-- Function `cookie_init_timestamp_raw` with checked loads; the flags ECE
and CWR are read from byte 13 of the TCP header. -/
def cookie_init_timestamp_raw_chk (env : Env) (m : List u8)
    (tcp_header tcp_len data_end : Nat) : Option (Option (Nat × Nat)) := do
  let ptr := tcp_header + sizeof_tcphdr
  let end_ := tcp_header + tcp_len
  let r ← cookie_scan_chk m end_ data_end 10 ptr ⟨TS_OPT_WSCALE_MASK, false, false, 0⟩
  match r with
  | none => pure none
  | some s =>
    if !s.option_timestamp then pure none
    else do
      let cookie := tcp_time_stamp_raw env &&& (0xffffffff - TSMASK)
      let cookie := cookie ||| (s.wscale &&& TS_OPT_WSCALE_MASK)
      let cookie := if s.option_sack then cookie ||| TS_OPT_SACK else cookie
      let ece ← (ld8_chk m data_end (tcp_header + 13)).map (fun b => b / 64 % 2)
      let cwr ← (ld8_chk m data_end (tcp_header + 13)).map (fun b => b / 128 % 2)
      let cookie := if ece ≠ 0 ∧ cwr ≠ 0 then cookie ||| TS_OPT_ECN else cookie
      pure (some (cpu_to_be32 cookie, s.tsecr))

/-! ## Length fields written by the synthesis -/

/-- Field `tot_len` of `struct iphdr` (offset 2). -/
def iphdr_tot_len (m : List u8) (ip : Nat) : Nat := ld16 m (ip + 2)
/-- Field `payload_len` of `struct ipv6hdr` (offset 4). -/
def ipv6hdr_payload_len (m : List u8) (ip : Nat) : Nat := ld16 m (ip + 4)

/-! ## Size difference of the last resize (lines 574-576) -/

/-- The argument `new_pkt_size - old_pkt_size` of the last call of
`bpf_xdp_adjust_tail` (line 576): both sizes are `__u32`, the difference is
computed in 32 bits and passed as an `int`. -/
def pkt_size_delta (old_pkt_size new_pkt_size : Nat) : Int :=
  let diff := (new_pkt_size % 4294967296 + 4294967296 - old_pkt_size % 4294967296) % 4294967296
  if diff < 2147483648 then (diff : Int) else (diff : Int) - 4294967296

/-! ## Sample frames and environments -/

/-- A 42-byte Ethernet frame: IPv4 header (ihl 5, protocol 17, UDP) and an
8-byte UDP header. -/
def sample_udp_frame : List u8 :=
  [2, 0, 0, 0, 0, 1, 2, 0, 0, 0, 0, 2, 8, 0,
   69, 0, 0, 28, 0, 0, 64, 0, 64, 17, 38, 207, 10, 0, 0, 1, 10, 0, 0, 2,
   48, 57, 0, 53, 0, 8, 0, 0]

/-- A 74-byte IPv4 SYN from 10.0.0.1:12345 to 10.0.0.2:443, DF set, sequence
number 0x01020304, valid IPv4 and TCP checksums, TCP header of 40 bytes with
the options MSS 1380, SACK-permitted, Timestamp (1000, 0), NOP and
Window-Scale 7. -/
def sample_syn : List u8 :=
  [2, 0, 0, 0, 0, 1, 2, 0, 0, 0, 0, 2, 8, 0,
   69, 0, 0, 60, 18, 52, 64, 0, 64, 6, 20, 134, 10, 0, 0, 1, 10, 0, 0, 2,
   48, 57, 1, 187, 1, 2, 3, 4, 0, 0, 0, 0, 160, 2, 255, 255, 250, 107, 0, 0,
   2, 4, 5, 100, 4, 2, 8, 10, 0, 0, 3, 232, 0, 0, 0, 0, 1, 3, 3, 7]

/-- The frame `sample_syn` with the MF bit set next to DF (`frag_off` 0x6000). -/
def sample_syn_fragment : List u8 := st8 sample_syn 20 0x60

/-- The frame `sample_syn` with the flags SYN and ACK both set. -/
def sample_synack : List u8 := st8 sample_syn 47 0x12

/-- The frame `sample_syn` with one bit of the TCP checksum flipped. -/
def sample_syn_bad_csum : List u8 := st8 sample_syn 51 106

/-- A 74-byte IPv4 SYN like `sample_syn`, to destination port 8080, with
valid checksums. -/
def sample_syn_8080 : List u8 :=
  [2, 0, 0, 0, 0, 1, 2, 0, 0, 0, 0, 2, 8, 0,
   69, 0, 0, 60, 18, 52, 64, 0, 64, 6, 20, 134, 10, 0, 0, 1, 10, 0, 0, 2,
   48, 57, 31, 144, 1, 2, 3, 4, 0, 0, 0, 0, 160, 2, 255, 255, 220, 150, 0, 0,
   2, 4, 5, 100, 4, 2, 8, 10, 0, 0, 3, 232, 0, 0, 0, 0, 1, 3, 3, 7]

/-- A 54-byte IPv4 segment from 10.0.0.1:12345 to 10.0.0.2:443 with only the
ACK flag, DF set, and a TCP header of 20 bytes. -/
def sample_ack : List u8 :=
  [2, 0, 0, 0, 0, 1, 2, 0, 0, 0, 0, 2, 8, 0,
   69, 0, 0, 40, 18, 52, 64, 0, 64, 6, 20, 154, 10, 0, 0, 1, 10, 0, 0, 2,
   48, 57, 1, 187, 1, 2, 3, 4, 222, 173, 190, 240, 80, 16, 255, 255, 0, 0, 0, 0]

/-- Oracles for the samples: no conntrack entry, cookie 0xdeadbeef, every
cookie valid, every resize granted, zeroed tail. -/
def sample_env : Env where
  bpf_ktime_get_ns := 123456789000000
  bpf_ct_lookup_tcp := fun _ => ct_lookup.null (-ENOENT)
  bpf_tcp_raw_gen_syncookie_ipv4 := fun _ _ => 0xdeadbeef
  bpf_tcp_raw_check_syncookie_ipv4 := fun _ _ => 0
  adjust_tail_ret := fun _ _ => 0
  tail_fill := fun _ => 0

/-- The oracles of `sample_env` with a kernel that grants exactly the two
resizes of the run on `sample_syn` (a buffer of 74 bytes grown by 20, a
buffer of 94 bytes cut by 20) and refuses every other resize with
`-EINVAL`. -/
def sample_env_strict : Env :=
  { sample_env with
    adjust_tail_ret := fun len delta =>
      if (len = 74 ∧ delta = 20) ∨ (len = 94 ∧ delta = -20) then 0 else -EINVAL }

/-- The oracles of `sample_env`, with a conntrack entry of the given status
for every flow. -/
def sample_env_entry (status : Nat) : Env :=
  { sample_env with bpf_ct_lookup_tcp := fun _ => ct_lookup.entry status }

/-- The state of the samples: the given packet, no option word, a counter
at 5, the allow-list 80, 443, and no helper call made. -/
def sample_state (pkt : List u8) : xdp_state := ⟨pkt, [0, 5], [80, 443, 0], []⟩

/-- The frame `sample_syn` with ECE and CWR set next to SYN (flag byte 0xc2)
and the value 3 in its Window-Scale option; the checksum is not adjusted. -/
def sample_syn_ecn : List u8 := st8 (st8 sample_syn 47 0xc2) 73 3

/-- A 94-byte IPv6 SYN from [2001:db8::1]:12345 to [2001:db8::2]:443, sequence
number 0x01020304, valid TCP checksum, TCP header of 40 bytes with the
options of `sample_syn`. -/
def sample_syn6 : List u8 :=
  [2, 0, 0, 0, 0, 1, 2, 0, 0, 0, 0, 2, 134, 221,
   96, 0, 0, 0, 0, 40, 6, 64,
   32, 1, 13, 184, 0, 0, 0, 0, 0, 0, 0, 0, 0, 0, 0, 1,
   32, 1, 13, 184, 0, 0, 0, 0, 0, 0, 0, 0, 0, 0, 0, 2,
   48, 57, 1, 187, 1, 2, 3, 4, 0, 0, 0, 0, 160, 2, 255, 255, 178, 249, 0, 0,
   2, 4, 5, 100, 4, 2, 8, 10, 0, 0, 3, 232, 0, 0, 0, 0, 1, 3, 3, 7]

/-- A 78-byte IPv4 SYN like `sample_syn` whose IPv4 header has 4 bytes of
options (ihl 6, four NOP), with valid checksums. -/
def sample_syn_ipopts : List u8 :=
  [2, 0, 0, 0, 0, 1, 2, 0, 0, 0, 0, 2, 8, 0,
   70, 0, 0, 64, 18, 52, 64, 0, 64, 6, 17, 128, 10, 0, 0, 1, 10, 0, 0, 2, 1, 1, 1, 1,
   48, 57, 1, 187, 1, 2, 3, 4, 0, 0, 0, 0, 160, 2, 255, 255, 250, 107, 0, 0,
   2, 4, 5, 100, 4, 2, 8, 10, 0, 0, 3, 232, 0, 0, 0, 0, 1, 3, 3, 7]

/-- A 54-byte IPv4 SYN like `sample_syn` without TCP options, with valid
checksums. -/
def sample_syn_plain : List u8 :=
  [2, 0, 0, 0, 0, 1, 2, 0, 0, 0, 0, 2, 8, 0,
   69, 0, 0, 40, 18, 52, 64, 0, 64, 6, 20, 154, 10, 0, 0, 1, 10, 0, 0, 2,
   48, 57, 1, 187, 1, 2, 3, 4, 0, 0, 0, 0, 80, 2, 255, 255, 101, 230, 0, 0]

/-! ## Loads, stores and byte order: basic facts -/

theorem ld8_lt (m : List u8) (p : Nat) : ld8 m p < 256 := (m.getD p 0).isLt

theorem ld16_lt (m : List u8) (p : Nat) : ld16 m p < 65536 := by
  have h0 := ld8_lt m p
  have h1 := ld8_lt m (p + 1)
  unfold ld16
  omega

theorem ld32_lt (m : List u8) (p : Nat) : ld32 m p < 4294967296 := by
  have h0 := ld8_lt m p
  have h1 := ld8_lt m (p + 1)
  have h2 := ld8_lt m (p + 2)
  have h3 := ld8_lt m (p + 3)
  unfold ld32
  omega

@[simp] theorem length_st8 (m : List u8) (p v : Nat) : (st8 m p v).length = m.length := by
  simp [st8]

@[simp] theorem length_st16 (m : List u8) (p v : Nat) : (st16 m p v).length = m.length := by
  simp [st16]

@[simp] theorem length_st32 (m : List u8) (p v : Nat) : (st32 m p v).length = m.length := by
  simp [st32]

@[simp] theorem length_memcpy (m old : List u8) (dst src n : Nat) :
    (memcpy m dst old src n).length = m.length := by
  induction n with
  | zero => rfl
  | succ n ih => simp [memcpy, ih]

theorem ld8_st8 (m : List u8) (p v q : Nat) :
    ld8 (st8 m p v) q = if q = p then (if p < m.length then v % 256 else 0) else ld8 m q := by
  unfold ld8 st8
  simp only [List.getD_eq_getElem?_getD, List.getElem?_set]
  by_cases h : q = p
  · subst h
    by_cases h2 : q < m.length
    · simp [h2, u8.ofNat]
    · simp [h2]
  · have : ¬ p = q := fun e => h e.symm
    simp [h, this]

theorem ld8_st8_in (m : List u8) (p v q : Nat) (h : p < m.length) :
    ld8 (st8 m p v) q = if q = p then v % 256 else ld8 m q := by
  rw [ld8_st8]
  simp [h]

theorem ld8_st8_ne (m : List u8) (p v q : Nat) (h : q ≠ p) : ld8 (st8 m p v) q = ld8 m q := by
  rw [ld8_st8]
  simp [h]

theorem ld8_memcpy (m old : List u8) (dst src n q : Nat) (h : dst + n ≤ m.length) :
    ld8 (memcpy m dst old src n) q =
      if dst ≤ q ∧ q < dst + n then ld8 old (src + (q - dst)) else ld8 m q := by
  induction n with
  | zero =>
    have c : ¬ (dst ≤ q ∧ q < dst + 0) := by omega
    simp only [memcpy, c, if_false]
  | succ n ih =>
    have hin : dst + n < (memcpy m dst old src n).length := by
      rw [length_memcpy]
      omega
    rw [memcpy, ld8_st8_in _ _ _ _ hin, ih (by omega)]
    by_cases h1 : q = dst + n
    · subst h1
      have e : dst + n - dst = n := by omega
      have c : dst ≤ dst + n ∧ dst + n < dst + (n + 1) := ⟨by omega, by omega⟩
      simp [ld8_lt, Nat.mod_eq_of_lt, e, c]
    · by_cases h2 : dst ≤ q ∧ q < dst + n
      · have c : dst ≤ q ∧ q < dst + (n + 1) := ⟨h2.1, by omega⟩
        simp [h1, h2, c]
      · have c : ¬ (dst ≤ q ∧ q < dst + (n + 1)) := by omega
        simp [h1, h2, c]

theorem ethertype_eq (pkt : List u8) :
    bpf_ntohs (ethhdr_h_proto pkt 0) = 256 * ld8 pkt 12 + ld8 pkt 13 := by
  have h12 := ld8_lt pkt 12
  have h13 := ld8_lt pkt 13
  simp only [ethhdr_h_proto, bpf_ntohs, ld16, Nat.zero_add, Nat.reduceAdd]
  omega

/-! ## What a successful dissection establishes -/

theorem tcp_dissect_tx (pkt : List u8) (hdr : header_pointers)
    (h : tcp_dissect pkt = (XDP_TX, hdr)) :
    (hdr = ⟨0, some 14, none, 14 + iphdr_ihl pkt 14 * 4,
        tcphdr_doff pkt (14 + iphdr_ihl pkt 14 * 4) * 4⟩ ∧
      bpf_ntohs (ethhdr_h_proto pkt 0) = ETH_P_IP ∧
      20 ≤ iphdr_ihl pkt 14 * 4 ∧ iphdr_version pkt 14 = 4 ∧ iphdr_protocol pkt 14 = IPPROTO_TCP ∧
      14 + iphdr_ihl pkt 14 * 4 + 20 ≤ pkt.length ∧
      20 ≤ tcphdr_doff pkt (14 + iphdr_ihl pkt 14 * 4) * 4) ∨
    (hdr = ⟨0, none, some 14, 54, tcphdr_doff pkt 54 * 4⟩ ∧
      bpf_ntohs (ethhdr_h_proto pkt 0) = ETH_P_IPV6 ∧
      ipv6hdr_version pkt 14 = 6 ∧ ipv6hdr_nexthdr pkt 14 = NEXTHDR_TCP ∧
      74 ≤ pkt.length ∧ 20 ≤ tcphdr_doff pkt 54 * 4) := by
  unfold tcp_dissect tcp_dissect_tcp at h
  simp only [sizeof_ethhdr, sizeof_iphdr, sizeof_ipv6hdr, sizeof_tcphdr, Nat.zero_add,
    gt_iff_lt, Nat.reduceAdd] at h
  by_cases c1 : pkt.length < 14
  · simp [c1] at h
  by_cases c2 : bpf_ntohs (ethhdr_h_proto pkt 0) = ETH_P_IP
  · simp only [c1, c2, if_false, if_true] at h
    by_cases c3 : pkt.length < 34
    · simp [c3] at h
    by_cases c4 : iphdr_ihl pkt 14 * 4 < 20
    · simp [c3, c4] at h
    by_cases c5 : iphdr_version pkt 14 = 4
    · by_cases c6 : iphdr_protocol pkt 14 = IPPROTO_TCP
      · by_cases c7 : pkt.length < 14 + iphdr_ihl pkt 14 * 4 + 20
        · simp [c3, c4, c5, c6, c7] at h
        · by_cases c8 : tcphdr_doff pkt (14 + iphdr_ihl pkt 14 * 4) * 4 < 20
          · simp [c3, c4, c5, c6, c7, c8] at h
          · simp [c3, c4, c5, c6, c7, c8] at h
            left
            exact ⟨h.symm, c2, by omega, c5, c6, by omega, by omega⟩
      · simp [c3, c4, c5, c6] at h
    · simp [c3, c4, c5] at h
  by_cases c2b : bpf_ntohs (ethhdr_h_proto pkt 0) = ETH_P_IPV6
  · have ne : ¬ (ETH_P_IPV6 = ETH_P_IP) := by decide
    simp only [c1, c2b, ne, if_false, if_true] at h
    by_cases c3 : pkt.length < 54
    · simp [c3] at h
    by_cases c5 : ipv6hdr_version pkt 14 = 6
    · by_cases c6 : ipv6hdr_nexthdr pkt 14 = NEXTHDR_TCP
      · by_cases c7 : pkt.length < 74
        · simp [c3, c5, c6, c7] at h
        · by_cases c8 : tcphdr_doff pkt 54 * 4 < 20
          · simp [c3, c5, c6, c7, c8] at h
          · simp [c3, c5, c6, c7, c8] at h
            right
            exact ⟨h.symm, c2b, c5, c6, by omega, by omega⟩
      · simp [c3, c5, c6] at h
    · simp [c3, c5] at h
  · simp [c1, c2, c2b] at h

theorem iphdr_ihl_le (m : List u8) (p : Nat) : iphdr_ihl m p * 4 ≤ 60 := by
  unfold iphdr_ihl
  omega

theorem tcphdr_doff_le (m : List u8) (p : Nat) : tcphdr_doff m p * 4 ≤ 60 := by
  have := ld8_lt m (p + 12)
  unfold tcphdr_doff
  omega

/-! ## Bit masks on two-byte values -/

theorem land_split (a b c d : Nat) (ha : a < 256) (hc : c < 256) :
    (256 * b + a) &&& (256 * d + c) = 256 * (b &&& d) + (a &&& c) := by
  have hac : a &&& c < 256 := Nat.lt_of_le_of_lt Nat.and_le_left ha
  have e : (256 : Nat) = 2 ^ 8 := rfl
  apply Nat.eq_of_testBit_eq
  intro i
  rw [Nat.testBit_and, e, Nat.testBit_mul_pow_two_add _ ha, Nat.testBit_mul_pow_two_add _ hc,
    Nat.testBit_mul_pow_two_add _ hac]
  split <;> simp

set_option maxRecDepth 100000 in
theorem byte_and_32 : ∀ a : Fin 256, a.val &&& 32 = a.val / 32 % 2 * 32 := by decide

set_option maxRecDepth 100000 in
theorem byte_and_64 : ∀ a : Fin 256, a.val &&& 64 = a.val / 64 % 2 * 64 := by decide

/-- The fragment test of line 616, on the two bytes of `frag_off`, against
the same test on the value in host byte order. -/
theorem frag_check (a b : Nat) (ha : a < 256) (hb : b < 256) :
    ((a + 256 * b) &&& bpf_htons (IP_DF ||| IP_MF ||| IP_OFFSET) = bpf_htons IP_DF) ↔
      (bpf_ntohs (a + 256 * b) &&& IP_MF = 0 ∧ bpf_ntohs (a + 256 * b) &&& IP_OFFSET = 0 ∧
        bpf_ntohs (a + 256 * b) &&& IP_DF ≠ 0) := by
  have e1 : bpf_htons (IP_DF ||| IP_MF ||| IP_OFFSET) = 256 * 255 + 127 := by decide
  have e2 : bpf_htons IP_DF = 64 := by decide
  have e3 : bpf_ntohs (a + 256 * b) = 256 * a + b := by unfold bpf_ntohs; omega
  have e4 : IP_MF = 256 * 32 + 0 := by decide
  have e5 : IP_OFFSET = 256 * 31 + 255 := by decide
  have e6 : IP_DF = 256 * 64 + 0 := by decide
  have e7 : a + 256 * b = 256 * b + a := by omega
  have m127 : a &&& 127 = a % 128 := Nat.and_pow_two_sub_one_eq_mod a 7
  have m31 : a &&& 31 = a % 32 := Nat.and_pow_two_sub_one_eq_mod a 5
  have m255 : b &&& 255 = b := Nat.and_pow_two_sub_one_of_lt_two_pow (n := 8) hb
  have m32 := byte_and_32 ⟨a, ha⟩
  have m64 := byte_and_64 ⟨a, ha⟩
  simp only at m32 m64
  rw [e1, e2, e3, e4, e5, e6, e7, land_split _ _ _ _ ha (by omega),
    land_split _ _ _ _ hb (by omega), land_split _ _ _ _ hb (by omega),
    land_split _ _ _ _ hb (by omega), m127, m31, m255, m32, m64, Nat.and_zero]
  omega

/-! ## Resizing the tail keeps the bytes that stay -/

theorem ld8_append_left (l g : List u8) (i : Nat) (h : i < l.length) :
    ld8 (l ++ g) i = ld8 l i := by
  unfold ld8
  rw [List.getD_eq_getElem?_getD, List.getD_eq_getElem?_getD, List.getElem?_append_left h]

theorem length_resize_tail (env : Env) (pkt : List u8) (len : Nat) :
    (resize_tail env pkt len).length = len := by
  unfold resize_tail
  simp only [List.length_append, List.length_take, List.length_map, List.length_range]
  omega

theorem ld8_resize_tail (env : Env) (pkt : List u8) (len i : Nat) (h1 : i < pkt.length)
    (h2 : i < len) : ld8 (resize_tail env pkt len) i = ld8 pkt i := by
  unfold resize_tail
  rw [ld8_append_left _ _ _ (by rw [List.length_take]; omega)]
  unfold ld8
  rw [List.getD_eq_getElem?_getD, List.getD_eq_getElem?_getD, List.getElem?_take_of_lt h2]

theorem bytes_resize_tail (env : Env) (pkt : List u8) (len p n : Nat) (h1 : p + n ≤ pkt.length)
    (h2 : p + n ≤ len) : bytes (resize_tail env pkt len) p n = bytes pkt p n := by
  unfold resize_tail bytes
  have hl : (List.take len pkt).length = min len pkt.length := List.length_take _ _
  rw [List.drop_append_of_le_length (by omega), List.take_append_of_le_length
    (by rw [List.length_drop]; omega), List.drop_take, List.take_take]
  congr 1
  omega

theorem ld16_congr (m m' : List u8) (p : Nat) (h : ∀ i, p ≤ i → i < p + 2 → ld8 m i = ld8 m' i) :
    ld16 m p = ld16 m' p := by
  unfold ld16
  rw [h p (by omega) (by omega), h (p + 1) (by omega) (by omega)]

theorem ld32_congr (m m' : List u8) (p : Nat) (h : ∀ i, p ≤ i → i < p + 4 → ld8 m i = ld8 m' i) :
    ld32 m p = ld32 m' p := by
  unfold ld32
  rw [h p (by omega) (by omega), h (p + 1) (by omega) (by omega),
    h (p + 2) (by omega) (by omega), h (p + 3) (by omega) (by omega)]

theorem csum_words_congr (m m' : List u8) (n : Nat) :
    ∀ p, (∀ i, p ≤ i → i < p + 4 * n → ld8 m i = ld8 m' i) →
      csum_words m p n = csum_words m' p n := by
  induction n with
  | zero => intro p _; rfl
  | succ n ih =>
    intro p h
    unfold csum_words
    rw [ld32_congr m m' p (fun i h1 h2 => h i h1 (by omega)),
      ih (p + 4) (fun i h1 h2 => h i (by omega) (by omega))]

theorem bpf_csum_diff_congr (m m' : List u8) (p size : Nat)
    (h : ∀ i, p ≤ i → i < p + size → ld8 m i = ld8 m' i) :
    bpf_csum_diff m p size = bpf_csum_diff m' p size := by
  unfold bpf_csum_diff
  rw [csum_words_congr m m' (size / 4) p (fun i h1 h2 => h i h1 (by omega))]

/-! ## The way of a frame through `syncookie_xdp` -/

theorem syncookie_xdp_through (env : Env) (st : xdp_state) (hdr : header_pointers)
    (tup : bpf_sock_tuple) (hd : tcp_dissect st.pkt = (XDP_TX, hdr))
    (htup : syncookie_xdp_tuple st.pkt hdr = Sum.inr tup)
    (hct : env.bpf_ct_lookup_tcp tup = ct_lookup.null (-ENOENT) ∨
      ∃ status, env.bpf_ct_lookup_tcp tup = ct_lookup.entry status ∧
        status &&& IPS_CONFIRMED_BIT = 0) :
    syncookie_xdp env st =
      syncookie_xdp_cookie env hdr
        { st with calls := st.calls ++ [helper_call.bpf_ct_lookup_tcp] } := by
  unfold syncookie_xdp
  simp only [hd, htup, ne_eq, not_true_eq_false, if_false]
  rcases hct with h | ⟨status, h, hs⟩
  · simp [h]
  · simp [h, hs]

theorem syncookie_xdp_pointers_ok (pkt pkt1 : List u8) (hdr : header_pointers)
    (hd : tcp_dissect pkt = (XDP_TX, hdr))
    (hagree : ∀ i, i < pkt.length → ld8 pkt1 i = ld8 pkt i)
    (hb : hdr.tcp + TCP_MAXLEN ≤ pkt1.length) :
    syncookie_xdp_pointers pkt1 hdr = Sum.inr hdr := by
  have hihl := iphdr_ihl_le pkt 14
  rcases tcp_dissect_tx _ _ hd with ⟨rfl, -, h1, -, -, h2, h3⟩ | ⟨rfl, -, -, -, h2, h3⟩
  · have e1 : iphdr_ihl pkt1 14 = iphdr_ihl pkt 14 := by
      unfold iphdr_ihl
      rw [hagree 14 (by omega)]
    have e2 : tcphdr_doff pkt1 (14 + iphdr_ihl pkt 14 * 4) =
        tcphdr_doff pkt (14 + iphdr_ihl pkt 14 * 4) := by
      unfold tcphdr_doff
      rw [hagree _ (by omega)]
    simp only [TCP_MAXLEN] at hb
    have c1 : ¬ (14 + 60 > pkt1.length) := by omega
    have c2 : ¬ (14 + iphdr_ihl pkt 14 * 4 + 60 > pkt1.length) := by omega
    have c3 : ¬ (tcphdr_doff pkt (14 + iphdr_ihl pkt 14 * 4) * 4 < 20) := by omega
    simp only [syncookie_xdp_pointers, IPV4_MAXLEN, TCP_MAXLEN, sizeof_ethhdr, sizeof_tcphdr,
      Nat.zero_add, e1, e2, c1, c2, c3, if_false]
  · have e2 : tcphdr_doff pkt1 54 = tcphdr_doff pkt 54 := by
      unfold tcphdr_doff
      rw [hagree _ (by omega)]
    simp only [TCP_MAXLEN] at hb
    have c2 : ¬ (54 + 60 > pkt1.length) := by omega
    have c3 : ¬ (tcphdr_doff pkt 54 * 4 < 20) := by omega
    simp only [syncookie_xdp_pointers, TCP_MAXLEN, sizeof_ethhdr, sizeof_ipv6hdr, sizeof_tcphdr,
      Nat.zero_add, Nat.reduceAdd, e2, c2, c3, if_false]

theorem tcp_dissect_tcp_bounds (pkt : List u8) (hdr : header_pointers)
    (hd : tcp_dissect pkt = (XDP_TX, hdr)) :
    34 ≤ hdr.tcp ∧ hdr.tcp + 20 ≤ pkt.length ∧ 20 ≤ hdr.tcp_len ∧ hdr.tcp_len ≤ 60 ∧
      hdr.tcp_len = tcphdr_doff pkt hdr.tcp * 4 := by
  rcases tcp_dissect_tx _ _ hd with ⟨rfl, -, h1, -, -, h2, h3⟩ | ⟨rfl, -, -, -, h2, h3⟩
  · exact ⟨by simp only; omega, h2, h3, tcphdr_doff_le _ _, rfl⟩
  · exact ⟨by simp only; omega, h2, h3, tcphdr_doff_le _ _, rfl⟩

theorem syncookie_xdp_cookie_handlers (env : Env) (st : xdp_state) (hdr : header_pointers)
    (hd : tcp_dissect st.pkt = (XDP_TX, hdr))
    (hx : tcphdr_syn st.pkt hdr.tcp ^^^ tcphdr_ack st.pkt hdr.tcp = 1)
    (hgrow : env.adjust_tail_ret st.pkt.length ((TCP_MAXLEN : Int) - (hdr.tcp_len : Int)) = 0)
    (hb : hdr.tcp + TCP_MAXLEN ≤ st.pkt.length + (TCP_MAXLEN - hdr.tcp_len)) :
    syncookie_xdp_cookie env hdr st =
      (if tcphdr_syn st.pkt hdr.tcp ≠ 0 then syncookie_handle_syn env hdr else
          syncookie_handle_ack env hdr)
        { st with
          pkt := resize_tail env st.pkt (st.pkt.length + (TCP_MAXLEN - hdr.tcp_len))
          calls := st.calls ++
            [helper_call.bpf_xdp_adjust_tail ((TCP_MAXLEN : Int) - (hdr.tcp_len : Int))] } := by
  obtain ⟨hb1, hb2, hb3, hb4, -⟩ := tcp_dissect_tcp_bounds _ _ hd
  have e : ((st.pkt.length : Int) + ((TCP_MAXLEN : Int) - (hdr.tcp_len : Int))).toNat =
      st.pkt.length + (TCP_MAXLEN - hdr.tcp_len) := by
    simp only [TCP_MAXLEN]
    omega
  have hagree : ∀ i, i < st.pkt.length →
      ld8 (resize_tail env st.pkt (st.pkt.length + (TCP_MAXLEN - hdr.tcp_len))) i =
        ld8 st.pkt i :=
    fun i hi => ld8_resize_tail _ _ _ _ hi (by omega)
  have hp := syncookie_xdp_pointers_ok st.pkt _ hdr hd hagree
    (by rw [length_resize_tail]; exact hb)
  have hs : tcphdr_syn (resize_tail env st.pkt (st.pkt.length + (TCP_MAXLEN - hdr.tcp_len)))
      hdr.tcp = tcphdr_syn st.pkt hdr.tcp := by
    unfold tcphdr_syn
    rw [hagree _ (by omega)]
  unfold syncookie_xdp_cookie bpf_xdp_adjust_tail
  simp only [hx, ne_eq, not_true_eq_false, if_false, hgrow, e, hp, hs]
  split <;> rfl

/-! ## The handlers on the grown packet -/

theorem bpf_csum_diff_nonneg (m : List u8) (p size : Nat) (h4 : size % 4 = 0)
    (h : size ≤ 512) : ¬ (bpf_csum_diff m p size < 0) := by
  unfold bpf_csum_diff
  have c : ¬ (size % 4 ≠ 0 ∨ size > 512) := by omega
  simp only [c, if_false]
  omega

theorem csum_ipv6_magic_congr (m m' : List u8) (saddr daddr len proto csum : Nat)
    (hs : ∀ i, saddr ≤ i → i < saddr + 16 → ld8 m i = ld8 m' i)
    (hd : ∀ i, daddr ≤ i → i < daddr + 16 → ld8 m i = ld8 m' i) :
    csum_ipv6_magic m saddr daddr len proto csum = csum_ipv6_magic m' saddr daddr len proto csum := by
  unfold csum_ipv6_magic
  rw [ld32_congr m m' saddr (fun i h1 h2 => hs i h1 (by omega)),
    ld32_congr m m' (saddr + 4) (fun i h1 h2 => hs i (by omega) (by omega)),
    ld32_congr m m' (saddr + 8) (fun i h1 h2 => hs i (by omega) (by omega)),
    ld32_congr m m' (saddr + 12) (fun i h1 h2 => hs i (by omega) (by omega)),
    ld32_congr m m' daddr (fun i h1 h2 => hd i h1 (by omega)),
    ld32_congr m m' (daddr + 4) (fun i h1 h2 => hd i (by omega) (by omega)),
    ld32_congr m m' (daddr + 8) (fun i h1 h2 => hd i (by omega) (by omega)),
    ld32_congr m m' (daddr + 12) (fun i h1 h2 => hd i (by omega) (by omega))]

/-- The state in which a handler runs: the packet grown to `TCP_MAXLEN` bytes
of TCP header, after the lookup and the resize. -/
theorem syncookie_xdp_handlers (env : Env) (st : xdp_state) (hdr : header_pointers)
    (tup : bpf_sock_tuple) (hd : tcp_dissect st.pkt = (XDP_TX, hdr))
    (htup : syncookie_xdp_tuple st.pkt hdr = Sum.inr tup)
    (hct : env.bpf_ct_lookup_tcp tup = ct_lookup.null (-ENOENT) ∨
      ∃ status, env.bpf_ct_lookup_tcp tup = ct_lookup.entry status ∧
        status &&& IPS_CONFIRMED_BIT = 0)
    (hx : tcphdr_syn st.pkt hdr.tcp ^^^ tcphdr_ack st.pkt hdr.tcp = 1)
    (hgrow : env.adjust_tail_ret st.pkt.length ((TCP_MAXLEN : Int) - (hdr.tcp_len : Int)) = 0)
    (hb : hdr.tcp + TCP_MAXLEN ≤ st.pkt.length + (TCP_MAXLEN - hdr.tcp_len)) :
    syncookie_xdp env st =
      (if tcphdr_syn st.pkt hdr.tcp ≠ 0 then syncookie_handle_syn env hdr else
          syncookie_handle_ack env hdr)
        { st with
          pkt := resize_tail env st.pkt (st.pkt.length + (TCP_MAXLEN - hdr.tcp_len))
          calls := st.calls ++ [helper_call.bpf_ct_lookup_tcp,
            helper_call.bpf_xdp_adjust_tail ((TCP_MAXLEN : Int) - (hdr.tcp_len : Int))] } := by
  rw [syncookie_xdp_through env st hdr tup hd htup hct]
  have h := syncookie_xdp_cookie_handlers env
    ⟨st.pkt, st.values, st.allowed_ports, st.calls ++ [helper_call.bpf_ct_lookup_tcp]⟩ hdr hd hx
    hgrow hb
  rw [h]
  simp

theorem syncookie_handle_syn_v4 (env : Env) (hdr : header_pointers) (st : xdp_state)
    (ipv4 : Nat) (h4 : hdr.ipv4 = some ipv4) (h1 : hdr.tcp_len % 4 = 0)
    (h2 : hdr.tcp_len ≤ 60) :
    syncookie_handle_syn env hdr st =
      if csum_fold (bpf_csum_diff st.pkt ipv4 (iphdr_ihl st.pkt ipv4 * 4)).toNat ≠ 0 ∨
          csum_tcpudp_magic (iphdr_saddr st.pkt ipv4) (iphdr_daddr st.pkt ipv4) hdr.tcp_len
            IPPROTO_TCP (bpf_csum_diff st.pkt hdr.tcp hdr.tcp_len).toNat ≠ 0 then (XDP_DROP, st)
      else syncookie_handle_syn_issue env hdr st ipv4 sizeof_iphdr 0 st.pkt.length := by
  have hihl := iphdr_ihl_le st.pkt ipv4
  have n1 := bpf_csum_diff_nonneg st.pkt ipv4 (iphdr_ihl st.pkt ipv4 * 4) (by omega) (by omega)
  have n2 := bpf_csum_diff_nonneg st.pkt hdr.tcp hdr.tcp_len h1 (by omega)
  unfold syncookie_handle_syn
  simp only [h4, n1, n2, if_false]
  by_cases c1 : csum_fold (bpf_csum_diff st.pkt ipv4 (iphdr_ihl st.pkt ipv4 * 4)).toNat = 0
  · by_cases c2 : csum_tcpudp_magic (iphdr_saddr st.pkt ipv4) (iphdr_daddr st.pkt ipv4)
        hdr.tcp_len IPPROTO_TCP (bpf_csum_diff st.pkt hdr.tcp hdr.tcp_len).toNat = 0
    · simp [c1, c2]
    · simp [c1, c2]
  · simp [c1]

theorem syncookie_handle_syn_v6 (env : Env) (hdr : header_pointers) (st : xdp_state)
    (ipv6 : Nat) (h4 : hdr.ipv4 = none) (h6 : hdr.ipv6 = some ipv6) (h1 : hdr.tcp_len % 4 = 0)
    (h2 : hdr.tcp_len ≤ 60) :
    syncookie_handle_syn env hdr st =
      if csum_ipv6_magic st.pkt (ipv6 + 8) (ipv6 + 24) hdr.tcp_len IPPROTO_TCP
          (bpf_csum_diff st.pkt hdr.tcp hdr.tcp_len).toNat ≠ 0 then (XDP_DROP, st)
      else syncookie_handle_syn_issue env hdr st ipv6 sizeof_ipv6hdr 0 st.pkt.length := by
  have n2 := bpf_csum_diff_nonneg st.pkt hdr.tcp hdr.tcp_len h1 (by omega)
  unfold syncookie_handle_syn
  simp only [h4, h6, n2, if_false]

/-- The checksum tests of the SYN handler read the same bytes in the grown
packet as in the packet the program received. -/
theorem syn_checks_resize (env : Env) (pkt : List u8) (hdr : header_pointers)
    (hd : tcp_dissect pkt = (XDP_TX, hdr)) (len : Nat) (hlen : pkt.length ≤ len)
    (hb : hdr.tcp + hdr.tcp_len ≤ pkt.length) :
    (∀ ipv4, hdr.ipv4 = some ipv4 →
      bpf_csum_diff (resize_tail env pkt len) ipv4 (iphdr_ihl (resize_tail env pkt len) ipv4 * 4) =
        bpf_csum_diff pkt ipv4 (iphdr_ihl pkt ipv4 * 4) ∧
      iphdr_saddr (resize_tail env pkt len) ipv4 = iphdr_saddr pkt ipv4 ∧
      iphdr_daddr (resize_tail env pkt len) ipv4 = iphdr_daddr pkt ipv4) ∧
    (∀ ipv6, hdr.ipv6 = some ipv6 → ∀ l p c,
      csum_ipv6_magic (resize_tail env pkt len) (ipv6 + 8) (ipv6 + 24) l p c =
        csum_ipv6_magic pkt (ipv6 + 8) (ipv6 + 24) l p c) ∧
    bpf_csum_diff (resize_tail env pkt len) hdr.tcp hdr.tcp_len =
      bpf_csum_diff pkt hdr.tcp hdr.tcp_len ∧
    tcphdr_dest (resize_tail env pkt len) hdr.tcp = tcphdr_dest pkt hdr.tcp := by
  have hagree : ∀ i, i < pkt.length → ld8 (resize_tail env pkt len) i = ld8 pkt i :=
    fun i hi => ld8_resize_tail _ _ _ _ hi (by omega)
  obtain ⟨hb1, hb2, hb3, hb4, -⟩ := tcp_dissect_tcp_bounds _ _ hd
  have hihl := iphdr_ihl_le pkt 14
  refine ⟨?_, ?_, ?_, ?_⟩
  · intro ipv4 h4
    have hip : ipv4 = 14 ∧ hdr.tcp = 14 + iphdr_ihl pkt 14 * 4 := by
      rcases tcp_dissect_tx _ _ hd with ⟨rfl, _⟩ | ⟨rfl, _⟩
      · exact ⟨by simpa using h4.symm, rfl⟩
      · simp at h4
    obtain ⟨rfl, htcp⟩ := hip
    have e1 : iphdr_ihl (resize_tail env pkt len) 14 = iphdr_ihl pkt 14 := by
      unfold iphdr_ihl
      rw [hagree 14 (by omega)]
    refine ⟨?_, ?_, ?_⟩
    · rw [e1]
      exact bpf_csum_diff_congr _ _ _ _ (fun i h1 h2 => hagree i (by omega))
    · exact ld32_congr _ _ _ (fun i h1 h2 => hagree i (by omega))
    · exact ld32_congr _ _ _ (fun i h1 h2 => hagree i (by omega))
  · intro ipv6 h6 l p c
    have hip : ipv6 = 14 ∧ hdr.tcp = 54 := by
      rcases tcp_dissect_tx _ _ hd with ⟨rfl, _⟩ | ⟨rfl, _⟩
      · simp at h6
      · exact ⟨by simpa using h6.symm, rfl⟩
    obtain ⟨rfl, htcp⟩ := hip
    exact csum_ipv6_magic_congr _ _ _ _ _ _ _ (fun i h1 h2 => hagree i (by omega))
      (fun i h1 h2 => hagree i (by omega))
  · exact bpf_csum_diff_congr _ _ _ _ (fun i h1 h2 => hagree i (by omega))
  · exact ld16_congr _ _ _ (fun i h1 h2 => hagree i (by omega))

/-! ## Bytes written by the SYN-ACK synthesis -/

theorem ld8_st16 (m : List u8) (p v q : Nat) :
    ld8 (st16 m p v) q =
      if q = p + 1 then (if p + 1 < m.length then v / 256 % 256 else 0)
      else if q = p then (if p < m.length then v % 256 else 0) else ld8 m q := by
  unfold st16
  rw [ld8_st8, ld8_st8, length_st8]

theorem ld8_st32 (m : List u8) (p v q : Nat) :
    ld8 (st32 m p v) q =
      if q = p + 3 then (if p + 3 < m.length then v / 16777216 % 256 else 0)
      else if q = p + 2 then (if p + 2 < m.length then v / 65536 % 256 else 0)
      else if q = p + 1 then (if p + 1 < m.length then v / 256 % 256 else 0)
      else if q = p then (if p < m.length then v % 256 else 0) else ld8 m q := by
  unfold st32
  rw [ld8_st8, ld8_st8, ld8_st8, ld8_st8, length_st8, length_st8, length_st8]

theorem bpf_htonl_bytes (x : Nat) :
    bpf_htonl x % 256 = x / 16777216 % 256 ∧ bpf_htonl x / 256 % 256 = x / 65536 % 256 ∧
      bpf_htonl x / 65536 % 256 = x / 256 % 256 ∧ bpf_htonl x / 16777216 % 256 = x % 256 := by
  unfold bpf_htonl
  have h0 : x % 256 < 256 := Nat.mod_lt _ (by decide)
  have h1 : x / 256 % 256 < 256 := Nat.mod_lt _ (by decide)
  have h2 : x / 65536 % 256 < 256 := Nat.mod_lt _ (by decide)
  have h3 : x / 16777216 % 256 < 256 := Nat.mod_lt _ (by decide)
  generalize x % 256 = b0 at *
  generalize x / 256 % 256 = b1 at *
  generalize x / 65536 % 256 = b2 at *
  generalize x / 16777216 % 256 = b3 at *
  refine ⟨?_, ?_, ?_, ?_⟩ <;> omega

theorem bpf_ntohl_bytes (a b c d : Nat) (ha : a < 256) (hb : b < 256) (hc : c < 256)
    (hd : d < 256) :
    bpf_ntohl (a + 256 * b + 65536 * c + 16777216 * d) =
      d + 256 * c + 65536 * b + 16777216 * a := by
  unfold bpf_ntohl
  omega

theorem mss_word (x : Nat) (hx : x < 65536) :
    (TCPOPT_MSS <<< 24) ||| (TCPOLEN_MSS <<< 16) ||| x = 33816576 + x := by
  have e : (TCPOPT_MSS <<< 24) ||| (TCPOLEN_MSS <<< 16) = 2 ^ 16 * 516 := by decide
  rw [e, ← Nat.mul_add_lt_is_or hx]

/-- The option block written by `tcp_mkoptions`: the packet keeps its
length, nothing below `buf` changes, the first word is the MSS option and
1, 4 or 5 words are written. -/
theorem tcp_mkoptions_spec (m : List u8) (buf : Nat) (tsopt : Option (Nat × Nat))
    (mss wscale : Nat) (hlen : buf + 20 ≤ m.length) :
    (tcp_mkoptions m buf tsopt mss wscale).1.length = m.length ∧
    (∀ q, q < buf → ld8 (tcp_mkoptions m buf tsopt mss wscale).1 q = ld8 m q) ∧
    ld8 (tcp_mkoptions m buf tsopt mss wscale).1 buf = TCPOPT_MSS ∧
    ld8 (tcp_mkoptions m buf tsopt mss wscale).1 (buf + 1) = TCPOLEN_MSS ∧
    ld8 (tcp_mkoptions m buf tsopt mss wscale).1 (buf + 2) = mss % 65536 / 256 ∧
    ld8 (tcp_mkoptions m buf tsopt mss wscale).1 (buf + 3) = mss % 256 ∧
    ((tcp_mkoptions m buf tsopt mss wscale).2 = 1 ∨
      (tcp_mkoptions m buf tsopt mss wscale).2 = 4 ∨
      (tcp_mkoptions m buf tsopt mss wscale).2 = 5) := by
  have hlt : ∀ p, p < 20 → buf + p < m.length := fun p hp => by omega
  have h0 : buf < m.length := by omega
  have hw := mss_word (mss % 65536) (Nat.mod_lt _ (by decide))
  obtain ⟨w0, w1, w2, w3⟩ := bpf_htonl_bytes (33816576 + mss % 65536)
  have v0 : (33816576 + mss % 65536) / 16777216 % 256 = 2 := by omega
  have v1 : (33816576 + mss % 65536) / 65536 % 256 = 4 := by omega
  have v2 : (33816576 + mss % 65536) / 256 % 256 = mss % 65536 / 256 := by omega
  have v3 : (33816576 + mss % 65536) % 256 = mss % 256 := by omega
  have frame : ∀ q, q < buf → ∀ k, ¬ (q = buf + k) := fun q hq k => by omega
  unfold tcp_mkoptions
  simp only [hw]
  cases tsopt with
  | none =>
    refine ⟨by simp, ?_, ?_, ?_, ?_, ?_, ?_⟩
    · intro q hq
      have := frame q hq
      have h00 : ¬ (q = buf) := by omega
      simp [ld8_st32, this, h00]
    · simp [ld8_st32, h0, w0, v0, TCPOPT_MSS]
    · simp [ld8_st32, hlt, w1, v1, TCPOLEN_MSS]
    · simp [ld8_st32, hlt, w2, v2]
    · simp [ld8_st32, hlt, w3, v3]
    · left
      simp
  | some t =>
    simp only
    split_ifs <;>
    · refine ⟨by simp, ?_, ?_, ?_, ?_, ?_, ?_⟩
      · intro q hq
        have := frame q hq
        have h00 : ¬ (q = buf) := by omega
        simp [ld8_st32, this, h00, Nat.add_assoc]
      · simp [ld8_st32, h0, w0, v0, TCPOPT_MSS, Nat.add_assoc]
      · simp [ld8_st32, hlt, w1, v1, TCPOLEN_MSS, Nat.add_assoc]
      · simp [ld8_st32, hlt, w2, v2, Nat.add_assoc]
      · simp [ld8_st32, hlt, w3, v3, Nat.add_assoc]
      · first
          | (right; left; simp only []; omega)
          | (right; right; simp only []; omega)

theorem flag_words : TCP_FLAG_SYN ||| TCP_FLAG_ACK = 4608 ∧ TCP_FLAG_ECE = 16384 := by decide

theorem tcp_mkoptions_count (m : List u8) (buf : Nat) (tsopt : Option (Nat × Nat))
    (mss wscale : Nat) :
    (tcp_mkoptions m buf tsopt mss wscale).2 =
      (match tsopt with
        | none => 1
        | some t => if t.1 &&& bpf_htonl 0xf ≠ bpf_htonl 0xf then 5 else 4) := by
  unfold tcp_mkoptions
  cases tsopt with
  | none => simp only []; omega
  | some t =>
    simp only []
    split_ifs <;> simp only [] <;> omega

set_option maxHeartbeats 4000000 in
/-- The TCP header written by `tcp_gen_synack`, byte by byte. -/
theorem tcp_gen_synack_spec (m : List u8) (tcp cookie : Nat) (tsopt : Option (Nat × Nat))
    (mss wscale : Nat) (hlen : tcp + 40 ≤ m.length) :
    (tcp_gen_synack m tcp cookie tsopt mss wscale).length = m.length ∧
    (∀ q, q < tcp → ld8 (tcp_gen_synack m tcp cookie tsopt mss wscale) q = ld8 m q) ∧
    (ld8 (tcp_gen_synack m tcp cookie tsopt mss wscale) tcp = ld8 m (tcp + 2) ∧
      ld8 (tcp_gen_synack m tcp cookie tsopt mss wscale) (tcp + 1) = ld8 m (tcp + 3) ∧
      ld8 (tcp_gen_synack m tcp cookie tsopt mss wscale) (tcp + 2) = ld8 m tcp ∧
      ld8 (tcp_gen_synack m tcp cookie tsopt mss wscale) (tcp + 3) = ld8 m (tcp + 1)) ∧
    (ld8 (tcp_gen_synack m tcp cookie tsopt mss wscale) (tcp + 4) =
        cookie % 4294967296 / 16777216 % 256 ∧
      ld8 (tcp_gen_synack m tcp cookie tsopt mss wscale) (tcp + 5) =
        cookie % 4294967296 / 65536 % 256 ∧
      ld8 (tcp_gen_synack m tcp cookie tsopt mss wscale) (tcp + 6) =
        cookie % 4294967296 / 256 % 256 ∧
      ld8 (tcp_gen_synack m tcp cookie tsopt mss wscale) (tcp + 7) =
        cookie % 4294967296 % 256) ∧
    (ld8 (tcp_gen_synack m tcp cookie tsopt mss wscale) (tcp + 8) =
        (bpf_ntohl (ld32 m (tcp + 4)) + 1) % 4294967296 / 16777216 % 256 ∧
      ld8 (tcp_gen_synack m tcp cookie tsopt mss wscale) (tcp + 9) =
        (bpf_ntohl (ld32 m (tcp + 4)) + 1) % 4294967296 / 65536 % 256 ∧
      ld8 (tcp_gen_synack m tcp cookie tsopt mss wscale) (tcp + 10) =
        (bpf_ntohl (ld32 m (tcp + 4)) + 1) % 4294967296 / 256 % 256 ∧
      ld8 (tcp_gen_synack m tcp cookie tsopt mss wscale) (tcp + 11) =
        (bpf_ntohl (ld32 m (tcp + 4)) + 1) % 4294967296 % 256) ∧
    ld8 (tcp_gen_synack m tcp cookie tsopt mss wscale) (tcp + 13) =
      (match tsopt with
        | some t => if t.1 &&& bpf_htonl (1 <<< 5) ≠ 0 then 0x52 else 0x12
        | none => 0x12) ∧
    (ld8 (tcp_gen_synack m tcp cookie tsopt mss wscale) (tcp + 14) = 0 ∧
      ld8 (tcp_gen_synack m tcp cookie tsopt mss wscale) (tcp + 15) = 0) ∧
    (ld8 (tcp_gen_synack m tcp cookie tsopt mss wscale) (tcp + 20) = TCPOPT_MSS ∧
      ld8 (tcp_gen_synack m tcp cookie tsopt mss wscale) (tcp + 21) = TCPOLEN_MSS ∧
      ld8 (tcp_gen_synack m tcp cookie tsopt mss wscale) (tcp + 22) = mss % 65536 / 256 ∧
      ld8 (tcp_gen_synack m tcp cookie tsopt mss wscale) (tcp + 23) = mss % 256) ∧
    (tcphdr_doff (tcp_gen_synack m tcp cookie tsopt mss wscale) tcp = 6 ∨
      tcphdr_doff (tcp_gen_synack m tcp cookie tsopt mss wscale) tcp = 9 ∨
      tcphdr_doff (tcp_gen_synack m tcp cookie tsopt mss wscale) tcp = 10) := by
  have hlt : ∀ p, p < 40 → tcp + p < m.length := fun p hp => by omega
  have h0 : tcp < m.length := by omega
  have hb0 : ∀ x, bpf_htonl x % 256 = x / 16777216 % 256 := fun x => (bpf_htonl_bytes x).1
  have hb1 : ∀ x, bpf_htonl x / 256 % 256 = x / 65536 % 256 := fun x => (bpf_htonl_bytes x).2.1
  have hb2 : ∀ x, bpf_htonl x / 65536 % 256 = x / 256 % 256 := fun x => (bpf_htonl_bytes x).2.2.1
  have hb3 : ∀ x, bpf_htonl x / 16777216 % 256 = x % 256 := fun x => (bpf_htonl_bytes x).2.2.2
  have frame : ∀ q, q < tcp → ∀ k, ¬ (q = tcp + k) := fun q hq k => by omega
  have frame0 : ∀ q, q < tcp → ¬ (q = tcp) := fun q hq => by omega
  have frame1 : ∀ q, q < tcp → q < tcp + 20 := fun q hq => by omega
  obtain ⟨f1, f2⟩ := flag_words
  have l0 := ld8_lt m tcp
  have l1 := ld8_lt m (tcp + 1)
  have l2 := ld8_lt m (tcp + 2)
  have l3 := ld8_lt m (tcp + 3)
  have mk_len : ∀ mA : List u8, tcp + 40 ≤ mA.length →
      (tcp_mkoptions mA (tcp + 20) tsopt mss wscale).1.length = mA.length :=
    fun mA h => (tcp_mkoptions_spec mA (tcp + 20) tsopt mss wscale (by omega)).1
  have mk_frame : ∀ (mA : List u8) (q : Nat), tcp + 40 ≤ mA.length → q < tcp + 20 →
      ld8 (tcp_mkoptions mA (tcp + 20) tsopt mss wscale).1 q = ld8 mA q :=
    fun mA q h hq => (tcp_mkoptions_spec mA (tcp + 20) tsopt mss wscale (by omega)).2.1 q hq
  have mk_0 : ∀ mA : List u8, tcp + 40 ≤ mA.length →
      ld8 (tcp_mkoptions mA (tcp + 20) tsopt mss wscale).1 (tcp + 20) = TCPOPT_MSS :=
    fun mA h => (tcp_mkoptions_spec mA (tcp + 20) tsopt mss wscale (by omega)).2.2.1
  have mk_1 : ∀ mA : List u8, tcp + 40 ≤ mA.length →
      ld8 (tcp_mkoptions mA (tcp + 20) tsopt mss wscale).1 (tcp + 21) = TCPOLEN_MSS :=
    fun mA h => (tcp_mkoptions_spec mA (tcp + 20) tsopt mss wscale (by omega)).2.2.2.1
  have mk_2 : ∀ mA : List u8, tcp + 40 ≤ mA.length →
      ld8 (tcp_mkoptions mA (tcp + 20) tsopt mss wscale).1 (tcp + 22) = mss % 65536 / 256 :=
    fun mA h => (tcp_mkoptions_spec mA (tcp + 20) tsopt mss wscale (by omega)).2.2.2.2.1
  have mk_3 : ∀ mA : List u8, tcp + 40 ≤ mA.length →
      ld8 (tcp_mkoptions mA (tcp + 20) tsopt mss wscale).1 (tcp + 23) = mss % 256 :=
    fun mA h => (tcp_mkoptions_spec mA (tcp + 20) tsopt mss wscale (by omega)).2.2.2.2.2.1
  have mk_n := fun mA : List u8 => tcp_mkoptions_count mA (tcp + 20) tsopt mss wscale
  unfold tcp_gen_synack tcphdr_set_doff tcphdr_source tcphdr_dest tcphdr_seq
    tcphdr_doff ld32 ld16
  simp only [f1, f2, sizeof_tcphdr, mk_n]
  cases tsopt with
  | none =>
    simp only
    refine ⟨?_, ?_, ⟨?_, ?_, ?_, ?_⟩, ⟨?_, ?_, ?_, ?_⟩, ⟨?_, ?_, ?_, ?_⟩, ?_, ⟨?_, ?_⟩,
      ⟨?_, ?_, ?_, ?_⟩, ?_⟩
    · simp [mk_len, hlen]
    · intro q hq
      have := frame q hq
      have := frame0 q hq
      have := frame1 q hq
      simp [ld8_st8, ld8_st16, ld8_st32, mk_len, mk_frame, hlen, *, Nat.add_assoc]
    all_goals
      (simp [ld8_st8, ld8_st16, ld8_st32, hlt, h0, hb0, hb1, hb2, hb3, mk_len, mk_frame, mk_0,
        mk_1, mk_2, mk_3, hlen, Nat.add_assoc] <;> omega)
  | some t =>
    by_cases e : t.1 &&& bpf_htonl 32 = 0 <;>
    by_cases w : t.1 &&& bpf_htonl 15 = bpf_htonl 15 <;>
    · simp only [e, w, if_true, if_false, ne_eq, not_true_eq_false, not_false_eq_true,
        Nat.reduceShiftLeft]
      refine ⟨?_, ?_, ⟨?_, ?_, ?_, ?_⟩, ⟨?_, ?_, ?_, ?_⟩, ⟨?_, ?_, ?_, ?_⟩, ?_, ⟨?_, ?_⟩,
        ⟨?_, ?_, ?_, ?_⟩, ?_⟩
      · simp [mk_len, hlen]
      · intro q hq
        have := frame q hq
        have := frame0 q hq
        have := frame1 q hq
        simp [ld8_st8, ld8_st16, ld8_st32, mk_len, mk_frame, hlen, *, Nat.add_assoc]
      all_goals
        (simp [ld8_st8, ld8_st16, ld8_st32, hlt, h0, hb0, hb1, hb2, hb3, mk_len, mk_frame, mk_0,
          mk_1, mk_2, mk_3, hlen, Nat.add_assoc] <;> omega)

set_option maxHeartbeats 4000000 in
/-- The frame written by `tcpv4_gen_synack` when the TCP header follows an
IPv4 header without options (Ethernet header at 0, IPv4 header at 14, TCP
header at 34), byte by byte. -/
theorem tcpv4_gen_synack_spec (values : List Nat) (m : List u8) (tl cookie : Nat)
    (tsopt : Option (Nat × Nat)) (hlen : 74 ≤ m.length) :
    (tcpv4_gen_synack values m ⟨0, some 14, none, 34, tl⟩ 14 cookie tsopt).2 =
      ⟨0, some 14, none, 34,
        tcphdr_doff (tcpv4_gen_synack values m ⟨0, some 14, none, 34, tl⟩ 14 cookie tsopt).1 34
          * 4⟩ ∧
    (tcpv4_gen_synack values m ⟨0, some 14, none, 34, tl⟩ 14 cookie tsopt).1.length = m.length ∧
    (∀ k, k < 6 →
      ld8 (tcpv4_gen_synack values m ⟨0, some 14, none, 34, tl⟩ 14 cookie tsopt).1 k =
        ld8 m (6 + k) ∧
      ld8 (tcpv4_gen_synack values m ⟨0, some 14, none, 34, tl⟩ 14 cookie tsopt).1 (6 + k) =
        ld8 m k) ∧
    (∀ k, k < 4 →
      ld8 (tcpv4_gen_synack values m ⟨0, some 14, none, 34, tl⟩ 14 cookie tsopt).1 (26 + k) =
        ld8 m (30 + k) ∧
      ld8 (tcpv4_gen_synack values m ⟨0, some 14, none, 34, tl⟩ 14 cookie tsopt).1 (30 + k) =
        ld8 m (26 + k)) ∧
    (∀ q, 34 ≤ q →
      ld8 (tcpv4_gen_synack values m ⟨0, some 14, none, 34, tl⟩ 14 cookie tsopt).1 q =
        ld8 (tcp_gen_synack
          (st8 (st16 (st8 (st16 (st32 (st32 (swap_eth_addr m 6 0) 26
            (iphdr_daddr (swap_eth_addr m 6 0) 14)) 30 (iphdr_saddr (swap_eth_addr m 6 0) 14))
            24 0) 15 0) 18 0) 22 (values_get_tcpipopts values false).2.2)
          34 cookie tsopt (values_get_tcpipopts values false).1
          (values_get_tcpipopts values false).2.1) q) ∧
    (∀ q, 34 ≤ q →
      ld8 (st8 (st16 (st8 (st16 (st32 (st32 (swap_eth_addr m 6 0) 26
            (iphdr_daddr (swap_eth_addr m 6 0) 14)) 30 (iphdr_saddr (swap_eth_addr m 6 0) 14))
            24 0) 15 0) 18 0) 22 (values_get_tcpipopts values false).2.2) q = ld8 m q) ∧
    (st8 (st16 (st8 (st16 (st32 (st32 (swap_eth_addr m 6 0) 26
            (iphdr_daddr (swap_eth_addr m 6 0) 14)) 30 (iphdr_saddr (swap_eth_addr m 6 0) 14))
            24 0) 15 0) 18 0) 22 (values_get_tcpipopts values false).2.2).length = m.length := by
  have hlt : ∀ p, p < 74 → p < m.length := fun p hp => by omega
  have len_swap : ∀ x : List u8, (swap_eth_addr x 6 0).length = x.length := by
    intro x; simp [swap_eth_addr]
  have swap_b : ∀ q, ld8 (swap_eth_addr m 6 0) q =
      if q < 6 then ld8 m (6 + q) else if q < 12 then ld8 m (q - 6) else ld8 m q := by
    intro q
    unfold swap_eth_addr ETH_ALEN
    rw [ld8_memcpy _ _ _ _ _ _ (by rw [length_memcpy]; omega), ld8_memcpy _ _ _ _ _ _ (by omega)]
    by_cases c1 : q < 6
    · have : (0 ≤ q ∧ q < 0 + 6) := by omega
      simp [c1, this]
    · by_cases c2 : q < 12
      · have : ¬ (0 ≤ q ∧ q < 0 + 6) := by omega
        have : (6 ≤ q ∧ q < 6 + 6) := by omega
        simp [c1, c2, *]
      · have : ¬ (0 ≤ q ∧ q < 0 + 6) := by omega
        have : ¬ (6 ≤ q ∧ q < 6 + 6) := by omega
        simp [c1, c2, *]
  have glen : ∀ mA : List u8, 74 ≤ mA.length →
      (tcp_gen_synack mA 34 cookie tsopt (values_get_tcpipopts values false).1
        (values_get_tcpipopts values false).2.1).length = mA.length :=
    fun mA h => (tcp_gen_synack_spec mA 34 cookie tsopt _ _ (by omega)).1
  have gframe : ∀ (mA : List u8) (q : Nat), 74 ≤ mA.length → q < 34 →
      ld8 (tcp_gen_synack mA 34 cookie tsopt (values_get_tcpipopts values false).1
        (values_get_tcpipopts values false).2.1) q = ld8 mA q :=
    fun mA q h hq => (tcp_gen_synack_spec mA 34 cookie tsopt _ _ (by omega)).2.1 q hq
  unfold tcpv4_gen_synack
  simp only [Nat.zero_add, sizeof_iphdr]
  simp only [Nat.reduceAdd]
  refine ⟨?_, ?_, ?_, ?_, ?_, ?_, ?_⟩
  · simp [tcphdr_doff, ld8_st16]
  · simp [glen, hlen, len_swap]
  · intro k hk
    have hk1 : k < 34 := by omega
    have hk2 : 6 + k < 34 := by omega
    have n1 : ∀ j, 14 ≤ j → ¬ (k = j) := fun j hj => by omega
    have n2 : ∀ j, 14 ≤ j → ¬ (6 + k = j) := fun j hj => by omega
    have c1 : ¬ (6 + k < 6) := by omega
    have c2 : 6 + k < 12 := by omega
    simp [ld8_st8, ld8_st16, ld8_st32, glen, gframe, hlen, len_swap, swap_b, hk, hk1, hk2, n1,
      n2, c1, c2]
  · intro k hk
    interval_cases k <;>
      simp [ld8_st8, ld8_st16, ld8_st32, glen, gframe, hlen, len_swap, swap_b, hlt, iphdr_saddr,
        iphdr_daddr, ld32, ld8_lt, Nat.mod_eq_of_lt] <;>
      (have b26 := ld8_lt m 26; have b27 := ld8_lt m 27; have b28 := ld8_lt m 28
       have b29 := ld8_lt m 29; have b30 := ld8_lt m 30; have b31 := ld8_lt m 31
       have b32 := ld8_lt m 32; have b33 := ld8_lt m 33; omega)
  · intro q hq
    have n1 : ¬ (q = 16) := by omega
    have n2 : ¬ (q = 17) := by omega
    simp [ld8_st16, n1, n2]
  · intro q hq
    have n1 : ∀ j, j < 34 → ¬ (q = j) := fun j hj => by omega
    have c1 : ¬ (q < 6) := by omega
    have c2 : ¬ (q < 12) := by omega
    simp [ld8_st8, ld8_st16, ld8_st32, swap_b, n1, c1, c2]
  · simp [len_swap]

/-- The TCP header of the frame written by `tcpv4_gen_synack`, in terms of
the frame it was given. -/
theorem tcpv4_gen_synack_tcp (values : List Nat) (m : List u8) (tl cookie : Nat)
    (tsopt : Option (Nat × Nat)) (hlen : 74 ≤ m.length) :
    (ld8 (tcpv4_gen_synack values m ⟨0, some 14, none, 34, tl⟩ 14 cookie tsopt).1 34 = ld8 m 36 ∧
      ld8 (tcpv4_gen_synack values m ⟨0, some 14, none, 34, tl⟩ 14 cookie tsopt).1 35 = ld8 m 37 ∧
      ld8 (tcpv4_gen_synack values m ⟨0, some 14, none, 34, tl⟩ 14 cookie tsopt).1 36 = ld8 m 34 ∧
      ld8 (tcpv4_gen_synack values m ⟨0, some 14, none, 34, tl⟩ 14 cookie tsopt).1 37 = ld8 m 35) ∧
    (ld8 (tcpv4_gen_synack values m ⟨0, some 14, none, 34, tl⟩ 14 cookie tsopt).1 38 =
        cookie % 4294967296 / 16777216 % 256 ∧
      ld8 (tcpv4_gen_synack values m ⟨0, some 14, none, 34, tl⟩ 14 cookie tsopt).1 39 =
        cookie % 4294967296 / 65536 % 256 ∧
      ld8 (tcpv4_gen_synack values m ⟨0, some 14, none, 34, tl⟩ 14 cookie tsopt).1 40 =
        cookie % 4294967296 / 256 % 256 ∧
      ld8 (tcpv4_gen_synack values m ⟨0, some 14, none, 34, tl⟩ 14 cookie tsopt).1 41 =
        cookie % 4294967296 % 256) ∧
    (ld8 (tcpv4_gen_synack values m ⟨0, some 14, none, 34, tl⟩ 14 cookie tsopt).1 42 =
        (bpf_ntohl (ld32 m 38) + 1) % 4294967296 / 16777216 % 256 ∧
      ld8 (tcpv4_gen_synack values m ⟨0, some 14, none, 34, tl⟩ 14 cookie tsopt).1 43 =
        (bpf_ntohl (ld32 m 38) + 1) % 4294967296 / 65536 % 256 ∧
      ld8 (tcpv4_gen_synack values m ⟨0, some 14, none, 34, tl⟩ 14 cookie tsopt).1 44 =
        (bpf_ntohl (ld32 m 38) + 1) % 4294967296 / 256 % 256 ∧
      ld8 (tcpv4_gen_synack values m ⟨0, some 14, none, 34, tl⟩ 14 cookie tsopt).1 45 =
        (bpf_ntohl (ld32 m 38) + 1) % 4294967296 % 256) ∧
    ld8 (tcpv4_gen_synack values m ⟨0, some 14, none, 34, tl⟩ 14 cookie tsopt).1 47 =
      (match tsopt with
        | some t => if t.1 &&& bpf_htonl (1 <<< 5) ≠ 0 then 0x52 else 0x12
        | none => 0x12) ∧
    (ld8 (tcpv4_gen_synack values m ⟨0, some 14, none, 34, tl⟩ 14 cookie tsopt).1 48 = 0 ∧
      ld8 (tcpv4_gen_synack values m ⟨0, some 14, none, 34, tl⟩ 14 cookie tsopt).1 49 = 0) ∧
    (ld8 (tcpv4_gen_synack values m ⟨0, some 14, none, 34, tl⟩ 14 cookie tsopt).1 54 =
        TCPOPT_MSS ∧
      ld8 (tcpv4_gen_synack values m ⟨0, some 14, none, 34, tl⟩ 14 cookie tsopt).1 55 =
        TCPOLEN_MSS ∧
      ld8 (tcpv4_gen_synack values m ⟨0, some 14, none, 34, tl⟩ 14 cookie tsopt).1 56 =
        (values_get_tcpipopts values false).1 % 65536 / 256 ∧
      ld8 (tcpv4_gen_synack values m ⟨0, some 14, none, 34, tl⟩ 14 cookie tsopt).1 57 =
        (values_get_tcpipopts values false).1 % 256) ∧
    (tcphdr_doff (tcpv4_gen_synack values m ⟨0, some 14, none, 34, tl⟩ 14 cookie tsopt).1 34 = 6 ∨
      tcphdr_doff (tcpv4_gen_synack values m ⟨0, some 14, none, 34, tl⟩ 14 cookie tsopt).1 34 = 9 ∨
      tcphdr_doff (tcpv4_gen_synack values m ⟨0, some 14, none, 34, tl⟩ 14 cookie tsopt).1 34 =
        10) := by
  obtain ⟨-, -, -, -, hG, hM, hML⟩ := tcpv4_gen_synack_spec values m tl cookie tsopt hlen
  obtain ⟨-, -, ⟨p0, p1, p2, p3⟩, ⟨s0, s1, s2, s3⟩, ⟨a0, a1, a2, a3⟩, fl, ⟨w0, w1⟩,
    ⟨o0, o1, o2, o3⟩, hdoff⟩ := tcp_gen_synack_spec _ 34 cookie tsopt
      (values_get_tcpipopts values false).1 (values_get_tcpipopts values false).2.1
      (by rw [hML]; omega)
  have e38 := ld32_congr _ m 38 (fun i h1 h2 => hM i (by omega))
  simp only [Nat.reduceAdd] at p0 p1 p2 p3 s0 s1 s2 s3 a0 a1 a2 a3 fl w0 w1 o0 o1 o2 o3 e38
  rw [e38] at a0 a1 a2 a3
  rw [hM 36 (by omega)] at p0
  rw [hM 37 (by omega)] at p1
  rw [hM 34 (by omega)] at p2
  rw [hM 35 (by omega)] at p3
  refine ⟨⟨?_, ?_, ?_, ?_⟩, ⟨?_, ?_, ?_, ?_⟩, ⟨?_, ?_, ?_, ?_⟩, ?_, ⟨?_, ?_⟩, ⟨?_, ?_, ?_, ?_⟩,
    ?_⟩
  · rw [hG 34 (by omega)]; exact p0
  · rw [hG 35 (by omega)]; exact p1
  · rw [hG 36 (by omega)]; exact p2
  · rw [hG 37 (by omega)]; exact p3
  · rw [hG 38 (by omega)]; exact s0
  · rw [hG 39 (by omega)]; exact s1
  · rw [hG 40 (by omega)]; exact s2
  · rw [hG 41 (by omega)]; exact s3
  · rw [hG 42 (by omega)]; exact a0
  · rw [hG 43 (by omega)]; exact a1
  · rw [hG 44 (by omega)]; exact a2
  · rw [hG 45 (by omega)]; exact a3
  · rw [hG 47 (by omega)]; exact fl
  · rw [hG 48 (by omega)]; exact w0
  · rw [hG 49 (by omega)]; exact w1
  · rw [hG 54 (by omega)]; exact o0
  · rw [hG 55 (by omega)]; exact o1
  · rw [hG 56 (by omega)]; exact o2
  · rw [hG 57 (by omega)]; exact o3
  · unfold tcphdr_doff at hdoff ⊢
    simp only [Nat.reduceAdd] at hdoff ⊢
    rw [hG 46 (by omega)]
    exact hdoff

/-- The 32-bit size difference of lines 574-576, read as an `int`, never
cuts the packet below its new size. -/
theorem resize_len (L new : Nat) (hnew : new < 2147483648) :
    new ≤ ((L : Int) +
      (if (new % 4294967296 + 4294967296 - L % 4294967296) % 4294967296 < 2147483648 then
        (((new % 4294967296 + 4294967296 - L % 4294967296) % 4294967296 : Nat) : Int)
      else (((new % 4294967296 + 4294967296 - L % 4294967296) % 4294967296 : Nat) : Int) -
        4294967296)).toNat := by
  have h1 : new % 4294967296 = new := Nat.mod_eq_of_lt (by omega)
  rw [h1]
  have h2 := Nat.mod_lt L (by decide : 4294967296 > 0)
  have h3 := Nat.mod_le L 4294967296
  generalize L % 4294967296 = old at *
  by_cases c : old ≤ new
  · have e : (new + 4294967296 - old) % 4294967296 = new - old := by omega
    rw [e]
    split_ifs <;> omega
  · have e : (new + 4294967296 - old) % 4294967296 = new + 4294967296 - old := by omega
    rw [e]
    split_ifs <;> omega

/-- The end of the SYN handler for IPv4 (lines 546-581) when the kernel grants
the resize to the size of the SYN-ACK: the verdict is `XDP_TX`, the counter
is incremented, and every byte of the new frame outside the two checksum
fields is the byte the synthesis left there. -/
theorem syncookie_handle_syn_csum_v4 (env : Env) (st : xdp_state) (tl : Nat)
    (htl : tl % 4 = 0) (htl2 : tl ≤ 60)
    (hshrink : env.adjust_tail_ret st.pkt.length
      (pkt_size_delta st.pkt.length (14 + 20 + tcphdr_doff st.pkt 34 * 4)) = 0) :
    ∃ out calls,
      syncookie_handle_syn_csum env ⟨0, some 14, none, 34, tl⟩ st sizeof_iphdr 0 st.pkt.length =
        (XDP_TX, ⟨out, values_inc_synacks st.values, st.allowed_ports, calls⟩) ∧
      ∀ q, q < 34 + tcphdr_doff st.pkt 34 * 4 → q < st.pkt.length →
        q ≠ 24 → q ≠ 25 → q ≠ 50 → q ≠ 51 → ld8 out q = ld8 st.pkt q := by
  have n1 := bpf_csum_diff_nonneg (st16 st.pkt (34 + 16) 0) 34 tl htl (by omega)
  have hd := tcphdr_doff_le st.pkt 34
  unfold syncookie_handle_syn_csum
  simp only [n1, if_false]
  generalize hX : csum_tcpudp_magic _ _ _ _ _ = X
  have n2 := bpf_csum_diff_nonneg (st16 (st16 (st16 st.pkt (34 + 16) 0) (34 + 16) X) (14 + 10) 0)
    14 sizeof_iphdr (by decide) (by decide)
  simp only [n2, if_false]
  generalize hY : csum_fold _ = Y
  unfold syncookie_handle_syn_resize bpf_xdp_adjust_tail
  have hdo : tcphdr_doff (st16 (st16 (st16 (st16 st.pkt (34 + 16) 0) (34 + 16) X) (14 + 10) 0)
      (14 + 10) Y) 34 = tcphdr_doff st.pkt 34 := by
    simp [tcphdr_doff, ld8_st16]
  unfold pkt_size_delta at hshrink
  simp only [Nat.mod_mod] at hshrink
  simp only [length_st16, hdo, sizeof_ethhdr, sizeof_iphdr, Nat.sub_zero, Nat.mod_mod]
  simp only [hshrink, ne_eq, not_true_eq_false, if_false]
  refine ⟨_, _, rfl, ?_⟩
  intro q h1 h2 h3 h4 h5 h6
  have hl := resize_len st.pkt.length (14 + 20 + tcphdr_doff st.pkt 34 * 4) (by omega)
  have h1b : q < 14 + 20 + tcphdr_doff st.pkt 34 * 4 := by omega
  rw [ld8_resize_tail _ _ _ _ (by simp; exact h2) (Nat.lt_of_lt_of_le h1b hl)]
  simp [ld8_st16, h3, h4, h5, h6]

/-- The option scan reads only bytes below the declared end of the TCP
header, and a bound at or beyond that end is never violated: two memories
that agree below `end_`, with two such bounds, give the same scan. -/
theorem cookie_scan_congr (m m' : List u8) (end_ de de' : Nat) (hde : end_ ≤ de)
    (hde' : end_ ≤ de') (hag : ∀ i, i < end_ → ld8 m i = ld8 m' i) (n : Nat) :
    ∀ ptr s, cookie_scan m end_ de n ptr s = cookie_scan m' end_ de' n ptr s := by
  induction n with
  | zero => intro ptr s; rfl
  | succ n ih =>
    intro ptr s
    rw [cookie_scan, cookie_scan]
    by_cases c1 : ptr ≥ end_
    · simp only [c1, if_true]
    have d1 : ¬ (ptr + 1 > de) := by omega
    have d1' : ¬ (ptr + 1 > de') := by omega
    have e0 : ld8 m ptr = ld8 m' ptr := hag _ (by omega)
    simp only [c1, d1, d1', if_false, e0, ih]
    by_cases c2 : ld8 m' ptr = TCPOPT_EOL
    · simp only [c2, if_true]
    by_cases c3 : ld8 m' ptr = TCPOPT_NOP
    · simp only [c2, c3, if_true, if_false]
    by_cases c4 : ptr + 1 ≥ end_
    · simp only [c2, c3, c4, if_true, if_false]
    have d2 : ¬ (ptr + 2 > de) := by omega
    have d2' : ¬ (ptr + 2 > de') := by omega
    have e1 : ld8 m (ptr + 1) = ld8 m' (ptr + 1) := hag _ (by omega)
    simp only [c2, c3, c4, d2, d2', if_false, e1]
    by_cases c5 : ld8 m' (ptr + 1) < 2
    · simp only [c5, if_true]
    by_cases c6 : ptr + ld8 m' (ptr + 1) > end_
    · simp only [c5, c6, if_true, if_false]
    simp only [c5, c6, if_false]
    by_cases c7 : ld8 m' ptr = TCPOPT_WINDOW
    · simp only [c7, if_true]
      by_cases c8 : ld8 m' (ptr + 1) = TCPOLEN_WINDOW
      · have d3 : ¬ (ptr + TCPOLEN_WINDOW > de) := by rw [c8] at c6; omega
        have d3' : ¬ (ptr + TCPOLEN_WINDOW > de') := by rw [c8] at c6; omega
        have e2 : ld8 m (ptr + 2) = ld8 m' (ptr + 2) :=
          hag _ (by rw [c8] at c6; simp only [TCPOLEN_WINDOW] at c6; omega)
        simp only [c8, d3, d3', if_true, if_false, e2]
      · simp only [c8, if_false]
    by_cases c9 : ld8 m' ptr = TCPOPT_TIMESTAMP
    · have k1 : ¬ (TCPOPT_TIMESTAMP = TCPOPT_WINDOW) := by decide
      simp only [c9, k1, if_true, if_false]
      by_cases c8 : ld8 m' (ptr + 1) = TCPOLEN_TIMESTAMP
      · have d3 : ¬ (ptr + TCPOLEN_TIMESTAMP > de) := by rw [c8] at c6; omega
        have d3' : ¬ (ptr + TCPOLEN_TIMESTAMP > de') := by rw [c8] at c6; omega
        have e2 : ld32 m (ptr + 2) = ld32 m' (ptr + 2) :=
          ld32_congr _ _ _ (fun i h1 h2 => hag i
            (by rw [c8] at c6; simp only [TCPOLEN_TIMESTAMP] at c6; omega))
        simp only [c8, d3, d3', if_true, if_false, e2]
      · simp only [c8, if_false]
    simp only [c7, c9, if_false]

theorem cookie_init_timestamp_raw_congr (env : Env) (m m' : List u8)
    (tcp_header tcp_len de de' : Nat) (hde : tcp_header + tcp_len ≤ de)
    (hde' : tcp_header + tcp_len ≤ de') (htl : 20 ≤ tcp_len)
    (hag : ∀ i, i < tcp_header + tcp_len → ld8 m i = ld8 m' i) :
    cookie_init_timestamp_raw env m tcp_header tcp_len de =
      cookie_init_timestamp_raw env m' tcp_header tcp_len de' := by
  unfold cookie_init_timestamp_raw
  simp only [cookie_scan_congr m m' _ de de' hde hde' hag, tcphdr_ece, tcphdr_cwr,
    hag (tcp_header + 13) (by omega)]

/-! ## The SYN-ACK that leaves the SYN handler -/

/-- The synthesis leaves the first byte of the IPv4 header (version and
header length) as it finds it. -/
theorem tcpv4_gen_synack_vihl (values : List Nat) (m : List u8) (tl cookie : Nat)
    (tsopt : Option (Nat × Nat)) (hlen : 74 ≤ m.length) :
    ld8 (tcpv4_gen_synack values m ⟨0, some 14, none, 34, tl⟩ 14 cookie tsopt).1 14 =
      ld8 m 14 := by
  have len_swap : ∀ x : List u8, (swap_eth_addr x 6 0).length = x.length := by
    intro x; simp [swap_eth_addr]
  have swap_b : ld8 (swap_eth_addr m 6 0) 14 = ld8 m 14 := by
    unfold swap_eth_addr ETH_ALEN
    rw [ld8_memcpy _ _ _ _ _ _ (by rw [length_memcpy]; omega), ld8_memcpy _ _ _ _ _ _ (by omega),
      if_neg (by omega), if_neg (by omega)]
  have gframe : ∀ (mA : List u8) (q : Nat), 74 ≤ mA.length → q < 34 →
      ld8 (tcp_gen_synack mA 34 cookie tsopt (values_get_tcpipopts values false).1
        (values_get_tcpipopts values false).2.1) q = ld8 mA q :=
    fun mA q h hq => (tcp_gen_synack_spec mA 34 cookie tsopt _ _ (by omega)).2.1 q hq
  unfold tcpv4_gen_synack
  simp only [Nat.zero_add, sizeof_iphdr]
  simp only [Nat.reduceAdd]
  rw [ld8_st16, if_neg (by omega), if_neg (by omega),
    gframe _ 14 (by simp [len_swap]; omega) (by omega)]
  simp [ld8_st8, ld8_st16, ld8_st32, swap_b]

/-- The SYN-ACK that leaves the handler, from the frame `m` the synthesis
starts with (a TCP header at offset 34 behind an IPv4 header without
options) when the kernel grants the resize to the size of the SYN-ACK. -/
theorem synack_frame (env : Env) (values allowed : List Nat) (calls : List helper_call)
    (m : List u8) (tl cookie : Nat) (tsopt : Option (Nat × Nat)) (hlen : 74 ≤ m.length) :
    env.adjust_tail_ret m.length
      (pkt_size_delta m.length (14 + 20 +
        tcphdr_doff (tcpv4_gen_synack values m ⟨0, some 14, none, 34, tl⟩ 14 cookie tsopt).1 34
          * 4)) = 0 →
    ∃ out calls1,
      syncookie_handle_syn_csum env
          (tcpv4_gen_synack values m ⟨0, some 14, none, 34, tl⟩ 14 cookie tsopt).2
          ⟨(tcpv4_gen_synack values m ⟨0, some 14, none, 34, tl⟩ 14 cookie tsopt).1, values,
            allowed, calls⟩ sizeof_iphdr 0 m.length =
        (XDP_TX, ⟨out, values_inc_synacks values, allowed, calls1⟩) ∧
      ld8 out 14 = ld8 m 14 ∧
      (∀ k, k < 6 → ld8 out k = ld8 m (6 + k) ∧ ld8 out (6 + k) = ld8 m k) ∧
      (∀ k, k < 4 → ld8 out (26 + k) = ld8 m (30 + k) ∧ ld8 out (30 + k) = ld8 m (26 + k)) ∧
      (ld8 out 34 = ld8 m 36 ∧ ld8 out 35 = ld8 m 37 ∧ ld8 out 36 = ld8 m 34 ∧
        ld8 out 37 = ld8 m 35) ∧
      (ld8 out 38 = cookie % 4294967296 / 16777216 % 256 ∧
        ld8 out 39 = cookie % 4294967296 / 65536 % 256 ∧
        ld8 out 40 = cookie % 4294967296 / 256 % 256 ∧
        ld8 out 41 = cookie % 4294967296 % 256) ∧
      (ld8 out 42 = (bpf_ntohl (ld32 m 38) + 1) % 4294967296 / 16777216 % 256 ∧
        ld8 out 43 = (bpf_ntohl (ld32 m 38) + 1) % 4294967296 / 65536 % 256 ∧
        ld8 out 44 = (bpf_ntohl (ld32 m 38) + 1) % 4294967296 / 256 % 256 ∧
        ld8 out 45 = (bpf_ntohl (ld32 m 38) + 1) % 4294967296 % 256) ∧
      ld8 out 47 =
        (match tsopt with
          | some t => if t.1 &&& bpf_htonl (1 <<< 5) ≠ 0 then 0x52 else 0x12
          | none => 0x12) ∧
      (ld8 out 48 = 0 ∧ ld8 out 49 = 0) ∧
      (ld8 out 54 = TCPOPT_MSS ∧ ld8 out 55 = TCPOLEN_MSS ∧
        ld8 out 56 = (values_get_tcpipopts values false).1 % 65536 / 256 ∧
        ld8 out 57 = (values_get_tcpipopts values false).1 % 256) := by
  intro hshrink
  obtain ⟨h2, hL, heth, hip, -, -, -⟩ := tcpv4_gen_synack_spec values m tl cookie tsopt hlen
  obtain ⟨⟨p0, p1, p2, p3⟩, ⟨s0, s1, s2, s3⟩, ⟨a0, a1, a2, a3⟩, fl, ⟨w0, w1⟩, ⟨o0, o1, o2, o3⟩,
    hdoff⟩ := tcpv4_gen_synack_tcp values m tl cookie tsopt hlen
  have hd4 : (tcphdr_doff (tcpv4_gen_synack values m ⟨0, some 14, none, 34, tl⟩ 14 cookie
      tsopt).1 34 * 4) % 4 = 0 := by omega
  have hd60 := tcphdr_doff_le (tcpv4_gen_synack values m ⟨0, some 14, none, 34, tl⟩ 14 cookie
      tsopt).1 34
  obtain ⟨out, calls1, hres, hout⟩ := syncookie_handle_syn_csum_v4 env
    ⟨(tcpv4_gen_synack values m ⟨0, some 14, none, 34, tl⟩ 14 cookie tsopt).1, values, allowed,
      calls⟩ _ hd4 hd60 (by simp only [hL]; exact hshrink)
  simp only [hL] at hres hout
  have ho : ∀ q, q < 58 → q ≠ 24 → q ≠ 25 → q ≠ 50 → q ≠ 51 →
      ld8 out q =
        ld8 (tcpv4_gen_synack values m ⟨0, some 14, none, 34, tl⟩ 14 cookie tsopt).1 q :=
    fun q h1 h2 h3 h4 h5 => hout q (by omega) (by omega) h2 h3 h4 h5
  refine ⟨out, calls1, ?_, ?_, ?_, ?_, ⟨?_, ?_, ?_, ?_⟩, ⟨?_, ?_, ?_, ?_⟩, ⟨?_, ?_, ?_, ?_⟩, ?_,
    ⟨?_, ?_⟩, ⟨?_, ?_, ?_, ?_⟩⟩
  · rw [h2]; exact hres
  · rw [ho 14 (by omega) (by omega) (by omega) (by omega) (by omega)]
    exact tcpv4_gen_synack_vihl values m tl cookie tsopt hlen
  · intro k hk
    rw [ho k (by omega) (by omega) (by omega) (by omega) (by omega),
      ho (6 + k) (by omega) (by omega) (by omega) (by omega) (by omega)]
    exact heth k hk
  · intro k hk
    rw [ho (26 + k) (by omega) (by omega) (by omega) (by omega) (by omega),
      ho (30 + k) (by omega) (by omega) (by omega) (by omega) (by omega)]
    exact hip k hk
  · rw [ho 34 (by omega) (by omega) (by omega) (by omega) (by omega)]; exact p0
  · rw [ho 35 (by omega) (by omega) (by omega) (by omega) (by omega)]; exact p1
  · rw [ho 36 (by omega) (by omega) (by omega) (by omega) (by omega)]; exact p2
  · rw [ho 37 (by omega) (by omega) (by omega) (by omega) (by omega)]; exact p3
  · rw [ho 38 (by omega) (by omega) (by omega) (by omega) (by omega)]; exact s0
  · rw [ho 39 (by omega) (by omega) (by omega) (by omega) (by omega)]; exact s1
  · rw [ho 40 (by omega) (by omega) (by omega) (by omega) (by omega)]; exact s2
  · rw [ho 41 (by omega) (by omega) (by omega) (by omega) (by omega)]; exact s3
  · rw [ho 42 (by omega) (by omega) (by omega) (by omega) (by omega)]; exact a0
  · rw [ho 43 (by omega) (by omega) (by omega) (by omega) (by omega)]; exact a1
  · rw [ho 44 (by omega) (by omega) (by omega) (by omega) (by omega)]; exact a2
  · rw [ho 45 (by omega) (by omega) (by omega) (by omega) (by omega)]; exact a3
  · rw [ho 47 (by omega) (by omega) (by omega) (by omega) (by omega)]; exact fl
  · rw [ho 48 (by omega) (by omega) (by omega) (by omega) (by omega)]; exact w0
  · rw [ho 49 (by omega) (by omega) (by omega) (by omega) (by omega)]; exact w1
  · rw [ho 54 (by omega) (by omega) (by omega) (by omega) (by omega)]; exact o0
  · rw [ho 55 (by omega) (by omega) (by omega) (by omega) (by omega)]; exact o1
  · rw [ho 56 (by omega) (by omega) (by omega) (by omega) (by omega)]; exact o2
  · rw [ho 57 (by omega) (by omega) (by omega) (by omega) (by omega)]; exact o3

theorem values_get_tcpipopts_mss_lt (values : List Nat) :
    (values_get_tcpipopts values false).1 < 65536 := by
  unfold values_get_tcpipopts
  have h : ∀ v : Nat, v &&& 0xffff < 65536 := fun v =>
    Nat.lt_of_le_of_lt Nat.and_le_right (by decide)
  cases hv : values[0]? with
  | none => simp [DEFAULT_MSS4]
  | some v =>
    by_cases c : v = 0
    · simp [c, DEFAULT_MSS4]
    · simp only [ne_eq, c, not_false_eq_true, if_true, Bool.false_eq_true, if_false]
      exact h v

/-- The SYN-ACK that leaves the handler, read as header fields, when the
synthesis starts from a frame `m0` that holds below offset 34 the bytes of
`m` (the first byte of the IPv4 header apart) and at offset 34 the fixed
part of the TCP header that `m` has at `tcp`. -/
theorem synack_frame_moved (env : Env) (values allowed : List Nat) (calls : List helper_call)
    (m0 m : List u8) (tcp tl cookie : Nat) (tsopt : Option (Nat × Nat)) (hlen : 74 ≤ m0.length)
    (hlow : ∀ q, q < 34 → q ≠ 14 → ld8 m0 q = ld8 m q)
    (htcp : ∀ k, k < 20 → ld8 m0 (34 + k) = ld8 m (tcp + k)) :
    env.adjust_tail_ret m0.length
      (pkt_size_delta m0.length (14 + 20 +
        tcphdr_doff (tcpv4_gen_synack values m0 ⟨0, some 14, none, 34, tl⟩ 14 cookie tsopt).1 34
          * 4)) = 0 →
    ∃ out calls1,
      syncookie_handle_syn_csum env
          (tcpv4_gen_synack values m0 ⟨0, some 14, none, 34, tl⟩ 14 cookie tsopt).2
          ⟨(tcpv4_gen_synack values m0 ⟨0, some 14, none, 34, tl⟩ 14 cookie tsopt).1, values,
            allowed, calls⟩ sizeof_iphdr 0 m0.length =
        (XDP_TX, ⟨out, values_inc_synacks values, allowed, calls1⟩) ∧
      ld8 out 14 = ld8 m0 14 ∧
      (∀ k, k < 6 → ld8 out k = ld8 m (6 + k) ∧ ld8 out (6 + k) = ld8 m k) ∧
      (iphdr_saddr out 14 = iphdr_daddr m 14 ∧ iphdr_daddr out 14 = iphdr_saddr m 14) ∧
      (tcphdr_source out 34 = tcphdr_dest m tcp ∧ tcphdr_dest out 34 = tcphdr_source m tcp) ∧
      bpf_ntohl (tcphdr_seq out 34) = cookie % 4294967296 ∧
      bpf_ntohl (tcphdr_ack_seq out 34) = (bpf_ntohl (tcphdr_seq m tcp) + 1) % 4294967296 ∧
      ld8 out 47 =
        (match tsopt with
          | some t => if t.1 &&& bpf_htonl (1 <<< 5) ≠ 0 then 0x52 else 0x12
          | none => 0x12) ∧
      tcphdr_window out 34 = 0 ∧
      (ld8 out 54 = TCPOPT_MSS ∧ ld8 out 55 = TCPOLEN_MSS ∧
        256 * ld8 out 56 + ld8 out 57 = (values_get_tcpipopts values false).1) := by
  intro hshrink
  obtain ⟨out, calls1, hres, h14, heth, hip, ⟨p0, p1, p2, p3⟩, ⟨s0, s1, s2, s3⟩, ⟨a0, a1, a2, a3⟩,
    fl, ⟨w0, w1⟩, ⟨o0, o1, o2, o3⟩⟩ := synack_frame env values allowed calls m0 tl cookie tsopt
      hlen hshrink
  have i0 := hip 0 (by omega)
  have i1 := hip 1 (by omega)
  have i2 := hip 2 (by omega)
  have i3 := hip 3 (by omega)
  simp only [Nat.reduceAdd, Nat.add_zero] at i0 i1 i2 i3
  have l26 := hlow 26 (by omega) (by omega)
  have l27 := hlow 27 (by omega) (by omega)
  have l28 := hlow 28 (by omega) (by omega)
  have l29 := hlow 29 (by omega) (by omega)
  have l30 := hlow 30 (by omega) (by omega)
  have l31 := hlow 31 (by omega) (by omega)
  have l32 := hlow 32 (by omega) (by omega)
  have l33 := hlow 33 (by omega) (by omega)
  have t0 := htcp 0 (by omega)
  have t1 := htcp 1 (by omega)
  have t2 := htcp 2 (by omega)
  have t3 := htcp 3 (by omega)
  have t4 := htcp 4 (by omega)
  have t5 := htcp 5 (by omega)
  have t6 := htcp 6 (by omega)
  have t7 := htcp 7 (by omega)
  simp only [Nat.reduceAdd, Nat.add_zero] at t0 t1 t2 t3 t4 t5 t6 t7
  have eseq : ld32 m0 38 = tcphdr_seq m tcp := by
    simp only [tcphdr_seq, ld32, Nat.add_assoc, Nat.reduceAdd, t4, t5, t6, t7]
  have hmss := values_get_tcpipopts_mss_lt values
  refine ⟨out, calls1, hres, h14, ?_, ⟨?_, ?_⟩, ⟨?_, ?_⟩, ?_, ?_, fl, ?_, o0, o1, ?_⟩
  · intro k hk
    obtain ⟨e1, e2⟩ := heth k hk
    rw [e1, e2, hlow (6 + k) (by omega) (by omega), hlow k (by omega) (by omega)]
    exact ⟨rfl, rfl⟩
  · simp only [iphdr_saddr, iphdr_daddr, ld32, Nat.reduceAdd, i0.1, i1.1, i2.1, i3.1, l30, l31,
      l32, l33]
  · simp only [iphdr_saddr, iphdr_daddr, ld32, Nat.reduceAdd, i0.2, i1.2, i2.2, i3.2, l26, l27,
      l28, l29]
  · simp only [tcphdr_source, tcphdr_dest, ld16, Nat.add_assoc, Nat.reduceAdd, p0, p1, t2, t3]
  · simp only [tcphdr_source, tcphdr_dest, ld16, Nat.add_assoc, Nat.reduceAdd, p2, p3, t0, t1]
  · simp only [tcphdr_seq, ld32, Nat.reduceAdd, s0, s1, s2, s3]
    rw [bpf_ntohl_bytes _ _ _ _ (Nat.mod_lt _ (by decide)) (Nat.mod_lt _ (by decide))
      (Nat.mod_lt _ (by decide)) (Nat.mod_lt _ (by decide))]
    have hc : cookie % 4294967296 < 4294967296 := Nat.mod_lt _ (by decide)
    generalize cookie % 4294967296 = c at hc
    omega
  · rw [← eseq]
    simp only [tcphdr_ack_seq, ld32, Nat.reduceAdd, a0, a1, a2, a3]
    rw [bpf_ntohl_bytes _ _ _ _ (Nat.mod_lt _ (by decide)) (Nat.mod_lt _ (by decide))
      (Nat.mod_lt _ (by decide)) (Nat.mod_lt _ (by decide))]
    have hc : (bpf_ntohl (ld32 m0 38) + 1) % 4294967296 < 4294967296 := Nat.mod_lt _ (by decide)
    generalize (bpf_ntohl (ld32 m0 38) + 1) % 4294967296 = c at hc
    omega
  · simp only [tcphdr_window, ld16, Nat.reduceAdd, w0, w1]
  · rw [o2, o3]
    omega

set_option maxHeartbeats 1000000 in
/-- Lines 507-582 of the SYN handler on an IPv4 SYN to an allowed port, when
the cookie helper answers with a cookie and the kernel grants the resize to
the size of the SYN-ACK (`d` is the new data offset): the frame is
transmitted as the SYN-ACK. -/
theorem syncookie_handle_syn_issue_v4 (env : Env) (st : xdp_state) (tcp tl : Nat) (value : Int)
    (htcp : tcp = 14 + iphdr_ihl st.pkt 14 * 4) (hihl : 20 ≤ iphdr_ihl st.pkt 14 * 4)
    (hlen : tcp + 60 ≤ st.pkt.length)
    (hport : check_port_allowed st.allowed_ports (bpf_ntohs (tcphdr_dest st.pkt tcp)) = true)
    (hcookie : env.bpf_tcp_raw_gen_syncookie_ipv4 (bytes st.pkt 14 sizeof_iphdr)
      (bytes st.pkt tcp tl) = value)
    (hval : 0 ≤ value) (d : Nat)
    (hshrink : env.adjust_tail_ret st.pkt.length
      (pkt_size_delta st.pkt.length (14 + 20 + d * 4)) = 0) :
    (∀ m0 : List u8, m0.length = st.pkt.length →
      tcphdr_doff (tcpv4_gen_synack st.values m0 ⟨0, some 14, none, 34, tl⟩ 14
        (value.toNat % 4294967296)
        (cookie_init_timestamp_raw env st.pkt tcp tl st.pkt.length)).1 34 = d) →
    ∃ out calls1,
      syncookie_handle_syn_issue env ⟨0, some 14, none, tcp, tl⟩ st 14 sizeof_iphdr 0
          st.pkt.length =
        (XDP_TX, ⟨out, values_inc_synacks st.values, st.allowed_ports, calls1⟩) ∧
      (iphdr_version out 14 = iphdr_version st.pkt 14 ∧ iphdr_ihl out 14 = 5) ∧
      (∀ k, k < 6 → ld8 out k = ld8 st.pkt (6 + k) ∧ ld8 out (6 + k) = ld8 st.pkt k) ∧
      (iphdr_saddr out 14 = iphdr_daddr st.pkt 14 ∧ iphdr_daddr out 14 = iphdr_saddr st.pkt 14) ∧
      (tcphdr_source out 34 = tcphdr_dest st.pkt tcp ∧
        tcphdr_dest out 34 = tcphdr_source st.pkt tcp) ∧
      bpf_ntohl (tcphdr_seq out 34) = value.toNat % 4294967296 ∧
      bpf_ntohl (tcphdr_ack_seq out 34) =
        (bpf_ntohl (tcphdr_seq st.pkt tcp) + 1) % 4294967296 ∧
      ld8 out 47 =
        (match cookie_init_timestamp_raw env st.pkt tcp tl st.pkt.length with
          | some t => if t.1 &&& bpf_htonl (1 <<< 5) ≠ 0 then 0x52 else 0x12
          | none => 0x12) ∧
      tcphdr_window out 34 = 0 ∧
      (ld8 out 54 = TCPOPT_MSS ∧ ld8 out 55 = TCPOLEN_MSS ∧
        256 * ld8 out 56 + ld8 out 57 = (values_get_tcpipopts st.values false).1) := by
  intro hd
  have hi := iphdr_ihl_le st.pkt 14
  have hroom : ¬ (94 > st.pkt.length) := by omega
  have hneg : ¬ (value < 0) := not_lt.mpr hval
  simp only [sizeof_iphdr] at hcookie
  unfold syncookie_handle_syn_issue
  simp only [sizeof_ethhdr, sizeof_iphdr, sizeof_tcphdr, TCP_MAXLEN, Nat.reduceAdd,
    Nat.reduceDiv]
  simp only [hport, hcookie, Bool.not_true, Bool.false_eq_true, if_false, hroom, hneg]
  by_cases c : iphdr_ihl st.pkt 14 * 4 > 20
  · simp only [c, if_true]
    have hl0 : (iphdr_set_ihl (memcpy st.pkt 34 st.pkt tcp 20) 14 5).length = st.pkt.length := by
      simp [iphdr_set_ihl, length_memcpy]
    have hlow : ∀ q, q < 34 → q ≠ 14 →
        ld8 (iphdr_set_ihl (memcpy st.pkt 34 st.pkt tcp 20) 14 5) q = ld8 st.pkt q := by
      intro q h1 h2
      unfold iphdr_set_ihl
      rw [ld8_st8_ne _ _ _ _ h2, ld8_memcpy _ _ _ _ _ _ (by omega), if_neg (by omega)]
    have hmv : ∀ k, k < 20 →
        ld8 (iphdr_set_ihl (memcpy st.pkt 34 st.pkt tcp 20) 14 5) (34 + k) =
          ld8 st.pkt (tcp + k) := by
      intro k hk
      unfold iphdr_set_ihl
      rw [ld8_st8_ne _ _ _ _ (by omega), ld8_memcpy _ _ _ _ _ _ (by omega), if_pos (by omega)]
      have e : 34 + k - 34 = k := by omega
      rw [e]
    obtain ⟨out, calls1, h1, h14, h2, h3, h4, h5, rest⟩ := synack_frame_moved env st.values
      st.allowed_ports (st.calls ++ [helper_call.bpf_tcp_raw_gen_syncookie_ipv4])
      (iphdr_set_ihl (memcpy st.pkt 34 st.pkt tcp 20) 14 5) st.pkt tcp tl
      (value.toNat % 4294967296)
      (cookie_init_timestamp_raw env st.pkt tcp tl st.pkt.length) (by rw [hl0]; omega)
      hlow hmv (by rw [hl0, hd _ hl0]; exact hshrink)
    rw [Nat.mod_mod] at h5
    simp only [hl0, sizeof_iphdr] at h1
    have hv : iphdr_version out 14 = iphdr_version st.pkt 14 ∧ iphdr_ihl out 14 = 5 := by
      unfold iphdr_version iphdr_ihl
      rw [h14]
      unfold iphdr_set_ihl
      rw [ld8_st8_in _ _ _ _ (by rw [length_memcpy]; omega), if_pos rfl,
        ld8_memcpy _ _ _ _ _ _ (by omega), if_neg (by omega)]
      have hlt := ld8_lt st.pkt 14
      generalize ld8 st.pkt 14 = v at hlt
      omega
    exact ⟨out, calls1, h1, hv, h2, h3, h4, h5, rest⟩
  · simp only [c, if_false]
    have e34 : tcp = 34 := by omega
    subst e34
    obtain ⟨out, calls1, h1, h14, h2, h3, h4, h5, rest⟩ := synack_frame_moved env st.values
      st.allowed_ports (st.calls ++ [helper_call.bpf_tcp_raw_gen_syncookie_ipv4]) st.pkt st.pkt
      34 tl (value.toNat % 4294967296)
      (cookie_init_timestamp_raw env st.pkt 34 tl st.pkt.length)
      (by omega) (fun _ _ _ => rfl) (fun _ _ => rfl) (by rw [hd _ rfl]; exact hshrink)
    rw [Nat.mod_mod] at h5
    simp only [sizeof_iphdr] at h1
    have hv : iphdr_version out 14 = iphdr_version st.pkt 14 ∧ iphdr_ihl out 14 = 5 := by
      unfold iphdr_version iphdr_ihl at *
      rw [h14]
      exact ⟨rfl, by omega⟩
    exact ⟨out, calls1, h1, hv, h2, h3, h4, h5, rest⟩

/-! ## Flag bits of a big-endian word held in a native register -/

theorem land_split_pow (k a b c d : Nat) (ha : a < 2 ^ k) (hc : c < 2 ^ k) :
    (2 ^ k * b + a) &&& (2 ^ k * d + c) = 2 ^ k * (b &&& d) + (a &&& c) := by
  have hac : a &&& c < 2 ^ k := Nat.lt_of_le_of_lt Nat.and_le_left ha
  apply Nat.eq_of_testBit_eq
  intro i
  rw [Nat.testBit_and, Nat.testBit_mul_pow_two_add _ ha, Nat.testBit_mul_pow_two_add _ hc,
    Nat.testBit_mul_pow_two_add _ hac]
  split <;> simp

/-- A mask that lies in the last byte of the big-endian word (the top byte
of the native value) tests the low byte of the value in host order. -/
theorem land_top_byte (t c : Nat) (hc : c < 256) :
    t &&& (c * 16777216) = ((bpf_ntohl t % 256) &&& c) * 16777216 := by
  have e0 : bpf_ntohl t % 256 = t / 16777216 % 256 := by
    unfold bpf_ntohl
    omega
  have h1 : t = 2 ^ 24 * (t / 16777216) + t % 16777216 := by
    have := Nat.div_add_mod t 16777216
    omega
  have h2 : c * 16777216 = 2 ^ 24 * c + 0 := by omega
  have h3 : t / 16777216 = 2 ^ 8 * (t / 16777216 / 256) + t / 16777216 % 256 := by
    have := Nat.div_add_mod (t / 16777216) 256
    omega
  have h4 : c = 2 ^ 8 * 0 + c := by omega
  have s1 := land_split_pow 24 (t % 16777216) (t / 16777216) 0 c
    (Nat.mod_lt _ (by decide)) (by decide)
  have s2 := land_split_pow 8 (t / 16777216 % 256) (t / 16777216 / 256) c 0
    (Nat.mod_lt _ (by decide)) hc
  rw [← h1, ← h2] at s1
  rw [← h3, ← h4] at s2
  rw [s1, s2, e0]
  simp only [Nat.and_zero, Nat.mul_zero, Nat.zero_add, Nat.add_zero]
  omega

set_option maxRecDepth 100000 in
theorem byte_flags : ∀ a : Fin 256,
    (a.val &&& 16 ≠ 0 ↔ a.val / 16 % 2 = 1) ∧ (a.val &&& 32 ≠ 0 ↔ a.val / 32 % 2 = 1) ∧
      (a.val &&& 15 ≠ 15 ↔ a.val % 16 ≠ 15) := by
  decide

/-- The three tests that the synthesis makes on `tsopt[0]`, on the value in
host byte order: bit 4 (SACK), bit 5 (ECN) and the low four bits (window
scale). -/
theorem tsopt_tests (t : Nat) :
    (t &&& bpf_htonl (1 <<< 4) ≠ 0 ↔ bpf_ntohl t / 16 % 2 = 1) ∧
    (t &&& bpf_htonl (1 <<< 5) ≠ 0 ↔ bpf_ntohl t / 32 % 2 = 1) ∧
    (t &&& bpf_htonl 0xf ≠ bpf_htonl 0xf ↔ bpf_ntohl t % 16 ≠ 15) := by
  have e4 : bpf_htonl (1 <<< 4) = 16 * 16777216 := by decide
  have e5 : bpf_htonl (1 <<< 5) = 32 * 16777216 := by decide
  have ef : bpf_htonl 0xf = 15 * 16777216 := by decide
  have hlt : bpf_ntohl t % 256 < 256 := Nat.mod_lt _ (by decide)
  obtain ⟨b4, b5, bf⟩ := byte_flags ⟨bpf_ntohl t % 256, hlt⟩
  simp only at b4 b5 bf
  rw [e4, e5, ef, land_top_byte t 16 (by decide), land_top_byte t 32 (by decide),
    land_top_byte t 15 (by decide)]
  refine ⟨?_, ?_, ?_⟩
  · constructor
    · intro h
      have : bpf_ntohl t % 256 &&& 16 ≠ 0 := fun e => h (by rw [e])
      have := b4.mp this
      omega
    · intro h
      have : bpf_ntohl t % 256 &&& 16 ≠ 0 := b4.mpr (by omega)
      omega
  · constructor
    · intro h
      have : bpf_ntohl t % 256 &&& 32 ≠ 0 := fun e => h (by rw [e])
      have := b5.mp this
      omega
    · intro h
      have : bpf_ntohl t % 256 &&& 32 ≠ 0 := b5.mpr (by omega)
      omega
  · constructor
    · intro h
      have : bpf_ntohl t % 256 &&& 15 ≠ 15 := fun e => h (by rw [e])
      have := bf.mp this
      omega
    · intro h
      have : bpf_ntohl t % 256 &&& 15 ≠ 15 := bf.mpr (by omega)
      omega

/-! ## The option words of the SYN-ACK, byte by byte -/

theorem wscale_word (x : Nat) (hx : x < 256) :
    (TCPOPT_NOP <<< 24) ||| (TCPOPT_WINDOW <<< 16) ||| (TCPOLEN_WINDOW <<< 8) ||| x =
      16974592 + x := by
  have e : (TCPOPT_NOP <<< 24) ||| (TCPOPT_WINDOW <<< 16) ||| (TCPOLEN_WINDOW <<< 8) =
      2 ^ 8 * 66307 := by decide
  rw [e, ← Nat.mul_add_lt_is_or hx]

set_option maxHeartbeats 2000000 in
/-- The words written by `tcp_mkoptions` with room for five words at `buf`:
the MSS option first, no byte changed outside the words counted, and for a
timestamp pair `t` the second word by the test of bit 4, the two words of
`t`, and the window-scale word when the test of the low four bits says
so. -/
theorem tcp_mkoptions_bytes (m : List u8) (buf : Nat) (tsopt : Option (Nat × Nat))
    (mss wscale : Nat) (hlen : buf + 20 ≤ m.length) :
    (ld8 (tcp_mkoptions m buf tsopt mss wscale).1 buf = 2 ∧
      ld8 (tcp_mkoptions m buf tsopt mss wscale).1 (buf + 1) = 4 ∧
      256 * ld8 (tcp_mkoptions m buf tsopt mss wscale).1 (buf + 2) +
        ld8 (tcp_mkoptions m buf tsopt mss wscale).1 (buf + 3) = mss % 65536) ∧
    (∀ q, q < buf ∨ buf + 4 * (tcp_mkoptions m buf tsopt mss wscale).2 ≤ q →
      ld8 (tcp_mkoptions m buf tsopt mss wscale).1 q = ld8 m q) ∧
    (∀ t, tsopt = some t →
      (ld8 (tcp_mkoptions m buf tsopt mss wscale).1 (buf + 4) =
          (if t.1 &&& bpf_htonl (1 <<< 4) ≠ 0 then 4 else 1) ∧
        ld8 (tcp_mkoptions m buf tsopt mss wscale).1 (buf + 5) =
          (if t.1 &&& bpf_htonl (1 <<< 4) ≠ 0 then 2 else 1) ∧
        ld8 (tcp_mkoptions m buf tsopt mss wscale).1 (buf + 6) = 8 ∧
        ld8 (tcp_mkoptions m buf tsopt mss wscale).1 (buf + 7) = 10) ∧
      ld32 (tcp_mkoptions m buf tsopt mss wscale).1 (buf + 8) = t.1 % 4294967296 ∧
      ld32 (tcp_mkoptions m buf tsopt mss wscale).1 (buf + 12) = t.2 % 4294967296 ∧
      (t.1 &&& bpf_htonl 0xf ≠ bpf_htonl 0xf →
        ld8 (tcp_mkoptions m buf tsopt mss wscale).1 (buf + 16) = 1 ∧
        ld8 (tcp_mkoptions m buf tsopt mss wscale).1 (buf + 17) = 3 ∧
        ld8 (tcp_mkoptions m buf tsopt mss wscale).1 (buf + 18) = 3 ∧
        ld8 (tcp_mkoptions m buf tsopt mss wscale).1 (buf + 19) = wscale % 256)) := by
  have hlt : ∀ p, p < 20 → buf + p < m.length := fun p hp => by omega
  have h0 : buf < m.length := by omega
  have hw := mss_word (mss % 65536) (Nat.mod_lt _ (by decide))
  have hws := wscale_word (wscale % 256) (Nat.mod_lt _ (by decide))
  have hsack : bpf_htonl ((TCPOPT_SACK_PERM <<< 24) ||| (TCPOLEN_SACK_PERM <<< 16) |||
      (TCPOPT_TIMESTAMP <<< 8) ||| TCPOLEN_TIMESTAMP) = 168296964 := by decide
  have hnop : bpf_htonl ((TCPOPT_NOP <<< 24) ||| (TCPOPT_NOP <<< 16) |||
      (TCPOPT_TIMESTAMP <<< 8) ||| TCPOLEN_TIMESTAMP) = 168296705 := by decide
  have w0 : ∀ x, bpf_htonl x % 256 = x / 16777216 % 256 := fun x => (bpf_htonl_bytes x).1
  have w1 : ∀ x, bpf_htonl x / 256 % 256 = x / 65536 % 256 := fun x => (bpf_htonl_bytes x).2.1
  have w2 : ∀ x, bpf_htonl x / 65536 % 256 = x / 256 % 256 := fun x => (bpf_htonl_bytes x).2.2.1
  have w3 : ∀ x, bpf_htonl x / 16777216 % 256 = x % 256 := fun x => (bpf_htonl_bytes x).2.2.2
  have v0 : (33816576 + mss % 65536) / 16777216 % 256 = 2 := by omega
  have v1 : (33816576 + mss % 65536) / 65536 % 256 = 4 := by omega
  have v2 : (33816576 + mss % 65536) / 256 % 256 = mss % 65536 / 256 := by omega
  have v3 : (33816576 + mss % 65536) % 256 = mss % 256 := by omega
  have y0 : (16974592 + wscale % 256) / 16777216 % 256 = 1 := by omega
  have y1 : (16974592 + wscale % 256) / 65536 % 256 = 3 := by omega
  have y2 : (16974592 + wscale % 256) / 256 % 256 = 3 := by omega
  have y3 : (16974592 + wscale % 256) % 256 = wscale % 256 := by omega
  have emss : 256 * (mss % 65536 / 256) + mss % 256 = mss % 65536 := by omega
  have hc := tcp_mkoptions_count m buf tsopt mss wscale
  simp only [hc]
  unfold tcp_mkoptions
  simp only [hw, hws, hsack, hnop]
  cases tsopt with
  | none =>
    refine ⟨⟨?_, ?_, ?_⟩, ?_, ?_⟩
    · simp [ld8_st32, h0, w0, v0]
    · simp [ld8_st32, hlt, w1, v1]
    · simp [ld8_st32, hlt, w2, v2, w3, v3, emss]
    · intro q hq
      simp only [Nat.mul_one] at hq
      have n0 : ¬ (q = buf) := by omega
      have n1 : ¬ (q = buf + 1) := by omega
      have n2 : ¬ (q = buf + 2) := by omega
      have n3 : ¬ (q = buf + 3) := by omega
      simp [ld8_st32, n0, n1, n2, n3]
    · intro t h
      cases h
  | some t =>
    by_cases s : t.1 &&& bpf_htonl 16 = 0 <;>
    by_cases w : t.1 &&& bpf_htonl 15 = bpf_htonl 15 <;>
    · simp only [s, w, if_true, if_false, ne_eq, not_true_eq_false, not_false_eq_true,
        Nat.reduceShiftLeft]
      refine ⟨⟨?_, ?_, ?_⟩, ?_, ?_⟩
      · simp [ld8_st32, h0, hlt, w0, v0, Nat.add_assoc]
      · simp [ld8_st32, hlt, w1, v1, Nat.add_assoc]
      · simp [ld8_st32, hlt, w2, v2, w3, v3, emss, Nat.add_assoc]
      · intro q hq
        have n0 : ¬ (q = buf) := by omega
        have n1 : ∀ k, k < 16 → ¬ (q = buf + k) := fun k hk => by omega
        first
          | (have n2 : ∀ k, k < 20 → ¬ (q = buf + k) := fun k hk => by omega
             simp [ld8_st32, n2, n0, Nat.add_assoc])
          | simp [ld8_st32, n1, n0, Nat.add_assoc]
      · intro t1 h
        have ht : t = t1 := by simpa using h
        subst ht
        simp only [s, w, not_true_eq_false, not_false_eq_true, if_true, if_false]
        refine ⟨⟨?_, ?_, ?_, ?_⟩, ?_, ?_, ?_⟩
        · simp [ld8_st32, hlt, Nat.add_assoc]
        · simp [ld8_st32, hlt, Nat.add_assoc]
        · simp [ld8_st32, hlt, Nat.add_assoc]
        · simp [ld8_st32, hlt, Nat.add_assoc]
        · simp [ld32, ld8_st32, hlt, Nat.add_assoc]
          omega
        · simp [ld32, ld8_st32, hlt, Nat.add_assoc]
          omega
        · first
            | (intro h; exact False.elim h)
            | (intro _
               simp [ld8_st32, hlt, w0, w1, w2, w3, y0, y1, y2, y3, Nat.add_assoc])

/-! ## The TCP header of the SYN-ACK seen by the option scanner -/

set_option maxHeartbeats 2000000 in
/-- The synthesis of the TCP header ends with `tcp_mkoptions` on a packet of
the same length whose data offset is 5, followed by the update of the data
offset. -/
theorem tcp_gen_synack_shape (m : List u8) (tcp cookie : Nat) (tsopt : Option (Nat × Nat))
    (mss wscale : Nat) (hlen : tcp + 40 ≤ m.length) :
    ∃ m5 : List u8, m5.length = m.length ∧ tcphdr_doff m5 tcp = 5 ∧
      tcp_gen_synack m tcp cookie tsopt mss wscale =
        tcphdr_set_doff (tcp_mkoptions m5 (tcp + 20) tsopt mss wscale).1 tcp
          (tcphdr_doff (tcp_mkoptions m5 (tcp + 20) tsopt mss wscale).1 tcp +
            (tcp_mkoptions m5 (tcp + 20) tsopt mss wscale).2) := by
  have hlt : ∀ p, p < 40 → tcp + p < m.length := fun p hp => by omega
  unfold tcp_gen_synack
  simp only [sizeof_tcphdr]
  refine ⟨_, ?_, ?_, rfl⟩
  · cases tsopt with
    | none => simp [tcphdr_set_doff]
    | some t =>
      simp only []
      split <;> simp [tcphdr_set_doff]
  · have hx : ∀ x : Nat, (x % 16 + 80) % 256 / 16 = 5 := fun x => by omega
    cases tsopt with
    | none => simp [tcphdr_doff, tcphdr_set_doff, ld8_st8, ld8_st16, ld8_st32, hlt, hx]
    | some t =>
      simp only []
      split <;> simp [tcphdr_doff, tcphdr_set_doff, ld8_st8, ld8_st16, ld8_st32, hlt, hx]

/-- The data offset and the option bytes of the TCP header that
`tcp_gen_synack` writes for a timestamp pair `t`. -/
theorem tcp_gen_synack_options (m : List u8) (tcp cookie : Nat) (t : Nat × Nat)
    (mss wscale : Nat) (hlen : tcp + 40 ≤ m.length) :
    tcphdr_doff (tcp_gen_synack m tcp cookie (some t) mss wscale) tcp =
      5 + (if t.1 &&& bpf_htonl 0xf ≠ bpf_htonl 0xf then 5 else 4) ∧
    (ld8 (tcp_gen_synack m tcp cookie (some t) mss wscale) (tcp + 20) = 2 ∧
      ld8 (tcp_gen_synack m tcp cookie (some t) mss wscale) (tcp + 21) = 4) ∧
    (ld8 (tcp_gen_synack m tcp cookie (some t) mss wscale) (tcp + 24) =
        (if t.1 &&& bpf_htonl (1 <<< 4) ≠ 0 then 4 else 1) ∧
      ld8 (tcp_gen_synack m tcp cookie (some t) mss wscale) (tcp + 25) =
        (if t.1 &&& bpf_htonl (1 <<< 4) ≠ 0 then 2 else 1) ∧
      ld8 (tcp_gen_synack m tcp cookie (some t) mss wscale) (tcp + 26) = 8 ∧
      ld8 (tcp_gen_synack m tcp cookie (some t) mss wscale) (tcp + 27) = 10) ∧
    ld32 (tcp_gen_synack m tcp cookie (some t) mss wscale) (tcp + 28) = t.1 % 4294967296 ∧
    (t.1 &&& bpf_htonl 0xf ≠ bpf_htonl 0xf →
      ld8 (tcp_gen_synack m tcp cookie (some t) mss wscale) (tcp + 36) = 1 ∧
      ld8 (tcp_gen_synack m tcp cookie (some t) mss wscale) (tcp + 37) = 3 ∧
      ld8 (tcp_gen_synack m tcp cookie (some t) mss wscale) (tcp + 38) = 3 ∧
      ld8 (tcp_gen_synack m tcp cookie (some t) mss wscale) (tcp + 39) = wscale % 256) := by
  obtain ⟨m5, hl5, hd5, heq⟩ := tcp_gen_synack_shape m tcp cookie (some t) mss wscale hlen
  obtain ⟨⟨a0, a1, -⟩, afr, aopt⟩ :=
    tcp_mkoptions_bytes m5 (tcp + 20) (some t) mss wscale (by omega)
  obtain ⟨⟨a4, a5, a6, a7⟩, a8, -, aw⟩ := aopt t rfl
  have hcount := tcp_mkoptions_count m5 (tcp + 20) (some t) mss wscale
  simp only [] at hcount
  have hlen1 := (tcp_mkoptions_spec m5 (tcp + 20) (some t) mss wscale (by omega)).1
  have hfr12 : ld8 (tcp_mkoptions m5 (tcp + 20) (some t) mss wscale).1 (tcp + 12) =
      ld8 m5 (tcp + 12) := afr _ (Or.inl (by omega))
  have hout : ∀ q, q ≠ tcp + 12 →
      ld8 (tcp_gen_synack m tcp cookie (some t) mss wscale) q =
        ld8 (tcp_mkoptions m5 (tcp + 20) (some t) mss wscale).1 q := by
    intro q hq
    rw [heq]
    unfold tcphdr_set_doff
    rw [ld8_st8_ne _ _ _ _ hq]
  have h32 : ld32 (tcp_gen_synack m tcp cookie (some t) mss wscale) (tcp + 28) =
      ld32 (tcp_mkoptions m5 (tcp + 20) (some t) mss wscale).1 (tcp + 28) :=
    ld32_congr _ _ _ (fun i h1 h2 => hout i (by omega))
  simp only [Nat.add_assoc, Nat.reduceAdd] at a1 a4 a5 a6 a7 a8 aw
  refine ⟨?_, ⟨?_, ?_⟩, ⟨?_, ?_, ?_, ?_⟩, ?_, ?_⟩
  · rw [heq]
    unfold tcphdr_set_doff tcphdr_doff
    rw [ld8_st8_in _ _ _ _ (by rw [hlen1]; omega), if_pos rfl, hfr12, hcount]
    unfold tcphdr_doff at hd5
    have hb := ld8_lt m5 (tcp + 12)
    generalize ld8 m5 (tcp + 12) = b at hd5 hb
    split <;> omega
  · rw [hout _ (by omega)]; exact a0
  · rw [hout _ (by omega)]; exact a1
  · rw [hout _ (by omega)]; exact a4
  · rw [hout _ (by omega)]; exact a5
  · rw [hout _ (by omega)]; exact a6
  · rw [hout _ (by omega)]; exact a7
  · rw [h32]; exact a8
  · intro h
    obtain ⟨b0, b1, b2, b3⟩ := aw h
    rw [hout _ (by omega), hout _ (by omega), hout _ (by omega), hout _ (by omega)]
    exact ⟨b0, b1, b2, b3⟩

/-! ## The loop of the option scanner and the word it builds -/

theorem last_option_cons (p : tcp_option → Bool) (e : tcp_option) (l : List tcp_option) :
    last_option p (e :: l) =
      (match last_option p l with
        | some x => some x
        | none => if p e then some e else none) := by
  unfold last_option
  rw [List.reverse_cons, List.find?_append]
  cases List.find? p l.reverse with
  | none => cases h : p e <;> simp [List.find?, h]
  | some x => simp

/-- The loop of the scanner against the list of scanned entries, when the
declared end of the header is inside the buffer: no bounds check fires, and
the locals at the exit are decided by the last Window-Scale entry, the last
Timestamp entry and the presence of a SACK-permitted entry. -/
theorem cookie_scan_entries (m : List u8) (end_ data_end : Nat) (hde : end_ ≤ data_end) :
    ∀ (n ptr : Nat) (s : ts_scan),
      cookie_scan m end_ data_end n ptr s = some
        ⟨(match last_option window_option (option_entries m end_ n ptr) with
            | some w => min (ld8 m (w.pos + 2)) 14
            | none => s.wscale),
          s.option_timestamp ||
            (last_option timestamp_option (option_entries m end_ n ptr)).isSome,
          s.option_sack || (option_entries m end_ n ptr).any sack_perm_option,
          (match last_option timestamp_option (option_entries m end_ n ptr) with
            | some e => ld32 m (e.pos + 2)
            | none => s.tsecr)⟩ := by
  intro n
  induction n with
  | zero =>
    intro ptr s
    cases s
    simp [cookie_scan, option_entries, last_option]
  | succ n ih =>
    intro ptr s
    rw [cookie_scan, option_entries]
    simp only [TCPOPT_EOL, TCPOPT_NOP, TCPOPT_WINDOW, TCPOPT_TIMESTAMP, TCPOPT_SACK_PERM,
      TCPOLEN_WINDOW, TCPOLEN_TIMESTAMP, TCPOLEN_SACK_PERM, TCP_MAX_WSCALE]
    by_cases c1 : ptr ≥ end_
    · cases s
      simp [c1, last_option]
    have c2 : ¬ (ptr + 1 > data_end) := by omega
    simp only [c1, c2, if_false]
    by_cases c3 : ld8 m ptr = 0
    · cases s
      simp [c3, last_option]
    by_cases c4 : ld8 m ptr = 1
    · simp only [c3, c4, if_true, if_false, ih, last_option_cons, List.any_cons,
          Nat.reduceEqDiff, OfNat.ofNat_ne_zero, OfNat.ofNat_ne_one, eq_self_iff_true]
      cases last_option window_option (option_entries m end_ n (ptr + 1)) <;>
      cases last_option timestamp_option (option_entries m end_ n (ptr + 1)) <;>
      simp [window_option, timestamp_option, sack_perm_option]
    simp only [c3, c4, if_false]
    by_cases c5 : ptr + 1 ≥ end_
    · cases s
      simp [c5, last_option]
    have c6 : ¬ (ptr + 2 > data_end) := by omega
    simp only [c5, c6, if_false]
    by_cases c7 : ld8 m (ptr + 1) < 2
    · cases s
      simp [c7, last_option]
    by_cases c8 : ptr + ld8 m (ptr + 1) > end_
    · cases s
      simp [c7, c8, last_option]
    simp only [c7, c8, if_false]
    have c9 : ∀ k, k ≤ ld8 m (ptr + 1) → ¬ (ptr + k > data_end) := fun k hk => by omega
    by_cases k3 : ld8 m ptr = 3
    · by_cases z3 : ld8 m (ptr + 1) = 3
      · have := c9 3 (by omega)
        simp only [k3, z3, this, if_true, if_false, ih, last_option_cons, List.any_cons,
          Nat.reduceEqDiff, OfNat.ofNat_ne_zero, OfNat.ofNat_ne_one, eq_self_iff_true]
        cases last_option window_option (option_entries m end_ n (ptr + 3)) <;>
        cases last_option timestamp_option (option_entries m end_ n (ptr + 3)) <;>
        simp [window_option, timestamp_option, sack_perm_option]
      · simp only [k3, z3, if_true, if_false, ih, last_option_cons, List.any_cons,
          Nat.reduceEqDiff, OfNat.ofNat_ne_zero, OfNat.ofNat_ne_one, eq_self_iff_true]
        cases last_option window_option
          (option_entries m end_ n (ptr + ld8 m (ptr + 1))) <;>
        cases last_option timestamp_option
          (option_entries m end_ n (ptr + ld8 m (ptr + 1))) <;>
        simp [window_option, timestamp_option, sack_perm_option, z3]
    by_cases k8 : ld8 m ptr = 8
    · by_cases z10 : ld8 m (ptr + 1) = 10
      · have := c9 10 (by omega)
        simp only [k8, z10, this, if_true, if_false, ih, last_option_cons, List.any_cons,
          Nat.reduceEqDiff, OfNat.ofNat_ne_zero, OfNat.ofNat_ne_one, eq_self_iff_true]
        cases last_option window_option (option_entries m end_ n (ptr + 10)) <;>
        cases last_option timestamp_option (option_entries m end_ n (ptr + 10)) <;>
        simp [window_option, timestamp_option, sack_perm_option]
      · simp only [k8, z10, if_true, if_false, ih, last_option_cons, List.any_cons,
          Nat.reduceEqDiff, OfNat.ofNat_ne_zero, OfNat.ofNat_ne_one, eq_self_iff_true]
        cases last_option window_option
          (option_entries m end_ n (ptr + ld8 m (ptr + 1))) <;>
        cases last_option timestamp_option
          (option_entries m end_ n (ptr + ld8 m (ptr + 1))) <;>
        simp [window_option, timestamp_option, sack_perm_option, z10]
    by_cases k4 : ld8 m ptr = 4
    · by_cases z2 : ld8 m (ptr + 1) = 2
      · simp only [k4, z2, if_true, if_false, ih, last_option_cons, List.any_cons,
          Nat.reduceEqDiff, OfNat.ofNat_ne_zero, OfNat.ofNat_ne_one, eq_self_iff_true]
        cases last_option window_option (option_entries m end_ n (ptr + 2)) <;>
        cases last_option timestamp_option (option_entries m end_ n (ptr + 2)) <;>
        simp [window_option, timestamp_option, sack_perm_option]
      · simp only [k4, z2, if_true, if_false, ih, last_option_cons, List.any_cons,
          Nat.reduceEqDiff, OfNat.ofNat_ne_zero, OfNat.ofNat_ne_one, eq_self_iff_true]
        cases last_option window_option
          (option_entries m end_ n (ptr + ld8 m (ptr + 1))) <;>
        cases last_option timestamp_option
          (option_entries m end_ n (ptr + ld8 m (ptr + 1))) <;>
        simp [window_option, timestamp_option, sack_perm_option, z2]
    · simp only [k3, k8, k4, if_false, ih, last_option_cons, List.any_cons]
      cases last_option window_option
        (option_entries m end_ n (ptr + ld8 m (ptr + 1))) <;>
      cases last_option timestamp_option
        (option_entries m end_ n (ptr + ld8 m (ptr + 1))) <;>
      simp [window_option, timestamp_option, sack_perm_option, k3, k8, k4]

set_option maxRecDepth 100000 in
theorem cookie_low_bits : ∀ (w : Fin 16) (sack ecn : Bool),
    ((w.val &&& 15) ||| (if sack then 16 else 0)) ||| (if ecn then 32 else 0) =
        w.val + (if sack then 16 else 0) + (if ecn then 32 else 0) ∧
      w.val + (if sack then 16 else 0) + (if ecn then 32 else 0) < 64 := by
  decide

/-- The word that the scanner builds from the clock, the window scale and
the two flags, as a sum. -/
theorem cookie_word (T ws : Nat) (hT : T < 4294967296) (hws : ws ≤ 15) (sack ecn : Bool) :
    (if ecn then
        (if sack then ((T &&& (0xffffffff - TSMASK)) ||| (ws &&& TS_OPT_WSCALE_MASK)) |||
            TS_OPT_SACK
          else (T &&& (0xffffffff - TSMASK)) ||| (ws &&& TS_OPT_WSCALE_MASK)) ||| TS_OPT_ECN
      else
        (if sack then ((T &&& (0xffffffff - TSMASK)) ||| (ws &&& TS_OPT_WSCALE_MASK)) |||
            TS_OPT_SACK
          else (T &&& (0xffffffff - TSMASK)) ||| (ws &&& TS_OPT_WSCALE_MASK))) =
      T / 64 * 64 + ws + (if sack then 16 else 0) + (if ecn then 32 else 0) := by
  have e1 : (0xffffffff - TSMASK : Nat) = 2 ^ 6 * 67108863 + 0 := by decide
  have e2 : TS_OPT_WSCALE_MASK = 15 := rfl
  have e3 : TS_OPT_SACK = 16 := by decide
  have e4 : TS_OPT_ECN = 32 := by decide
  have hT1 : T = 2 ^ 6 * (T / 64) + T % 64 := by
    have := Nat.div_add_mod T 64
    omega
  have hm : T / 64 &&& 67108863 = T / 64 := by
    have h := Nat.and_pow_two_sub_one_eq_mod (T / 64) 26
    have h2 : T / 64 % 2 ^ 26 = T / 64 := Nat.mod_eq_of_lt (by omega)
    rw [h2] at h
    exact h
  have hand : T &&& (0xffffffff - TSMASK) = 2 ^ 6 * (T / 64) := by
    have s1 := land_split_pow 6 (T % 64) (T / 64) 0 67108863 (Nat.mod_lt _ (by decide))
      (by decide)
    rw [← hT1, ← e1, hm] at s1
    simpa using s1
  obtain ⟨l1, l2⟩ := cookie_low_bits ⟨ws, by omega⟩ sack ecn
  simp only at l1 l2
  have key : (2 ^ 6 * (T / 64) ||| (ws &&& 15) ||| (if sack then 16 else 0)) |||
      (if ecn then 32 else 0) =
      2 ^ 6 * (T / 64) + (ws + (if sack then 16 else 0) + (if ecn then 32 else 0)) := by
    rw [Nat.lor_assoc, Nat.lor_assoc, ← Nat.lor_assoc (ws &&& 15), l1,
      ← Nat.mul_add_lt_is_or l2]
  rw [hand, e2, e3, e4]
  cases sack <;> cases ecn <;> simp only [Bool.false_eq_true, if_false, if_true,
    Nat.or_zero, Nat.add_zero] at key ⊢ <;> omega

/-! ## The checks after the growth of the tail -/

/-- The checks of lines 659-685 on the grown packet fail when the TCP header
that the data offset declares ends behind the end of the original buffer. -/
theorem syncookie_xdp_pointers_abort (pkt pkt1 : List u8) (hdr : header_pointers)
    (hd : tcp_dissect pkt = (XDP_TX, hdr))
    (hagree : ∀ i, i < pkt.length → ld8 pkt1 i = ld8 pkt i)
    (hb : hdr.tcp + TCP_MAXLEN > pkt1.length) :
    syncookie_xdp_pointers pkt1 hdr = Sum.inl XDP_ABORTED := by
  have hihl := iphdr_ihl_le pkt 14
  rcases tcp_dissect_tx _ _ hd with ⟨rfl, -, h1, -, -, h2, h3⟩ | ⟨rfl, -, -, -, h2, h3⟩
  · have e1 : iphdr_ihl pkt1 14 = iphdr_ihl pkt 14 := by
      unfold iphdr_ihl
      rw [hagree 14 (by omega)]
    simp only [TCP_MAXLEN] at hb
    have c2 : 14 + iphdr_ihl pkt 14 * 4 + 60 > pkt1.length := hb
    simp only [syncookie_xdp_pointers, IPV4_MAXLEN, TCP_MAXLEN, sizeof_ethhdr, sizeof_tcphdr,
      Nat.zero_add, e1]
    by_cases c1 : 14 + 60 > pkt1.length
    · simp only [c1, if_true]
    · simp only [c1, if_false, c2, if_true]
  · simp only [TCP_MAXLEN] at hb
    have c2 : 54 + 60 > pkt1.length := hb
    simp only [syncookie_xdp_pointers, TCP_MAXLEN, sizeof_ethhdr, sizeof_ipv6hdr, sizeof_tcphdr,
      Nat.zero_add, Nat.reduceAdd, c2, if_true]

/-! ## C18: the maps -/

theorem bpf_xdp_adjust_tail_maps (env : Env) (st : xdp_state) (delta : Int) :
    (bpf_xdp_adjust_tail env st delta).2.allowed_ports = st.allowed_ports ∧
      (bpf_xdp_adjust_tail env st delta).2.values = st.values := by
  unfold bpf_xdp_adjust_tail
  simp only []
  split <;> simp

theorem resize_verdict_maps (env : Env) (st : xdp_state) (delta : Int) :
    (if (bpf_xdp_adjust_tail env st delta).1 ≠ 0 then
          (XDP_ABORTED, (bpf_xdp_adjust_tail env st delta).2)
        else (XDP_TX, { (bpf_xdp_adjust_tail env st delta).2 with
          values := values_inc_synacks (bpf_xdp_adjust_tail env st delta).2.values })).2.allowed_ports =
        st.allowed_ports ∧
      (if (bpf_xdp_adjust_tail env st delta).1 ≠ 0 then
          (XDP_ABORTED, (bpf_xdp_adjust_tail env st delta).2)
        else (XDP_TX, { (bpf_xdp_adjust_tail env st delta).2 with
          values := values_inc_synacks (bpf_xdp_adjust_tail env st delta).2.values })).2.values =
        (if (if (bpf_xdp_adjust_tail env st delta).1 ≠ 0 then
            (XDP_ABORTED, (bpf_xdp_adjust_tail env st delta).2)
          else (XDP_TX, { (bpf_xdp_adjust_tail env st delta).2 with
            values := values_inc_synacks (bpf_xdp_adjust_tail env st delta).2.values })).1 =
              XDP_TX then
          values_inc_synacks st.values else st.values) := by
  obtain ⟨h1, h2⟩ := bpf_xdp_adjust_tail_maps env st delta
  by_cases h : (bpf_xdp_adjust_tail env st delta).1 ≠ 0
  · rw [if_pos h]
    simp [h1, h2]
  · rw [if_neg h]
    simp [h1, h2]

theorem syncookie_handle_syn_resize_maps (env : Env) (hdr : header_pointers) (st : xdp_state)
    (ip_len data data_end : Nat) :
    (syncookie_handle_syn_resize env hdr st ip_len data data_end).2.allowed_ports =
        st.allowed_ports ∧
      (syncookie_handle_syn_resize env hdr st ip_len data data_end).2.values =
        (if (syncookie_handle_syn_resize env hdr st ip_len data data_end).1 = XDP_TX then
          values_inc_synacks st.values else st.values) := by
  unfold syncookie_handle_syn_resize
  exact resize_verdict_maps env st _

theorem syncookie_handle_syn_csum_maps (env : Env) (hdr : header_pointers) (st : xdp_state)
    (ip_len data data_end : Nat) :
    (syncookie_handle_syn_csum env hdr st ip_len data data_end).2.allowed_ports =
        st.allowed_ports ∧
      (syncookie_handle_syn_csum env hdr st ip_len data data_end).2.values =
        (if (syncookie_handle_syn_csum env hdr st ip_len data data_end).1 = XDP_TX then
          values_inc_synacks st.values else st.values) := by
  unfold syncookie_handle_syn_csum
  simp only []
  split
  · simp
  · split
    · split
      · simp
      · exact syncookie_handle_syn_resize_maps env hdr _ ip_len data data_end
    · split
      · exact syncookie_handle_syn_resize_maps env hdr _ ip_len data data_end
      · simp

theorem syncookie_handle_syn_issue_maps (env : Env) (hdr : header_pointers) (st : xdp_state)
    (ip_header ip_len data data_end : Nat) :
    (syncookie_handle_syn_issue env hdr st ip_header ip_len data data_end).2.allowed_ports =
        st.allowed_ports ∧
      (syncookie_handle_syn_issue env hdr st ip_header ip_len data data_end).2.values =
        (if (syncookie_handle_syn_issue env hdr st ip_header ip_len data data_end).1 = XDP_TX
          then values_inc_synacks st.values else st.values) := by
  unfold syncookie_handle_syn_issue
  simp only []
  split
  · simp
  · split
    · simp
    · split
      · simp
      · split
        · exact syncookie_handle_syn_csum_maps env _ _ ip_len data data_end
        · split
          · exact syncookie_handle_syn_csum_maps env _ _ ip_len data data_end
          · simp

theorem syncookie_handle_syn_maps (env : Env) (hdr : header_pointers) (st : xdp_state) :
    (syncookie_handle_syn env hdr st).2.allowed_ports = st.allowed_ports ∧
      (syncookie_handle_syn env hdr st).2.values =
        (if (syncookie_handle_syn env hdr st).1 = XDP_TX then values_inc_synacks st.values
          else st.values) := by
  unfold syncookie_handle_syn
  simp only []
  split
  · split
    · simp
    · split
      · simp
      · split
        · simp
        · split
          · simp
          · exact syncookie_handle_syn_issue_maps env hdr st _ _ _ _
  · split
    · split
      · simp
      · split
        · simp
        · exact syncookie_handle_syn_issue_maps env hdr st _ _ _ _
    · simp

theorem syncookie_handle_ack_maps (env : Env) (hdr : header_pointers) (st : xdp_state) :
    (syncookie_handle_ack env hdr st).2.allowed_ports = st.allowed_ports ∧
      (syncookie_handle_ack env hdr st).2.values =
        (if (syncookie_handle_ack env hdr st).1 = XDP_TX then values_inc_synacks st.values
          else st.values) := by
  unfold syncookie_handle_ack
  simp only []
  split
  · split <;> simp
  · simp

theorem syncookie_xdp_pointers_verdict (pkt : List u8) (hdr : header_pointers)
    (v : xdp_action) (h : syncookie_xdp_pointers pkt hdr = Sum.inl v) : v = XDP_ABORTED := by
  have tail : ∀ hdr1 : header_pointers,
      (if hdr1.tcp + TCP_MAXLEN > pkt.length then (Sum.inl XDP_ABORTED : xdp_action ⊕ header_pointers)
        else
          if tcphdr_doff pkt hdr1.tcp * 4 < sizeof_tcphdr then Sum.inl XDP_ABORTED
          else Sum.inr { hdr1 with tcp_len := tcphdr_doff pkt hdr1.tcp * 4 }) = Sum.inl v →
      v = XDP_ABORTED := by
    intro hdr1 h1
    by_cases c1 : hdr1.tcp + TCP_MAXLEN > pkt.length
    · rw [if_pos c1] at h1
      cases h1
      rfl
    · rw [if_neg c1] at h1
      by_cases c2 : tcphdr_doff pkt hdr1.tcp * 4 < sizeof_tcphdr
      · rw [if_pos c2] at h1
        cases h1
        rfl
      · rw [if_neg c2] at h1
        cases h1
  unfold syncookie_xdp_pointers at h
  cases h4 : hdr.ipv4 with
  | some ip =>
    simp only [h4] at h
    by_cases c : 0 + sizeof_ethhdr + IPV4_MAXLEN > pkt.length
    · simp only [c, if_true] at h
      cases h
      rfl
    · simp only [c, if_false] at h
      exact tail ⟨0, some (0 + sizeof_ethhdr), hdr.ipv6,
        0 + sizeof_ethhdr + iphdr_ihl pkt (0 + sizeof_ethhdr) * 4, hdr.tcp_len⟩ h
  | none =>
    cases h6 : hdr.ipv6 with
    | some ip =>
      simp only [h4, h6] at h
      exact tail ⟨0, none, some (0 + sizeof_ethhdr), 0 + sizeof_ethhdr + sizeof_ipv6hdr,
        hdr.tcp_len⟩ h
    | none =>
      simp only [h4, h6] at h
      cases h
      rfl

theorem syncookie_xdp_cookie_maps (env : Env) (hdr : header_pointers) (st : xdp_state) :
    (syncookie_xdp_cookie env hdr st).2.allowed_ports = st.allowed_ports ∧
      (syncookie_xdp_cookie env hdr st).2.values =
        (if (syncookie_xdp_cookie env hdr st).1 = XDP_TX then values_inc_synacks st.values
          else st.values) := by
  obtain ⟨a1, a2⟩ := bpf_xdp_adjust_tail_maps env st ((TCP_MAXLEN : Int) - (hdr.tcp_len : Int))
  unfold syncookie_xdp_cookie
  simp only []
  by_cases c1 : tcphdr_syn st.pkt hdr.tcp ^^^ tcphdr_ack st.pkt hdr.tcp ≠ 1
  · rw [if_pos c1]
    simp
  rw [if_neg c1]
  by_cases c2 : (bpf_xdp_adjust_tail env st ((TCP_MAXLEN : Int) - (hdr.tcp_len : Int))).1 ≠ 0
  · rw [if_pos c2]
    simp [a1, a2]
  rw [if_neg c2]
  cases hp : syncookie_xdp_pointers
      (bpf_xdp_adjust_tail env st ((TCP_MAXLEN : Int) - (hdr.tcp_len : Int))).2.pkt hdr with
  | inl v =>
    have := syncookie_xdp_pointers_verdict _ _ _ hp
    subst this
    simp [a1, a2]
  | inr hdr1 =>
    simp only []
    by_cases c3 : tcphdr_syn
        (bpf_xdp_adjust_tail env st ((TCP_MAXLEN : Int) - (hdr.tcp_len : Int))).2.pkt
        hdr1.tcp ≠ 0
    · simp only [if_pos c3]
      have h := syncookie_handle_syn_maps env hdr1
        (bpf_xdp_adjust_tail env st ((TCP_MAXLEN : Int) - (hdr.tcp_len : Int))).2
      rw [a1, a2] at h
      exact h
    · simp only [if_neg c3]
      have h := syncookie_handle_ack_maps env hdr1
        (bpf_xdp_adjust_tail env st ((TCP_MAXLEN : Int) - (hdr.tcp_len : Int))).2
      rw [a1, a2] at h
      exact h

theorem syncookie_xdp_tuple_verdict (pkt : List u8) (hdr : header_pointers)
    (v : xdp_action) (h : syncookie_xdp_tuple pkt hdr = Sum.inl v) : v ≠ XDP_TX := by
  unfold syncookie_xdp_tuple at h
  split at h
  · split at h
    · cases h; decide
    · cases h
  · split at h
    · cases h
    · cases h; decide

theorem syncookie_xdp_maps (env : Env) (st : xdp_state) :
    (syncookie_xdp env st).2.allowed_ports = st.allowed_ports ∧
      (syncookie_xdp env st).2.values =
        (if (syncookie_xdp env st).1 = XDP_TX then values_inc_synacks st.values
          else st.values) := by
  unfold syncookie_xdp
  simp only []
  by_cases c1 : (tcp_dissect st.pkt).1 ≠ XDP_TX
  · rw [if_pos c1]
    simp [c1]
  rw [if_neg c1]
  cases ht : syncookie_xdp_tuple st.pkt (tcp_dissect st.pkt).2 with
  | inl v =>
    have := syncookie_xdp_tuple_verdict _ _ _ ht
    simp [this]
  | inr tup =>
    simp only []
    obtain ⟨c, hct⟩ : ∃ c, env.bpf_ct_lookup_tcp tup = c := ⟨_, rfl⟩
    simp only [hct]
    cases c with
    | entry status =>
      simp only [hct]
      by_cases c2 : status &&& IPS_CONFIRMED_BIT ≠ 0
      · simp only [if_pos c2]
        simp
      · simp only [if_neg c2]
        exact syncookie_xdp_cookie_maps env _
          ⟨st.pkt, st.values, st.allowed_ports, st.calls ++ [helper_call.bpf_ct_lookup_tcp]⟩
    | null value =>
      simp only [hct]
      by_cases c2 : value ≠ -ENOENT
      · simp only [if_pos c2]
        simp
      · simp only [if_neg c2]
        exact syncookie_xdp_cookie_maps env _
          ⟨st.pkt, st.values, st.allowed_ports, st.calls ++ [helper_call.bpf_ct_lookup_tcp]⟩

theorem values_inc_synacks_slots (values : List Nat) :
    (values_inc_synacks values).length = values.length ∧
      (∀ k, k ≠ 1 → (values_inc_synacks values)[k]? = values[k]?) ∧
      (values_inc_synacks values)[1]? =
        values[1]?.map (fun v => v / 4294967296 * 4294967296 + (v % 4294967296 + 1) % 4294967296) := by
  unfold values_inc_synacks
  cases h : values[1]? with
  | none => simp [h]
  | some v =>
    have hl : 1 < values.length := by
      rcases Nat.lt_or_ge 1 values.length with c | c
      · exact c
      · rw [List.getElem?_eq_none c] at h
        cases h
    refine ⟨by simp, ?_, ?_⟩
    · intro k hk
      simp only []
      rw [List.getElem?_set_ne (Ne.symm hk)]
    · simp only [Option.map_some']
      rw [List.getElem?_set_self hl]

/-! ## Ones-complement arithmetic of the checksums -/

theorem land_ffff (y : Nat) : y &&& 0xffff = y % 65536 :=
  Nat.and_pow_two_sub_one_eq_mod y 16

theorem land_ffffffff (y : Nat) : y &&& 0xffffffff = y % 4294967296 :=
  Nat.and_pow_two_sub_one_eq_mod y 32

theorem shr_16 (y : Nat) : y >>> 16 = y / 65536 := Nat.shiftRight_eq_div_pow y 16

theorem shr_32 (y : Nat) : y >>> 32 = y / 4294967296 := Nat.shiftRight_eq_div_pow y 32

/-- The fold of a 32-bit sum: the complement of the sum modulo 65535, and 0
exactly for the non-zero multiples of 65535. -/
theorem csum_fold_spec (x : Nat) (hx : x < 4294967296) :
    csum_fold x < 65536 ∧ (x + csum_fold x) % 65535 = 0 ∧
      (x ≠ 0 → x % 65535 = 0 → csum_fold x = 0) := by
  unfold csum_fold
  simp only [land_ffff, shr_16]
  have h1 : x % 4294967296 = x := Nat.mod_eq_of_lt hx
  rw [h1]
  have hxe := Nat.div_add_mod x 65536
  have hr := Nat.mod_lt x (by decide : 65536 > 0)
  have hq : x / 65536 < 65536 := by omega
  generalize x / 65536 = q at *
  generalize x % 65536 = r at *
  subst hxe
  have hm : (65536 * q + r) % 65535 = (r + q) % 65535 := by
    have e : 65536 * q + r = r + q + 65535 * q := by omega
    rw [e, Nat.add_mul_mod_self_left]
  by_cases c : r + q < 65536
  · have e1 : (r + q) % 65536 = r + q := Nat.mod_eq_of_lt c
    have e2 : (r + q) / 65536 = 0 := Nat.div_eq_of_lt c
    rw [e1, e2]
    have e3 : (4294967295 - (r + q + 0)) % 65536 = 65535 - (r + q) := by omega
    rw [e3]
    refine ⟨by omega, ?_, ?_⟩
    · have e : 65536 * q + r + (65535 - (r + q)) = 65535 * (q + 1) := by omega
      rw [e, Nat.mul_mod_right]
    · intro h0 h5
      rw [hm] at h5
      omega
  · have e1 : (r + q) % 65536 = r + q - 65536 := by omega
    have e2 : (r + q) / 65536 = 1 := by omega
    rw [e1, e2]
    have e3 : (4294967295 - (r + q - 65536 + 1)) % 65536 = 131070 - (r + q) := by omega
    rw [e3]
    refine ⟨by omega, ?_, ?_⟩
    · have e : 65536 * q + r + (131070 - (r + q)) = 65535 * (q + 2) := by omega
      rw [e, Nat.mul_mod_right]
    · intro h0 h5
      rw [hm] at h5
      omega

/-- The two steps that fold a 64-bit sum to 32 bits keep the sum modulo
65535 and keep a non-zero sum non-zero. -/
theorem fold64_spec (s : Nat) (hs : s < 68719476736) :
    (((s &&& 0xffffffff) + (s >>> 32)) &&& 0xffffffff) +
        (((s &&& 0xffffffff) + (s >>> 32)) >>> 32) < 4294967296 ∧
      ((((s &&& 0xffffffff) + (s >>> 32)) &&& 0xffffffff) +
        (((s &&& 0xffffffff) + (s >>> 32)) >>> 32)) % 65535 = s % 65535 ∧
      (s ≠ 0 → (((s &&& 0xffffffff) + (s >>> 32)) &&& 0xffffffff) +
        (((s &&& 0xffffffff) + (s >>> 32)) >>> 32) ≠ 0) := by
  simp only [land_ffffffff, shr_32]
  have hxe := Nat.div_add_mod s 4294967296
  have hr := Nat.mod_lt s (by decide : 4294967296 > 0)
  have hq : s / 4294967296 < 16 := by omega
  generalize s / 4294967296 = q at *
  generalize s % 4294967296 = r at *
  subst hxe
  by_cases c : r + q < 4294967296
  · have e1 : (r + q) % 4294967296 = r + q := Nat.mod_eq_of_lt c
    have e2 : (r + q) / 4294967296 = 0 := Nat.div_eq_of_lt c
    rw [e1, e2]
    refine ⟨by omega, ?_, by omega⟩
    have e : 4294967296 * q + r = r + q + 0 + 65535 * (65537 * q) := by omega
    rw [e, Nat.add_mul_mod_self_left]
  · have e1 : (r + q) % 4294967296 = r + q - 4294967296 := by omega
    have e2 : (r + q) / 4294967296 = 1 := by omega
    rw [e1, e2]
    refine ⟨by omega, ?_, by omega⟩
    have e : 4294967296 * q + r = r + q - 4294967296 + 1 + 65535 * (65537 * (q + 1)) := by omega
    rw [e, Nat.add_mul_mod_self_left]

theorem csum_add32_spec (a b : Nat) (ha : a < 4294967296) (hb : b < 4294967296) :
    csum_add32 a b < 4294967296 ∧ csum_add32 a b % 65535 = (a + b) % 65535 ∧
      (csum_add32 a b = 0 → a = 0 ∧ b = 0) := by
  unfold csum_add32
  by_cases c : a + b < 4294967296
  · have e1 : (a + b) % 4294967296 = a + b := Nat.mod_eq_of_lt c
    have e2 : (a + b) / 4294967296 = 0 := Nat.div_eq_of_lt c
    rw [e1, e2]
    exact ⟨by omega, rfl, fun h => by omega⟩
  · have e1 : (a + b) % 4294967296 = a + b - 4294967296 := by omega
    have e2 : (a + b) / 4294967296 = 1 := by omega
    rw [e1, e2]
    refine ⟨by omega, ?_, fun h => by omega⟩
    have e : a + b = a + b - 4294967296 + 1 + 65535 * 65537 := by omega
    nth_rewrite 2 [e]
    rw [Nat.add_mul_mod_self_left]

theorem csum_words_lt (m : List u8) (n : Nat) : ∀ p, csum_words m p n < 4294967296 := by
  induction n with
  | zero => intro p; simp [csum_words]
  | succ n ih =>
    intro p
    simp only [csum_words]
    exact (csum_add32_spec _ _ (ld32_lt m p) (ih (p + 4))).1

/-- A non-zero word makes the sum non-zero. -/
theorem csum_words_ne_zero (m : List u8) (n : Nat) :
    ∀ p j, j < n → ld32 m (p + 4 * j) ≠ 0 → csum_words m p n ≠ 0 := by
  induction n with
  | zero => intro p j hj; omega
  | succ n ih =>
    intro p j hj hne h0
    simp only [csum_words] at h0
    obtain ⟨a, b⟩ := (csum_add32_spec _ _ (ld32_lt m p) (csum_words_lt m n (p + 4))).2.2 h0
    cases j with
    | zero => exact hne (by simpa using a)
    | succ j =>
      have e : p + 4 * (j + 1) = p + 4 + 4 * j := by omega
      rw [e] at hne
      exact ih (p + 4) j (by omega) hne b

theorem csum_words_words (m m' : List u8) (n : Nat) :
    ∀ p, (∀ k, k < n → ld32 m' (p + 4 * k) = ld32 m (p + 4 * k)) →
      csum_words m' p n = csum_words m p n := by
  induction n with
  | zero => intro p _; rfl
  | succ n ih =>
    intro p h
    simp only [csum_words]
    have h0 := h 0 (by omega)
    simp only [Nat.mul_zero, Nat.add_zero] at h0
    rw [h0, ih (p + 4) (fun k hk => by
      have := h (k + 1) (by omega)
      have e : p + 4 * (k + 1) = p + 4 + 4 * k := by omega
      rw [e] at this
      exact this)]

/-- The sum of a buffer in which one word has grown by `d`. -/
theorem csum_words_update (m m' : List u8) (d n : Nat) :
    ∀ p j, j < n → ld32 m' (p + 4 * j) = ld32 m (p + 4 * j) + d →
      (∀ k, k < n → k ≠ j → ld32 m' (p + 4 * k) = ld32 m (p + 4 * k)) →
      csum_words m' p n % 65535 = (csum_words m p n + d) % 65535 := by
  induction n with
  | zero => intro p j hj; omega
  | succ n ih =>
    intro p j hj hw ho
    simp only [csum_words]
    have l1 := ld32_lt m p
    have l2 := ld32_lt m' p
    have l3 := csum_words_lt m n (p + 4)
    have l4 := csum_words_lt m' n (p + 4)
    have s1 := (csum_add32_spec _ _ l1 l3).2.1
    have s2 := (csum_add32_spec _ _ l2 l4).2.1
    cases j with
    | zero =>
      have e : csum_words m' (p + 4) n = csum_words m (p + 4) n :=
        csum_words_words m m' n (p + 4) (fun k hk => by
          have := ho (k + 1) (by omega) (by omega)
          have e : p + 4 * (k + 1) = p + 4 + 4 * k := by omega
          rw [e] at this
          exact this)
      simp only [Nat.mul_zero, Nat.add_zero] at hw
      rw [e, hw] at s2
      rw [e, hw]
      generalize csum_words m (p + 4) n = W at *
      generalize ld32 m p = a at *
      have t1 : Nat.ModEq 65535 (csum_add32 (a + d) W) (a + d + W) := s2
      have t2 : Nat.ModEq 65535 (csum_add32 a W + d) (a + W + d) := Nat.ModEq.add_right d s1
      have e3 : a + d + W = a + W + d := by omega
      rw [e3] at t1
      exact t1.trans t2.symm
    | succ j =>
      have e : p + 4 * (j + 1) = p + 4 + 4 * j := by omega
      rw [e] at hw
      have i := ih (p + 4) j (by omega) hw (fun k hk hkj => by
        have := ho (k + 1) (by omega) (by omega)
        have e : p + 4 * (k + 1) = p + 4 + 4 * k := by omega
        rw [e] at this
        exact this)
      have w0 := ho 0 (by omega) (by omega)
      simp only [Nat.mul_zero, Nat.add_zero] at w0
      rw [w0] at s2
      rw [w0]
      generalize csum_words m (p + 4) n = W at *
      generalize csum_words m' (p + 4) n = W2 at *
      generalize ld32 m p = a at *
      have t1 : Nat.ModEq 65535 (csum_add32 a W2) (a + W2) := s2
      have t2 : Nat.ModEq 65535 (csum_add32 a W + d) (a + W + d) := Nat.ModEq.add_right d s1
      have t3 : Nat.ModEq 65535 (a + W2) (a + (W + d)) := Nat.ModEq.add_left a i
      have e3 : a + (W + d) = a + W + d := by omega
      rw [e3] at t3
      exact t1.trans (t3.trans t2.symm)

/-- A pseudo-header checksum verifies: `P` is the sum of the pseudo-header
words, `v` the sum of the buffer with a zeroed checksum field and `w` the sum
of the buffer that holds the checksum computed from `v`. -/
theorem fold_verify (P v w : Nat) (hP : P < 64424509440) (hPne : P ≠ 0)
    (hv : v < 4294967296) (hw : w < 4294967296)
    (hsum : w % 65535 =
      (v + csum_fold ((((((v + P) &&& 0xffffffff) + ((v + P) >>> 32)) &&& 0xffffffff) +
        ((((v + P) &&& 0xffffffff) + ((v + P) >>> 32)) >>> 32)) % 4294967296)) % 65535) :
    csum_fold ((((((w + P) &&& 0xffffffff) + ((w + P) >>> 32)) &&& 0xffffffff) +
      ((((w + P) &&& 0xffffffff) + ((w + P) >>> 32)) >>> 32)) % 4294967296) = 0 := by
  obtain ⟨f1, f2, -⟩ := fold64_spec (v + P) (by omega)
  obtain ⟨g1, g2, g3⟩ := fold64_spec (w + P) (by omega)
  have g4 := g3 (by omega)
  generalize (((((v + P) &&& 0xffffffff) + ((v + P) >>> 32)) &&& 0xffffffff) +
      ((((v + P) &&& 0xffffffff) + ((v + P) >>> 32)) >>> 32)) = t at hsum f1 f2
  generalize (((((w + P) &&& 0xffffffff) + ((w + P) >>> 32)) &&& 0xffffffff) +
      ((((w + P) &&& 0xffffffff) + ((w + P) >>> 32)) >>> 32)) = u at g1 g2 g4 ⊢
  rw [Nat.mod_eq_of_lt f1] at hsum
  rw [Nat.mod_eq_of_lt g1]
  obtain ⟨-, c2, -⟩ := csum_fold_spec t f1
  obtain ⟨-, -, c3⟩ := csum_fold_spec u g1
  apply c3 g4
  have k1 : Nat.ModEq 65535 u (w + P) := g2
  have k2 : Nat.ModEq 65535 t (v + P) := f2
  have k3 : Nat.ModEq 65535 w (v + csum_fold t) := hsum
  have k4 : Nat.ModEq 65535 (t + csum_fold t) 0 := c2
  have k5 : Nat.ModEq 65535 (w + P) (v + P + csum_fold t) := by
    have k6 := Nat.ModEq.add_right P k3
    have e2 : v + csum_fold t + P = v + P + csum_fold t := by omega
    rw [e2] at k6
    exact k6
  exact (k1.trans (k5.trans ((Nat.ModEq.add_right (csum_fold t) k2).symm.trans k4)))

/-- The pseudo-header checksum of IPv4 is 0 for a buffer whose sum is, modulo
65535, the sum of the buffer with a zeroed checksum field plus the checksum
computed from it. -/
theorem csum_tcpudp_magic_verify (saddr daddr len proto v w : Nat) (hv : v < 4294967296)
    (hw : w < 4294967296)
    (hsum : w % 65535 = (v + csum_tcpudp_magic saddr daddr len proto v) % 65535)
    (hne : ((proto % 256 + len % 4294967296) <<< 8) % 4294967296 ≠ 0) :
    csum_tcpudp_magic saddr daddr len proto w = 0 := by
  unfold csum_tcpudp_magic at hsum ⊢
  simp only [] at hsum ⊢
  have a1 := Nat.mod_lt saddr (by decide : 4294967296 > 0)
  have a2 := Nat.mod_lt daddr (by decide : 4294967296 > 0)
  have a3 := Nat.mod_lt ((proto % 256 + len % 4294967296) <<< 8) (by decide : 4294967296 > 0)
  rw [Nat.mod_eq_of_lt hv] at hsum
  rw [Nat.mod_eq_of_lt hw]
  have e : ∀ x : Nat, x + saddr % 4294967296 + daddr % 4294967296 +
      ((proto % 256 + len % 4294967296) <<< 8) % 4294967296 =
      x + (saddr % 4294967296 + daddr % 4294967296 +
        ((proto % 256 + len % 4294967296) <<< 8) % 4294967296) := fun x => by
    rw [Nat.add_assoc, Nat.add_assoc, ← Nat.add_assoc (saddr % 4294967296)]
  rw [e] at hsum ⊢
  exact fold_verify _ v w (by omega) (by omega) hv hw hsum

/-- The pseudo-header checksum of IPv6, likewise. -/
theorem csum_ipv6_magic_verify (m : List u8) (saddr daddr len proto v w : Nat)
    (hv : v < 4294967296) (hw : w < 4294967296)
    (hsum : w % 65535 = (v + csum_ipv6_magic m saddr daddr len proto v) % 65535)
    (hne : bpf_htonl (proto % 256) ≠ 0) :
    csum_ipv6_magic m saddr daddr len proto w = 0 := by
  unfold csum_ipv6_magic at hsum ⊢
  simp only [] at hsum ⊢
  have b1 := ld32_lt m saddr
  have b2 := ld32_lt m (saddr + 4)
  have b3 := ld32_lt m (saddr + 8)
  have b4 := ld32_lt m (saddr + 12)
  have b5 := ld32_lt m daddr
  have b6 := ld32_lt m (daddr + 4)
  have b7 := ld32_lt m (daddr + 8)
  have b8 := ld32_lt m (daddr + 12)
  have b9 : bpf_htonl (len % 4294967296) < 4294967296 := by unfold bpf_htonl; omega
  have b10 : bpf_htonl (proto % 256) < 4294967296 := by unfold bpf_htonl; omega
  rw [Nat.mod_eq_of_lt hv] at hsum
  rw [Nat.mod_eq_of_lt hw]
  have e : ∀ x : Nat, x + ld32 m saddr + ld32 m (saddr + 4) + ld32 m (saddr + 8) +
      ld32 m (saddr + 12) + ld32 m daddr + ld32 m (daddr + 4) + ld32 m (daddr + 8) +
      ld32 m (daddr + 12) + bpf_htonl (len % 4294967296) + bpf_htonl (proto % 256) =
      x + (ld32 m saddr + ld32 m (saddr + 4) + ld32 m (saddr + 8) +
        ld32 m (saddr + 12) + ld32 m daddr + ld32 m (daddr + 4) + ld32 m (daddr + 8) +
        ld32 m (daddr + 12) + bpf_htonl (len % 4294967296) + bpf_htonl (proto % 256)) :=
    fun x => by simp only [Nat.add_assoc]
  rw [e] at hsum ⊢
  exact fold_verify _ v w (by omega) (by omega) hv hw hsum

/-- The fold of the sum of a buffer is 0 when the sum is non-zero and is,
modulo 65535, the sum of the buffer with a zeroed checksum field plus the
fold of that sum. -/
theorem csum_fold_verify (v w : Nat) (hv : v < 4294967296) (hw : w < 4294967296)
    (hsum : w % 65535 = (v + csum_fold v) % 65535) (hne : w ≠ 0) : csum_fold w = 0 := by
  obtain ⟨c1, c2, -⟩ := csum_fold_spec v hv
  obtain ⟨-, -, c3⟩ := csum_fold_spec w hw
  exact c3 hne (hsum.trans c2)

/-! ## The checksum fields of the SYN-ACK -/

/-- Storing a 16-bit value in the zeroed low half of a word of the buffer adds
the value to the sum. -/
theorem csum_words_st16_low (m : List u8) (p n j c : Nat) (hj : j < n)
    (hlen : p + 4 * j + 1 < m.length) (hc : c < 65536)
    (h0 : ld8 m (p + 4 * j) = 0) (h1 : ld8 m (p + 4 * j + 1) = 0) :
    csum_words (st16 m (p + 4 * j) c) p n % 65535 = (csum_words m p n + c) % 65535 := by
  apply csum_words_update m _ c n p j hj
  · unfold ld32
    rw [ld8_st16, ld8_st16, ld8_st16, ld8_st16, if_neg (by omega), if_pos rfl, if_pos (by omega),
      if_pos rfl, if_pos hlen, if_neg (by omega), if_neg (by omega), if_neg (by omega),
      if_neg (by omega), h0, h1]
    omega
  · intro k hk hkj
    apply ld32_congr
    intro i h1 h2
    rw [ld8_st16, if_neg (by omega), if_neg (by omega)]

/-- Storing a 16-bit value in the zeroed high half of a word of the buffer
adds the value to the sum, modulo 65535. -/
theorem csum_words_st16_high (m : List u8) (p n j c : Nat) (hj : j < n)
    (hlen : p + 4 * j + 3 < m.length) (hc : c < 65536)
    (h0 : ld8 m (p + 4 * j + 2) = 0) (h1 : ld8 m (p + 4 * j + 3) = 0) :
    csum_words (st16 m (p + 4 * j + 2) c) p n % 65535 = (csum_words m p n + c) % 65535 := by
  have h := csum_words_update m (st16 m (p + 4 * j + 2) c) (65536 * c) n p j hj (by
    unfold ld32
    rw [ld8_st16, ld8_st16, ld8_st16, ld8_st16, if_neg (by omega), if_neg (by omega),
      if_neg (by omega), if_neg (by omega), if_neg (by omega), if_pos rfl, if_pos (by omega),
      if_pos rfl, if_pos hlen, h0, h1]
    omega) (by
    intro k hk hkj
    apply ld32_congr
    intro i h1 h2
    rw [ld8_st16, if_neg (by omega), if_neg (by omega)])
  rw [h]
  have e : csum_words m p n + 65536 * c = csum_words m p n + c + 65535 * c := by omega
  rw [e, Nat.add_mul_mod_self_left]

/-- The sum over the TCP header once the checksum `X` is stored in the zeroed
field. -/
theorem tcp_check_sum (pkt out : List u8) (tcp tl X : Nat) (htl4 : tl % 4 = 0)
    (h20 : 20 ≤ tl) (h60 : tl ≤ 60) (hlen : tcp + tl ≤ pkt.length) (hX : X < 65536)
    (hout : ∀ q, tcp ≤ q → q < tcp + tl →
      ld8 out q = ld8 (st16 (st16 pkt (tcp + 16) 0) (tcp + 16) X) q) :
    (bpf_csum_diff (st16 pkt (tcp + 16) 0) tcp tl).toNat < 4294967296 ∧
    (bpf_csum_diff out tcp tl).toNat < 4294967296 ∧
    (bpf_csum_diff out tcp tl).toNat % 65535 =
      ((bpf_csum_diff (st16 pkt (tcp + 16) 0) tcp tl).toNat + X) % 65535 := by
  have c : ¬ (tl % 4 ≠ 0 ∨ tl > 512) := by omega
  unfold bpf_csum_diff
  simp only [c, if_false, Int.toNat_ofNat]
  refine ⟨csum_words_lt _ _ _, csum_words_lt _ _ _, ?_⟩
  rw [csum_words_congr out (st16 (st16 pkt (tcp + 16) 0) (tcp + 16) X) (tl / 4) tcp
    (fun i h1 h2 => hout i h1 (by omega))]
  have e : tcp + 16 = tcp + 4 * 4 := by omega
  rw [e]
  apply csum_words_st16_low _ tcp (tl / 4) 4 X (by omega) (by simp; omega) hX
  · rw [ld8_st16, if_neg (by omega), if_pos rfl, if_pos (by omega)]
  · rw [ld8_st16, if_pos rfl, if_pos (by omega)]

/-- The size difference of lines 574-576, read as an `int`, brings the
packet to its new size modulo 2^32, and to exactly its new size when the
packet is at most 2^31 bytes longer than that. -/
theorem resize_len_eq (L new : Nat) (hnew : new < 2147483648) :
    ((L : Int) +
      (if (new % 4294967296 + 4294967296 - L % 4294967296) % 4294967296 < 2147483648 then
        (((new % 4294967296 + 4294967296 - L % 4294967296) % 4294967296 : Nat) : Int)
      else (((new % 4294967296 + 4294967296 - L % 4294967296) % 4294967296 : Nat) : Int) -
        4294967296)).toNat % 4294967296 = new ∧
    (L ≤ 2147483648 + new → ((L : Int) +
      (if (new % 4294967296 + 4294967296 - L % 4294967296) % 4294967296 < 2147483648 then
        (((new % 4294967296 + 4294967296 - L % 4294967296) % 4294967296 : Nat) : Int)
      else (((new % 4294967296 + 4294967296 - L % 4294967296) % 4294967296 : Nat) : Int) -
        4294967296)).toNat = new) := by
  have h1 : new % 4294967296 = new := Nat.mod_eq_of_lt (by omega)
  rw [h1]
  have h2 := Nat.mod_lt L (by decide : 4294967296 > 0)
  have h3 := Nat.div_add_mod L 4294967296
  generalize L % 4294967296 = old at *
  generalize L / 4294967296 = q at *
  subst h3
  by_cases c : old ≤ new
  · have e : (new + 4294967296 - old) % 4294967296 = new - old := by omega
    rw [e]
    have c2 : new - old < 2147483648 := by omega
    rw [if_pos c2]
    refine ⟨?_, fun hL => by omega⟩
    have e2 : (((4294967296 * q + old : Nat) : Int) + ((new - old : Nat) : Int)).toNat =
        new + 4294967296 * q := by omega
    rw [e2, Nat.add_mul_mod_self_left]
    exact Nat.mod_eq_of_lt (by omega)
  · have e : (new + 4294967296 - old) % 4294967296 = new + 4294967296 - old := by omega
    rw [e]
    by_cases c2 : new + 4294967296 - old < 2147483648
    · rw [if_pos c2]
      refine ⟨?_, fun hL => by omega⟩
      have e2 : (((4294967296 * q + old : Nat) : Int) +
          ((new + 4294967296 - old : Nat) : Int)).toNat = new + 4294967296 * (q + 1) := by omega
      rw [e2, Nat.add_mul_mod_self_left]
      exact Nat.mod_eq_of_lt (by omega)
    · rw [if_neg c2]
      refine ⟨?_, fun hL => by omega⟩
      have e2 : (((4294967296 * q + old : Nat) : Int) +
          (((new + 4294967296 - old : Nat) : Int) - 4294967296)).toNat =
            new + 4294967296 * q := by omega
      rw [e2, Nat.add_mul_mod_self_left]
      exact Nat.mod_eq_of_lt (by omega)

/-! ## The last two stages of the SYN handler, from the verdict `XDP_TX` -/

/-- Lines 573-581: the verdict `XDP_TX` means that the kernel has cut the
packet to its new size. -/
theorem syncookie_handle_syn_resize_tx (env : Env) (hdr : header_pointers) (st : xdp_state)
    (ip_len de : Nat) (hde : de = st.pkt.length) (hip : ip_len ≤ 40)
    (htx : (syncookie_handle_syn_resize env hdr st ip_len 0 de).1 = XDP_TX) :
    ∃ N, (syncookie_handle_syn_resize env hdr st ip_len 0 de).2.pkt = resize_tail env st.pkt N ∧
      N % 4294967296 = 14 + ip_len + tcphdr_doff st.pkt hdr.tcp * 4 ∧
      (st.pkt.length ≤ 2147483648 + (14 + ip_len + tcphdr_doff st.pkt hdr.tcp * 4) →
        N = 14 + ip_len + tcphdr_doff st.pkt hdr.tcp * 4) ∧
      14 + ip_len + tcphdr_doff st.pkt hdr.tcp * 4 ≤ N := by
  subst hde
  have hd := tcphdr_doff_le st.pkt hdr.tcp
  have hnew : 14 + ip_len + tcphdr_doff st.pkt hdr.tcp * 4 < 2147483648 := by omega
  obtain ⟨r1, r2⟩ := resize_len_eq st.pkt.length _ hnew
  have r3 := resize_len st.pkt.length _ hnew
  unfold syncookie_handle_syn_resize bpf_xdp_adjust_tail at htx ⊢
  simp only [sizeof_ethhdr, Nat.sub_zero] at htx ⊢
  by_cases c : env.adjust_tail_ret st.pkt.length
      (if (((14 + ip_len + tcphdr_doff st.pkt hdr.tcp * 4) % 4294967296 + 4294967296 -
          st.pkt.length % 4294967296) % 4294967296 < 2147483648) then
        ((((14 + ip_len + tcphdr_doff st.pkt hdr.tcp * 4) % 4294967296 + 4294967296 -
          st.pkt.length % 4294967296) % 4294967296 : Nat) : Int)
      else ((((14 + ip_len + tcphdr_doff st.pkt hdr.tcp * 4) % 4294967296 + 4294967296 -
          st.pkt.length % 4294967296) % 4294967296 : Nat) : Int) - 4294967296) = 0
  · simp only [c, ne_eq, not_true_eq_false, if_false]
    exact ⟨_, rfl, r1, r2, r3⟩
  · simp only [c, ne_eq, not_false_eq_true, if_true] at htx
    cases htx

/-- Lines 546-581 for IPv4, from the verdict `XDP_TX`: the frame that leaves
keeps the bytes of the synthesis outside the two checksum fields, has its
new length, and both checksums verify. -/
theorem syncookie_handle_syn_csum_tx_v4 (env : Env) (st : xdp_state) (tl : Nat)
    (htl : tl = tcphdr_doff st.pkt 34 * 4) (h20 : 20 ≤ tl) (hlen : 34 + tl ≤ st.pkt.length)
    (h14 : ld8 st.pkt 14 ≠ 0)
    (htx : (syncookie_handle_syn_csum env ⟨0, some 14, none, 34, tl⟩ st sizeof_iphdr 0
      st.pkt.length).1 = XDP_TX) :
    (∀ q, q < 34 + tl → q ≠ 24 → q ≠ 25 → q ≠ 50 → q ≠ 51 →
      ld8 (syncookie_handle_syn_csum env ⟨0, some 14, none, 34, tl⟩ st sizeof_iphdr 0
        st.pkt.length).2.pkt q = ld8 st.pkt q) ∧
    (syncookie_handle_syn_csum env ⟨0, some 14, none, 34, tl⟩ st sizeof_iphdr 0
      st.pkt.length).2.pkt.length % 4294967296 = 34 + tl ∧
    (st.pkt.length ≤ 2147483648 + (34 + tl) →
      (syncookie_handle_syn_csum env ⟨0, some 14, none, 34, tl⟩ st sizeof_iphdr 0
        st.pkt.length).2.pkt.length = 34 + tl) ∧
    34 + tl ≤ (syncookie_handle_syn_csum env ⟨0, some 14, none, 34, tl⟩ st sizeof_iphdr 0
      st.pkt.length).2.pkt.length ∧
    csum_fold (bpf_csum_diff (syncookie_handle_syn_csum env ⟨0, some 14, none, 34, tl⟩ st
      sizeof_iphdr 0 st.pkt.length).2.pkt 14 sizeof_iphdr).toNat = 0 ∧
    csum_tcpudp_magic
      (iphdr_saddr (syncookie_handle_syn_csum env ⟨0, some 14, none, 34, tl⟩ st sizeof_iphdr 0
        st.pkt.length).2.pkt 14)
      (iphdr_daddr (syncookie_handle_syn_csum env ⟨0, some 14, none, 34, tl⟩ st sizeof_iphdr 0
        st.pkt.length).2.pkt 14) tl IPPROTO_TCP
      (bpf_csum_diff (syncookie_handle_syn_csum env ⟨0, some 14, none, 34, tl⟩ st sizeof_iphdr 0
        st.pkt.length).2.pkt 34 tl).toNat = 0 := by
  have hd := tcphdr_doff_le st.pkt 34
  have htl4 : tl % 4 = 0 := by omega
  have n1 := bpf_csum_diff_nonneg (st16 st.pkt (34 + 16) 0) 34 tl htl4 (by omega)
  obtain ⟨X, hX⟩ : ∃ X, X = csum_tcpudp_magic (iphdr_saddr (st16 st.pkt (34 + 16) 0) 14)
    (iphdr_daddr (st16 st.pkt (34 + 16) 0) 14) tl IPPROTO_TCP
    (bpf_csum_diff (st16 st.pkt (34 + 16) 0) 34 tl).toNat := ⟨_, rfl⟩
  have n2 := bpf_csum_diff_nonneg
    (st16 (st16 (st16 st.pkt (34 + 16) 0) (34 + 16) X) (14 + 10) 0) 14 sizeof_iphdr (by decide)
    (by decide)
  obtain ⟨Y, hY⟩ : ∃ Y, Y = csum_fold (bpf_csum_diff
    (st16 (st16 (st16 st.pkt (34 + 16) 0) (34 + 16) X) (14 + 10) 0) 14 sizeof_iphdr).toNat :=
    ⟨_, rfl⟩
  have hR : syncookie_handle_syn_csum env ⟨0, some 14, none, 34, tl⟩ st sizeof_iphdr 0
      st.pkt.length =
      syncookie_handle_syn_resize env ⟨0, some 14, none, 34, tl⟩
        ⟨st16 (st16 (st16 (st16 st.pkt (34 + 16) 0) (34 + 16) X) (14 + 10) 0) (14 + 10) Y,
          st.values, st.allowed_ports, st.calls⟩ sizeof_iphdr 0 st.pkt.length := by
    unfold syncookie_handle_syn_csum
    simp only [n1, if_false]
    rw [← hX]
    simp only [n2, if_false]
    rw [← hY]
  rw [hR] at htx ⊢
  obtain ⟨N, hN, hN1, hN2, hN3⟩ := syncookie_handle_syn_resize_tx env _ _ sizeof_iphdr
    st.pkt.length (by simp) (by decide) htx
  rw [hN]
  have hdo : tcphdr_doff
      (st16 (st16 (st16 (st16 st.pkt (34 + 16) 0) (34 + 16) X) (14 + 10) 0) (14 + 10) Y) 34 =
      tcphdr_doff st.pkt 34 := by
    simp [tcphdr_doff, ld8_st16]
  simp only [hdo, sizeof_iphdr, length_st16] at hN1 hN2 hN3
  have hXlt : X < 65536 := by
    rw [hX]
    unfold csum_tcpudp_magic
    exact (csum_fold_spec _ (Nat.mod_lt _ (by decide))).1
  have hYlt : Y < 65536 := by
    rw [hY]
    unfold csum_fold
    exact Nat.mod_lt _ (by decide)
  have hres : ∀ q, q < 34 + tl →
      ld8 (resize_tail env
        (st16 (st16 (st16 (st16 st.pkt (34 + 16) 0) (34 + 16) X) (14 + 10) 0) (14 + 10) Y) N) q =
      ld8 (st16 (st16 (st16 (st16 st.pkt (34 + 16) 0) (34 + 16) X) (14 + 10) 0) (14 + 10) Y) q :=
    fun q hq => ld8_resize_tail _ _ _ _ (by simp; omega) (by omega)
  have hbytes : ∀ q, q < 34 + tl → q ≠ 24 → q ≠ 25 → q ≠ 50 → q ≠ 51 →
      ld8 (resize_tail env
        (st16 (st16 (st16 (st16 st.pkt (34 + 16) 0) (34 + 16) X) (14 + 10) 0) (14 + 10) Y) N) q =
      ld8 st.pkt q := by
    intro q hq a1 a2 a3 a4
    rw [hres q hq]
    simp [ld8_st16, a1, a2, a3, a4]
  have htcp : ∀ q, 34 ≤ q → q < 34 + tl →
      ld8 (resize_tail env
        (st16 (st16 (st16 (st16 st.pkt (34 + 16) 0) (34 + 16) X) (14 + 10) 0) (14 + 10) Y) N) q =
      ld8 (st16 (st16 st.pkt (34 + 16) 0) (34 + 16) X) q := by
    intro q h1 h2
    rw [hres q h2, ld8_st16, if_neg (by omega), if_neg (by omega), ld8_st16, if_neg (by omega),
      if_neg (by omega)]
  have hip : ∀ q, 14 ≤ q → q < 34 →
      ld8 (resize_tail env
        (st16 (st16 (st16 (st16 st.pkt (34 + 16) 0) (34 + 16) X) (14 + 10) 0) (14 + 10) Y) N) q =
      ld8 (st16 (st16 (st16 (st16 st.pkt (34 + 16) 0) (34 + 16) X) (14 + 10) 0) (14 + 10) Y) q :=
    fun q _ h2 => hres q (by omega)
  refine ⟨hbytes, ?_, ?_, ?_, ?_, ?_⟩
  · rw [length_resize_tail]
    omega
  · intro hL
    rw [length_resize_tail]
    have := hN2 (by omega)
    omega
  · rw [length_resize_tail]
    omega
  · have c : ¬ (20 % 4 ≠ 0 ∨ 20 > 512) := by decide
    unfold bpf_csum_diff at hY ⊢
    simp only [sizeof_iphdr, c, if_false, Int.toNat_ofNat, Nat.reduceDiv] at hY ⊢
    rw [csum_words_congr _ _ 5 14 (fun i h1 h2 => hip i h1 (by omega))]
    apply csum_fold_verify
      (csum_words (st16 (st16 (st16 st.pkt (34 + 16) 0) (34 + 16) X) (14 + 10) 0) 14 5) _
      (csum_words_lt _ _ _) (csum_words_lt _ _ _)
    · rw [← hY]
      have e : (14 : Nat) + 10 = 14 + 4 * 2 + 2 := rfl
      rw [e]
      apply csum_words_st16_high _ 14 5 2 Y (by decide) (by simp; omega) hYlt
      · rw [ld8_st16, if_neg (by omega), if_pos rfl, if_pos (by simp; omega)]
      · rw [ld8_st16, if_pos rfl, if_pos (by simp; omega)]
    · apply csum_words_ne_zero _ 5 14 0 (by decide)
      have e14 : ld8 (st16 (st16 (st16 (st16 st.pkt (34 + 16) 0) (34 + 16) X) (14 + 10) 0)
          (14 + 10) Y) 14 = ld8 st.pkt 14 := by
        simp [ld8_st16]
      unfold ld32
      simp only [Nat.mul_zero, Nat.add_zero, e14]
      omega
  · obtain ⟨v1, v2, v3⟩ := tcp_check_sum st.pkt
      (resize_tail env
        (st16 (st16 (st16 (st16 st.pkt (34 + 16) 0) (34 + 16) X) (14 + 10) 0) (14 + 10) Y) N)
      34 tl X htl4 h20 (by omega) hlen hXlt htcp
    have es : iphdr_saddr (resize_tail env
        (st16 (st16 (st16 (st16 st.pkt (34 + 16) 0) (34 + 16) X) (14 + 10) 0) (14 + 10) Y) N) 14 =
        iphdr_saddr (st16 st.pkt (34 + 16) 0) 14 := by
      unfold iphdr_saddr
      apply ld32_congr
      intro i h1 h2
      rw [hbytes i (by omega) (by omega) (by omega) (by omega) (by omega), ld8_st16,
        if_neg (by omega), if_neg (by omega)]
    have ed : iphdr_daddr (resize_tail env
        (st16 (st16 (st16 (st16 st.pkt (34 + 16) 0) (34 + 16) X) (14 + 10) 0) (14 + 10) Y) N) 14 =
        iphdr_daddr (st16 st.pkt (34 + 16) 0) 14 := by
      unfold iphdr_daddr
      apply ld32_congr
      intro i h1 h2
      rw [hbytes i (by omega) (by omega) (by omega) (by omega) (by omega), ld8_st16,
        if_neg (by omega), if_neg (by omega)]
    rw [es, ed]
    apply csum_tcpudp_magic_verify _ _ _ _ _ _ v1 v2
    · rw [← hX]
      exact v3
    · simp only [IPPROTO_TCP, Nat.shiftLeft_eq]
      omega

/-- Lines 546-581 for IPv6, from the verdict `XDP_TX`: the frame that leaves
keeps the bytes of the synthesis outside the checksum field, has its new
length, and the TCP checksum verifies. -/
theorem syncookie_handle_syn_csum_tx_v6 (env : Env) (st : xdp_state) (tl : Nat)
    (htl : tl = tcphdr_doff st.pkt 54 * 4) (h20 : 20 ≤ tl) (hlen : 54 + tl ≤ st.pkt.length)
    (htx : (syncookie_handle_syn_csum env ⟨0, none, some 14, 54, tl⟩ st sizeof_ipv6hdr 0
      st.pkt.length).1 = XDP_TX) :
    (∀ q, q < 54 + tl → q ≠ 70 → q ≠ 71 →
      ld8 (syncookie_handle_syn_csum env ⟨0, none, some 14, 54, tl⟩ st sizeof_ipv6hdr 0
        st.pkt.length).2.pkt q = ld8 st.pkt q) ∧
    (syncookie_handle_syn_csum env ⟨0, none, some 14, 54, tl⟩ st sizeof_ipv6hdr 0
      st.pkt.length).2.pkt.length % 4294967296 = 54 + tl ∧
    (st.pkt.length ≤ 2147483648 + (54 + tl) →
      (syncookie_handle_syn_csum env ⟨0, none, some 14, 54, tl⟩ st sizeof_ipv6hdr 0
        st.pkt.length).2.pkt.length = 54 + tl) ∧
    54 + tl ≤ (syncookie_handle_syn_csum env ⟨0, none, some 14, 54, tl⟩ st sizeof_ipv6hdr 0
      st.pkt.length).2.pkt.length ∧
    csum_ipv6_magic
      (syncookie_handle_syn_csum env ⟨0, none, some 14, 54, tl⟩ st sizeof_ipv6hdr 0
        st.pkt.length).2.pkt (14 + 8) (14 + 24) tl IPPROTO_TCP
      (bpf_csum_diff (syncookie_handle_syn_csum env ⟨0, none, some 14, 54, tl⟩ st sizeof_ipv6hdr 0
        st.pkt.length).2.pkt 54 tl).toNat = 0 := by
  have hd := tcphdr_doff_le st.pkt 54
  have htl4 : tl % 4 = 0 := by omega
  have n1 := bpf_csum_diff_nonneg (st16 st.pkt (54 + 16) 0) 54 tl htl4 (by omega)
  obtain ⟨X, hX⟩ : ∃ X, X = csum_ipv6_magic (st16 st.pkt (54 + 16) 0) (14 + 8) (14 + 24) tl
    IPPROTO_TCP (bpf_csum_diff (st16 st.pkt (54 + 16) 0) 54 tl).toNat := ⟨_, rfl⟩
  have hR : syncookie_handle_syn_csum env ⟨0, none, some 14, 54, tl⟩ st sizeof_ipv6hdr 0
      st.pkt.length =
      syncookie_handle_syn_resize env ⟨0, none, some 14, 54, tl⟩
        ⟨st16 (st16 st.pkt (54 + 16) 0) (54 + 16) X, st.values, st.allowed_ports, st.calls⟩
        sizeof_ipv6hdr 0 st.pkt.length := by
    unfold syncookie_handle_syn_csum
    simp only [n1, if_false]
    rw [← hX]
  rw [hR] at htx ⊢
  obtain ⟨N, hN, hN1, hN2, hN3⟩ := syncookie_handle_syn_resize_tx env _ _ sizeof_ipv6hdr
    st.pkt.length (by simp) (by decide) htx
  rw [hN]
  have hdo : tcphdr_doff (st16 (st16 st.pkt (54 + 16) 0) (54 + 16) X) 54 =
      tcphdr_doff st.pkt 54 := by
    simp [tcphdr_doff, ld8_st16]
  simp only [hdo, sizeof_ipv6hdr, length_st16] at hN1 hN2 hN3
  have hXlt : X < 65536 := by
    rw [hX]
    unfold csum_ipv6_magic
    exact (csum_fold_spec _ (Nat.mod_lt _ (by decide))).1
  have hres : ∀ q, q < 54 + tl →
      ld8 (resize_tail env (st16 (st16 st.pkt (54 + 16) 0) (54 + 16) X) N) q =
      ld8 (st16 (st16 st.pkt (54 + 16) 0) (54 + 16) X) q :=
    fun q hq => ld8_resize_tail _ _ _ _ (by simp; omega) (by omega)
  have hbytes : ∀ q, q < 54 + tl → q ≠ 70 → q ≠ 71 →
      ld8 (resize_tail env (st16 (st16 st.pkt (54 + 16) 0) (54 + 16) X) N) q = ld8 st.pkt q := by
    intro q hq a1 a2
    rw [hres q hq]
    simp [ld8_st16, a1, a2]
  refine ⟨hbytes, ?_, ?_, ?_, ?_⟩
  · rw [length_resize_tail]
    omega
  · intro hL
    rw [length_resize_tail]
    have := hN2 (by omega)
    omega
  · rw [length_resize_tail]
    omega
  · obtain ⟨v1, v2, v3⟩ := tcp_check_sum st.pkt
      (resize_tail env (st16 (st16 st.pkt (54 + 16) 0) (54 + 16) X) N)
      54 tl X htl4 h20 (by omega) hlen hXlt (fun q _ h2 => hres q h2)
    rw [csum_ipv6_magic_congr _ (st16 st.pkt (54 + 16) 0) (14 + 8) (14 + 24) tl IPPROTO_TCP _
      (fun i h1 h2 => by
        rw [hbytes i (by omega) (by omega) (by omega), ld8_st16, if_neg (by omega),
          if_neg (by omega)])
      (fun i h1 h2 => by
        rw [hbytes i (by omega) (by omega) (by omega), ld8_st16, if_neg (by omega),
          if_neg (by omega)])]
    apply csum_ipv6_magic_verify _ _ _ _ _ _ _ v1 v2
    · rw [← hX]
      exact v3
    · decide

/-! ## Lengths and offsets of the synthesized headers -/

/-- The synthesis for IPv4 leaves the EtherType and the first byte of the
IPv4 header as it finds them. -/
theorem tcpv4_gen_synack_keeps (values : List Nat) (m : List u8) (tl cookie : Nat)
    (tsopt : Option (Nat × Nat)) (hlen : 74 ≤ m.length) (q : Nat) (h1 : 12 ≤ q) (h2 : q ≤ 14) :
    ld8 (tcpv4_gen_synack values m ⟨0, some 14, none, 34, tl⟩ 14 cookie tsopt).1 q =
      ld8 m q := by
  have len_swap : ∀ x : List u8, (swap_eth_addr x 6 0).length = x.length := by
    intro x; simp [swap_eth_addr]
  have swap_b : ld8 (swap_eth_addr m 6 0) q = ld8 m q := by
    unfold swap_eth_addr ETH_ALEN
    rw [ld8_memcpy _ _ _ _ _ _ (by rw [length_memcpy]; omega), ld8_memcpy _ _ _ _ _ _ (by omega),
      if_neg (by omega), if_neg (by omega)]
  have gframe : ∀ (mA : List u8) (q : Nat), 74 ≤ mA.length → q < 34 →
      ld8 (tcp_gen_synack mA 34 cookie tsopt (values_get_tcpipopts values false).1
        (values_get_tcpipopts values false).2.1) q = ld8 mA q :=
    fun mA q h hq => (tcp_gen_synack_spec mA 34 cookie tsopt _ _ (by omega)).2.1 q hq
  have n : ∀ j, 15 ≤ j → ¬ (q = j) := fun j hj => by omega
  unfold tcpv4_gen_synack
  simp only [Nat.zero_add, sizeof_iphdr]
  simp only [Nat.reduceAdd]
  rw [ld8_st16, if_neg (by omega), if_neg (by omega),
    gframe _ q (by simp [len_swap]; omega) (by omega)]
  simp [ld8_st8, ld8_st16, ld8_st32, swap_b, n]

/-- The data offset and the total length that `tcpv4_gen_synack` writes. -/
theorem tcpv4_gen_synack_lengths (values : List Nat) (m : List u8) (tl cookie : Nat)
    (tsopt : Option (Nat × Nat)) (hlen : 74 ≤ m.length) :
    (tcphdr_doff (tcpv4_gen_synack values m ⟨0, some 14, none, 34, tl⟩ 14 cookie tsopt).1 34 = 6 ∨
      tcphdr_doff (tcpv4_gen_synack values m ⟨0, some 14, none, 34, tl⟩ 14 cookie tsopt).1 34 = 9 ∨
      tcphdr_doff (tcpv4_gen_synack values m ⟨0, some 14, none, 34, tl⟩ 14 cookie tsopt).1 34 =
        10) ∧
    ld8 (tcpv4_gen_synack values m ⟨0, some 14, none, 34, tl⟩ 14 cookie tsopt).1 16 = 0 ∧
    ld8 (tcpv4_gen_synack values m ⟨0, some 14, none, 34, tl⟩ 14 cookie tsopt).1 17 =
      20 + tcphdr_doff (tcpv4_gen_synack values m ⟨0, some 14, none, 34, tl⟩ 14 cookie tsopt).1 34
        * 4 := by
  obtain ⟨-, hL, -, -, hq, -, hL2⟩ := tcpv4_gen_synack_spec values m tl cookie tsopt hlen
  have hdo : tcphdr_doff (tcpv4_gen_synack values m ⟨0, some 14, none, 34, tl⟩ 14 cookie
      tsopt).1 34 = tcphdr_doff (tcp_gen_synack
          (st8 (st16 (st8 (st16 (st32 (st32 (swap_eth_addr m 6 0) 26
            (iphdr_daddr (swap_eth_addr m 6 0) 14)) 30 (iphdr_saddr (swap_eth_addr m 6 0) 14))
            24 0) 15 0) 18 0) 22 (values_get_tcpipopts values false).2.2)
          34 cookie tsopt (values_get_tcpipopts values false).1
          (values_get_tcpipopts values false).2.1) 34 := by
    unfold tcphdr_doff
    rw [hq (34 + 12) (by omega)]
  have hdv := (tcp_gen_synack_spec
    (st8 (st16 (st8 (st16 (st32 (st32 (swap_eth_addr m 6 0) 26
      (iphdr_daddr (swap_eth_addr m 6 0) 14)) 30 (iphdr_saddr (swap_eth_addr m 6 0) 14))
      24 0) 15 0) 18 0) 22 (values_get_tcpipopts values false).2.2)
    34 cookie tsopt (values_get_tcpipopts values false).1
    (values_get_tcpipopts values false).2.1 (by rw [hL2]; omega)).2.2.2.2.2.2.2.2
  rw [← hdo] at hdv
  refine ⟨hdv, ?_⟩
  have hlen2 := (tcp_gen_synack_spec
    (st8 (st16 (st8 (st16 (st32 (st32 (swap_eth_addr m 6 0) 26
      (iphdr_daddr (swap_eth_addr m 6 0) 14)) 30 (iphdr_saddr (swap_eth_addr m 6 0) 14))
      24 0) 15 0) 18 0) 22 (values_get_tcpipopts values false).2.2)
    34 cookie tsopt (values_get_tcpipopts values false).1
    (values_get_tcpipopts values false).2.1 (by rw [hL2]; omega)).1
  rw [hdo]
  unfold tcpv4_gen_synack
  simp only [Nat.zero_add, sizeof_iphdr]
  simp only [Nat.reduceAdd]
  rw [ld8_st16, ld8_st16, if_neg (by omega), if_pos rfl, if_pos (by rw [hlen2, hL2]; omega),
    if_pos rfl, if_pos (by rw [hlen2, hL2]; omega)]
  rw [hdo] at hdv
  unfold bpf_htons
  rcases hdv with h | h | h <;> (rw [h]; exact ⟨by omega, by omega⟩)

/-- The frame written by `tcpv6_gen_synack` (Ethernet header at 0, IPv6
header at 14, TCP header at 54): header view, length, EtherType, data
offset, payload length, ports and flags. -/
theorem tcpv6_gen_synack_spec (values : List Nat) (m : List u8) (tl cookie : Nat)
    (tsopt : Option (Nat × Nat)) (hlen : 94 ≤ m.length) :
    (tcpv6_gen_synack values m ⟨0, none, some 14, 54, tl⟩ 14 cookie tsopt).2 =
      ⟨0, none, some 14, 54,
        tcphdr_doff (tcpv6_gen_synack values m ⟨0, none, some 14, 54, tl⟩ 14 cookie tsopt).1 54
          * 4⟩ ∧
    (tcpv6_gen_synack values m ⟨0, none, some 14, 54, tl⟩ 14 cookie tsopt).1.length = m.length ∧
    (ld8 (tcpv6_gen_synack values m ⟨0, none, some 14, 54, tl⟩ 14 cookie tsopt).1 12 = ld8 m 12 ∧
      ld8 (tcpv6_gen_synack values m ⟨0, none, some 14, 54, tl⟩ 14 cookie tsopt).1 13 =
        ld8 m 13) ∧
    (tcphdr_doff (tcpv6_gen_synack values m ⟨0, none, some 14, 54, tl⟩ 14 cookie tsopt).1 54 = 6 ∨
      tcphdr_doff (tcpv6_gen_synack values m ⟨0, none, some 14, 54, tl⟩ 14 cookie tsopt).1 54 = 9 ∨
      tcphdr_doff (tcpv6_gen_synack values m ⟨0, none, some 14, 54, tl⟩ 14 cookie tsopt).1 54 =
        10) ∧
    (ld8 (tcpv6_gen_synack values m ⟨0, none, some 14, 54, tl⟩ 14 cookie tsopt).1 18 = 0 ∧
      ld8 (tcpv6_gen_synack values m ⟨0, none, some 14, 54, tl⟩ 14 cookie tsopt).1 19 =
        tcphdr_doff (tcpv6_gen_synack values m ⟨0, none, some 14, 54, tl⟩ 14 cookie tsopt).1 54
          * 4) ∧
    (ld8 (tcpv6_gen_synack values m ⟨0, none, some 14, 54, tl⟩ 14 cookie tsopt).1 54 = ld8 m 56 ∧
      ld8 (tcpv6_gen_synack values m ⟨0, none, some 14, 54, tl⟩ 14 cookie tsopt).1 55 = ld8 m 57 ∧
      ld8 (tcpv6_gen_synack values m ⟨0, none, some 14, 54, tl⟩ 14 cookie tsopt).1 56 = ld8 m 54 ∧
      ld8 (tcpv6_gen_synack values m ⟨0, none, some 14, 54, tl⟩ 14 cookie tsopt).1 57 =
        ld8 m 55) ∧
    ld8 (tcpv6_gen_synack values m ⟨0, none, some 14, 54, tl⟩ 14 cookie tsopt).1 67 =
      (match tsopt with
        | some t => if t.1 &&& bpf_htonl (1 <<< 5) ≠ 0 then 0x52 else 0x12
        | none => 0x12) := by
  obtain ⟨M, hM⟩ : ∃ M, M = st8 (st32 (memcpy (memcpy (swap_eth_addr m 6 0) 22
    (swap_eth_addr m 6 0) 38 16) 38 (swap_eth_addr m 6 0) 22 16) 14 (bpf_htonl 0x60000000)) 21
    (values_get_tcpipopts values true).2.2 := ⟨_, rfl⟩
  have hG : tcpv6_gen_synack values m ⟨0, none, some 14, 54, tl⟩ 14 cookie tsopt =
      (st16 (tcp_gen_synack M 54 cookie tsopt (values_get_tcpipopts values true).1
          (values_get_tcpipopts values true).2.1) 18
        (bpf_htons (tcphdr_doff (tcp_gen_synack M 54 cookie tsopt
          (values_get_tcpipopts values true).1 (values_get_tcpipopts values true).2.1) 54 * 4)),
        ⟨0, none, some 14, 54, tcphdr_doff (tcp_gen_synack M 54 cookie tsopt
          (values_get_tcpipopts values true).1 (values_get_tcpipopts values true).2.1) 54 * 4⟩) := by
    rw [hM]
    rfl
  have len_swap : (swap_eth_addr m 6 0).length = m.length := by simp [swap_eth_addr]
  have hML : M.length = m.length := by
    rw [hM]
    simp [len_swap]
  have swap_b : ∀ q, 12 ≤ q → ld8 (swap_eth_addr m 6 0) q = ld8 m q := by
    intro q hq
    unfold swap_eth_addr ETH_ALEN
    rw [ld8_memcpy _ _ _ _ _ _ (by rw [length_memcpy]; omega), ld8_memcpy _ _ _ _ _ _ (by omega),
      if_neg (by omega), if_neg (by omega)]
  have hMq : ∀ q, 54 ≤ q ∨ q = 12 ∨ q = 13 → ld8 M q = ld8 m q := by
    intro q hq
    rw [hM, ld8_st8, if_neg (by omega), ld8_st32, if_neg (by omega), if_neg (by omega),
      if_neg (by omega), if_neg (by omega),
      ld8_memcpy _ _ _ _ _ _ (by rw [length_memcpy, len_swap]; omega), if_neg (by omega),
      ld8_memcpy _ _ _ _ _ _ (by rw [len_swap]; omega), if_neg (by omega),
      swap_b q (by omega)]
  obtain ⟨gl, gfr, ⟨p0, p1, p2, p3⟩, -, -, gfl, -, -, gdo⟩ := tcp_gen_synack_spec M 54 cookie
    tsopt (values_get_tcpipopts values true).1 (values_get_tcpipopts values true).2.1
    (by rw [hML]; omega)
  have hdo : tcphdr_doff (st16 (tcp_gen_synack M 54 cookie tsopt
      (values_get_tcpipopts values true).1 (values_get_tcpipopts values true).2.1) 18
      (bpf_htons (tcphdr_doff (tcp_gen_synack M 54 cookie tsopt
        (values_get_tcpipopts values true).1 (values_get_tcpipopts values true).2.1) 54 * 4)))
      54 = tcphdr_doff (tcp_gen_synack M 54 cookie tsopt
        (values_get_tcpipopts values true).1 (values_get_tcpipopts values true).2.1) 54 := by
    unfold tcphdr_doff
    rw [ld8_st16, if_neg (by omega), if_neg (by omega)]
  rw [hG]
  simp only [hdo]
  refine ⟨trivial, ?_, ⟨?_, ?_⟩, gdo, ?_, ⟨?_, ?_, ?_, ?_⟩, ?_⟩
  · rw [length_st16, gl, hML]
  · rw [ld8_st16, if_neg (by omega), if_neg (by omega), gfr 12 (by omega), hMq 12 (by omega)]
  · rw [ld8_st16, if_neg (by omega), if_neg (by omega), gfr 13 (by omega), hMq 13 (by omega)]
  · rw [ld8_st16, ld8_st16, if_neg (by omega), if_pos rfl, if_pos (by rw [gl, hML]; omega),
      if_pos rfl, if_pos (by rw [gl, hML]; omega)]
    unfold bpf_htons
    rcases gdo with h | h | h <;> (rw [h]; exact ⟨by omega, by omega⟩)
  · rw [ld8_st16, if_neg (by omega), if_neg (by omega), p0, hMq _ (by omega)]
  · rw [ld8_st16, if_neg (by omega), if_neg (by omega), p1, hMq _ (by omega)]
  · rw [ld8_st16, if_neg (by omega), if_neg (by omega), p2, hMq _ (by omega)]
  · rw [ld8_st16, if_neg (by omega), if_neg (by omega), p3, hMq _ (by omega)]
  · rw [ld8_st16, if_neg (by omega), if_neg (by omega)]
    exact gfl

/-- Without a timestamp pair `tcp_gen_synack` writes the MSS option only:
the data offset is 6. -/
theorem tcp_gen_synack_doff_none (m : List u8) (tcp cookie mss wscale : Nat)
    (hlen : tcp + 40 ≤ m.length) :
    tcphdr_doff (tcp_gen_synack m tcp cookie none mss wscale) tcp = 6 := by
  obtain ⟨m5, hl5, hd5, heq⟩ := tcp_gen_synack_shape m tcp cookie none mss wscale hlen
  have hcount := tcp_mkoptions_count m5 (tcp + 20) none mss wscale
  simp only [] at hcount
  have hlen1 := (tcp_mkoptions_spec m5 (tcp + 20) none mss wscale (by omega)).1
  have hfr12 := (tcp_mkoptions_spec m5 (tcp + 20) none mss wscale (by omega)).2.1 (tcp + 12)
    (by omega)
  rw [heq]
  unfold tcphdr_set_doff tcphdr_doff
  rw [ld8_st8_in _ _ _ _ (by rw [hlen1]; omega), if_pos rfl, hfr12, hcount]
  unfold tcphdr_doff at hd5
  have hb := ld8_lt m5 (tcp + 12)
  generalize ld8 m5 (tcp + 12) = b at hd5 hb
  omega

/-- The data offset that `tcpv4_gen_synack` writes: 6 without a timestamp
pair; with a pair, 10 when the low four bits of its first word in host order
are not all ones (a Window-Scale option follows) and 9 otherwise. -/
theorem tcpv4_gen_synack_doff (values : List Nat) (m : List u8) (tl cookie : Nat)
    (hlen : 74 ≤ m.length) :
    tcphdr_doff (tcpv4_gen_synack values m ⟨0, some 14, none, 34, tl⟩ 14 cookie none).1 34 = 6 ∧
    ∀ t : Nat × Nat,
      tcphdr_doff (tcpv4_gen_synack values m ⟨0, some 14, none, 34, tl⟩ 14 cookie (some t)).1 34 =
        5 + (if t.1 &&& bpf_htonl 0xf ≠ bpf_htonl 0xf then 5 else 4) := by
  constructor
  · obtain ⟨-, -, -, -, hq, -, hL2⟩ := tcpv4_gen_synack_spec values m tl cookie none hlen
    unfold tcphdr_doff
    rw [hq (34 + 12) (by omega)]
    exact tcp_gen_synack_doff_none _ 34 cookie _ _ (by rw [hL2]; omega)
  · intro t
    obtain ⟨-, -, -, -, hq, -, hL2⟩ := tcpv4_gen_synack_spec values m tl cookie (some t) hlen
    unfold tcphdr_doff
    rw [hq (34 + 12) (by omega)]
    exact (tcp_gen_synack_options _ 34 cookie t _ _ (by rw [hL2]; omega)).1

/-! ## The SYN handler, from the verdict `XDP_TX` -/

/-- Lines 507-544 for IPv4, from the verdict `XDP_TX`: the synthesis has run
on a frame `m` that holds the TCP header at offset 34 behind an IPv4 header
of 20 bytes, and the handler goes on with the checksums. -/
theorem syncookie_handle_syn_issue_tx_v4 (env : Env) (st : xdp_state) (tcp tl : Nat)
    (htcp : tcp = 14 + iphdr_ihl st.pkt 14 * 4) (hihl : 20 ≤ iphdr_ihl st.pkt 14 * 4)
    (hlen : tcp + 60 ≤ st.pkt.length)
    (htx : (syncookie_handle_syn_issue env ⟨0, some 14, none, tcp, tl⟩ st 14 sizeof_iphdr 0
      st.pkt.length).1 = XDP_TX) :
    ∃ (m : List u8) (cookie : Nat) (tsopt : Option (Nat × Nat)) (calls : List helper_call),
      m.length = st.pkt.length ∧ iphdr_ihl m 14 = 5 ∧
      (∀ q, q < 34 → q ≠ 14 → ld8 m q = ld8 st.pkt q) ∧
      (∀ k, k < 20 → ld8 m (34 + k) = ld8 st.pkt (tcp + k)) ∧
      syncookie_handle_syn_issue env ⟨0, some 14, none, tcp, tl⟩ st 14 sizeof_iphdr 0
          st.pkt.length =
        syncookie_handle_syn_csum env
          (tcpv4_gen_synack st.values m ⟨0, some 14, none, 34, tl⟩ 14 cookie tsopt).2
          ⟨(tcpv4_gen_synack st.values m ⟨0, some 14, none, 34, tl⟩ 14 cookie tsopt).1,
            st.values, st.allowed_ports, calls⟩ sizeof_iphdr 0 st.pkt.length := by
  have hi := iphdr_ihl_le st.pkt 14
  have hroom : ¬ (94 > st.pkt.length) := by omega
  unfold syncookie_handle_syn_issue at htx ⊢
  simp only [sizeof_ethhdr, sizeof_iphdr, sizeof_tcphdr, TCP_MAXLEN, Nat.reduceAdd,
    Nat.reduceDiv] at htx ⊢
  by_cases hport : check_port_allowed st.allowed_ports (bpf_ntohs (tcphdr_dest st.pkt tcp)) = true
  swap
  · have hp : check_port_allowed st.allowed_ports (bpf_ntohs (tcphdr_dest st.pkt tcp)) = false := by
      simpa using hport
    simp only [hp, Bool.not_false, if_true] at htx
    cases htx
  simp only [hport, Bool.not_true, Bool.false_eq_true, if_false] at htx ⊢
  by_cases hneg : env.bpf_tcp_raw_gen_syncookie_ipv4 (bytes st.pkt 14 20) (bytes st.pkt tcp tl) < 0
  · simp only [hneg, if_true] at htx
    cases htx
  simp only [hneg, if_false, hroom] at htx ⊢
  by_cases c : iphdr_ihl st.pkt 14 * 4 > 20
  · simp only [c, if_true]
    refine ⟨iphdr_set_ihl (memcpy st.pkt 34 st.pkt tcp 20) 14 5, _, _, _, ?_, ?_, ?_, ?_, rfl⟩
    · simp [iphdr_set_ihl, length_memcpy]
    · unfold iphdr_ihl iphdr_set_ihl
      rw [ld8_st8_in _ _ _ _ (by rw [length_memcpy]; omega), if_pos rfl]
      omega
    · intro q h1 h2
      unfold iphdr_set_ihl
      rw [ld8_st8_ne _ _ _ _ h2, ld8_memcpy _ _ _ _ _ _ (by omega), if_neg (by omega)]
    · intro k hk
      unfold iphdr_set_ihl
      rw [ld8_st8_ne _ _ _ _ (by omega), ld8_memcpy _ _ _ _ _ _ (by omega), if_pos (by omega)]
      have e : 34 + k - 34 = k := by omega
      rw [e]
  · simp only [c, if_false]
    have e34 : tcp = 34 := by omega
    subst e34
    refine ⟨st.pkt, _, _, _, rfl, by omega, fun _ _ _ => rfl, fun _ _ => rfl, rfl⟩

/-- Lines 507-544 for IPv6, from the verdict `XDP_TX`: the synthesis has run
and the handler goes on with the checksum. -/
theorem syncookie_handle_syn_issue_tx_v6 (env : Env) (st : xdp_state) (tl : Nat)
    (hlen : 54 + 60 ≤ st.pkt.length)
    (htx : (syncookie_handle_syn_issue env ⟨0, none, some 14, 54, tl⟩ st 14 sizeof_ipv6hdr 0
      st.pkt.length).1 = XDP_TX) :
    ∃ (cookie : Nat) (tsopt : Option (Nat × Nat)) (calls : List helper_call),
      syncookie_handle_syn_issue env ⟨0, none, some 14, 54, tl⟩ st 14 sizeof_ipv6hdr 0
          st.pkt.length =
        syncookie_handle_syn_csum env
          (tcpv6_gen_synack st.values st.pkt ⟨0, none, some 14, 54, tl⟩ 14 cookie tsopt).2
          ⟨(tcpv6_gen_synack st.values st.pkt ⟨0, none, some 14, 54, tl⟩ 14 cookie tsopt).1,
            st.values, st.allowed_ports, calls⟩ sizeof_ipv6hdr 0 st.pkt.length := by
  have hroom : ¬ (114 > st.pkt.length) := by omega
  unfold syncookie_handle_syn_issue at htx ⊢
  simp only [sizeof_ethhdr, sizeof_ipv6hdr, sizeof_tcphdr, TCP_MAXLEN, Nat.reduceAdd,
    Nat.reduceDiv] at htx ⊢
  by_cases hport : check_port_allowed st.allowed_ports (bpf_ntohs (tcphdr_dest st.pkt 54)) = true
  swap
  · have hp : check_port_allowed st.allowed_ports (bpf_ntohs (tcphdr_dest st.pkt 54)) = false := by
      simpa using hport
    simp only [hp, Bool.not_false, if_true] at htx
    cases htx
  simp only [hport, Bool.not_true, Bool.false_eq_true, if_false] at htx ⊢
  by_cases hneg : env.bpf_tcp_raw_gen_syncookie_ipv4 (bytes st.pkt 14 40) (bytes st.pkt 54 tl) < 0
  · simp only [hneg, if_true] at htx
    cases htx
  simp only [hneg, if_false, hroom] at htx ⊢
  exact ⟨_, _, _, rfl⟩

/-- The SYN handler on an IPv4 frame, from the verdict `XDP_TX`: shape,
lengths and checksums of the frame `out` that leaves. -/
theorem syncookie_handle_syn_tx_v4 (env : Env) (st : xdp_state) (tcp tl : Nat)
    (htcp : tcp = 14 + iphdr_ihl st.pkt 14 * 4) (hihl : 20 ≤ iphdr_ihl st.pkt 14 * 4)
    (hlen : tcp + 60 ≤ st.pkt.length) (htl4 : tl % 4 = 0) (htl60 : tl ≤ 60) (out : List u8)
    (hout : out = (syncookie_handle_syn env ⟨0, some 14, none, tcp, tl⟩ st).2.pkt)
    (htx : (syncookie_handle_syn env ⟨0, some 14, none, tcp, tl⟩ st).1 = XDP_TX) :
    (tcphdr_doff out 34 = 6 ∨ tcphdr_doff out 34 = 9 ∨ tcphdr_doff out 34 = 10) ∧
    iphdr_ihl out 14 = 5 ∧
    (ld8 out 12 = ld8 st.pkt 12 ∧ ld8 out 13 = ld8 st.pkt 13) ∧
    (ld8 out 16 = 0 ∧ ld8 out 17 = 20 + tcphdr_doff out 34 * 4) ∧
    (ld8 out 34 = ld8 st.pkt (tcp + 2) ∧ ld8 out 35 = ld8 st.pkt (tcp + 3) ∧
      ld8 out 36 = ld8 st.pkt tcp ∧ ld8 out 37 = ld8 st.pkt (tcp + 1)) ∧
    (ld8 out 47 = 0x12 ∨ ld8 out 47 = 0x52) ∧
    out.length % 4294967296 = 34 + tcphdr_doff out 34 * 4 ∧
    (st.pkt.length ≤ 2147483648 + 58 → out.length = 34 + tcphdr_doff out 34 * 4) ∧
    34 + tcphdr_doff out 34 * 4 ≤ out.length ∧
    csum_fold (bpf_csum_diff out 14 sizeof_iphdr).toNat = 0 ∧
    csum_tcpudp_magic (iphdr_saddr out 14) (iphdr_daddr out 14) (tcphdr_doff out 34 * 4)
      IPPROTO_TCP (bpf_csum_diff out 34 (tcphdr_doff out 34 * 4)).toNat = 0 := by
  have h4 := syncookie_handle_syn_v4 env ⟨0, some 14, none, tcp, tl⟩ st 14 rfl htl4 htl60
  have hI : syncookie_handle_syn env ⟨0, some 14, none, tcp, tl⟩ st =
      syncookie_handle_syn_issue env ⟨0, some 14, none, tcp, tl⟩ st 14 sizeof_iphdr 0
        st.pkt.length := by
    rw [h4] at htx ⊢
    split at htx
    · cases htx
    · rename_i hc
      rw [if_neg hc]
  rw [hI] at htx hout
  obtain ⟨m, cookie, tsopt, calls, hm1, hm2, hm3, hm4, hiss⟩ :=
    syncookie_handle_syn_issue_tx_v4 env st tcp tl htcp hihl hlen htx
  rw [hiss] at htx hout
  obtain ⟨g2, gL, -, -, -, -, -⟩ := tcpv4_gen_synack_spec st.values m tl cookie tsopt (by omega)
  obtain ⟨gdo, g16, g17⟩ := tcpv4_gen_synack_lengths st.values m tl cookie tsopt (by omega)
  obtain ⟨⟨p0, p1, p2, p3⟩, -, -, gfl, -, -⟩ :=
    tcpv4_gen_synack_tcp st.values m tl cookie tsopt (by omega)
  have k12 := tcpv4_gen_synack_keeps st.values m tl cookie tsopt (by omega) 12 (by omega)
    (by omega)
  have k13 := tcpv4_gen_synack_keeps st.values m tl cookie tsopt (by omega) 13 (by omega)
    (by omega)
  have k14 := tcpv4_gen_synack_keeps st.values m tl cookie tsopt (by omega) 14 (by omega)
    (by omega)
  have hfl : ld8 (tcpv4_gen_synack st.values m ⟨0, some 14, none, 34, tl⟩ 14 cookie tsopt).1 47 =
      0x12 ∨
      ld8 (tcpv4_gen_synack st.values m ⟨0, some 14, none, 34, tl⟩ 14 cookie tsopt).1 47 =
        0x52 := by
    rw [gfl]
    cases tsopt with
    | none => exact Or.inl rfl
    | some t =>
      simp only []
      by_cases c : t.1 &&& bpf_htonl (1 <<< 5) ≠ 0
      · rw [if_pos c]; exact Or.inr rfl
      · rw [if_neg c]; exact Or.inl rfl
  generalize tcpv4_gen_synack st.values m ⟨0, some 14, none, 34, tl⟩ 14 cookie tsopt = G at *
  rw [g2] at htx hout
  have e : st.pkt.length = G.1.length := by rw [gL, hm1]
  rw [e] at htx hout
  have h14 : ld8 G.1 14 ≠ 0 := by
    rw [k14]
    unfold iphdr_ihl at hm2
    omega
  obtain ⟨c1, c2, c3, c4, c5, c6⟩ := syncookie_handle_syn_csum_tx_v4 env
    ⟨G.1, st.values, st.allowed_ports, calls⟩ (tcphdr_doff G.1 34 * 4) rfl (by omega)
    (by simp only []; omega) h14 htx
  simp only [] at c1 c2 c3 c4 c5 c6
  rw [← hout] at c1 c2 c3 c4 c5 c6
  have hdo : tcphdr_doff out 34 = tcphdr_doff G.1 34 := by
    unfold tcphdr_doff
    rw [c1 (34 + 12) (by omega) (by omega) (by omega) (by omega) (by omega)]
  rw [hdo]
  refine ⟨gdo, ?_, ⟨?_, ?_⟩, ⟨?_, ?_⟩, ⟨?_, ?_, ?_, ?_⟩, ?_, c2, fun h => c3 (by omega), c4, c5,
    c6⟩
  · unfold iphdr_ihl at hm2 ⊢
    rw [c1 14 (by omega) (by omega) (by omega) (by omega) (by omega), k14, hm2]
  · rw [c1 12 (by omega) (by omega) (by omega) (by omega) (by omega), k12,
      hm3 12 (by omega) (by omega)]
  · rw [c1 13 (by omega) (by omega) (by omega) (by omega) (by omega), k13,
      hm3 13 (by omega) (by omega)]
  · rw [c1 16 (by omega) (by omega) (by omega) (by omega) (by omega), g16]
  · rw [c1 17 (by omega) (by omega) (by omega) (by omega) (by omega), g17]
  · rw [c1 34 (by omega) (by omega) (by omega) (by omega) (by omega), p0]
    exact hm4 2 (by omega)
  · rw [c1 35 (by omega) (by omega) (by omega) (by omega) (by omega), p1]
    exact hm4 3 (by omega)
  · rw [c1 36 (by omega) (by omega) (by omega) (by omega) (by omega), p2]
    exact hm4 0 (by omega)
  · rw [c1 37 (by omega) (by omega) (by omega) (by omega) (by omega), p3]
    exact hm4 1 (by omega)
  · rw [c1 47 (by omega) (by omega) (by omega) (by omega) (by omega)]
    exact hfl

/-- The SYN handler on an IPv6 frame, from the verdict `XDP_TX`: shape,
lengths and checksum of the frame `out` that leaves. -/
theorem syncookie_handle_syn_tx_v6 (env : Env) (st : xdp_state) (tl : Nat)
    (hlen : 54 + 60 ≤ st.pkt.length) (htl4 : tl % 4 = 0) (htl60 : tl ≤ 60) (out : List u8)
    (hout : out = (syncookie_handle_syn env ⟨0, none, some 14, 54, tl⟩ st).2.pkt)
    (htx : (syncookie_handle_syn env ⟨0, none, some 14, 54, tl⟩ st).1 = XDP_TX) :
    (tcphdr_doff out 54 = 6 ∨ tcphdr_doff out 54 = 9 ∨ tcphdr_doff out 54 = 10) ∧
    (ld8 out 12 = ld8 st.pkt 12 ∧ ld8 out 13 = ld8 st.pkt 13) ∧
    (ld8 out 18 = 0 ∧ ld8 out 19 = tcphdr_doff out 54 * 4) ∧
    (ld8 out 54 = ld8 st.pkt 56 ∧ ld8 out 55 = ld8 st.pkt 57 ∧
      ld8 out 56 = ld8 st.pkt 54 ∧ ld8 out 57 = ld8 st.pkt 55) ∧
    (ld8 out 67 = 0x12 ∨ ld8 out 67 = 0x52) ∧
    out.length % 4294967296 = 54 + tcphdr_doff out 54 * 4 ∧
    (st.pkt.length ≤ 2147483648 + 78 → out.length = 54 + tcphdr_doff out 54 * 4) ∧
    54 + tcphdr_doff out 54 * 4 ≤ out.length ∧
    csum_ipv6_magic out (14 + 8) (14 + 24) (tcphdr_doff out 54 * 4) IPPROTO_TCP
      (bpf_csum_diff out 54 (tcphdr_doff out 54 * 4)).toNat = 0 := by
  have h6 := syncookie_handle_syn_v6 env ⟨0, none, some 14, 54, tl⟩ st 14 rfl rfl htl4 htl60
  have hI : syncookie_handle_syn env ⟨0, none, some 14, 54, tl⟩ st =
      syncookie_handle_syn_issue env ⟨0, none, some 14, 54, tl⟩ st 14 sizeof_ipv6hdr 0
        st.pkt.length := by
    rw [h6] at htx ⊢
    split at htx
    · cases htx
    · rename_i hc
      rw [if_neg hc]
  rw [hI] at htx hout
  obtain ⟨cookie, tsopt, calls, hiss⟩ := syncookie_handle_syn_issue_tx_v6 env st tl hlen htx
  rw [hiss] at htx hout
  obtain ⟨g2, gL, ⟨k12, k13⟩, gdo, ⟨g18, g19⟩, ⟨p0, p1, p2, p3⟩, gfl⟩ :=
    tcpv6_gen_synack_spec st.values st.pkt tl cookie tsopt (by omega)
  have hfl : ld8 (tcpv6_gen_synack st.values st.pkt ⟨0, none, some 14, 54, tl⟩ 14 cookie
      tsopt).1 67 = 0x12 ∨
      ld8 (tcpv6_gen_synack st.values st.pkt ⟨0, none, some 14, 54, tl⟩ 14 cookie tsopt).1 67 =
        0x52 := by
    rw [gfl]
    cases tsopt with
    | none => exact Or.inl rfl
    | some t =>
      simp only []
      by_cases c : t.1 &&& bpf_htonl (1 <<< 5) ≠ 0
      · rw [if_pos c]; exact Or.inr rfl
      · rw [if_neg c]; exact Or.inl rfl
  generalize tcpv6_gen_synack st.values st.pkt ⟨0, none, some 14, 54, tl⟩ 14 cookie tsopt = G at *
  rw [g2] at htx hout
  rw [← gL] at htx hout
  obtain ⟨c1, c2, c3, c4, c5⟩ := syncookie_handle_syn_csum_tx_v6 env
    ⟨G.1, st.values, st.allowed_ports, calls⟩ (tcphdr_doff G.1 54 * 4) rfl (by omega)
    (by simp only []; omega) htx
  simp only [] at c1 c2 c3 c4 c5
  rw [← hout] at c1 c2 c3 c4 c5
  have hdo : tcphdr_doff out 54 = tcphdr_doff G.1 54 := by
    unfold tcphdr_doff
    rw [c1 (54 + 12) (by omega) (by omega) (by omega)]
  rw [hdo]
  refine ⟨gdo, ⟨?_, ?_⟩, ⟨?_, ?_⟩, ⟨?_, ?_, ?_, ?_⟩, ?_, c2, fun h => c3 (by omega), c4, c5⟩
  · rw [c1 12 (by omega) (by omega) (by omega), k12]
  · rw [c1 13 (by omega) (by omega) (by omega), k13]
  · rw [c1 18 (by omega) (by omega) (by omega), g18]
  · rw [c1 19 (by omega) (by omega) (by omega), g19]
  · rw [c1 54 (by omega) (by omega) (by omega), p0]
  · rw [c1 55 (by omega) (by omega) (by omega), p1]
  · rw [c1 56 (by omega) (by omega) (by omega), p2]
  · rw [c1 57 (by omega) (by omega) (by omega), p3]
  · rw [c1 67 (by omega) (by omega) (by omega)]
    exact hfl

/-! ## The program, from the verdict `XDP_TX` -/

/-- Lines 649-688, from the verdict `XDP_TX`: the declared TCP header is
inside the frame and the SYN handler has run on the grown packet. -/
theorem syncookie_xdp_cookie_tx (env : Env) (st : xdp_state) (hdr : header_pointers)
    (hd : tcp_dissect st.pkt = (XDP_TX, hdr))
    (htx : (syncookie_xdp_cookie env hdr st).1 = XDP_TX) :
    hdr.tcp + hdr.tcp_len ≤ st.pkt.length ∧
    syncookie_xdp_cookie env hdr st =
      syncookie_handle_syn env hdr
        { st with
          pkt := resize_tail env st.pkt (st.pkt.length + (TCP_MAXLEN - hdr.tcp_len))
          calls := st.calls ++
            [helper_call.bpf_xdp_adjust_tail ((TCP_MAXLEN : Int) - (hdr.tcp_len : Int))] } := by
  obtain ⟨hb1, hb2, hb3, hb4, -⟩ := tcp_dissect_tcp_bounds _ _ hd
  have e : ((st.pkt.length : Int) + ((TCP_MAXLEN : Int) - (hdr.tcp_len : Int))).toNat =
      st.pkt.length + (TCP_MAXLEN - hdr.tcp_len) := by
    simp only [TCP_MAXLEN]
    omega
  have hagree : ∀ i, i < st.pkt.length →
      ld8 (resize_tail env st.pkt (st.pkt.length + (TCP_MAXLEN - hdr.tcp_len))) i =
        ld8 st.pkt i :=
    fun i hi => ld8_resize_tail _ _ _ _ hi (by omega)
  have hlen := length_resize_tail env st.pkt (st.pkt.length + (TCP_MAXLEN - hdr.tcp_len))
  by_cases hx : tcphdr_syn st.pkt hdr.tcp ^^^ tcphdr_ack st.pkt hdr.tcp = 1
  swap
  · unfold syncookie_xdp_cookie at htx
    simp only [ne_eq, hx, not_false_eq_true, if_true] at htx
    cases htx
  by_cases hgrow : env.adjust_tail_ret st.pkt.length
      ((TCP_MAXLEN : Int) - (hdr.tcp_len : Int)) = 0
  swap
  · unfold syncookie_xdp_cookie bpf_xdp_adjust_tail at htx
    simp only [hx, ne_eq, not_true_eq_false, if_false, hgrow, not_false_eq_true, if_true] at htx
    cases htx
  by_cases hb : hdr.tcp + hdr.tcp_len ≤ st.pkt.length
  swap
  · have hbad := syncookie_xdp_pointers_abort st.pkt
      (resize_tail env st.pkt (st.pkt.length + (TCP_MAXLEN - hdr.tcp_len))) hdr hd hagree (by
        rw [hlen]
        simp only [TCP_MAXLEN]
        omega)
    unfold syncookie_xdp_cookie bpf_xdp_adjust_tail at htx
    simp only [hx, ne_eq, not_true_eq_false, if_false, hgrow, e, hbad] at htx
    cases htx
  have hh := syncookie_xdp_cookie_handlers env st hdr hd hx hgrow (by
    simp only [TCP_MAXLEN]
    omega)
  refine ⟨hb, ?_⟩
  by_cases hs : tcphdr_syn st.pkt hdr.tcp ≠ 0
  · rw [hh, if_pos hs]
  · rw [hh, if_neg hs] at htx
    exfalso
    unfold syncookie_handle_ack at htx
    split at htx
    · simp only [] at htx
      split at htx <;> cases htx
    · cases htx

/-- The program, from the verdict `XDP_TX`: the frame has passed the
dissection, its declared TCP header is inside the frame, and the verdict and
the state are those of the SYN handler on the packet grown to 60 bytes of
TCP header. -/
theorem syncookie_xdp_tx (env : Env) (st : xdp_state)
    (htx : (syncookie_xdp env st).1 = XDP_TX) :
    ∃ hdr calls, tcp_dissect st.pkt = (XDP_TX, hdr) ∧ hdr.tcp + hdr.tcp_len ≤ st.pkt.length ∧
      syncookie_xdp env st =
        syncookie_handle_syn env hdr
          ⟨resize_tail env st.pkt (st.pkt.length + (TCP_MAXLEN - hdr.tcp_len)), st.values,
            st.allowed_ports, calls⟩ := by
  have hd : tcp_dissect st.pkt = (XDP_TX, (tcp_dissect st.pkt).2) := by
    by_cases c1 : (tcp_dissect st.pkt).1 = XDP_TX
    · exact Prod.ext c1 rfl
    · unfold syncookie_xdp at htx
      simp only [ne_eq, c1, not_false_eq_true, if_true] at htx
  generalize (tcp_dissect st.pkt).2 = hdr at hd
  cases ht : syncookie_xdp_tuple st.pkt hdr with
  | inl v =>
    have hv := syncookie_xdp_tuple_verdict _ _ _ ht
    unfold syncookie_xdp at htx
    simp only [hd, ne_eq, not_true_eq_false, if_false, ht] at htx
    exact absurd htx hv
  | inr tup =>
    have hct : env.bpf_ct_lookup_tcp tup = ct_lookup.null (-ENOENT) ∨
        ∃ status, env.bpf_ct_lookup_tcp tup = ct_lookup.entry status ∧
          status &&& IPS_CONFIRMED_BIT = 0 := by
      unfold syncookie_xdp at htx
      simp only [hd, ne_eq, not_true_eq_false, if_false, ht] at htx
      obtain ⟨c, hc⟩ : ∃ c, env.bpf_ct_lookup_tcp tup = c := ⟨_, rfl⟩
      rw [hc] at htx ⊢
      cases c with
      | entry status =>
        simp only [] at htx
        by_cases c2 : status &&& IPS_CONFIRMED_BIT = 0
        · exact Or.inr ⟨status, rfl, c2⟩
        · rw [if_pos c2] at htx
          cases htx
      | null value =>
        simp only [] at htx
        by_cases c2 : value = -ENOENT
        · rw [c2]
          exact Or.inl rfl
        · rw [if_pos c2] at htx
          cases htx
    have hthr := syncookie_xdp_through env st hdr tup hd ht hct
    rw [hthr] at htx ⊢
    obtain ⟨hb, heq⟩ := syncookie_xdp_cookie_tx env
      ⟨st.pkt, st.values, st.allowed_ports, st.calls ++ [helper_call.bpf_ct_lookup_tcp]⟩ hdr hd
      htx
    exact ⟨hdr, _, hd, hb, heq⟩

/-- The frame that the program transmits: for IPv4 and for IPv6, the shape,
the lengths and the checksums of the SYN-ACK, in terms of the frame
received. -/
theorem syncookie_xdp_tx_frame (env : Env) (st : xdp_state) (out : List u8)
    (hout : out = (syncookie_xdp env st).2.pkt)
    (htx : (syncookie_xdp env st).1 = XDP_TX) :
    (ld8 out 12 = ld8 st.pkt 12 ∧ ld8 out 13 = ld8 st.pkt 13) ∧
    ((bpf_ntohs (ethhdr_h_proto st.pkt 0) = ETH_P_IP ∧
      (tcphdr_doff out 34 = 6 ∨ tcphdr_doff out 34 = 9 ∨ tcphdr_doff out 34 = 10) ∧
      iphdr_ihl out 14 = 5 ∧
      (ld8 out 16 = 0 ∧ ld8 out 17 = 20 + tcphdr_doff out 34 * 4) ∧
      (ld8 out 34 = ld8 st.pkt (14 + iphdr_ihl st.pkt 14 * 4 + 2) ∧
        ld8 out 35 = ld8 st.pkt (14 + iphdr_ihl st.pkt 14 * 4 + 3) ∧
        ld8 out 36 = ld8 st.pkt (14 + iphdr_ihl st.pkt 14 * 4) ∧
        ld8 out 37 = ld8 st.pkt (14 + iphdr_ihl st.pkt 14 * 4 + 1)) ∧
      (ld8 out 47 = 0x12 ∨ ld8 out 47 = 0x52) ∧
      out.length % 4294967296 = 34 + tcphdr_doff out 34 * 4 ∧
      (st.pkt.length < 2147483648 → out.length = 34 + tcphdr_doff out 34 * 4) ∧
      34 + tcphdr_doff out 34 * 4 ≤ out.length ∧
      csum_fold (bpf_csum_diff out 14 sizeof_iphdr).toNat = 0 ∧
      csum_tcpudp_magic (iphdr_saddr out 14) (iphdr_daddr out 14) (tcphdr_doff out 34 * 4)
        IPPROTO_TCP (bpf_csum_diff out 34 (tcphdr_doff out 34 * 4)).toNat = 0) ∨
    (bpf_ntohs (ethhdr_h_proto st.pkt 0) = ETH_P_IPV6 ∧
      (tcphdr_doff out 54 = 6 ∨ tcphdr_doff out 54 = 9 ∨ tcphdr_doff out 54 = 10) ∧
      (ld8 out 18 = 0 ∧ ld8 out 19 = tcphdr_doff out 54 * 4) ∧
      (ld8 out 54 = ld8 st.pkt 56 ∧ ld8 out 55 = ld8 st.pkt 57 ∧
        ld8 out 56 = ld8 st.pkt 54 ∧ ld8 out 57 = ld8 st.pkt 55) ∧
      (ld8 out 67 = 0x12 ∨ ld8 out 67 = 0x52) ∧
      out.length % 4294967296 = 54 + tcphdr_doff out 54 * 4 ∧
      (st.pkt.length < 2147483648 → out.length = 54 + tcphdr_doff out 54 * 4) ∧
      54 + tcphdr_doff out 54 * 4 ≤ out.length ∧
      csum_ipv6_magic out (14 + 8) (14 + 24) (tcphdr_doff out 54 * 4) IPPROTO_TCP
        (bpf_csum_diff out 54 (tcphdr_doff out 54 * 4)).toNat = 0)) := by
  obtain ⟨hdr, calls, hd, hb, heq⟩ := syncookie_xdp_tx env st htx
  rw [heq] at htx hout
  obtain ⟨hb1, hb2, hb3, hb4, hb5⟩ := tcp_dissect_tcp_bounds _ _ hd
  have hagree : ∀ i, i < st.pkt.length →
      ld8 (resize_tail env st.pkt (st.pkt.length + (TCP_MAXLEN - hdr.tcp_len))) i =
        ld8 st.pkt i :=
    fun i hi => ld8_resize_tail _ _ _ _ hi (by omega)
  have hlen := length_resize_tail env st.pkt (st.pkt.length + (TCP_MAXLEN - hdr.tcp_len))
  have hihl0 := iphdr_ihl_le st.pkt 14
  simp only [TCP_MAXLEN] at hagree hlen htx hout
  rcases tcp_dissect_tx _ _ hd with ⟨rfl, h2, h3, -, -, h6, h7⟩ | ⟨rfl, h2, -, -, h5, h6⟩
  · simp only [] at hb hb1 hb2 hb3 hb4 hb5 hagree hlen htx hout
    have e1 : iphdr_ihl (resize_tail env st.pkt (st.pkt.length +
        (60 - tcphdr_doff st.pkt (14 + iphdr_ihl st.pkt 14 * 4) * 4))) 14 =
        iphdr_ihl st.pkt 14 :=
      congrArg (fun b => b % 16) (hagree 14 (by omega))
    obtain ⟨a1, a2, ⟨a3, a4⟩, a5, ⟨p0, p1, p2, p3⟩, a7, a8, a9, a10, a11, a12⟩ :=
      syncookie_handle_syn_tx_v4 env
        ⟨resize_tail env st.pkt (st.pkt.length +
          (60 - tcphdr_doff st.pkt (14 + iphdr_ihl st.pkt 14 * 4) * 4)), st.values,
          st.allowed_ports, calls⟩
        (14 + iphdr_ihl st.pkt 14 * 4) (tcphdr_doff st.pkt (14 + iphdr_ihl st.pkt 14 * 4) * 4)
        (by rw [e1]) (by rw [e1]; exact h3) (by simp only []; rw [hlen]; omega) (by omega)
        (by omega) out hout htx
    simp only [] at a3 a4 p0 p1 p2 p3 a9
    rw [hagree _ (by omega)] at a3 a4 p0 p1 p2 p3
    rw [hlen] at a9
    exact ⟨⟨a3, a4⟩, Or.inl ⟨h2, a1, a2, a5, ⟨p0, p1, p2, p3⟩, a7, a8,
      fun hL => a9 (by omega), a10, a11, a12⟩⟩
  · simp only [] at hb hb1 hb2 hb3 hb4 hb5 hagree hlen htx hout
    obtain ⟨a1, ⟨a3, a4⟩, a5, ⟨p0, p1, p2, p3⟩, a7, a8, a9, a10, a11⟩ :=
      syncookie_handle_syn_tx_v6 env
        ⟨resize_tail env st.pkt (st.pkt.length + (60 - tcphdr_doff st.pkt 54 * 4)), st.values,
          st.allowed_ports, calls⟩
        (tcphdr_doff st.pkt 54 * 4) (by simp only []; rw [hlen]; omega) (by omega) (by omega)
        out hout htx
    simp only [] at a3 a4 p0 p1 p2 p3 a9
    rw [hagree _ (by omega)] at a3 a4 p0 p1 p2 p3
    rw [hlen] at a9
    exact ⟨⟨a3, a4⟩, Or.inr ⟨h2, a1, a5, ⟨p0, p1, p2, p3⟩, a7, a8,
      fun hL => a9 (by omega), a10, a11⟩⟩

/-! ## C1: the SYN-ACK answer to a valid SYN -/

set_option maxHeartbeats 1000000 in
/-- C1.  An IPv4 TCP frame that passes `tcp_dissect`, has only DF set in
`frag_off`, has SYN set and ACK clear, has its whole declared TCP header
inside the buffer, passes the IPv4-header and TCP checksum tests of the SYN
handler and goes to a port of the allow-list: when the lookup reports no
entry (`-ENOENT`), the cookie helper returns the cookie `value`, and the
kernel grants the two resizes of the run, the growth by `60 - tcp_len` and
the resize of the grown buffer to the size of the SYN-ACK (14 + 20 bytes and
a TCP header of 6 words when the option scan returns false, of 9 words when
it returns a word whose low four bits are all ones, of 10 words otherwise),
then `syncookie_xdp` returns `XDP_TX` and the output frame has an IPv4 header
without options (so the TCP header is at offset 34), the Ethernet addresses
swapped, the IPv4 addresses swapped, the TCP ports swapped, sequence number
`value`, acknowledgment number the sequence number of the SYN plus one
modulo 2^32, the flag byte SYN|ACK (0x12; with ECE, 0x52, exactly when the
option scan returned a timestamp whose low nibble has the ECN bit), window
0 and the MSS option (kind 2, length 4, the configured MSS) right behind
the fixed TCP header. -/
theorem syncookie_xdp_synack (env : Env) (st : xdp_state) (hdr : header_pointers)
    (ipv4 : Nat) (value : Int)
    (hd : tcp_dissect st.pkt = (XDP_TX, hdr)) (h4 : hdr.ipv4 = some ipv4)
    (hfrag : bpf_ntohs (iphdr_frag_off st.pkt ipv4) &&& IP_MF = 0 ∧
      bpf_ntohs (iphdr_frag_off st.pkt ipv4) &&& IP_OFFSET = 0 ∧
      bpf_ntohs (iphdr_frag_off st.pkt ipv4) &&& IP_DF ≠ 0)
    (hsyn : tcphdr_syn st.pkt hdr.tcp = 1) (hack : tcphdr_ack st.pkt hdr.tcp = 0)
    (hb : hdr.tcp + hdr.tcp_len ≤ st.pkt.length)
    (hipsum : csum_fold (bpf_csum_diff st.pkt ipv4 (iphdr_ihl st.pkt ipv4 * 4)).toNat = 0)
    (htcpsum : csum_tcpudp_magic (iphdr_saddr st.pkt ipv4) (iphdr_daddr st.pkt ipv4)
      hdr.tcp_len IPPROTO_TCP (bpf_csum_diff st.pkt hdr.tcp hdr.tcp_len).toNat = 0)
    (hport : check_port_allowed st.allowed_ports (bpf_ntohs (tcphdr_dest st.pkt hdr.tcp)) = true)
    (hct : env.bpf_ct_lookup_tcp (bpf_sock_tuple.ipv4 (iphdr_saddr st.pkt ipv4)
      (iphdr_daddr st.pkt ipv4) (tcphdr_source st.pkt hdr.tcp) (tcphdr_dest st.pkt hdr.tcp)) =
        ct_lookup.null (-ENOENT))
    (hgrow : env.adjust_tail_ret st.pkt.length ((TCP_MAXLEN : Int) - (hdr.tcp_len : Int)) = 0)
    (hcookie : env.bpf_tcp_raw_gen_syncookie_ipv4 (bytes st.pkt ipv4 sizeof_iphdr)
      (bytes st.pkt hdr.tcp hdr.tcp_len) = value)
    (hval : 0 ≤ value) :
    env.adjust_tail_ret (st.pkt.length + (TCP_MAXLEN - hdr.tcp_len))
      (pkt_size_delta (st.pkt.length + (TCP_MAXLEN - hdr.tcp_len))
        (sizeof_ethhdr + sizeof_iphdr + 4 * (5 +
          (match cookie_init_timestamp_raw env st.pkt hdr.tcp hdr.tcp_len st.pkt.length with
            | some t => if t.1 &&& bpf_htonl 0xf ≠ bpf_htonl 0xf then 5 else 4
            | none => 1)))) = 0 →
    (syncookie_xdp env st).1 = XDP_TX ∧
    (iphdr_version (syncookie_xdp env st).2.pkt 14 = iphdr_version st.pkt ipv4 ∧
      iphdr_ihl (syncookie_xdp env st).2.pkt 14 = 5) ∧
    (∀ k, k < 6 →
      ld8 (syncookie_xdp env st).2.pkt k = ld8 st.pkt (6 + k) ∧
      ld8 (syncookie_xdp env st).2.pkt (6 + k) = ld8 st.pkt k) ∧
    (iphdr_saddr (syncookie_xdp env st).2.pkt 14 = iphdr_daddr st.pkt ipv4 ∧
      iphdr_daddr (syncookie_xdp env st).2.pkt 14 = iphdr_saddr st.pkt ipv4) ∧
    (tcphdr_source (syncookie_xdp env st).2.pkt 34 = tcphdr_dest st.pkt hdr.tcp ∧
      tcphdr_dest (syncookie_xdp env st).2.pkt 34 = tcphdr_source st.pkt hdr.tcp) ∧
    bpf_ntohl (tcphdr_seq (syncookie_xdp env st).2.pkt 34) = value.toNat % 4294967296 ∧
    bpf_ntohl (tcphdr_ack_seq (syncookie_xdp env st).2.pkt 34) =
      (bpf_ntohl (tcphdr_seq st.pkt hdr.tcp) + 1) % 4294967296 ∧
    ld8 (syncookie_xdp env st).2.pkt 47 =
      (match cookie_init_timestamp_raw env st.pkt hdr.tcp hdr.tcp_len st.pkt.length with
        | some t => if t.1 &&& bpf_htonl (1 <<< 5) ≠ 0 then 0x52 else 0x12
        | none => 0x12) ∧
    tcphdr_window (syncookie_xdp env st).2.pkt 34 = 0 ∧
    (ld8 (syncookie_xdp env st).2.pkt 54 = TCPOPT_MSS ∧
      ld8 (syncookie_xdp env st).2.pkt 55 = TCPOLEN_MSS ∧
      256 * ld8 (syncookie_xdp env st).2.pkt 56 + ld8 (syncookie_xdp env st).2.pkt 57 =
        (values_get_tcpipopts st.values false).1) := by
  intro hshrink
  obtain ⟨hb1, hb2, hb3, hb4, hb5⟩ := tcp_dissect_tcp_bounds _ _ hd
  have hmod : hdr.tcp_len % 4 = 0 := by omega
  have hshape : ipv4 = 14 ∧ hdr = ⟨0, some 14, none, hdr.tcp, hdr.tcp_len⟩ ∧
      hdr.tcp = 14 + iphdr_ihl st.pkt 14 * 4 ∧ 20 ≤ iphdr_ihl st.pkt 14 * 4 := by
    rcases tcp_dissect_tx _ _ hd with ⟨e, -, hi, -⟩ | ⟨e, -⟩
    · rw [e] at h4 ⊢
      exact ⟨by simpa using h4.symm, rfl, rfl, hi⟩
    · rw [e] at h4
      simp at h4
  obtain ⟨rfl, hshape, htcp, hihl⟩ := hshape
  have hf : iphdr_frag_off st.pkt 14 &&& bpf_htons (IP_DF ||| IP_MF ||| IP_OFFSET) =
      bpf_htons IP_DF := by
    unfold iphdr_frag_off ld16 at hfrag ⊢
    exact (frag_check _ _ (ld8_lt _ _) (ld8_lt _ _)).mpr hfrag
  have htup : syncookie_xdp_tuple st.pkt hdr = Sum.inr (bpf_sock_tuple.ipv4
      (iphdr_saddr st.pkt 14) (iphdr_daddr st.pkt 14) (tcphdr_source st.pkt hdr.tcp)
      (tcphdr_dest st.pkt hdr.tcp)) := by
    unfold syncookie_xdp_tuple
    simp only [h4, hf, ne_eq, not_true_eq_false, if_false]
  have hx : tcphdr_syn st.pkt hdr.tcp ^^^ tcphdr_ack st.pkt hdr.tcp = 1 := by
    rw [hsyn, hack]; rfl
  have hbb : hdr.tcp + TCP_MAXLEN ≤ st.pkt.length + (TCP_MAXLEN - hdr.tcp_len) := by
    simp only [TCP_MAXLEN]
    omega
  rw [syncookie_xdp_handlers env st hdr _ hd htup (Or.inl hct) hx hgrow hbb]
  simp only [hsyn, ne_eq, one_ne_zero, not_false_eq_true, if_true]
  simp only [TCP_MAXLEN] at hbb hshrink ⊢
  obtain ⟨k4, -, kt, kd⟩ := syn_checks_resize env st.pkt hdr hd
    (st.pkt.length + (60 - hdr.tcp_len)) (by omega) (by omega)
  obtain ⟨e1, e2, e3⟩ := k4 14 h4
  rw [syncookie_handle_syn_v4 env hdr _ 14 h4 hmod hb4]
  simp only [e1, e2, e3, kt]
  rw [if_neg (by simp [hipsum, htcpsum])]
  have hag : ∀ i, i < st.pkt.length →
      ld8 (resize_tail env st.pkt (st.pkt.length + (60 - hdr.tcp_len))) i = ld8 st.pkt i :=
    fun i hi => ld8_resize_tail _ _ _ _ hi (by omega)
  have hlenr := length_resize_tail env st.pkt (st.pkt.length + (60 - hdr.tcp_len))
  have eihl : iphdr_ihl (resize_tail env st.pkt (st.pkt.length + (60 - hdr.tcp_len))) 14 =
      iphdr_ihl st.pkt 14 := by
    unfold iphdr_ihl
    rw [hag 14 (by omega)]
  have eb1 : bytes (resize_tail env st.pkt (st.pkt.length + (60 - hdr.tcp_len))) 14
      sizeof_iphdr = bytes st.pkt 14 sizeof_iphdr :=
    bytes_resize_tail _ _ _ _ _ (by simp only [sizeof_iphdr]; omega)
      (by simp only [sizeof_iphdr]; omega)
  have eb2 : bytes (resize_tail env st.pkt (st.pkt.length + (60 - hdr.tcp_len))) hdr.tcp
      hdr.tcp_len = bytes st.pkt hdr.tcp hdr.tcp_len :=
    bytes_resize_tail _ _ _ _ _ (by omega) (by omega)
  have ets : cookie_init_timestamp_raw env
      (resize_tail env st.pkt (st.pkt.length + (60 - hdr.tcp_len))) hdr.tcp hdr.tcp_len
      (st.pkt.length + (60 - hdr.tcp_len)) =
      cookie_init_timestamp_raw env st.pkt hdr.tcp hdr.tcp_len st.pkt.length :=
    cookie_init_timestamp_raw_congr env _ _ _ _ _ _ (by omega) hb hb3
      (fun i hi => hag i (by omega))
  obtain ⟨d, hdd, hsd⟩ : ∃ d,
      (∀ m0 : List u8, m0.length = st.pkt.length + (60 - hdr.tcp_len) →
        tcphdr_doff (tcpv4_gen_synack st.values m0 ⟨0, some 14, none, 34, hdr.tcp_len⟩ 14
          (value.toNat % 4294967296)
          (cookie_init_timestamp_raw env st.pkt hdr.tcp hdr.tcp_len st.pkt.length)).1 34 = d) ∧
      env.adjust_tail_ret (st.pkt.length + (60 - hdr.tcp_len))
        (pkt_size_delta (st.pkt.length + (60 - hdr.tcp_len)) (14 + 20 + d * 4)) = 0 := by
    simp only [sizeof_ethhdr, sizeof_iphdr] at hshrink
    cases hts : cookie_init_timestamp_raw env st.pkt hdr.tcp hdr.tcp_len st.pkt.length with
    | none =>
      simp only [hts] at hshrink
      exact ⟨6, fun m0 h0 => (tcpv4_gen_synack_doff _ m0 _ _ (by omega)).1, hshrink⟩
    | some t =>
      simp only [hts] at hshrink
      refine ⟨5 + (if t.1 &&& bpf_htonl 0xf ≠ bpf_htonl 0xf then 5 else 4),
        fun m0 h0 => (tcpv4_gen_synack_doff _ m0 _ _ (by omega)).2 t, ?_⟩
      rw [Nat.mul_comm]
      exact hshrink
  obtain ⟨out, calls1, hres, hv, heth, hip, hports, hseq, hackn, hfl, hwin, hmss⟩ :=
    syncookie_handle_syn_issue_v4 env
      ⟨resize_tail env st.pkt (st.pkt.length + (60 - hdr.tcp_len)), st.values, st.allowed_ports,
        st.calls ++ [helper_call.bpf_ct_lookup_tcp,
          helper_call.bpf_xdp_adjust_tail (((60 : Nat) : Int) - (hdr.tcp_len : Int))]⟩
      hdr.tcp hdr.tcp_len value (by rw [eihl]; exact htcp) (by rw [eihl]; exact hihl)
      (by rw [hlenr]; omega) (by rw [kd]; exact hport) (by rw [eb1, eb2]; exact hcookie) hval
      d (by rw [hlenr]; exact hsd) (by
        intro m0 h0
        simp only [] at h0 ⊢
        rw [hlenr] at h0 ⊢
        rw [ets]
        exact hdd m0 h0)
  simp only [hlenr, ets] at hfl
  simp only [] at hres
  rw [← hshape] at hres
  rw [hres]
  have e32 : ∀ p, p + 4 ≤ st.pkt.length →
      ld32 (resize_tail env st.pkt (st.pkt.length + (60 - hdr.tcp_len))) p = ld32 st.pkt p :=
    fun p hp => ld32_congr _ _ _ (fun i _ h2 => hag i (by omega))
  have e16 : ∀ p, p + 2 ≤ st.pkt.length →
      ld16 (resize_tail env st.pkt (st.pkt.length + (60 - hdr.tcp_len))) p = ld16 st.pkt p :=
    fun p hp => ld16_congr _ _ _ (fun i _ h2 => hag i (by omega))
  simp only [iphdr_version, iphdr_saddr, iphdr_daddr, tcphdr_source, tcphdr_dest, tcphdr_seq]
    at hv heth hip hports hackn ⊢
  rw [hag 14 (by omega)] at hv
  rw [e32 _ (by omega), e32 _ (by omega)] at hip
  rw [e16 _ (by omega), e16 _ (by omega)] at hports
  rw [e32 _ (by omega)] at hackn
  refine ⟨trivial, hv, ?_, hip, hports, hseq, hackn, hfl, hwin, hmss⟩
  intro k hk
  obtain ⟨a, b⟩ := heth k hk
  rw [hag _ (by omega)] at a b
  exact ⟨a, b⟩

/-- C1, witness: the sample SYN to port 443, no conntrack entry, the cookie
0xdeadbeef and a kernel that grants the two resizes of this run only (74
bytes grown by 20, 94 bytes cut by 20): the SYN-ACK carries the cookie as
sequence number and acknowledges 0x01020305. -/
theorem syncookie_xdp_synack_witness :
    (syncookie_xdp sample_env_strict (sample_state sample_syn)).1 = XDP_TX ∧
    bpf_ntohl (tcphdr_seq (syncookie_xdp sample_env_strict (sample_state sample_syn)).2.pkt 34) =
      0xdeadbeef ∧
    bpf_ntohl (tcphdr_ack_seq (syncookie_xdp sample_env_strict (sample_state sample_syn)).2.pkt
      34) = 0x01020305 := by
  have h := syncookie_xdp_synack sample_env_strict (sample_state sample_syn)
    ⟨0, some 14, none, 34, 40⟩ 14 0xdeadbeef (by decide) rfl (by decide) (by decide) (by decide)
    (by decide) (by decide) (by decide) (by decide) rfl (by decide) rfl (by decide) (by decide)
  exact ⟨h.1, h.2.2.2.2.2.1.trans (by decide), h.2.2.2.2.2.2.1.trans (by decide)⟩

/-! ## C2: flows with a conntrack entry -/

/-- What the status test of line 643 does: an entry is passed exactly when
its status word has one of the bits of the mask `IPS_CONFIRMED_BIT` (the
number 3, bits 0 and 1) set; the confirmed flag `IPS_CONFIRMED` (bit 3) is
not looked at. -/
theorem syncookie_xdp_entry (env : Env) (st : xdp_state) (hdr : header_pointers)
    (tup : bpf_sock_tuple) (status : Nat) (hd : tcp_dissect st.pkt = (XDP_TX, hdr))
    (htup : syncookie_xdp_tuple st.pkt hdr = Sum.inr tup)
    (hct : env.bpf_ct_lookup_tcp tup = ct_lookup.entry status) :
    (status &&& 3 ≠ 0 →
      syncookie_xdp env st =
        (XDP_PASS, { st with calls := st.calls ++ [helper_call.bpf_ct_lookup_tcp] })) ∧
    (status &&& 3 = 0 →
      syncookie_xdp env st =
        syncookie_xdp_cookie env hdr
          { st with calls := st.calls ++ [helper_call.bpf_ct_lookup_tcp] }) := by
  unfold syncookie_xdp
  simp only [hd, htup, hct, ne_eq, not_true_eq_false, if_false, IPS_CONFIRMED_BIT]
  constructor
  · intro h; simp [h]
  · intro h; simp [h]

/-- C2, failing input.  The sample SYN-ACK frame passes dissection and the
fragment check, and the lookup returns an entry whose status word is
`IPS_CONFIRMED` (8, the confirmed flag alone); the program does not return
`XDP_PASS` but goes on to the flag check and returns `XDP_DROP`. -/
theorem syncookie_xdp_confirmed_dropped :
    (tcp_dissect sample_synack).1 = XDP_TX ∧
    syncookie_xdp_tuple sample_synack (tcp_dissect sample_synack).2 =
      Sum.inr (bpf_sock_tuple.ipv4 0x0100000a 0x0200000a 0x3930 0xbb01) ∧
    IPS_CONFIRMED = 8 ∧ 8 &&& IPS_CONFIRMED ≠ 0 ∧
    (syncookie_xdp (sample_env_entry 8) (sample_state sample_synack)).1 = XDP_DROP := by
  decide

/-! ## C3: the ACK handler -/

/-- C3.  A TCP frame with ACK set and SYN clear that reaches the ACK handler
(dissection and fragment check passed, the lookup gave no entry or an entry
that the status test of line 643 lets through, the growth of the tail was
granted and the bounds checks against the new `data_end` passed): for IPv4
the verdict is `XDP_PASS` when the cookie check returns 0 and `XDP_DROP`
when it returns anything else; for IPv6 the verdict is `XDP_ABORTED`
whatever the oracles are, and the helper calls made are the lookup and the
resize only. -/
theorem syncookie_xdp_ack (env : Env) (st : xdp_state) (hdr : header_pointers)
    (tup : bpf_sock_tuple) (hd : tcp_dissect st.pkt = (XDP_TX, hdr))
    (htup : syncookie_xdp_tuple st.pkt hdr = Sum.inr tup)
    (hct : env.bpf_ct_lookup_tcp tup = ct_lookup.null (-ENOENT) ∨
      ∃ status, env.bpf_ct_lookup_tcp tup = ct_lookup.entry status ∧
        status &&& IPS_CONFIRMED_BIT = 0)
    (hsyn : tcphdr_syn st.pkt hdr.tcp = 0) (hack : tcphdr_ack st.pkt hdr.tcp = 1)
    (hgrow : env.adjust_tail_ret st.pkt.length ((TCP_MAXLEN : Int) - (hdr.tcp_len : Int)) = 0)
    (hb : hdr.tcp + TCP_MAXLEN ≤ st.pkt.length + (TCP_MAXLEN - hdr.tcp_len)) :
    (∀ ipv4, hdr.ipv4 = some ipv4 →
      (env.bpf_tcp_raw_check_syncookie_ipv4 (bytes st.pkt ipv4 sizeof_iphdr)
          (bytes st.pkt hdr.tcp hdr.tcp_len) = 0 →
        (syncookie_xdp env st).1 = XDP_PASS) ∧
      (env.bpf_tcp_raw_check_syncookie_ipv4 (bytes st.pkt ipv4 sizeof_iphdr)
          (bytes st.pkt hdr.tcp hdr.tcp_len) ≠ 0 →
        (syncookie_xdp env st).1 = XDP_DROP)) ∧
    (hdr.ipv4 = none →
      (syncookie_xdp env st).1 = XDP_ABORTED ∧
      (syncookie_xdp env st).2.calls = st.calls ++ [helper_call.bpf_ct_lookup_tcp,
        helper_call.bpf_xdp_adjust_tail ((TCP_MAXLEN : Int) - (hdr.tcp_len : Int))]) := by
  have hx : tcphdr_syn st.pkt hdr.tcp ^^^ tcphdr_ack st.pkt hdr.tcp = 1 := by
    rw [hsyn, hack]; rfl
  obtain ⟨hb1, hb2, hb3, hb4, -⟩ := tcp_dissect_tcp_bounds _ _ hd
  rw [syncookie_xdp_handlers env st hdr tup hd htup hct hx hgrow hb]
  simp only [hsyn, ne_eq, not_true_eq_false, if_false]
  simp only [TCP_MAXLEN] at hb ⊢
  constructor
  · intro ipv4 h4
    have hip : ipv4 = 14 := by
      rcases tcp_dissect_tx _ _ hd with ⟨rfl, _⟩ | ⟨rfl, _⟩
      · simpa using h4.symm
      · simp at h4
    subst hip
    have e1 : bytes (resize_tail env st.pkt (st.pkt.length + (60 - hdr.tcp_len))) 14
        sizeof_iphdr = bytes st.pkt 14 sizeof_iphdr :=
      bytes_resize_tail _ _ _ _ _ (by simp only [sizeof_iphdr]; omega)
        (by simp only [sizeof_iphdr]; omega)
    have e2 : bytes (resize_tail env st.pkt (st.pkt.length + (60 - hdr.tcp_len))) hdr.tcp
        hdr.tcp_len = bytes st.pkt hdr.tcp hdr.tcp_len :=
      bytes_resize_tail _ _ _ _ _ (by omega) (by omega)
    unfold syncookie_handle_ack
    simp only [h4, e1, e2]
    constructor
    · intro h; simp [h]
    · intro h; simp [h]
  · intro h4
    unfold syncookie_handle_ack
    simp [h4]

/-- C3, witness: the sample ACK, no conntrack entry, a valid cookie. -/
theorem syncookie_xdp_ack_witness :
    (syncookie_xdp sample_env (sample_state sample_ack)).1 = XDP_PASS :=
  ((syncookie_xdp_ack sample_env (sample_state sample_ack) ⟨0, some 14, none, 34, 20⟩
    (bpf_sock_tuple.ipv4 0x0100000a 0x0200000a 0x3930 0xbb01)
    (by decide) (by decide) (Or.inl (by decide)) (by decide) (by decide) (by decide)
    (by decide)).1 14 (by decide)).1 (by decide)

/-! ## C4: SYN to a port that is not allowed -/

/-- The port policy of lines 507-510 for a SYN that reaches
`syncookie_handle_syn` (the lookup gave no entry, or an entry that the status
test of line 643 does not pass): when the destination port is not found by
`check_port_allowed` the verdict is `XDP_DROP` whether or not the checksums
verify; the maps, the SYN-ACK counter among them, are unchanged and no cookie
is requested. -/
theorem syncookie_xdp_port_drop (env : Env) (st : xdp_state) (hdr : header_pointers)
    (tup : bpf_sock_tuple) (hd : tcp_dissect st.pkt = (XDP_TX, hdr))
    (htup : syncookie_xdp_tuple st.pkt hdr = Sum.inr tup)
    (hct : env.bpf_ct_lookup_tcp tup = ct_lookup.null (-ENOENT) ∨
      ∃ status, env.bpf_ct_lookup_tcp tup = ct_lookup.entry status ∧
        status &&& IPS_CONFIRMED_BIT = 0)
    (hsyn : tcphdr_syn st.pkt hdr.tcp = 1) (hack : tcphdr_ack st.pkt hdr.tcp = 0)
    (hgrow : env.adjust_tail_ret st.pkt.length ((TCP_MAXLEN : Int) - (hdr.tcp_len : Int)) = 0)
    (hb : hdr.tcp + TCP_MAXLEN ≤ st.pkt.length + (TCP_MAXLEN - hdr.tcp_len))
    (hport : check_port_allowed st.allowed_ports (bpf_ntohs (tcphdr_dest st.pkt hdr.tcp)) =
      false) :
    syncookie_xdp env st =
      (XDP_DROP,
        { st with
          pkt := resize_tail env st.pkt (st.pkt.length + (TCP_MAXLEN - hdr.tcp_len))
          calls := st.calls ++ [helper_call.bpf_ct_lookup_tcp,
            helper_call.bpf_xdp_adjust_tail ((TCP_MAXLEN : Int) - (hdr.tcp_len : Int))] }) := by
  have hx : tcphdr_syn st.pkt hdr.tcp ^^^ tcphdr_ack st.pkt hdr.tcp = 1 := by
    rw [hsyn, hack]; rfl
  obtain ⟨hb1, hb2, hb3, hb4, hb5⟩ := tcp_dissect_tcp_bounds _ _ hd
  have hmod : hdr.tcp_len % 4 = 0 := by omega
  rw [syncookie_xdp_handlers env st hdr tup hd htup hct hx hgrow hb]
  simp only [hsyn, ne_eq, one_ne_zero, not_false_eq_true, if_true]
  simp only [TCP_MAXLEN] at hb ⊢
  obtain ⟨-, -, -, kd⟩ := syn_checks_resize env st.pkt hdr hd
    (st.pkt.length + (60 - hdr.tcp_len)) (by omega) (by omega)
  have hissue : ∀ ip_header ip_len,
      syncookie_handle_syn_issue env hdr
        { st with
          pkt := resize_tail env st.pkt (st.pkt.length + (60 - hdr.tcp_len))
          calls := st.calls ++ [helper_call.bpf_ct_lookup_tcp,
            helper_call.bpf_xdp_adjust_tail (((60 : Nat) : Int) - (hdr.tcp_len : Int))] }
        ip_header ip_len 0 (resize_tail env st.pkt (st.pkt.length + (60 - hdr.tcp_len))).length =
      (XDP_DROP,
        { st with
          pkt := resize_tail env st.pkt (st.pkt.length + (60 - hdr.tcp_len))
          calls := st.calls ++ [helper_call.bpf_ct_lookup_tcp,
            helper_call.bpf_xdp_adjust_tail (((60 : Nat) : Int) - (hdr.tcp_len : Int))] }) := by
    intro ip_header ip_len
    unfold syncookie_handle_syn_issue
    simp [kd, hport]
  rcases tcp_dissect_tx _ _ hd with ⟨hh, _⟩ | ⟨hh, _⟩
  · have h4 : hdr.ipv4 = some 14 := by rw [hh]
    rw [syncookie_handle_syn_v4 env hdr _ 14 h4 hmod hb4]
    split
    · rfl
    · exact hissue _ _
  · have h4 : hdr.ipv4 = none := by rw [hh]
    have h6 : hdr.ipv6 = some 14 := by rw [hh]
    rw [syncookie_handle_syn_v6 env hdr _ 14 h4 h6 hmod hb4]
    split
    · rfl
    · exact hissue _ _

/-- C4, failing input.  The sample SYN to port 8080 passes dissection and
the fragment check, its port is not in the allow-list, every resize is
granted, and the lookup returns an entry whose status word is 2
(`IPS_SEEN_REPLY` alone, the confirmed flag clear): the program returns
`XDP_PASS`, not `XDP_DROP`. -/
theorem syncookie_xdp_unconfirmed_syn_passed :
    (tcp_dissect sample_syn_8080).1 = XDP_TX ∧
    syncookie_xdp_tuple sample_syn_8080 (tcp_dissect sample_syn_8080).2 =
      Sum.inr (bpf_sock_tuple.ipv4 0x0100000a 0x0200000a 0x3930 0x901f) ∧
    2 &&& IPS_CONFIRMED = 0 ∧
    tcphdr_syn sample_syn_8080 34 = 1 ∧ tcphdr_ack sample_syn_8080 34 = 0 ∧
    check_port_allowed (sample_state sample_syn_8080).allowed_ports
      (bpf_ntohs (tcphdr_dest sample_syn_8080 34)) = false ∧
    (syncookie_xdp (sample_env_entry 2) (sample_state sample_syn_8080)).1 = XDP_PASS := by
  decide

/-! ## C5: bad checksums -/

/-- C5.  A SYN that reaches `syncookie_handle_syn` (dissection and fragment
check passed, the lookup let the frame through, the growth of the tail was
granted and the bounds checks against the new `data_end` passed) and whose
IPv4 header checksum does not fold to zero, or whose TCP checksum with the
IPv4 or IPv6 pseudo-header does not fold to zero, gets `XDP_DROP`.  The
state left is the grown packet with the lookup and the resize as the only
helper calls: it is the same for every cookie oracle and every content of
the allow-list, and no cookie is requested. -/
theorem syncookie_xdp_bad_checksum (env : Env) (st : xdp_state) (hdr : header_pointers)
    (tup : bpf_sock_tuple) (hd : tcp_dissect st.pkt = (XDP_TX, hdr))
    (htup : syncookie_xdp_tuple st.pkt hdr = Sum.inr tup)
    (hct : env.bpf_ct_lookup_tcp tup = ct_lookup.null (-ENOENT) ∨
      ∃ status, env.bpf_ct_lookup_tcp tup = ct_lookup.entry status ∧
        status &&& IPS_CONFIRMED_BIT = 0)
    (hsyn : tcphdr_syn st.pkt hdr.tcp = 1) (hack : tcphdr_ack st.pkt hdr.tcp = 0)
    (hgrow : env.adjust_tail_ret st.pkt.length ((TCP_MAXLEN : Int) - (hdr.tcp_len : Int)) = 0)
    (hb : hdr.tcp + TCP_MAXLEN ≤ st.pkt.length + (TCP_MAXLEN - hdr.tcp_len))
    (hbad :
      (∃ ipv4, hdr.ipv4 = some ipv4 ∧
        (csum_fold (bpf_csum_diff st.pkt ipv4 (iphdr_ihl st.pkt ipv4 * 4)).toNat ≠ 0 ∨
          csum_tcpudp_magic (iphdr_saddr st.pkt ipv4) (iphdr_daddr st.pkt ipv4) hdr.tcp_len
            IPPROTO_TCP (bpf_csum_diff st.pkt hdr.tcp hdr.tcp_len).toNat ≠ 0)) ∨
      (∃ ipv6, hdr.ipv4 = none ∧ hdr.ipv6 = some ipv6 ∧
        csum_ipv6_magic st.pkt (ipv6 + 8) (ipv6 + 24) hdr.tcp_len IPPROTO_TCP
          (bpf_csum_diff st.pkt hdr.tcp hdr.tcp_len).toNat ≠ 0)) :
    syncookie_xdp env st =
      (XDP_DROP,
        { st with
          pkt := resize_tail env st.pkt (st.pkt.length + (TCP_MAXLEN - hdr.tcp_len))
          calls := st.calls ++ [helper_call.bpf_ct_lookup_tcp,
            helper_call.bpf_xdp_adjust_tail ((TCP_MAXLEN : Int) - (hdr.tcp_len : Int))] }) := by
  have hx : tcphdr_syn st.pkt hdr.tcp ^^^ tcphdr_ack st.pkt hdr.tcp = 1 := by
    rw [hsyn, hack]; rfl
  obtain ⟨hb1, hb2, hb3, hb4, hb5⟩ := tcp_dissect_tcp_bounds _ _ hd
  have hmod : hdr.tcp_len % 4 = 0 := by omega
  rw [syncookie_xdp_handlers env st hdr tup hd htup hct hx hgrow hb]
  simp only [hsyn, ne_eq, one_ne_zero, not_false_eq_true, if_true]
  simp only [TCP_MAXLEN] at hb ⊢
  obtain ⟨k4, k6, kt, -⟩ := syn_checks_resize env st.pkt hdr hd
    (st.pkt.length + (60 - hdr.tcp_len)) (by omega) (by omega)
  rcases hbad with ⟨ipv4, h4, hbad⟩ | ⟨ipv6, h4, h6, hbad⟩
  · obtain ⟨e1, e2, e3⟩ := k4 ipv4 h4
    rw [syncookie_handle_syn_v4 env hdr _ ipv4 h4 hmod hb4]
    simp only [e1, e2, e3, kt]
    rw [if_pos hbad]
  · rw [syncookie_handle_syn_v6 env hdr _ ipv6 h4 h6 hmod hb4]
    simp only [k6 ipv6 h6, kt]
    rw [if_pos hbad]

/-- C5, witness: the sample SYN with a corrupted TCP checksum. -/
theorem syncookie_xdp_bad_checksum_witness :
    (syncookie_xdp sample_env (sample_state sample_syn_bad_csum)).1 = XDP_DROP ∧
    (syncookie_xdp sample_env (sample_state sample_syn_bad_csum)).2.calls =
      [helper_call.bpf_ct_lookup_tcp, helper_call.bpf_xdp_adjust_tail 20] := by
  have h := syncookie_xdp_bad_checksum sample_env (sample_state sample_syn_bad_csum)
    ⟨0, some 14, none, 34, 40⟩ (bpf_sock_tuple.ipv4 0x0100000a 0x0200000a 0x3930 0xbb01)
    (by decide) (by decide) (Or.inl (by decide)) (by decide) (by decide) (by decide)
    (by decide) (Or.inl ⟨14, rfl, Or.inr (by decide)⟩)
  rw [h]
  exact ⟨rfl, rfl⟩

/-! ## C6: fragments -/

/-- C6.  An IPv4 TCP frame that passes `tcp_dissect` and has the MF bit set,
or a non-zero fragment offset, or the DF bit clear, gets `XDP_DROP`, and the
state is the one the program started with: for every choice of the oracles
the packet, the maps and the record of helper calls are unchanged, so neither
the connection-state lookup nor the cookie oracle is consulted. -/
theorem syncookie_xdp_fragment (env : Env) (st : xdp_state) (hdr : header_pointers)
    (ipv4 : Nat) (hd : tcp_dissect st.pkt = (XDP_TX, hdr)) (h4 : hdr.ipv4 = some ipv4)
    (hfrag : bpf_ntohs (iphdr_frag_off st.pkt ipv4) &&& IP_MF ≠ 0 ∨
      bpf_ntohs (iphdr_frag_off st.pkt ipv4) &&& IP_OFFSET ≠ 0 ∨
      bpf_ntohs (iphdr_frag_off st.pkt ipv4) &&& IP_DF = 0) :
    syncookie_xdp env st = (XDP_DROP, st) := by
  have hc : iphdr_frag_off st.pkt ipv4 &&& bpf_htons (IP_DF ||| IP_MF ||| IP_OFFSET) ≠
      bpf_htons IP_DF := by
    intro h
    unfold iphdr_frag_off ld16 at h hfrag
    have := (frag_check _ _ (ld8_lt st.pkt (ipv4 + 6)) (ld8_lt st.pkt (ipv4 + 6 + 1))).mp h
    rcases hfrag with h1 | h1 | h1
    · exact h1 this.1
    · exact h1 this.2.1
    · exact this.2.2 h1
  unfold syncookie_xdp syncookie_xdp_tuple
  simp [hd, h4, hc]

/-- C6, witness: the sample SYN with the MF bit set. -/
theorem syncookie_xdp_fragment_witness :
    syncookie_xdp sample_env (sample_state sample_syn_fragment) =
      (XDP_DROP, sample_state sample_syn_fragment) :=
  syncookie_xdp_fragment sample_env (sample_state sample_syn_fragment) ⟨0, some 14, none, 34, 40⟩
    14 (by decide) (by decide) (by decide)

/-! ## C7: frames that are neither a SYN nor a pure ACK -/

/-- The flag check of line 651 for a frame that the lookup lets through (no
entry, or an entry that the status test of line 643 does not pass): with
SYN and ACK both set or both clear the verdict is `XDP_DROP`, the packet is
untouched and the lookup is the only helper call. -/
theorem syncookie_xdp_flags_drop (env : Env) (st : xdp_state) (hdr : header_pointers)
    (tup : bpf_sock_tuple) (hd : tcp_dissect st.pkt = (XDP_TX, hdr))
    (htup : syncookie_xdp_tuple st.pkt hdr = Sum.inr tup)
    (hct : env.bpf_ct_lookup_tcp tup = ct_lookup.null (-ENOENT) ∨
      ∃ status, env.bpf_ct_lookup_tcp tup = ct_lookup.entry status ∧
        status &&& IPS_CONFIRMED_BIT = 0)
    (hflags : tcphdr_syn st.pkt hdr.tcp = tcphdr_ack st.pkt hdr.tcp) :
    syncookie_xdp env st =
      (XDP_DROP, { st with calls := st.calls ++ [helper_call.bpf_ct_lookup_tcp] }) := by
  rw [syncookie_xdp_through env st hdr tup hd htup hct]
  unfold syncookie_xdp_cookie
  simp [hflags, Nat.xor_self]

/-- C7, failing input.  The sample SYN-ACK frame (SYN and ACK both set)
passes dissection and the fragment check, and the lookup returns an entry
whose status word is 2 (`IPS_SEEN_REPLY` alone, the confirmed flag clear):
the program returns `XDP_PASS`, not `XDP_DROP`. -/
theorem syncookie_xdp_unconfirmed_synack_passed :
    (tcp_dissect sample_synack).1 = XDP_TX ∧
    syncookie_xdp_tuple sample_synack (tcp_dissect sample_synack).2 =
      Sum.inr (bpf_sock_tuple.ipv4 0x0100000a 0x0200000a 0x3930 0xbb01) ∧
    2 &&& IPS_CONFIRMED = 0 ∧
    tcphdr_syn sample_synack 34 = 1 ∧ tcphdr_ack sample_synack 34 = 1 ∧
    (syncookie_xdp (sample_env_entry 2) (sample_state sample_synack)).1 = XDP_PASS := by
  decide

/-! ## C8: buffers shorter than the headers -/

/-- C8, counterexample.  A 42-byte IPv4 frame carrying UDP is shorter than
the 54 bytes of Ethernet, IPv4 and TCP headers, and `tcp_dissect` returns
`XDP_PASS` for it, not `XDP_DROP`. -/
theorem tcp_dissect_short_udp_pass :
    sample_udp_frame.length < 14 + 20 + 20 ∧
    bpf_ntohs (ethhdr_h_proto sample_udp_frame 0) = ETH_P_IP ∧
    (tcp_dissect sample_udp_frame).1 = XDP_PASS ∧
    (tcp_dissect sample_udp_frame).1 ≠ XDP_DROP := by
  decide

/-- C8, amended.  On a buffer shorter than the minimum Ethernet, IP and TCP
header size `tcp_dissect` never succeeds: it returns `XDP_DROP` when the
buffer is shorter than 14 bytes, and for an IPv4 buffer shorter than 54
bytes or an IPv6 buffer shorter than 74 bytes unless the IP header is
complete and well-formed and names a protocol other than TCP, in which case
it returns `XDP_PASS`; every other EtherType gives `XDP_PASS`. -/
theorem tcp_dissect_short (pkt : List u8) :
    (pkt.length < 14 → (tcp_dissect pkt).1 = XDP_DROP) ∧
    (bpf_ntohs (ethhdr_h_proto pkt 0) = ETH_P_IP → pkt.length < 14 + 20 + 20 →
      (tcp_dissect pkt).1 =
        if 14 + 20 ≤ pkt.length ∧ 20 ≤ iphdr_ihl pkt 14 * 4 ∧ iphdr_version pkt 14 = 4 ∧
            iphdr_protocol pkt 14 ≠ IPPROTO_TCP then XDP_PASS
        else XDP_DROP) ∧
    (bpf_ntohs (ethhdr_h_proto pkt 0) = ETH_P_IPV6 → pkt.length < 14 + 40 + 20 →
      (tcp_dissect pkt).1 =
        if 14 + 40 ≤ pkt.length ∧ ipv6hdr_version pkt 14 = 6 ∧
            ipv6hdr_nexthdr pkt 14 ≠ NEXTHDR_TCP then XDP_PASS
        else XDP_DROP) ∧
    (14 ≤ pkt.length → bpf_ntohs (ethhdr_h_proto pkt 0) ≠ ETH_P_IP →
      bpf_ntohs (ethhdr_h_proto pkt 0) ≠ ETH_P_IPV6 → (tcp_dissect pkt).1 = XDP_PASS) := by
  have ne : ¬ (ETH_P_IPV6 = ETH_P_IP) := by decide
  have hihl := iphdr_ihl_le pkt 14
  refine ⟨?_, ?_, ?_, ?_⟩
  · intro c1
    simp [tcp_dissect, sizeof_ethhdr, c1]
  · intro c2 hlen
    unfold tcp_dissect tcp_dissect_tcp
    simp only [sizeof_ethhdr, sizeof_iphdr, sizeof_tcphdr, Nat.zero_add, gt_iff_lt,
      Nat.reduceAdd, c2, if_true] at hlen ⊢
    by_cases c1 : pkt.length < 14
    · have : ¬ (34 ≤ pkt.length) := by omega
      simp [c1, this]
    by_cases c3 : pkt.length < 34
    · have : ¬ (34 ≤ pkt.length) := by omega
      simp [c1, c3, this]
    by_cases c4 : iphdr_ihl pkt 14 * 4 < 20
    · have : ¬ (20 ≤ iphdr_ihl pkt 14 * 4) := by omega
      simp [c1, c3, c4, this]
    by_cases c5 : iphdr_version pkt 14 = 4
    · by_cases c6 : iphdr_protocol pkt 14 = IPPROTO_TCP
      · have c7 : pkt.length < 14 + iphdr_ihl pkt 14 * 4 + 20 := by omega
        simp [c1, c3, c4, c5, c6, c7]
      · have h34 : 34 ≤ pkt.length := by omega
        have h20 : 20 ≤ iphdr_ihl pkt 14 * 4 := by omega
        simp [c1, c3, c4, c5, c6, h34, h20]
    · simp [c1, c3, c4, c5]
  · intro c2 hlen
    unfold tcp_dissect tcp_dissect_tcp
    simp only [sizeof_ethhdr, sizeof_ipv6hdr, sizeof_tcphdr, Nat.zero_add, gt_iff_lt,
      Nat.reduceAdd, c2, ne, if_true, if_false] at hlen ⊢
    by_cases c1 : pkt.length < 14
    · have : ¬ (54 ≤ pkt.length) := by omega
      simp [c1, this]
    by_cases c3 : pkt.length < 54
    · have : ¬ (54 ≤ pkt.length) := by omega
      simp [c1, c3, this]
    by_cases c5 : ipv6hdr_version pkt 14 = 6
    · by_cases c6 : ipv6hdr_nexthdr pkt 14 = NEXTHDR_TCP
      · simp [c1, c3, c5, c6, hlen]
      · have h54 : 54 ≤ pkt.length := by omega
        simp [c1, c3, c5, c6, h54]
    · simp [c1, c3, c5]
  · intro c1 c2 c3
    have c1n : ¬ (pkt.length < 14) := by omega
    simp [tcp_dissect, sizeof_ethhdr, c1n, c2, c3]

/-! ## C9: the decision table of the dissector -/

/-- C9.  For every buffer `tcp_dissect` takes the decisions of the table of
the specification, in its order: where the table gives a verdict the
dissector returns it, and where the table reaches the TCP header with a data
offset of at least 5 words the dissector succeeds (`XDP_TX`) with that TCP
header offset and `tcp_len = doff * 4`. -/
theorem tcp_dissect_table (pkt : List u8) :
    match dissect_table pkt with
    | Sum.inl verdict => (tcp_dissect pkt).1 = verdict ∧ verdict ≠ XDP_TX
    | Sum.inr (tcp, tcp_len) =>
      (tcp_dissect pkt).1 = XDP_TX ∧ (tcp_dissect pkt).2.tcp = tcp ∧
        (tcp_dissect pkt).2.tcp_len = tcp_len := by
  unfold dissect_table tcp_dissect tcp_dissect_tcp
  simp only [ethertype_eq]
  simp only [iphdr_ihl, iphdr_version, iphdr_protocol,
    ipv6hdr_version, ipv6hdr_nexthdr, tcphdr_doff, sizeof_ethhdr, sizeof_iphdr, sizeof_ipv6hdr,
    sizeof_tcphdr, ETH_P_IP, ETH_P_IPV6, IPPROTO_TCP, NEXTHDR_TCP, Nat.zero_add, gt_iff_lt,
    Nat.reduceAdd]
  by_cases c1 : pkt.length < 14
  · simp [c1]
  by_cases c2 : 256 * ld8 pkt 12 + ld8 pkt 13 = 2048
  · have c2b : ¬ (256 * ld8 pkt 12 + ld8 pkt 13 = 34525) := by omega
    simp only [c1, c2, if_false, if_true, ne_eq, not_true_eq_false, false_and]
    by_cases c3 : pkt.length < 34
    · simp [c3]
    by_cases c4 : ld8 pkt 14 % 16 * 4 < 20
    · simp [c3, c4]
    by_cases c5 : ld8 pkt 14 / 16 = 4
    · by_cases c6 : ld8 pkt 23 = 6
      · by_cases c7 : pkt.length < 14 + ld8 pkt 14 % 16 * 4 + 20
        · simp [c3, c4, c5, c6, c7]
        · by_cases c8 : ld8 pkt (14 + ld8 pkt 14 % 16 * 4 + 12) / 16 * 4 < 20
          · simp [c3, c4, c5, c6, c7, c8]
          · simp [c3, c4, c5, c6, c7, c8]
      · simp [c3, c4, c5, c6]
    · simp [c3, c4, c5]
  by_cases c2b : 256 * ld8 pkt 12 + ld8 pkt 13 = 34525
  · simp only [c1, c2, c2b, if_false, if_true, ne_eq, not_true_eq_false, and_false]
    by_cases c3 : pkt.length < 54
    · simp [c3]
    by_cases c5 : ld8 pkt 14 / 16 = 6
    · by_cases c6 : ld8 pkt 20 = 6
      · by_cases c7 : pkt.length < 74
        · simp [c3, c5, c6, c7]
        · by_cases c8 : ld8 pkt 66 / 16 * 4 < 20
          · simp [c3, c5, c6, c7, c8]
          · simp [c3, c5, c6, c7, c8]
      · simp [c3, c5, c6]
    · simp [c3, c5]
  · simp [c1, c2, c2b]

/-! ## C10: the port allow-list -/

theorem check_port_allowed_loop_iff (l : List Nat) (p : Nat) (n : Nat) :
    ∀ i, check_port_allowed_loop l p n i = true ↔
      ∃ k, k < n ∧ l[i + k]? = some p ∧ ∀ j, j ≤ k → l[i + j]? ≠ some 0 := by
  induction n with
  | zero => intro i; simp [check_port_allowed_loop]
  | succ n ih =>
    intro i
    unfold check_port_allowed_loop
    cases hi : l[i]? with
    | none =>
      simp only [Bool.false_eq_true, false_iff, not_exists, not_and]
      intro k _ hk
      have h1 : l.length ≤ i := List.getElem?_eq_none_iff.mp hi
      have h2 : l[i + k]? = none := List.getElem?_eq_none_iff.mpr (by omega)
      rw [h2] at hk
      cases hk
    | some v =>
      simp only
      by_cases hv0 : v = 0
      · subst hv0
        simp only [if_true, Bool.false_eq_true, false_iff, not_exists, not_and]
        intro k _ _ hall
        exact hall 0 (Nat.zero_le _) (by simpa using hi)
      · by_cases hvp : v = p
        · subst hvp
          simp only [hv0, if_false, if_true, true_iff]
          refine ⟨0, Nat.succ_pos _, by simpa using hi, ?_⟩
          intro j hj
          have : j = 0 := by omega
          subst this
          simp [hi, hv0]
        · simp only [hv0, hvp, if_false]
          rw [ih (i + 1)]
          constructor
          · rintro ⟨k, hk, hkp, hall⟩
            refine ⟨k + 1, by omega, ?_, ?_⟩
            · rw [← hkp]; congr 1; omega
            · intro j hj
              rcases Nat.eq_zero_or_pos j with h0 | hpos
              · subst h0; simp [hi, hv0]
              · have := hall (j - 1) (by omega)
                have e : i + 1 + (j - 1) = i + j := by omega
                rwa [e] at this
          · rintro ⟨k, hk, hkp, hall⟩
            rcases Nat.eq_zero_or_pos k with h0 | hpos
            · subst h0
              simp only [Nat.add_zero] at hkp
              rw [hi] at hkp
              exact absurd (Option.some.inj hkp) hvp
            · refine ⟨k - 1, by omega, ?_, ?_⟩
              · rw [← hkp]; congr 1; omega
              · intro j hj
                have := hall (j + 1) (by omega)
                have e : i + (j + 1) = i + 1 + j := by omega
                rwa [e] at this

/-- C10.  For every content of the allow-list and every port,
`check_port_allowed` answers true exactly when the port is stored at an index
below 65535 with no 0 at or before that index; port 0 is never allowed; and
a port that does not occur before some 0 entry is not allowed. -/
theorem check_port_allowed_spec (allowed_ports : List Nat) (port : Nat) :
    (check_port_allowed allowed_ports port = true ↔
      ∃ i : Nat, i < 65535 ∧ allowed_ports[i]? = some port ∧
        ∀ j : Nat, j ≤ i → allowed_ports[j]? ≠ some 0) ∧
    check_port_allowed allowed_ports 0 = false ∧
    (∀ k : Nat, allowed_ports[k]? = some 0 →
      (∀ i : Nat, i < k → allowed_ports[i]? ≠ some port) →
      check_port_allowed allowed_ports port = false) := by
  have key : ∀ q, (check_port_allowed allowed_ports q = true ↔
      ∃ i : Nat, i < 65535 ∧ allowed_ports[i]? = some q ∧
        ∀ j : Nat, j ≤ i → allowed_ports[j]? ≠ some 0) := by
    intro q
    unfold check_port_allowed MAX_ALLOWED_PORTS
    rw [check_port_allowed_loop_iff]
    simp only [Nat.zero_add]
  refine ⟨key port, ?_, ?_⟩
  · rw [Bool.eq_false_iff]
    intro h
    obtain ⟨i, _, hi, hall⟩ := (key 0).mp h
    exact hall i (Nat.le_refl _) hi
  · intro k hk hbefore
    rw [Bool.eq_false_iff]
    intro h
    obtain ⟨i, _, hi, hall⟩ := (key port).mp h
    rcases Nat.lt_or_ge i k with hlt | hge
    · exact hbefore i hlt hi
    · exact hall k hge hk

/-! ## C11: the option word of the configuration -/

/-- C11.  For every content of the map `values` and each address family,
`values_get_tcpipopts` returns (MSS, window scale, TTL) = (1460 for IPv4 or
1440 for IPv6, 7, 64) when slot 0 is absent or holds 0; for a non-zero word
`v` it returns MSS = bits 15..0 of `v` for IPv4 and bits 47..32 for IPv6,
window scale = bits 19..16 and TTL = bits 31..24.  The function is given the
map and returns the three values only: it has no way to write to the map. -/
theorem values_get_tcpipopts_spec (values : List Nat) (ipv6 : Bool) :
    ((values[0]? = none ∨ values[0]? = some 0) →
      values_get_tcpipopts values ipv6 = (if ipv6 then 1440 else 1460, 7, 64)) ∧
    (∀ v, values[0]? = some v → v ≠ 0 →
      values_get_tcpipopts values ipv6 =
        (if ipv6 then v / 4294967296 % 65536 else v % 65536, v / 65536 % 16,
          v / 16777216 % 256)) := by
  constructor
  · intro h
    unfold values_get_tcpipopts
    rcases h with h | h
    · simp [h, DEFAULT_MSS4, DEFAULT_MSS6, DEFAULT_WSCALE, DEFAULT_TTL]
    · simp [h, DEFAULT_MSS4, DEFAULT_MSS6, DEFAULT_WSCALE, DEFAULT_TTL]
  · intro v h hv
    have e1 : ∀ x : Nat, x &&& 0xffff = x % 65536 := fun x =>
      Nat.and_pow_two_sub_one_eq_mod x 16
    have e2 : ∀ x : Nat, x &&& 0xf = x % 16 := fun x => Nat.and_pow_two_sub_one_eq_mod x 4
    have e3 : ∀ x : Nat, x &&& 0xff = x % 256 := fun x => Nat.and_pow_two_sub_one_eq_mod x 8
    unfold values_get_tcpipopts
    simp only [h, ne_eq, hv, not_false_eq_true, if_true, e1, e2, e3, Nat.shiftRight_eq_div_pow]

/-! ## C12: the option block of the SYN-ACK -/

/-- C12.  With room for five words at `buf`, `tcp_mkoptions` writes the MSS
option (kind 2, length 4, the 16-bit MSS in network order) as the first
word and changes no byte outside the words it counts.  With no timestamp
pair it writes nothing else and returns 1.  With a pair it writes
SACK-permitted (4, 2) and the head of the Timestamp option (8, 10) when bit
4 of `tsval` in host order is set, and NOP, NOP, (8, 10) otherwise; then
`tsval` and `tsecr` as they are; then NOP and Window-Scale (3, 3, the 8-bit
`wscale`) exactly when the low four bits of `tsval` in host order are not
all ones, returning 5, and else 4. -/
theorem tcp_mkoptions_words (m : List u8) (buf : Nat) (tsopt : Option (Nat × Nat))
    (mss wscale : Nat) (hlen : buf + 20 ≤ m.length) :
    (ld8 (tcp_mkoptions m buf tsopt mss wscale).1 buf = 2 ∧
      ld8 (tcp_mkoptions m buf tsopt mss wscale).1 (buf + 1) = 4 ∧
      256 * ld8 (tcp_mkoptions m buf tsopt mss wscale).1 (buf + 2) +
        ld8 (tcp_mkoptions m buf tsopt mss wscale).1 (buf + 3) = mss % 65536) ∧
    (∀ q, q < buf ∨ buf + 4 * (tcp_mkoptions m buf tsopt mss wscale).2 ≤ q →
      ld8 (tcp_mkoptions m buf tsopt mss wscale).1 q = ld8 m q) ∧
    (tsopt = none → (tcp_mkoptions m buf tsopt mss wscale).2 = 1) ∧
    (∀ tsval tsecr, tsopt = some (tsval, tsecr) →
      (ld8 (tcp_mkoptions m buf tsopt mss wscale).1 (buf + 4) =
          (if bpf_ntohl tsval / 16 % 2 = 1 then 4 else 1) ∧
        ld8 (tcp_mkoptions m buf tsopt mss wscale).1 (buf + 5) =
          (if bpf_ntohl tsval / 16 % 2 = 1 then 2 else 1) ∧
        ld8 (tcp_mkoptions m buf tsopt mss wscale).1 (buf + 6) = 8 ∧
        ld8 (tcp_mkoptions m buf tsopt mss wscale).1 (buf + 7) = 10) ∧
      ld32 (tcp_mkoptions m buf tsopt mss wscale).1 (buf + 8) = tsval % 4294967296 ∧
      ld32 (tcp_mkoptions m buf tsopt mss wscale).1 (buf + 12) = tsecr % 4294967296 ∧
      (bpf_ntohl tsval % 16 ≠ 15 →
        (tcp_mkoptions m buf tsopt mss wscale).2 = 5 ∧
        ld8 (tcp_mkoptions m buf tsopt mss wscale).1 (buf + 16) = 1 ∧
        ld8 (tcp_mkoptions m buf tsopt mss wscale).1 (buf + 17) = 3 ∧
        ld8 (tcp_mkoptions m buf tsopt mss wscale).1 (buf + 18) = 3 ∧
        ld8 (tcp_mkoptions m buf tsopt mss wscale).1 (buf + 19) = wscale % 256) ∧
      (bpf_ntohl tsval % 16 = 15 → (tcp_mkoptions m buf tsopt mss wscale).2 = 4)) := by
  obtain ⟨h1, h2, h3⟩ := tcp_mkoptions_bytes m buf tsopt mss wscale hlen
  have hc := tcp_mkoptions_count m buf tsopt mss wscale
  refine ⟨h1, h2, ?_, ?_⟩
  · intro h
    rw [hc, h]
  · intro tsval tsecr h
    subst h
    obtain ⟨t4, -, tf⟩ := tsopt_tests tsval
    obtain ⟨⟨a4, a5, a6, a7⟩, a8, a12, aw⟩ := h3 (tsval, tsecr) rfl
    simp only [t4] at a4 a5
    simp only [tf] at hc aw
    refine ⟨⟨a4, a5, a6, a7⟩, a8, a12, ?_, ?_⟩
    · intro hn
      obtain ⟨b0, b1, b2, b3⟩ := aw hn
      refine ⟨?_, b0, b1, b2, b3⟩
      rw [hc, if_pos hn]
    · intro hn
      rw [hc, if_neg (by omega)]

/-- C12, witness: the sample SYN carries the options MSS 1380,
SACK-permitted, Timestamp (1000, 0), NOP, Window-Scale 7; with the default
configuration the option scan gives `tsval` 0x075bcd17 (clock 123456789 ms
with the low six bits replaced by window scale 7 and the SACK flag), the
option block has five words ending in NOP, Window-Scale 7, and the SYN-ACK
that the program sends has the options MSS 1460, SACK-permitted, Timestamp
(0x075bcd17, 1000), NOP, Window-Scale 7 in a 40-byte TCP header. -/
theorem tcp_mkoptions_words_witness :
    cookie_init_timestamp_raw sample_env sample_syn 34 40 74 =
      some (bpf_htonl 0x075bcd17, bpf_htonl 1000) ∧
    ((tcp_mkoptions sample_syn 54 (some (bpf_htonl 0x075bcd17, bpf_htonl 1000)) 1460 7).2 = 5 ∧
      ld8 (tcp_mkoptions sample_syn 54 (some (bpf_htonl 0x075bcd17, bpf_htonl 1000)) 1460 7).1
        (54 + 16) = 1 ∧
      ld8 (tcp_mkoptions sample_syn 54 (some (bpf_htonl 0x075bcd17, bpf_htonl 1000)) 1460 7).1
        (54 + 17) = 3 ∧
      ld8 (tcp_mkoptions sample_syn 54 (some (bpf_htonl 0x075bcd17, bpf_htonl 1000)) 1460 7).1
        (54 + 18) = 3 ∧
      ld8 (tcp_mkoptions sample_syn 54 (some (bpf_htonl 0x075bcd17, bpf_htonl 1000)) 1460 7).1
        (54 + 19) = 7 % 256) ∧
    (syncookie_xdp sample_env (sample_state sample_syn)).1 = XDP_TX ∧
    List.map Fin.val (bytes (syncookie_xdp sample_env (sample_state sample_syn)).2.pkt 54 20) =
      [2, 4, 5, 180, 4, 2, 8, 10, 7, 91, 205, 23, 0, 0, 3, 232, 1, 3, 3, 7] ∧
    tcphdr_doff (syncookie_xdp sample_env (sample_state sample_syn)).2.pkt 34 * 4 = 40 ∧
    (syncookie_xdp sample_env (sample_state sample_syn)).2.pkt.length = 74 :=
  ⟨by decide,
    ((tcp_mkoptions_words sample_syn 54 (some (bpf_htonl 0x075bcd17, bpf_htonl 1000)) 1460 7
      (by decide)).2.2.2 (bpf_htonl 0x075bcd17) (bpf_htonl 1000) rfl).2.2.2.1 (by decide),
    by decide, by decide, by decide, by decide⟩

/-! ## C13: scanning the options of the SYN-ACK again -/

theorem option_entries_end (m : List u8) (end_ n ptr : Nat) (h : ptr ≥ end_) :
    option_entries m end_ n ptr = [] := by
  cases n with
  | zero => rfl
  | succ n => rw [option_entries, if_pos h]

theorem option_entries_nop (m : List u8) (end_ n ptr : Nat) (h : ptr < end_)
    (hk : ld8 m ptr = 1) :
    option_entries m end_ (n + 1) ptr = ⟨1, 1, ptr⟩ :: option_entries m end_ n (ptr + 1) := by
  rw [option_entries, if_neg (by omega), hk, if_neg (by decide), if_pos rfl]

theorem option_entries_step (m : List u8) (end_ n ptr k sz : Nat) (h : ptr + sz ≤ end_)
    (hk : ld8 m ptr = k) (hk0 : k ≠ 0) (hk1 : k ≠ 1) (hsz : ld8 m (ptr + 1) = sz)
    (h2 : 2 ≤ sz) :
    option_entries m end_ (n + 1) ptr =
      ⟨k, sz, ptr⟩ :: option_entries m end_ n (ptr + sz) := by
  rw [option_entries, if_neg (by omega), hk, if_neg hk0, if_neg hk1, if_neg (by omega), hsz,
    if_neg (by omega), if_neg (by omega)]

theorem bpf_ntohl_htonl (x : Nat) (hx : x < 4294967296) : bpf_ntohl (bpf_htonl x) = x := by
  obtain ⟨h0, h1, h2, h3⟩ := bpf_htonl_bytes x
  unfold bpf_ntohl
  rw [h0, h1, h2, h3]
  omega

set_option maxHeartbeats 2000000 in
/-- C13, amended.  For every timestamp pair `t`, every MSS and every
configured window scale, the option scanner run over the TCP header that
`tcp_gen_synack` writes from `t` (its declared length, in a buffer with room
for 40 bytes of TCP header) succeeds, and gives as echo the first word of
`t` and a word with the SACK flag of `t`; the window-scale field of that
word is 15 when the one of `t` is 15 and else the configured window scale
(at most 14), not the field of `t`; and its ECN flag is clear, because the
SYN-ACK carries ECE without CWR. -/
theorem synack_rescan (env : Env) (m : List u8) (tcp cookie : Nat) (t : Nat × Nat)
    (mss wscale : Nat) (hlen : tcp + 40 ≤ m.length) :
    ∃ r0,
      cookie_init_timestamp_raw env (tcp_gen_synack m tcp cookie (some t) mss wscale) tcp
          (tcphdr_doff (tcp_gen_synack m tcp cookie (some t) mss wscale) tcp * 4)
          (tcp_gen_synack m tcp cookie (some t) mss wscale).length =
        some (r0, t.1 % 4294967296) ∧
      bpf_ntohl r0 / 16 % 2 = bpf_ntohl t.1 / 16 % 2 ∧
      bpf_ntohl r0 % 16 = (if bpf_ntohl t.1 % 16 = 15 then 15 else min (wscale % 256) 14) ∧
      bpf_ntohl r0 / 32 % 2 = 0 := by
  obtain ⟨hdoff, ⟨o20, o21⟩, ⟨o24, o25, o26, o27⟩, o28, ow⟩ :=
    tcp_gen_synack_options m tcp cookie t mss wscale hlen
  obtain ⟨olen, -, -, -, -, ofl, -⟩ :=
    tcp_gen_synack_spec m tcp cookie (some t) mss wscale hlen
  obtain ⟨t4, t5, tf⟩ := tsopt_tests t.1
  simp only [t4] at o24 o25
  simp only [tf] at hdoff ow
  simp only [t5] at ofl
  have hTlt : tcp_time_stamp_raw env < 4294967296 := by
    unfold tcp_time_stamp_raw tcp_ns_to_ts
    exact Nat.mod_lt _ (by decide)
  have hcwr : ¬ (tcphdr_ece (tcp_gen_synack m tcp cookie (some t) mss wscale) tcp ≠ 0 ∧
      tcphdr_cwr (tcp_gen_synack m tcp cookie (some t) mss wscale) tcp ≠ 0) := by
    unfold tcphdr_ece tcphdr_cwr
    rw [ofl]
    split <;> decide
  generalize tcp_gen_synack m tcp cookie (some t) mss wscale = out at *
  have hmin : min (wscale % 256) 14 ≤ 15 := Nat.le_trans (Nat.min_le_right _ _) (by decide)
  have hmin14 : min (wscale % 256) 14 ≤ 14 := Nat.min_le_right _ _
  unfold cookie_init_timestamp_raw
  simp only [sizeof_tcphdr, hcwr, if_false]
  by_cases hs : bpf_ntohl t.1 / 16 % 2 = 1 <;> by_cases hw : bpf_ntohl t.1 % 16 = 15
  · -- SACK-permitted, Timestamp
    simp only [hs, hw, if_true, ne_eq, not_true_eq_false, if_false] at o24 o25 hdoff ⊢
    have hend : tcp + tcphdr_doff out tcp * 4 = tcp + 36 := by omega
    have hent : option_entries out (tcp + 36) 10 (tcp + 20) =
        [⟨2, 4, tcp + 20⟩, ⟨4, 2, tcp + 24⟩, ⟨8, 10, tcp + 26⟩] := by
      rw [option_entries_step out _ 9 (tcp + 20) 2 4 (by omega) o20 (by decide) (by decide)
          o21 (by decide),
        option_entries_step out _ 8 (tcp + 20 + 4) 4 2 (by omega) o24 (by decide) (by decide)
          o25 (by decide),
        option_entries_step out _ 7 (tcp + 20 + 4 + 2) 8 10 (by omega) o26 (by decide)
          (by decide) o27 (by decide),
        option_entries_end _ _ _ _ (by omega)]
    rw [hend, cookie_scan_entries out _ _ (by omega), hent]
    simp only [last_option, List.reverse_cons, List.reverse_nil, List.nil_append,
      List.cons_append, List.find?, timestamp_option, window_option, sack_perm_option,
      List.any_cons, List.any_nil]
    simp only [Nat.reduceEqDiff, and_self, and_false, false_and, decide_True, decide_False,
      Bool.false_or, Bool.or_false, Bool.or_true, Bool.true_or, Option.isSome_some,
      Bool.not_true, Bool.false_eq_true, if_false, if_true, Nat.add_assoc, Nat.reduceAdd, o28]
    have hwd := cookie_word (tcp_time_stamp_raw env) TS_OPT_WSCALE_MASK hTlt (by decide) true
      false
    simp only [if_true, Bool.false_eq_true, if_false] at hwd
    refine ⟨_, rfl, ?_, ?_, ?_⟩ <;>
      (rw [cpu_to_be32, hwd, bpf_ntohl_htonl _ (by simp only [TS_OPT_WSCALE_MASK]; omega)]
       simp only [TS_OPT_WSCALE_MASK]
       omega)
  · -- SACK-permitted, Timestamp, NOP, Window-Scale
    obtain ⟨o36, o37, o38, o39⟩ := ow hw
    simp only [hs, hw, if_true, ne_eq, not_true_eq_false, not_false_eq_true, if_false]
      at o24 o25 hdoff ⊢
    have hend : tcp + tcphdr_doff out tcp * 4 = tcp + 40 := by omega
    have hent : option_entries out (tcp + 40) 10 (tcp + 20) =
        [⟨2, 4, tcp + 20⟩, ⟨4, 2, tcp + 24⟩, ⟨8, 10, tcp + 26⟩, ⟨1, 1, tcp + 36⟩,
          ⟨3, 3, tcp + 37⟩] := by
      rw [option_entries_step out _ 9 (tcp + 20) 2 4 (by omega) o20 (by decide) (by decide)
          o21 (by decide),
        option_entries_step out _ 8 (tcp + 20 + 4) 4 2 (by omega) o24 (by decide) (by decide)
          o25 (by decide),
        option_entries_step out _ 7 (tcp + 20 + 4 + 2) 8 10 (by omega) o26 (by decide)
          (by decide) o27 (by decide),
        option_entries_nop out _ 6 (tcp + 20 + 4 + 2 + 10) (by omega) o36,
        option_entries_step out _ 5 (tcp + 20 + 4 + 2 + 10 + 1) 3 3 (by omega) o37
          (by decide) (by decide) o38 (by decide),
        option_entries_end _ _ _ _ (by omega)]
    rw [hend, cookie_scan_entries out _ _ (by omega), hent]
    simp only [last_option, List.reverse_cons, List.reverse_nil, List.nil_append,
      List.cons_append, List.find?, timestamp_option, window_option, sack_perm_option,
      List.any_cons, List.any_nil]
    simp only [Nat.reduceEqDiff, and_self, and_false, false_and, decide_True, decide_False,
      Bool.false_or, Bool.or_false, Bool.or_true, Bool.true_or, Option.isSome_some,
      Bool.not_true, Bool.false_eq_true, if_false, if_true, Nat.add_assoc, Nat.reduceAdd, o28,
      o39]
    have hwd := cookie_word (tcp_time_stamp_raw env) (min (wscale % 256) 14) hTlt hmin true
      false
    simp only [if_true, Bool.false_eq_true, if_false] at hwd
    refine ⟨_, rfl, ?_, ?_, ?_⟩ <;>
      (rw [cpu_to_be32, hwd, bpf_ntohl_htonl _ (by omega)]
       omega)
  · -- NOP, NOP, Timestamp
    simp only [hs, hw, if_true, ne_eq, not_true_eq_false, if_false] at o24 o25 hdoff ⊢
    have hend : tcp + tcphdr_doff out tcp * 4 = tcp + 36 := by omega
    have hent : option_entries out (tcp + 36) 10 (tcp + 20) =
        [⟨2, 4, tcp + 20⟩, ⟨1, 1, tcp + 24⟩, ⟨1, 1, tcp + 25⟩, ⟨8, 10, tcp + 26⟩] := by
      rw [option_entries_step out _ 9 (tcp + 20) 2 4 (by omega) o20 (by decide) (by decide)
          o21 (by decide),
        option_entries_nop out _ 8 (tcp + 20 + 4) (by omega) o24,
        option_entries_nop out _ 7 (tcp + 20 + 4 + 1) (by omega) o25,
        option_entries_step out _ 6 (tcp + 20 + 4 + 1 + 1) 8 10 (by omega) o26 (by decide)
          (by decide) o27 (by decide),
        option_entries_end _ _ _ _ (by omega)]
    rw [hend, cookie_scan_entries out _ _ (by omega), hent]
    simp only [last_option, List.reverse_cons, List.reverse_nil, List.nil_append,
      List.cons_append, List.find?, timestamp_option, window_option, sack_perm_option,
      List.any_cons, List.any_nil]
    simp only [Nat.reduceEqDiff, and_self, and_false, false_and, decide_True, decide_False,
      Bool.false_or, Bool.or_false, Bool.or_true, Bool.true_or, Option.isSome_some,
      Bool.not_true, Bool.false_eq_true, if_false, if_true, Nat.add_assoc, Nat.reduceAdd, o28]
    have hwd := cookie_word (tcp_time_stamp_raw env) TS_OPT_WSCALE_MASK hTlt (by decide) false
      false
    simp only [Bool.false_eq_true, if_false] at hwd
    refine ⟨_, rfl, ?_, ?_, ?_⟩ <;>
      (rw [cpu_to_be32, hwd, bpf_ntohl_htonl _ (by simp only [TS_OPT_WSCALE_MASK]; omega)]
       simp only [TS_OPT_WSCALE_MASK]
       omega)
  · -- NOP, NOP, Timestamp, NOP, Window-Scale
    obtain ⟨o36, o37, o38, o39⟩ := ow hw
    simp only [hs, hw, if_true, ne_eq, not_true_eq_false, not_false_eq_true, if_false]
      at o24 o25 hdoff ⊢
    have hend : tcp + tcphdr_doff out tcp * 4 = tcp + 40 := by omega
    have hent : option_entries out (tcp + 40) 10 (tcp + 20) =
        [⟨2, 4, tcp + 20⟩, ⟨1, 1, tcp + 24⟩, ⟨1, 1, tcp + 25⟩, ⟨8, 10, tcp + 26⟩,
          ⟨1, 1, tcp + 36⟩, ⟨3, 3, tcp + 37⟩] := by
      rw [option_entries_step out _ 9 (tcp + 20) 2 4 (by omega) o20 (by decide) (by decide)
          o21 (by decide),
        option_entries_nop out _ 8 (tcp + 20 + 4) (by omega) o24,
        option_entries_nop out _ 7 (tcp + 20 + 4 + 1) (by omega) o25,
        option_entries_step out _ 6 (tcp + 20 + 4 + 1 + 1) 8 10 (by omega) o26 (by decide)
          (by decide) o27 (by decide),
        option_entries_nop out _ 5 (tcp + 20 + 4 + 1 + 1 + 10) (by omega) o36,
        option_entries_step out _ 4 (tcp + 20 + 4 + 1 + 1 + 10 + 1) 3 3 (by omega) o37
          (by decide) (by decide) o38 (by decide),
        option_entries_end _ _ _ _ (by omega)]
    rw [hend, cookie_scan_entries out _ _ (by omega), hent]
    simp only [last_option, List.reverse_cons, List.reverse_nil, List.nil_append,
      List.cons_append, List.find?, timestamp_option, window_option, sack_perm_option,
      List.any_cons, List.any_nil]
    simp only [Nat.reduceEqDiff, and_self, and_false, false_and, decide_True, decide_False,
      Bool.false_or, Bool.or_false, Bool.or_true, Bool.true_or, Option.isSome_some,
      Bool.not_true, Bool.false_eq_true, if_false, if_true, Nat.add_assoc, Nat.reduceAdd, o28,
      o39]
    have hwd := cookie_word (tcp_time_stamp_raw env) (min (wscale % 256) 14) hTlt hmin false
      false
    simp only [Bool.false_eq_true, if_false] at hwd
    refine ⟨_, rfl, ?_, ?_, ?_⟩ <;>
      (rw [cpu_to_be32, hwd, bpf_ntohl_htonl _ (by omega)]
       omega)

/-- C13, witness of the amended statement: the timestamp pair that the
scanner gives for the sample SYN. -/
theorem synack_rescan_witness :
    ∃ r0,
      cookie_init_timestamp_raw sample_env
          (tcp_gen_synack sample_syn 34 0xdeadbeef
            (some (bpf_htonl 0x075bcd17, bpf_htonl 1000)) 1460 7) 34
          (tcphdr_doff (tcp_gen_synack sample_syn 34 0xdeadbeef
            (some (bpf_htonl 0x075bcd17, bpf_htonl 1000)) 1460 7) 34 * 4)
          (tcp_gen_synack sample_syn 34 0xdeadbeef
            (some (bpf_htonl 0x075bcd17, bpf_htonl 1000)) 1460 7).length =
        some (r0, (bpf_htonl 0x075bcd17, bpf_htonl 1000).1 % 4294967296) ∧
      bpf_ntohl r0 / 16 % 2 = bpf_ntohl (bpf_htonl 0x075bcd17, bpf_htonl 1000).1 / 16 % 2 ∧
      bpf_ntohl r0 % 16 =
        (if bpf_ntohl (bpf_htonl 0x075bcd17, bpf_htonl 1000).1 % 16 = 15 then 15
          else min (7 % 256) 14) ∧
      bpf_ntohl r0 / 32 % 2 = 0 :=
  synack_rescan sample_env sample_syn 34 0xdeadbeef (bpf_htonl 0x075bcd17, bpf_htonl 1000)
    1460 7 (by decide)

/-- C13, counterexample.  For the frame `sample_syn_ecn` (Window-Scale 3,
ECE and CWR set) the scanner gives a word with window-scale field 3, SACK
flag and ECN flag (low six bits 0x33).  The TCP header that `tcp_gen_synack`
writes from it with the default configuration (MSS 1460, window scale 7)
scans to a word with window-scale field 7 and the ECN flag clear (low six
bits 0x17). -/
theorem synack_rescan_differs :
    values_get_tcpipopts (sample_state sample_syn_ecn).values false = (1460, 7, 64) ∧
    cookie_init_timestamp_raw sample_env sample_syn_ecn 34 40 74 =
      some (bpf_htonl (123456768 + 0x33), bpf_htonl 1000) ∧
    cookie_init_timestamp_raw sample_env
        (tcp_gen_synack sample_syn_ecn 34 0xdeadbeef
          (some (bpf_htonl (123456768 + 0x33), bpf_htonl 1000)) 1460 7) 34 40 74 =
      some (bpf_htonl (123456768 + 0x17), bpf_htonl (123456768 + 0x33)) := by
  decide

/-! ## C14: checksums of the transmitted frame -/

/-- C14. For every frame for which the program returns `XDP_TX` (the verdict
of `syncookie_handle_syn`, the only place that returns it) the checksums of
the frame that leaves pass the checks the program makes on a frame it
receives.  With `bpf_csum_diff(0, 0, buf, len, 0)` the 32-bit ones-complement
sum of the words of the buffer: for IPv4 the helper does not fail on the
20-byte IPv4 header or on the `tcp_len` bytes of the TCP header, `csum_fold`
of the sum over the IPv4 header is 0, and `csum_tcpudp_magic` of the
addresses of the output, `tcp_len`, protocol 6 and the sum over the TCP
header is 0; for IPv6 the helper does not fail and `csum_ipv6_magic` of the
addresses of the output, `tcp_len`, protocol 6 and the sum over the TCP
header is 0.  Here `tcp_len` is 4 times the data offset of the output. -/
theorem syncookie_xdp_tx_checksums (env : Env) (st : xdp_state)
    (htx : (syncookie_xdp env st).1 = XDP_TX) :
    (bpf_ntohs (ethhdr_h_proto st.pkt 0) = ETH_P_IP ∨
      bpf_ntohs (ethhdr_h_proto st.pkt 0) = ETH_P_IPV6) ∧
    (bpf_ntohs (ethhdr_h_proto st.pkt 0) = ETH_P_IP →
      iphdr_ihl (syncookie_xdp env st).2.pkt 14 * 4 = sizeof_iphdr ∧
      ¬ (bpf_csum_diff (syncookie_xdp env st).2.pkt 14 sizeof_iphdr < 0) ∧
      csum_fold (bpf_csum_diff (syncookie_xdp env st).2.pkt 14 sizeof_iphdr).toNat = 0 ∧
      ¬ (bpf_csum_diff (syncookie_xdp env st).2.pkt 34
        (tcphdr_doff (syncookie_xdp env st).2.pkt 34 * 4) < 0) ∧
      csum_tcpudp_magic (iphdr_saddr (syncookie_xdp env st).2.pkt 14)
        (iphdr_daddr (syncookie_xdp env st).2.pkt 14)
        (tcphdr_doff (syncookie_xdp env st).2.pkt 34 * 4) IPPROTO_TCP
        (bpf_csum_diff (syncookie_xdp env st).2.pkt 34
          (tcphdr_doff (syncookie_xdp env st).2.pkt 34 * 4)).toNat = 0) ∧
    (bpf_ntohs (ethhdr_h_proto st.pkt 0) = ETH_P_IPV6 →
      ¬ (bpf_csum_diff (syncookie_xdp env st).2.pkt 54
        (tcphdr_doff (syncookie_xdp env st).2.pkt 54 * 4) < 0) ∧
      csum_ipv6_magic (syncookie_xdp env st).2.pkt (14 + 8) (14 + 24)
        (tcphdr_doff (syncookie_xdp env st).2.pkt 54 * 4) IPPROTO_TCP
        (bpf_csum_diff (syncookie_xdp env st).2.pkt 54
          (tcphdr_doff (syncookie_xdp env st).2.pkt 54 * 4)).toNat = 0) := by
  obtain ⟨-, h⟩ := syncookie_xdp_tx_frame env st _ rfl htx
  have hne : ¬ (ETH_P_IPV6 = ETH_P_IP) := by decide
  generalize (syncookie_xdp env st).2.pkt = out at *
  rcases h with ⟨h2, a1, a2, -, -, -, -, -, -, c1, c2⟩ | ⟨h2, a1, -, -, -, -, -, -, c1⟩
  · refine ⟨Or.inl h2, fun _ => ⟨by rw [a2]; rfl,
      bpf_csum_diff_nonneg _ _ _ (by decide) (by decide), c1,
      bpf_csum_diff_nonneg _ _ _ (by omega) (by omega), c2⟩, fun h6 => ?_⟩
    rw [h2] at h6
    exact absurd h6.symm hne
  · refine ⟨Or.inr h2, fun h4 => ?_, fun _ =>
      ⟨bpf_csum_diff_nonneg _ _ _ (by omega) (by omega), c1⟩⟩
    rw [h2] at h4
    exact absurd h4 hne

set_option maxRecDepth 100000 in
/-- C14, runs on two samples: the checksums of the SYN-ACK for the IPv4 SYN
`sample_syn` and of the SYN-ACK for the IPv6 SYN `sample_syn6` verify. -/
theorem syncookie_xdp_tx_checksums_witness :
    (csum_fold (bpf_csum_diff (syncookie_xdp sample_env (sample_state sample_syn)).2.pkt 14
        sizeof_iphdr).toNat = 0 ∧
      csum_tcpudp_magic (iphdr_saddr (syncookie_xdp sample_env (sample_state sample_syn)).2.pkt 14)
        (iphdr_daddr (syncookie_xdp sample_env (sample_state sample_syn)).2.pkt 14)
        (tcphdr_doff (syncookie_xdp sample_env (sample_state sample_syn)).2.pkt 34 * 4)
        IPPROTO_TCP
        (bpf_csum_diff (syncookie_xdp sample_env (sample_state sample_syn)).2.pkt 34
          (tcphdr_doff (syncookie_xdp sample_env (sample_state sample_syn)).2.pkt 34 * 4)).toNat =
        0) ∧
    csum_ipv6_magic (syncookie_xdp sample_env (sample_state sample_syn6)).2.pkt (14 + 8)
      (14 + 24) (tcphdr_doff (syncookie_xdp sample_env (sample_state sample_syn6)).2.pkt 54 * 4)
      IPPROTO_TCP
      (bpf_csum_diff (syncookie_xdp sample_env (sample_state sample_syn6)).2.pkt 54
        (tcphdr_doff (syncookie_xdp sample_env (sample_state sample_syn6)).2.pkt 54 * 4)).toNat =
      0 :=
  ⟨⟨((syncookie_xdp_tx_checksums sample_env (sample_state sample_syn) (by decide)).2.1
        (by decide)).2.2.1,
      ((syncookie_xdp_tx_checksums sample_env (sample_state sample_syn) (by decide)).2.1
        (by decide)).2.2.2.2⟩,
    ((syncookie_xdp_tx_checksums sample_env (sample_state sample_syn6) (by decide)).2.2
      (by decide)).2⟩

/-! ## C15: what the option scanner computes -/

/-- C15.  When the declared end of the TCP header is inside the buffer (so
no bounds check of the scanner fires), `cookie_init_timestamp_raw` returns
what the specification says: false when no Timestamp option of length 10 is
among the first ten scanned entries; else true, with `tsecr` the value field
of the last such option and `tsval` the big-endian word of
`(T & ~0x3f) | ws | 0x10 (SACK-permitted of length 2 seen) | 0x20 (ECE and
CWR both set)`, where `T` is the clock in milliseconds and `ws` is the value
of the last Window-Scale option of length 3, at most 14, or 15 when there is
none. -/
theorem cookie_init_timestamp_raw_spec (env : Env) (m : List u8)
    (tcp_header tcp_len data_end : Nat) (hde : tcp_header + tcp_len ≤ data_end) :
    cookie_init_timestamp_raw env m tcp_header tcp_len data_end =
      timestamp_word_spec env m tcp_header tcp_len := by
  have hT : tcp_time_stamp_raw env =
      env.bpf_ktime_get_ns % 18446744073709551616 / 1000000 % 4294967296 := by
    unfold tcp_time_stamp_raw tcp_ns_to_ts tcp_clock_ns
    rfl
  have hTlt : tcp_time_stamp_raw env < 4294967296 := by
    rw [hT]
    exact Nat.mod_lt _ (by decide)
  have hflags : (tcphdr_ece m tcp_header ≠ 0 ∧ tcphdr_cwr m tcp_header ≠ 0) ↔
      (tcphdr_ece m tcp_header = 1 ∧ tcphdr_cwr m tcp_header = 1) := by
    unfold tcphdr_ece tcphdr_cwr
    omega
  unfold cookie_init_timestamp_raw timestamp_word_spec
  simp only [sizeof_tcphdr, cookie_scan_entries m _ _ hde, Bool.false_or]
  cases hts : last_option timestamp_option
      (option_entries m (tcp_header + tcp_len) 10 (tcp_header + 20)) with
  | none => simp
  | some ts =>
    have hsum : ∀ ws : Nat, ws ≤ 15 →
        (if tcphdr_ece m tcp_header = 1 ∧ tcphdr_cwr m tcp_header = 1 then
            (if (option_entries m (tcp_header + tcp_len) 10 (tcp_header + 20)).any
                sack_perm_option = true then
              ((tcp_time_stamp_raw env &&& (0xffffffff - TSMASK)) |||
                (ws &&& TS_OPT_WSCALE_MASK)) ||| TS_OPT_SACK
            else (tcp_time_stamp_raw env &&& (0xffffffff - TSMASK)) |||
              (ws &&& TS_OPT_WSCALE_MASK)) ||| TS_OPT_ECN
          else
            (if (option_entries m (tcp_header + tcp_len) 10 (tcp_header + 20)).any
                sack_perm_option = true then
              ((tcp_time_stamp_raw env &&& (0xffffffff - TSMASK)) |||
                (ws &&& TS_OPT_WSCALE_MASK)) ||| TS_OPT_SACK
            else (tcp_time_stamp_raw env &&& (0xffffffff - TSMASK)) |||
              (ws &&& TS_OPT_WSCALE_MASK))) =
          env.bpf_ktime_get_ns % 18446744073709551616 / 1000000 % 4294967296 / 64 * 64 + ws +
            (if (option_entries m (tcp_header + tcp_len) 10 (tcp_header + 20)).any
              sack_perm_option = true then 16 else 0) +
            (if tcphdr_ece m tcp_header = 1 ∧ tcphdr_cwr m tcp_header = 1 then 32 else 0) := by
      intro ws hws
      have hw := cookie_word (tcp_time_stamp_raw env) ws hTlt hws
        ((option_entries m (tcp_header + tcp_len) 10 (tcp_header + 20)).any sack_perm_option)
        (decide (tcphdr_ece m tcp_header = 1 ∧ tcphdr_cwr m tcp_header = 1))
      simp only [decide_eq_true_eq] at hw
      rw [← hT]
      exact hw
    simp only [Option.isSome_some, Bool.not_true, Bool.false_eq_true, if_false, hflags,
      cpu_to_be32]
    cases last_option window_option
        (option_entries m (tcp_header + tcp_len) 10 (tcp_header + 20)) with
    | none =>
      simp only []
      rw [hsum TS_OPT_WSCALE_MASK (by decide)]
      rfl
    | some w =>
      simp only []
      rw [hsum _ (Nat.le_trans (Nat.min_le_right _ _) (by decide))]

/-- C15, witness: the options of the sample SYN (MSS, SACK-permitted,
Timestamp (1000, 0), NOP, Window-Scale 7) at clock 123456789 ms. -/
theorem cookie_init_timestamp_raw_spec_witness :
    cookie_init_timestamp_raw sample_env sample_syn 34 40 74 =
        timestamp_word_spec sample_env sample_syn 34 40 ∧
      timestamp_word_spec sample_env sample_syn 34 40 =
        some (bpf_htonl (123456789 / 64 * 64 + 7 + 16 + 0), bpf_htonl 1000) :=
  ⟨cookie_init_timestamp_raw_spec sample_env sample_syn 34 40 74 (by decide), by decide⟩

/-! ## C16: the header view of a successful dissection -/

/-- C16.  When `tcp_dissect` succeeds (returns `XDP_TX`) the header view has
exactly one of the IPv4 and IPv6 pointers set, the one of the EtherType, and
the other NULL; the IP header follows the 14-byte Ethernet header and the
TCP header starts at or behind the end of the fixed IP header; `tcp_len` is
a multiple of 4 with 20 <= `tcp_len` <= 60; and the Ethernet header, the
fixed IP header (20 or 40 bytes) and the fixed 20-byte TCP header lie inside
the buffer. -/
theorem tcp_dissect_invariant (pkt : List u8) (hdr : header_pointers)
    (h : tcp_dissect pkt = (XDP_TX, hdr)) :
    ((∃ ipv4, hdr.ipv4 = some ipv4 ∧ hdr.ipv6 = none ∧
        bpf_ntohs (ethhdr_h_proto pkt hdr.eth) = ETH_P_IP ∧
        ipv4 = hdr.eth + sizeof_ethhdr ∧ ipv4 + sizeof_iphdr ≤ hdr.tcp ∧
        ipv4 + sizeof_iphdr ≤ pkt.length) ∨
      (∃ ipv6, hdr.ipv4 = none ∧ hdr.ipv6 = some ipv6 ∧
        bpf_ntohs (ethhdr_h_proto pkt hdr.eth) = ETH_P_IPV6 ∧
        ipv6 = hdr.eth + sizeof_ethhdr ∧ ipv6 + sizeof_ipv6hdr ≤ hdr.tcp ∧
        ipv6 + sizeof_ipv6hdr ≤ pkt.length)) ∧
    hdr.tcp_len % 4 = 0 ∧ 20 ≤ hdr.tcp_len ∧ hdr.tcp_len ≤ 60 ∧
    hdr.eth + sizeof_ethhdr ≤ pkt.length ∧ hdr.tcp + sizeof_tcphdr ≤ pkt.length := by
  have hd := tcphdr_doff_le pkt
  rcases tcp_dissect_tx _ _ h with ⟨rfl, h0, h1, -, -, h2, h3⟩ | ⟨rfl, h0, -, -, h2, h3⟩
  · refine ⟨Or.inl ⟨14, rfl, rfl, h0, rfl, ?_, ?_⟩, ?_, h3, hd _, ?_, ?_⟩ <;>
      simp only [sizeof_ethhdr, sizeof_iphdr, sizeof_tcphdr] <;> omega
  · refine ⟨Or.inr ⟨14, rfl, rfl, h0, rfl, ?_, ?_⟩, ?_, h3, hd _, ?_, ?_⟩ <;>
      simp only [sizeof_ethhdr, sizeof_ipv6hdr, sizeof_tcphdr] <;> omega

/-- C16, witness: the sample SYN, an IPv4 frame with a 40-byte TCP header
at offset 34. -/
theorem tcp_dissect_invariant_witness :
    tcp_dissect sample_syn = (XDP_TX, ⟨0, some 14, none, 34, 40⟩) ∧
    (40 % 4 = 0 ∧ 20 ≤ 40 ∧ 40 ≤ 60 ∧ 0 + sizeof_ethhdr ≤ sample_syn.length ∧
      34 + sizeof_tcphdr ≤ sample_syn.length) :=
  ⟨by decide, (tcp_dissect_invariant sample_syn ⟨0, some 14, none, 34, 40⟩ (by decide)).2⟩

/-! ## C17: lengths of the transmitted frame -/

/-- C17. For every frame for which `syncookie_xdp` returns `XDP_TX` the frame
is an IPv4 or an IPv6 frame and keeps its EtherType.  For IPv4: the data
offset of the TCP header at offset 34 is 6, 9 or 10 (24, 36 or 40 bytes, at
most 60), `ihl` is 5, the header at offset 34 (directly behind the 20-byte
IPv4 header) has the ports of the SYN swapped and SYN and ACK set, `tot_len`
is `20 + tcp_len`, and the final length of the buffer is `14 + 20 + tcp_len`
modulo 2^32, exactly that for a frame shorter than 2^31 bytes (the size
difference is passed to the kernel as an `int`).  For IPv6: the same with
the TCP header at offset 54, `payload_len = tcp_len` and the final length
`14 + 40 + tcp_len`.  Here `tcp_len` is 4 times the new data offset. -/
theorem syncookie_xdp_tx_lengths (env : Env) (st : xdp_state)
    (htx : (syncookie_xdp env st).1 = XDP_TX) :
    (bpf_ntohs (ethhdr_h_proto st.pkt 0) = ETH_P_IP ∨
      bpf_ntohs (ethhdr_h_proto st.pkt 0) = ETH_P_IPV6) ∧
    ethhdr_h_proto (syncookie_xdp env st).2.pkt 0 = ethhdr_h_proto st.pkt 0 ∧
    (bpf_ntohs (ethhdr_h_proto st.pkt 0) = ETH_P_IP →
      (tcphdr_doff (syncookie_xdp env st).2.pkt 34 = 6 ∨
        tcphdr_doff (syncookie_xdp env st).2.pkt 34 = 9 ∨
        tcphdr_doff (syncookie_xdp env st).2.pkt 34 = 10) ∧
      tcphdr_doff (syncookie_xdp env st).2.pkt 34 * 4 ≤ 60 ∧
      iphdr_ihl (syncookie_xdp env st).2.pkt 14 = 5 ∧
      tcphdr_source (syncookie_xdp env st).2.pkt 34 =
        tcphdr_dest st.pkt (14 + iphdr_ihl st.pkt 14 * 4) ∧
      tcphdr_dest (syncookie_xdp env st).2.pkt 34 =
        tcphdr_source st.pkt (14 + iphdr_ihl st.pkt 14 * 4) ∧
      tcphdr_syn (syncookie_xdp env st).2.pkt 34 = 1 ∧
      tcphdr_ack (syncookie_xdp env st).2.pkt 34 = 1 ∧
      bpf_ntohs (iphdr_tot_len (syncookie_xdp env st).2.pkt 14) =
        20 + tcphdr_doff (syncookie_xdp env st).2.pkt 34 * 4 ∧
      (syncookie_xdp env st).2.pkt.length % 4294967296 =
        14 + 20 + tcphdr_doff (syncookie_xdp env st).2.pkt 34 * 4 ∧
      (st.pkt.length < 2147483648 →
        (syncookie_xdp env st).2.pkt.length =
          14 + 20 + tcphdr_doff (syncookie_xdp env st).2.pkt 34 * 4)) ∧
    (bpf_ntohs (ethhdr_h_proto st.pkt 0) = ETH_P_IPV6 →
      (tcphdr_doff (syncookie_xdp env st).2.pkt 54 = 6 ∨
        tcphdr_doff (syncookie_xdp env st).2.pkt 54 = 9 ∨
        tcphdr_doff (syncookie_xdp env st).2.pkt 54 = 10) ∧
      tcphdr_doff (syncookie_xdp env st).2.pkt 54 * 4 ≤ 60 ∧
      tcphdr_source (syncookie_xdp env st).2.pkt 54 = tcphdr_dest st.pkt 54 ∧
      tcphdr_dest (syncookie_xdp env st).2.pkt 54 = tcphdr_source st.pkt 54 ∧
      tcphdr_syn (syncookie_xdp env st).2.pkt 54 = 1 ∧
      tcphdr_ack (syncookie_xdp env st).2.pkt 54 = 1 ∧
      bpf_ntohs (ipv6hdr_payload_len (syncookie_xdp env st).2.pkt 14) =
        tcphdr_doff (syncookie_xdp env st).2.pkt 54 * 4 ∧
      (syncookie_xdp env st).2.pkt.length % 4294967296 =
        14 + 40 + tcphdr_doff (syncookie_xdp env st).2.pkt 54 * 4 ∧
      (st.pkt.length < 2147483648 →
        (syncookie_xdp env st).2.pkt.length =
          14 + 40 + tcphdr_doff (syncookie_xdp env st).2.pkt 54 * 4)) := by
  obtain ⟨⟨e12, e13⟩, h⟩ := syncookie_xdp_tx_frame env st _ rfl htx
  have hne : ¬ (ETH_P_IPV6 = ETH_P_IP) := by decide
  have hflag : ∀ b : Nat, b = 0x12 ∨ b = 0x52 → b / 2 % 2 = 1 ∧ b / 16 % 2 = 1 := by
    intro b hb
    rcases hb with rfl | rfl <;> exact ⟨rfl, rfl⟩
  generalize (syncookie_xdp env st).2.pkt = out at *
  have hproto : ethhdr_h_proto out 0 = ethhdr_h_proto st.pkt 0 := by
    simp only [ethhdr_h_proto, ld16, Nat.zero_add, Nat.reduceAdd, e12, e13]
  rcases h with ⟨h2, a1, a2, ⟨a3, a4⟩, ⟨p0, p1, p2, p3⟩, a7, a8, a9, -, -, -⟩ |
      ⟨h2, a1, ⟨a3, a4⟩, ⟨p0, p1, p2, p3⟩, a7, a8, a9, -, -⟩
  · refine ⟨Or.inl h2, hproto, fun _ => ⟨a1, by omega, a2, ?_, ?_, (hflag _ a7).1, (hflag _ a7).2,
      ?_, by omega, fun hL => by have := a9 hL; omega⟩, fun h6 => ?_⟩
    · simp only [tcphdr_source, tcphdr_dest, ld16, p0, p1]
    · simp only [tcphdr_source, tcphdr_dest, ld16, p2, p3]
    · simp only [iphdr_tot_len, ld16, bpf_ntohs, Nat.reduceAdd, a3, a4]
      omega
    · rw [h2] at h6
      exact absurd h6.symm hne
  · refine ⟨Or.inr h2, hproto, fun h4 => ?_, fun _ => ⟨a1, by omega, ?_, ?_, (hflag _ a7).1,
      (hflag _ a7).2, ?_, by omega, fun hL => by have := a9 hL; omega⟩⟩
    · rw [h2] at h4
      exact absurd h4 hne
    · simp only [tcphdr_source, tcphdr_dest, ld16, Nat.reduceAdd, p0, p1]
    · simp only [tcphdr_source, tcphdr_dest, ld16, Nat.reduceAdd, p2, p3]
    · simp only [ipv6hdr_payload_len, ld16, bpf_ntohs, Nat.reduceAdd, a3, a4]
      omega

set_option maxRecDepth 100000 in
/-- C17, runs on two samples.  The IPv4 SYN with 4 bytes of IP options (78
bytes, TCP header at offset 38) leaves as a frame with `ihl` 5 and
`14 + 20 + tcp_len` bytes; the IPv6 SYN leaves with `payload_len = tcp_len`
and `14 + 40 + tcp_len` bytes. -/
theorem syncookie_xdp_tx_lengths_witness :
    (iphdr_ihl sample_syn_ipopts 14 = 6 ∧
      iphdr_ihl (syncookie_xdp sample_env (sample_state sample_syn_ipopts)).2.pkt 14 = 5 ∧
      (syncookie_xdp sample_env (sample_state sample_syn_ipopts)).2.pkt.length =
        14 + 20 +
          tcphdr_doff (syncookie_xdp sample_env (sample_state sample_syn_ipopts)).2.pkt 34 * 4) ∧
    (bpf_ntohs (ipv6hdr_payload_len
        (syncookie_xdp sample_env (sample_state sample_syn6)).2.pkt 14) =
        tcphdr_doff (syncookie_xdp sample_env (sample_state sample_syn6)).2.pkt 54 * 4 ∧
      (syncookie_xdp sample_env (sample_state sample_syn6)).2.pkt.length =
        14 + 40 + tcphdr_doff (syncookie_xdp sample_env (sample_state sample_syn6)).2.pkt 54 * 4) :=
  ⟨⟨by decide,
      ((syncookie_xdp_tx_lengths sample_env (sample_state sample_syn_ipopts) (by decide)).2.2.1
        (by decide)).2.2.1,
      ((syncookie_xdp_tx_lengths sample_env (sample_state sample_syn_ipopts) (by decide)).2.2.1
        (by decide)).2.2.2.2.2.2.2.2.2 (by decide)⟩,
    ((syncookie_xdp_tx_lengths sample_env (sample_state sample_syn6) (by decide)).2.2.2
        (by decide)).2.2.2.2.2.2.1,
    ((syncookie_xdp_tx_lengths sample_env (sample_state sample_syn6) (by decide)).2.2.2
        (by decide)).2.2.2.2.2.2.2.2 (by decide)⟩

/-! ## C18 -/

/-- C18. One run of `syncookie_xdp`, for every frame and every behaviour of
the oracles: when the verdict is `XDP_TX` and the slot of key 1 exists, the
SYN-ACK counter (the low 32 bits of the slot) is the old counter plus 1
modulo 2^32, the upper half of the slot is kept and a missing slot stays
missing; for every other verdict the map `values` is left as it was; the
configuration word (key 0), every other slot, the size of the map and the
port allow-list are never modified. -/
theorem syncookie_xdp_counter (env : Env) (st : xdp_state) :
    ((syncookie_xdp env st).1 = XDP_TX →
      (∀ v, st.values[1]? = some v →
        ∃ w, (syncookie_xdp env st).2.values[1]? = some w ∧
          w % 4294967296 = (v % 4294967296 + 1) % 4294967296 ∧
          w / 4294967296 = v / 4294967296) ∧
      (st.values[1]? = none → (syncookie_xdp env st).2.values[1]? = none)) ∧
    ((syncookie_xdp env st).1 ≠ XDP_TX → (syncookie_xdp env st).2.values = st.values) ∧
    (syncookie_xdp env st).2.values[0]? = st.values[0]? ∧
    (∀ k, k ≠ 1 → (syncookie_xdp env st).2.values[k]? = st.values[k]?) ∧
    (syncookie_xdp env st).2.values.length = st.values.length ∧
    (syncookie_xdp env st).2.allowed_ports = st.allowed_ports := by
  obtain ⟨hp, hv⟩ := syncookie_xdp_maps env st
  obtain ⟨hl, hk, h1⟩ := values_inc_synacks_slots st.values
  by_cases c : (syncookie_xdp env st).1 = XDP_TX
  · rw [if_pos c] at hv
    rw [hv]
    refine ⟨fun _ => ⟨?_, ?_⟩, fun h => absurd c h, hk 0 (by decide), hk, hl, hp⟩
    · intro v hv1
      rw [h1, hv1]
      refine ⟨v / 4294967296 * 4294967296 + (v % 4294967296 + 1) % 4294967296, rfl, ?_, ?_⟩
      · omega
      · omega
    · intro hn
      rw [h1, hn]
      rfl
  · rw [if_neg c] at hv
    rw [hv]
    exact ⟨fun h => absurd h c, fun _ => rfl, rfl, fun _ _ => rfl, rfl, hp⟩

/-- C18, run on the sample SYN: the verdict is `XDP_TX`, the counter goes
from 5 to 6, the configuration word and the allow-list stay. -/
theorem syncookie_xdp_counter_witness :
    (syncookie_xdp sample_env (sample_state sample_syn)).1 = XDP_TX ∧
      (∃ w, (syncookie_xdp sample_env (sample_state sample_syn)).2.values[1]? = some w ∧
        w % 4294967296 = 6 ∧ w / 4294967296 = 0) ∧
      (syncookie_xdp sample_env (sample_state sample_syn)).2.values[0]? = some 0 ∧
      (syncookie_xdp sample_env (sample_state sample_syn)).2.allowed_ports = [80, 443, 0] := by
  have h := syncookie_xdp_counter sample_env (sample_state sample_syn)
  have htx : (syncookie_xdp sample_env (sample_state sample_syn)).1 = XDP_TX := by decide
  exact ⟨htx, (h.1 htx).1 5 rfl, h.2.2.1, h.2.2.2.2.2⟩

/-! ## C19: every load is inside the buffer -/

theorem ld8_chk_lt (m : List u8) (data_end p : Nat) (h1 : p < data_end)
    (h2 : data_end ≤ m.length) : ld8_chk m data_end p = some (ld8 m p) := by
  have h3 : p < m.length := by omega
  unfold ld8_chk ld8
  simp [h1, h3, List.getD_eq_getElem?_getD]

theorem ld16_chk_lt (m : List u8) (data_end p : Nat) (h1 : p + 1 < data_end)
    (h2 : data_end ≤ m.length) : ld16_chk m data_end p = some (ld16 m p) := by
  unfold ld16_chk ld16
  rw [ld8_chk_lt m data_end p (by omega) h2, ld8_chk_lt m data_end (p + 1) (by omega) h2]
  rfl

theorem ld32_chk_lt (m : List u8) (data_end p : Nat) (h1 : p + 3 < data_end)
    (h2 : data_end ≤ m.length) : ld32_chk m data_end p = some (ld32 m p) := by
  unfold ld32_chk ld32
  rw [ld8_chk_lt m data_end p (by omega) h2, ld8_chk_lt m data_end (p + 1) (by omega) h2,
    ld8_chk_lt m data_end (p + 2) (by omega) h2, ld8_chk_lt m data_end (p + 3) (by omega) h2]
  rfl

theorem tcp_dissect_tcp_chk_eq (pkt : List u8) (hdr : header_pointers) :
    tcp_dissect_tcp_chk pkt hdr = some (tcp_dissect_tcp pkt hdr) := by
  unfold tcp_dissect_tcp_chk tcp_dissect_tcp
  by_cases c : hdr.tcp + sizeof_tcphdr > pkt.length
  · simp only [c, if_true]
  · simp only [sizeof_tcphdr] at c
    have e := ld8_chk_lt pkt pkt.length (hdr.tcp + 12) (by omega) (Nat.le_refl _)
    simp only [sizeof_tcphdr, c, if_false, e, Option.bind_eq_bind, Option.some_bind,
      tcphdr_doff]
    split <;> rfl

theorem tcp_dissect_chk_eq (pkt : List u8) : tcp_dissect_chk pkt = some (tcp_dissect pkt) := by
  unfold tcp_dissect_chk tcp_dissect
  simp only [sizeof_ethhdr, sizeof_iphdr, sizeof_ipv6hdr, Nat.zero_add, Nat.reduceAdd]
  by_cases c1 : 14 > pkt.length
  · simp only [c1, if_true]
  have e12 := ld16_chk_lt pkt pkt.length 12 (by omega) (Nat.le_refl _)
  simp only [c1, if_false, e12, Option.bind_eq_bind, Option.some_bind, ethhdr_h_proto,
    Nat.zero_add]
  by_cases c2 : bpf_ntohs (ld16 pkt 12) = ETH_P_IP
  · simp only [c2, if_true]
    by_cases c3 : 34 > pkt.length
    · simp only [c3, if_true]; rfl
    have e14 := ld8_chk_lt pkt pkt.length 14 (by omega) (Nat.le_refl _)
    have e23 := ld8_chk_lt pkt pkt.length (14 + 9) (by omega) (Nat.le_refl _)
    simp only [c3, if_false, e14, e23, Option.map_some', Option.some_bind, iphdr_ihl,
      iphdr_version, iphdr_protocol]
    by_cases c4 : ld8 pkt 14 % 16 * 4 < 20
    · simp only [c4, if_true]; rfl
    by_cases c5 : ld8 pkt 14 / 16 = 4
    · by_cases c6 : ld8 pkt (14 + 9) = IPPROTO_TCP
      · simp only [c4, c5, c6, if_false, ne_eq, not_true_eq_false, tcp_dissect_tcp_chk_eq]
      · simp only [c4, c5, c6, if_false, if_true, ne_eq, not_true_eq_false,
          not_false_eq_true]
        rfl
    · simp only [c4, c5, if_false, if_true, ne_eq, not_false_eq_true]
      rfl
  by_cases c2b : bpf_ntohs (ld16 pkt 12) = ETH_P_IPV6
  · have ne : ¬ (ETH_P_IPV6 = ETH_P_IP) := by decide
    simp only [c2b, ne, if_true, if_false]
    by_cases c3 : 54 > pkt.length
    · simp only [c3, if_true]; rfl
    have e14 := ld8_chk_lt pkt pkt.length 14 (by omega) (Nat.le_refl _)
    have e20 := ld8_chk_lt pkt pkt.length (14 + 6) (by omega) (Nat.le_refl _)
    simp only [c3, if_false, e14, e20, Option.map_some', Option.some_bind, ipv6hdr_version,
      ipv6hdr_nexthdr]
    by_cases c5 : ld8 pkt 14 / 16 = 6
    · by_cases c6 : ld8 pkt (14 + 6) = NEXTHDR_TCP
      · simp only [c5, c6, if_false, ne_eq, not_true_eq_false, tcp_dissect_tcp_chk_eq]
      · simp only [c5, c6, if_false, if_true, ne_eq, not_true_eq_false, not_false_eq_true]
        rfl
    · simp only [c5, if_true, ne_eq, not_false_eq_true]
      rfl
  · simp only [c2, c2b, if_false]
    rfl

theorem cookie_scan_chk_eq (m : List u8) (end_ data_end : Nat) (hlen : data_end ≤ m.length) :
    ∀ (n ptr : Nat) (s : ts_scan),
      cookie_scan_chk m end_ data_end n ptr s = some (cookie_scan m end_ data_end n ptr s) := by
  intro n
  induction n with
  | zero =>
    intro ptr s
    rfl
  | succ n ih =>
    intro ptr s
    have d1 : ¬ (TCPOPT_NOP = TCPOPT_EOL) := by decide
    have d2 : ¬ (TCPOPT_TIMESTAMP = TCPOPT_WINDOW) := by decide
    have d3 : ¬ (TCPOPT_SACK_PERM = TCPOPT_WINDOW) := by decide
    have d4 : ¬ (TCPOPT_SACK_PERM = TCPOPT_TIMESTAMP) := by decide
    rw [cookie_scan_chk, cookie_scan]
    by_cases c1 : ptr ≥ end_
    · simp only [c1, if_true]
    by_cases c2 : ptr + 1 > data_end
    · simp only [c1, c2, if_true, if_false]
    have e0 := ld8_chk_lt m data_end ptr (by omega) hlen
    simp only [c1, c2, if_false, e0, Option.bind_eq_bind, Option.some_bind]
    by_cases c3 : ld8 m ptr = TCPOPT_EOL
    · simp only [c3, if_true]
      rfl
    by_cases c4 : ld8 m ptr = TCPOPT_NOP
    · simp only [c4, d1, if_true, if_false, ih]
    by_cases c5 : ptr + 1 ≥ end_
    · simp only [c3, c4, c5, if_true, if_false]
      rfl
    by_cases c6 : ptr + 2 > data_end
    · simp only [c3, c4, c5, c6, if_true, if_false]
      rfl
    have e1 := ld8_chk_lt m data_end (ptr + 1) (by omega) hlen
    simp only [c3, c4, c5, c6, if_false, e1, Option.some_bind]
    by_cases c7 : ld8 m (ptr + 1) < 2
    · simp only [c7, if_true]
      rfl
    by_cases c8 : ptr + ld8 m (ptr + 1) > end_
    · simp only [c7, c8, if_true, if_false]
      rfl
    simp only [c7, c8, if_false]
    by_cases k3 : ld8 m ptr = TCPOPT_WINDOW
    · by_cases z3 : ld8 m (ptr + 1) = TCPOLEN_WINDOW
      · by_cases b3 : ptr + TCPOLEN_WINDOW > data_end
        · simp only [k3, z3, b3, if_true]
          rfl
        · have e2 := ld8_chk_lt m data_end (ptr + 2) (by
            simp only [TCPOLEN_WINDOW] at b3
            omega) hlen
          simp only [k3, z3, b3, if_true, if_false, e2, Option.some_bind, ih]
      · simp only [k3, z3, if_true, if_false, ih]
    by_cases k8 : ld8 m ptr = TCPOPT_TIMESTAMP
    · by_cases z10 : ld8 m (ptr + 1) = TCPOLEN_TIMESTAMP
      · by_cases b10 : ptr + TCPOLEN_TIMESTAMP > data_end
        · simp only [k8, d2, z10, b10, if_true, if_false]
          rfl
        · have e2 := ld32_chk_lt m data_end (ptr + 2) (by
            simp only [TCPOLEN_TIMESTAMP] at b10
            omega) hlen
          simp only [k8, d2, z10, b10, if_true, if_false, e2, Option.some_bind, ih]
      · simp only [k8, d2, z10, if_true, if_false, ih]
    by_cases k4 : ld8 m ptr = TCPOPT_SACK_PERM
    · by_cases z2 : ld8 m (ptr + 1) = TCPOLEN_SACK_PERM
      · simp only [k4, d3, d4, z2, if_true, if_false, ih]
      · simp only [k4, d3, d4, z2, if_true, if_false, ih]
    · simp only [k3, k8, k4, if_false, ih]

theorem cookie_init_timestamp_raw_chk_eq (env : Env) (m : List u8)
    (tcp_header tcp_len data_end : Nat) (hfix : tcp_header + sizeof_tcphdr ≤ data_end)
    (hlen : data_end ≤ m.length) :
    cookie_init_timestamp_raw_chk env m tcp_header tcp_len data_end =
      some (cookie_init_timestamp_raw env m tcp_header tcp_len data_end) := by
  simp only [sizeof_tcphdr] at hfix
  have e13 := ld8_chk_lt m data_end (tcp_header + 13) (by omega) hlen
  unfold cookie_init_timestamp_raw_chk cookie_init_timestamp_raw
  simp only [cookie_scan_chk_eq m _ _ hlen, Option.bind_eq_bind, Option.some_bind, e13,
    Option.map_some', tcphdr_ece, tcphdr_cwr]
  cases cookie_scan m (tcp_header + tcp_len) data_end 10 (tcp_header + sizeof_tcphdr)
      ⟨TS_OPT_WSCALE_MASK, false, false, 0⟩ with
  | none => rfl
  | some s =>
    simp only []
    split <;> rfl

/-- One turn of the option loop where a byte it needs lies at or behind
`data_end`: the kind byte, the size byte, the value of a Window-Scale option
of length 3 or the value of a Timestamp option of length 10.  The scanner
returns false. -/
theorem cookie_scan_stops (m : List u8) (end_ data_end n ptr : Nat) (s : ts_scan)
    (h : ptr < end_) :
    (data_end < ptr + 1 → cookie_scan m end_ data_end (n + 1) ptr s = none) ∧
    (ld8 m ptr ≠ TCPOPT_EOL → ld8 m ptr ≠ TCPOPT_NOP → ptr + 1 < end_ → data_end < ptr + 2 →
      cookie_scan m end_ data_end (n + 1) ptr s = none) ∧
    (ld8 m ptr = TCPOPT_WINDOW → ld8 m (ptr + 1) = TCPOLEN_WINDOW →
      ptr + TCPOLEN_WINDOW ≤ end_ → data_end < ptr + TCPOLEN_WINDOW →
      cookie_scan m end_ data_end (n + 1) ptr s = none) ∧
    (ld8 m ptr = TCPOPT_TIMESTAMP → ld8 m (ptr + 1) = TCPOLEN_TIMESTAMP →
      ptr + TCPOLEN_TIMESTAMP ≤ end_ → data_end < ptr + TCPOLEN_TIMESTAMP →
      cookie_scan m end_ data_end (n + 1) ptr s = none) := by
  have c0 : ¬ (ptr ≥ end_) := by omega
  have d1 : ¬ (TCPOPT_WINDOW = TCPOPT_EOL) := by decide
  have d2 : ¬ (TCPOPT_WINDOW = TCPOPT_NOP) := by decide
  have d3 : ¬ (TCPOPT_TIMESTAMP = TCPOPT_EOL) := by decide
  have d4 : ¬ (TCPOPT_TIMESTAMP = TCPOPT_NOP) := by decide
  have d5 : ¬ (TCPOPT_TIMESTAMP = TCPOPT_WINDOW) := by decide
  have d6 : ¬ (TCPOLEN_WINDOW < 2) := by decide
  have d7 : ¬ (TCPOLEN_TIMESTAMP < 2) := by decide
  refine ⟨?_, ?_, ?_, ?_⟩
  · intro h1
    rw [cookie_scan]
    simp only [c0, if_false]
    rw [if_pos (by omega)]
  · intro h1 h2 h3 h4
    rw [cookie_scan]
    simp only [c0, if_false, h1, h2]
    by_cases c1 : ptr + 1 > data_end
    · rw [if_pos c1]
    · rw [if_neg c1, if_neg (by omega), if_pos (by omega)]
  · intro h1 h2 h3 h4
    rw [cookie_scan]
    simp only [c0, if_false, h1, h2, d1, d2, d6, if_true]
    simp only [TCPOLEN_WINDOW] at h3 h4 ⊢
    by_cases c1 : ptr + 1 > data_end
    · rw [if_pos c1]
    · rw [if_neg c1, if_neg (by omega)]
      by_cases c2 : ptr + 2 > data_end
      · rw [if_pos c2]
      · rw [if_neg c2, if_neg (by omega), if_pos (by omega)]
  · intro h1 h2 h3 h4
    rw [cookie_scan]
    simp only [c0, if_false, h1, h2, d3, d4, d5, d7, if_true]
    simp only [TCPOLEN_TIMESTAMP] at h3 h4 ⊢
    by_cases c1 : ptr + 1 > data_end
    · rw [if_pos c1]
    · rw [if_neg c1, if_neg (by omega)]
      by_cases c2 : ptr + 2 > data_end
      · rw [if_pos c2]
      · rw [if_neg c2, if_neg (by omega), if_pos (by omega)]

/-- C19.  Every byte that `tcp_dissect` reads lies below `data_end`: the
dissector with checked loads never takes the out-of-range branch, and gives
the verdict and header view of `tcp_dissect`.  The same holds for
`cookie_init_timestamp_raw` on a buffer that holds the fixed 20-byte TCP
header below `data_end`, for every declared `tcp_len`: the scanner with
checked loads never reads at or behind `data_end` and gives the result of
the scanner, which is `false` where an option byte would be needed behind
`data_end`: when `data_end` is the end of the fixed header and options are
declared, and in every turn of the loop in which the kind byte, the size
byte or the value of a Window-Scale or Timestamp option that it needs lies
at or behind `data_end`. -/
theorem loads_in_bounds :
    (∀ pkt : List u8, tcp_dissect_chk pkt = some (tcp_dissect pkt)) ∧
    (∀ (env : Env) (m : List u8) (tcp_header tcp_len data_end : Nat),
      tcp_header + sizeof_tcphdr ≤ data_end → data_end ≤ m.length →
      cookie_init_timestamp_raw_chk env m tcp_header tcp_len data_end =
        some (cookie_init_timestamp_raw env m tcp_header tcp_len data_end)) ∧
    (∀ (env : Env) (m : List u8) (tcp_header tcp_len : Nat), sizeof_tcphdr < tcp_len →
      cookie_init_timestamp_raw env m tcp_header tcp_len (tcp_header + sizeof_tcphdr) =
        none) ∧
    (∀ (m : List u8) (end_ data_end n ptr : Nat) (s : ts_scan), ptr < end_ →
      (data_end < ptr + 1 → cookie_scan m end_ data_end (n + 1) ptr s = none) ∧
      (ld8 m ptr ≠ TCPOPT_EOL → ld8 m ptr ≠ TCPOPT_NOP → ptr + 1 < end_ → data_end < ptr + 2 →
        cookie_scan m end_ data_end (n + 1) ptr s = none) ∧
      (ld8 m ptr = TCPOPT_WINDOW → ld8 m (ptr + 1) = TCPOLEN_WINDOW →
        ptr + TCPOLEN_WINDOW ≤ end_ → data_end < ptr + TCPOLEN_WINDOW →
        cookie_scan m end_ data_end (n + 1) ptr s = none) ∧
      (ld8 m ptr = TCPOPT_TIMESTAMP → ld8 m (ptr + 1) = TCPOLEN_TIMESTAMP →
        ptr + TCPOLEN_TIMESTAMP ≤ end_ → data_end < ptr + TCPOLEN_TIMESTAMP →
        cookie_scan m end_ data_end (n + 1) ptr s = none)) := by
  refine ⟨tcp_dissect_chk_eq, cookie_init_timestamp_raw_chk_eq, ?_, cookie_scan_stops⟩
  intro env m tcp_header tcp_len h
  simp only [sizeof_tcphdr] at h
  have c1 : ¬ (tcp_header + 20 ≥ tcp_header + tcp_len) := by omega
  have c2 : tcp_header + 20 + 1 > tcp_header + 20 := by omega
  unfold cookie_init_timestamp_raw
  simp only [sizeof_tcphdr]
  rw [cookie_scan]
  simp only [c1, c2, if_true, if_false]

/-! ## C20: the bounds checks after the growth of the tail -/

/-- C20.  A frame passes dissection and has exactly one of SYN and ACK set,
and the kernel grants the growth of the tail by `60 - tcp_len` bytes (the
bytes of the frame stay).  Then the checks of lines 659-685 on the grown
packet end the program with `XDP_ABORTED` exactly when the TCP header that
the data offset declares ends behind the end of the original buffer.  When
the whole declared header is inside the original buffer, 60 bytes are
addressable from the start of the TCP header, the checks return the header
view of the dissection, `tcp_len` as dissected (so the test `tcp_len < 20`
does not fire), and the SYN handler (SYN set) or the ACK handler (SYN clear)
is entered on the grown packet. -/
theorem syncookie_xdp_revalidate (env : Env) (st : xdp_state) (hdr : header_pointers)
    (hd : tcp_dissect st.pkt = (XDP_TX, hdr))
    (hx : tcphdr_syn st.pkt hdr.tcp ^^^ tcphdr_ack st.pkt hdr.tcp = 1)
    (hgrow : env.adjust_tail_ret st.pkt.length ((TCP_MAXLEN : Int) - (hdr.tcp_len : Int)) = 0) :
    (bpf_xdp_adjust_tail env st ((TCP_MAXLEN : Int) - (hdr.tcp_len : Int))).2.pkt =
      resize_tail env st.pkt (st.pkt.length + (TCP_MAXLEN - hdr.tcp_len)) ∧
    (syncookie_xdp_pointers
        (resize_tail env st.pkt (st.pkt.length + (TCP_MAXLEN - hdr.tcp_len))) hdr =
          Sum.inl XDP_ABORTED ↔
      hdr.tcp + hdr.tcp_len > st.pkt.length) ∧
    (hdr.tcp + hdr.tcp_len > st.pkt.length →
      (syncookie_xdp_cookie env hdr st).1 = XDP_ABORTED) ∧
    (hdr.tcp + hdr.tcp_len ≤ st.pkt.length →
      hdr.tcp + TCP_MAXLEN ≤
        (resize_tail env st.pkt (st.pkt.length + (TCP_MAXLEN - hdr.tcp_len))).length ∧
      syncookie_xdp_pointers
        (resize_tail env st.pkt (st.pkt.length + (TCP_MAXLEN - hdr.tcp_len))) hdr =
          Sum.inr hdr ∧
      syncookie_xdp_cookie env hdr st =
        (if tcphdr_syn st.pkt hdr.tcp ≠ 0 then syncookie_handle_syn env hdr else
            syncookie_handle_ack env hdr)
          { st with
            pkt := resize_tail env st.pkt (st.pkt.length + (TCP_MAXLEN - hdr.tcp_len))
            calls := st.calls ++
              [helper_call.bpf_xdp_adjust_tail ((TCP_MAXLEN : Int) - (hdr.tcp_len : Int))] }) := by
  obtain ⟨hb1, hb2, hb3, hb4, -⟩ := tcp_dissect_tcp_bounds _ _ hd
  have e : ((st.pkt.length : Int) + ((TCP_MAXLEN : Int) - (hdr.tcp_len : Int))).toNat =
      st.pkt.length + (TCP_MAXLEN - hdr.tcp_len) := by
    simp only [TCP_MAXLEN]
    omega
  have hagree : ∀ i, i < st.pkt.length →
      ld8 (resize_tail env st.pkt (st.pkt.length + (TCP_MAXLEN - hdr.tcp_len))) i =
        ld8 st.pkt i :=
    fun i hi => ld8_resize_tail _ _ _ _ hi (by omega)
  have hlen := length_resize_tail env st.pkt (st.pkt.length + (TCP_MAXLEN - hdr.tcp_len))
  have hbad : hdr.tcp + hdr.tcp_len > st.pkt.length →
      syncookie_xdp_pointers
        (resize_tail env st.pkt (st.pkt.length + (TCP_MAXLEN - hdr.tcp_len))) hdr =
          Sum.inl XDP_ABORTED := by
    intro h
    refine syncookie_xdp_pointers_abort st.pkt _ hdr hd hagree ?_
    rw [hlen]
    simp only [TCP_MAXLEN]
    omega
  have hgood : hdr.tcp + hdr.tcp_len ≤ st.pkt.length →
      syncookie_xdp_pointers
        (resize_tail env st.pkt (st.pkt.length + (TCP_MAXLEN - hdr.tcp_len))) hdr =
          Sum.inr hdr := by
    intro h
    refine syncookie_xdp_pointers_ok st.pkt _ hdr hd hagree ?_
    rw [hlen]
    simp only [TCP_MAXLEN]
    omega
  refine ⟨?_, ⟨?_, hbad⟩, ?_, ?_⟩
  · unfold bpf_xdp_adjust_tail
    simp only [hgrow, ne_eq, not_true_eq_false, if_false, e]
  · intro h
    by_contra hc
    rw [hgood (by omega)] at h
    cases h
  · intro h
    unfold syncookie_xdp_cookie bpf_xdp_adjust_tail
    simp only [hx, ne_eq, not_true_eq_false, if_false, hgrow, e, hbad h]
  · intro h
    refine ⟨?_, hgood h, ?_⟩
    · rw [hlen]
      simp only [TCP_MAXLEN]
      omega
    · exact syncookie_xdp_cookie_handlers env st hdr hd hx hgrow (by
        simp only [TCP_MAXLEN]
        omega)

/-- C20, witness: the sample SYN, whose 40-byte TCP header is complete, is
grown by 20 bytes and enters the SYN handler. -/
theorem syncookie_xdp_revalidate_witness :
    syncookie_xdp_pointers (resize_tail sample_env sample_syn (74 + (60 - 40)))
      ⟨0, some 14, none, 34, 40⟩ = Sum.inr ⟨0, some 14, none, 34, 40⟩ :=
  ((syncookie_xdp_revalidate sample_env (sample_state sample_syn) ⟨0, some 14, none, 34, 40⟩
    (by decide) (by decide) rfl).2.2.2 (by decide)).2.1

end Synproxy
